import Mathlib

/-!
# Voxium: a shallow embedding of `src/Main.cpp`

The program voxelises a triangle mesh on a 128 x 128 x 128 lattice.  This file
embeds its numeric core and states properties of it.

## Numeric model

The C++ `double` is embedded as `F64`: a rational number, or one of the three IEEE 754
special values `+inf`, `-inf`, `NaN`.  The comparisons follow IEEE 754: every ordered
comparison with `NaN` is false.  There is a single zero: a zero divisor is treated as
`+0`.  The sign of an infinite quotient is the only thing that a `-0` divisor would
change, and both infinities fail the range test of `intersectLineQuad` alike.

In IEEE 754 the result of an arithmetic operation is the exact result, rounded, and the
arithmetic is embedded in these two layers.  `F64.add`, `F64.sub`, `F64.mul` and `F64.div`
give the exact result, with the IEEE rules for the special values, so that a division by
zero yields an infinity or `NaN`.  `F64.round` rounds to binary64, and `Binary64.add`,
`Binary64.sub`, `Binary64.mul` and `Binary64.div` are the operations of the program: the
exact result, rounded.  The functions that compute with doubles are embedded over both
layers, under the same name, the rounded one in the namespace `Binary64`.  The two
embeddings of a function agree wherever every intermediate result is a binary64 number or
a special value: so it is for the voxel bounds, which are multiples of `1/256`
(`binary64_voxel_bounds`).  Properties that rest on comparisons, on such values or on the
structure of the loops are stated over the exact layer; properties that rounding or
overflow affects are stated over `Binary64`.

C++ `int` is embedded as `Int` with explicit two's-complement wrap-around at 32
bits, `std::size_t` as `Nat` below `2^64`.

Undefined behaviour of the C++ program (an out-of-bounds `operator[]`, a write
outside the grid buffer) is embedded as the fault `Fault.outOfBounds`; the
exception `std::runtime_error("Invalid plane")` is `Fault.invalidPlane`.
-/

namespace Voxium

/-! ## Doubles -/

/-- A `double`: an exact rational, or an IEEE special value. -/
inductive F64 where
  | fin (q : ℚ)
  | pinf
  | ninf
  | nan
  deriving DecidableEq

namespace F64

/-- Unary minus. -/
def neg : F64 → F64
  | fin q => fin (-q)
  | pinf => ninf
  | ninf => pinf
  | nan => nan

/-- Addition `a + b`. -/
def add : F64 → F64 → F64
  | fin a, fin b => fin (a + b)
  | nan, _ => nan
  | _, nan => nan
  | pinf, ninf => nan
  | ninf, pinf => nan
  | pinf, _ => pinf
  | _, pinf => pinf
  | ninf, _ => ninf
  | _, ninf => ninf

/-- Subtraction `a - b`. -/
def sub (a b : F64) : F64 := add a (neg b)

/-- The infinity of the given sign. -/
def signedInf (positive : Bool) : F64 := if positive then pinf else ninf

/-- Multiplication `a * b`. -/
def mul : F64 → F64 → F64
  | fin a, fin b => fin (a * b)
  | nan, _ => nan
  | _, nan => nan
  | pinf, fin b => if b = 0 then nan else signedInf (decide (0 < b))
  | ninf, fin b => if b = 0 then nan else signedInf (decide (b < 0))
  | fin a, pinf => if a = 0 then nan else signedInf (decide (0 < a))
  | fin a, ninf => if a = 0 then nan else signedInf (decide (a < 0))
  | pinf, pinf => pinf
  | ninf, ninf => pinf
  | pinf, ninf => ninf
  | ninf, pinf => ninf

/-- Division `a / b`; a zero divisor is `+0`. -/
def div : F64 → F64 → F64
  | fin a, fin b =>
      if b = 0 then (if a = 0 then nan else signedInf (decide (0 < a)))
      else fin (a / b)
  | nan, _ => nan
  | _, nan => nan
  | fin _, pinf => fin 0
  | fin _, ninf => fin 0
  | pinf, fin b => signedInf (decide (0 ≤ b))
  | ninf, fin b => signedInf (decide (b < 0))
  | pinf, pinf => nan
  | pinf, ninf => nan
  | ninf, pinf => nan
  | ninf, ninf => nan

/-- The comparison `a < b`. -/
def lt : F64 → F64 → Bool
  | fin a, fin b => decide (a < b)
  | nan, _ => false
  | _, nan => false
  | ninf, ninf => false
  | ninf, _ => true
  | _, ninf => false
  | pinf, _ => false
  | _, pinf => true

/-- The comparison `a > b`. -/
def gt (a b : F64) : Bool := lt b a

/-- The comparison `a <= b`. -/
def le : F64 → F64 → Bool
  | fin a, fin b => decide (a ≤ b)
  | nan, _ => false
  | _, nan => false
  | ninf, _ => true
  | _, pinf => true
  | pinf, _ => false
  | _, ninf => false

/-- The comparison `a >= b`. -/
def ge (a b : F64) : Bool := le b a

/-- The comparison `a == b`. -/
def eq : F64 → F64 → Bool
  | fin a, fin b => decide (a = b)
  | pinf, pinf => true
  | ninf, ninf => true
  | _, _ => false

/-- The value is a finite number. -/
def isFinite : F64 → Bool
  | fin _ => true
  | _ => false

/-- The value of an `int` converted to `double`. -/
def ofInt (n : Int) : F64 := fin (n : ℚ)

end F64

/-- `std::min(a, b)`: `(b < a) ? b : a`. -/
def stdMin (a b : F64) : F64 := if F64.lt b a then b else a

/-- `std::max(a, b)`: `(a < b) ? b : a`. -/
def stdMax (a b : F64) : F64 := if F64.lt a b then b else a

/-- `std::max({a, b, c})`: the first largest element of the list. -/
def stdMax3 (a b c : F64) : F64 :=
  let largest := if F64.lt a b then b else a
  if F64.lt largest c then c else largest

/-! ## Vectors (`glm::f64vec3`) -/

/-- A `glm::f64vec3`. -/
structure Vec3 where
  x : F64
  y : F64
  z : F64
  deriving DecidableEq

namespace Vec3

/-- Component-wise `a + b`. -/
def add (a b : Vec3) : Vec3 := ⟨F64.add a.x b.x, F64.add a.y b.y, F64.add a.z b.z⟩

/-- Component-wise `a - b`. -/
def sub (a b : Vec3) : Vec3 := ⟨F64.sub a.x b.x, F64.sub a.y b.y, F64.sub a.z b.z⟩

/-- Vector times scalar, `a * t`. -/
def scale (a : Vec3) (t : F64) : Vec3 := ⟨F64.mul a.x t, F64.mul a.y t, F64.mul a.z t⟩

/-- Component-wise `a / b` (the `/=` of line 142). -/
def div (a b : Vec3) : Vec3 := ⟨F64.div a.x b.x, F64.div a.y b.y, F64.div a.z b.z⟩

/-- The vector `glm::f64vec3(s)` with three equal components. -/
def splat (s : F64) : Vec3 := ⟨s, s, s⟩

/-- `glm::min(a, b)`, component-wise `(b < a) ? b : a`. -/
def min (a b : Vec3) : Vec3 := ⟨stdMin a.x b.x, stdMin a.y b.y, stdMin a.z b.z⟩

/-- `glm::max(a, b)`, component-wise `(a < b) ? b : a`. -/
def max (a b : Vec3) : Vec3 := ⟨stdMax a.x b.x, stdMax a.y b.y, stdMax a.z b.z⟩

/-- The vector with the three given rational coordinates. -/
def ofRat (x y z : ℚ) : Vec3 := ⟨F64.fin x, F64.fin y, F64.fin z⟩

/-- All three coordinates are finite. -/
def isFinite (a : Vec3) : Bool := a.x.isFinite && a.y.isFinite && a.z.isFinite

end Vec3

/-- The `struct Vertex` of line 10. -/
structure Vertex where
  position : Vec3
  deriving DecidableEq

/-- The faults of the program. -/
inductive Fault where
  | invalidPlane
  | outOfBounds
  deriving DecidableEq

/-! ## Linear index -/

/-- The value of an `int` expression: two's-complement wrap-around at 32 bits. -/
def wrapInt (n : Int) : Int := (n + 2 ^ 31) % 2 ^ 32 - 2 ^ 31

/-- Conversion of an `int` to `std::size_t` (64 bits). -/
def toSizeT (n : Int) : Nat := (n % 2 ^ 64).toNat

/-- `get3DIndex` (line 25): `x + y * width + z * width * height` in `int`
arithmetic, converted to `std::size_t`. -/
def get3DIndex (x y z width height : Int) : Nat :=
  toSizeT (wrapInt (wrapInt (x + wrapInt (y * width)) + wrapInt (wrapInt (z * width) * height)))

/-! ## Geometry primitives -/

/-- The `enum Plane` of line 29. -/
inductive Plane where
  | X
  | Y
  | Z
  deriving DecidableEq

/-- Component selection `v[plane]`. -/
def Vec3.get (v : Vec3) : Plane → F64
  | Plane.X => v.x
  | Plane.Y => v.y
  | Plane.Z => v.z

/-- The plane selection of lines 34-44. -/
def selectPlane (quadMin quadMax : Vec3) : Except Fault Plane :=
  if F64.eq quadMin.x quadMax.x then Except.ok Plane.X
  else if F64.eq quadMin.y quadMax.y then Except.ok Plane.Y
  else if F64.eq quadMin.z quadMax.z then Except.ok Plane.Z
  else Except.error Fault.invalidPlane

/-- The parameter `t` of lines 46-53. -/
def planeParam (plane : Plane) (linePoint1 linePoint2 quadMin : Vec3) : F64 :=
  let constant := quadMin.get plane
  match plane with
  | Plane.X => F64.div (F64.sub constant linePoint1.x) (F64.sub linePoint2.x linePoint1.x)
  | Plane.Y => F64.div (F64.sub constant linePoint1.y) (F64.sub linePoint2.y linePoint1.y)
  | Plane.Z => F64.div (F64.sub constant linePoint1.z) (F64.sub linePoint2.z linePoint1.z)

/-- The test of lines 65-67: the point is outside `[quadMin, quadMax]` on some axis. -/
def outsideBox (p quadMin quadMax : Vec3) : Bool :=
  F64.lt p.x quadMin.x || F64.gt p.x quadMax.x ||
  F64.lt p.y quadMin.y || F64.gt p.y quadMax.y ||
  F64.lt p.z quadMin.z || F64.gt p.z quadMax.z

/-- `intersectLineQuad` (lines 33-74). -/
def intersectLineQuad (linePoint1 linePoint2 quadMin quadMax : Vec3) : Except Fault Bool :=
  match selectPlane quadMin quadMax with
  | Except.error e => Except.error e
  | Except.ok plane =>
    let t := planeParam plane linePoint1 linePoint2 quadMin
    if F64.lt t (F64.fin 0) || F64.gt t (F64.fin 1) then Except.ok false
    else
      let intersection := Vec3.add linePoint1 (Vec3.scale (Vec3.sub linePoint2 linePoint1) t)
      if outsideBox intersection quadMin quadMax then Except.ok false
      else Except.ok true

/-- The endpoint test of lines 78-80 and 84-86. -/
def insideBox (p cubeMin cubeMax : Vec3) : Bool :=
  F64.ge p.x cubeMin.x && F64.le p.x cubeMax.x &&
  F64.ge p.y cubeMin.y && F64.le p.y cubeMax.y &&
  F64.ge p.z cubeMin.z && F64.le p.z cubeMax.z

/-- The arrays `quadMin[6]`, `quadMax[6]` of lines 91-107, as a list of pairs:
Left, Right, Bottom, Top, Front, Back. -/
def cubeFaces (cubeMin cubeMax : Vec3) : List (Vec3 × Vec3) :=
  [ (⟨cubeMin.x, cubeMin.y, cubeMin.z⟩, ⟨cubeMin.x, cubeMax.y, cubeMax.z⟩),
    (⟨cubeMax.x, cubeMin.y, cubeMin.z⟩, ⟨cubeMax.x, cubeMax.y, cubeMax.z⟩),
    (⟨cubeMin.x, cubeMin.y, cubeMin.z⟩, ⟨cubeMax.x, cubeMin.y, cubeMax.z⟩),
    (⟨cubeMin.x, cubeMax.y, cubeMin.z⟩, ⟨cubeMax.x, cubeMax.y, cubeMax.z⟩),
    (⟨cubeMin.x, cubeMin.y, cubeMin.z⟩, ⟨cubeMax.x, cubeMax.y, cubeMin.z⟩),
    (⟨cubeMin.x, cubeMin.y, cubeMax.z⟩, ⟨cubeMax.x, cubeMax.y, cubeMax.z⟩) ]

/-- The loop of lines 109-113: the first face that reports an intersection ends
the loop, and so does the first fault. -/
def anyFace (linePoint1 linePoint2 : Vec3) : List (Vec3 × Vec3) → Except Fault Bool
  | [] => Except.ok false
  | q :: rest =>
    match intersectLineQuad linePoint1 linePoint2 q.1 q.2 with
    | Except.error e => Except.error e
    | Except.ok true => Except.ok true
    | Except.ok false => anyFace linePoint1 linePoint2 rest

/-- `intersectLineCube` (lines 76-116). -/
def intersectLineCube (linePoint1 linePoint2 cubeMin cubeMax : Vec3) : Except Fault Bool :=
  if insideBox linePoint1 cubeMin cubeMax then Except.ok true
  else if insideBox linePoint2 cubeMin cubeMax then Except.ok true
  else anyFace linePoint1 linePoint2 (cubeFaces cubeMin cubeMax)

/-- `intersectTriangleCube` (lines 118-132). -/
def intersectTriangleCube (v0 v1 v2 cubeMin cubeMax : Vec3) : Except Fault Bool :=
  match intersectLineCube v0 v1 cubeMin cubeMax with
  | Except.error e => Except.error e
  | Except.ok true => Except.ok true
  | Except.ok false =>
    match intersectLineCube v1 v2 cubeMin cubeMax with
    | Except.error e => Except.error e
    | Except.ok true => Except.ok true
    | Except.ok false =>
      match intersectLineCube v2 v0 cubeMin cubeMax with
      | Except.error e => Except.error e
      | Except.ok true => Except.ok true
      | Except.ok false => Except.ok false

/-! ## Voxel grid and voxelizer -/

/-- `cGridX` (line 134). -/
def cGridX : Int := 128

/-- `cGridY` (line 135). -/
def cGridY : Int := 128

/-- `cGridZ` (line 136). -/
def cGridZ : Int := 128

/-- `cVoxelSize` (line 138): `1.0f / (double)cGridX`. -/
def cVoxelSize : F64 := F64.div (F64.fin 1) (F64.ofInt cGridX)

/-- The occupancy buffer behind `std::uint8_t* grid`. -/
abbrev Grid := List Bool

/-- The buffer of line 238: `cGridX * cGridY * cGridZ` cells, all clear. -/
def emptyGrid : Grid := List.replicate (cGridX * cGridY * cGridZ).toNat false

/-- The write `grid[index] = true`; a write outside the buffer is a fault. -/
def gridSet (grid : Grid) (index : Nat) : Except Fault Grid :=
  if index < grid.length then Except.ok (grid.set index true)
  else Except.error Fault.outOfBounds

/-- The read `grid[index]` (line 297); a cell outside the buffer reads as clear. -/
def gridGet (grid : Grid) (index : Nat) : Bool := grid.getD index false

/-- `voxelCenter` (lines 141-142 and 166-167). -/
def voxelCenter (x y z : Int) : Vec3 :=
  Vec3.div ⟨F64.ofInt x, F64.ofInt y, F64.ofInt z⟩
    ⟨F64.ofInt cGridX, F64.ofInt cGridY, F64.ofInt cGridZ⟩

/-- `voxelMin` (lines 144 and 169). -/
def voxelMin (x y z : Int) : Vec3 :=
  Vec3.sub (voxelCenter x y z) (Vec3.splat (F64.mul cVoxelSize (F64.fin (1 / 2))))

/-- `voxelMax` (lines 145 and 170). -/
def voxelMax (x y z : Int) : Vec3 :=
  Vec3.add (voxelCenter x y z) (Vec3.splat (F64.mul cVoxelSize (F64.fin (1 / 2))))

/-- A sequential loop over `xs` whose body may fault; the first fault ends it. -/
def forEach {α σ : Type} (xs : List α) (body : α → σ → Except Fault σ) (s : σ) :
    Except Fault σ :=
  match xs with
  | [] => Except.ok s
  | a :: rest =>
    match body a s with
    | Except.error e => Except.error e
    | Except.ok s' => forEach rest body s'

/-- The values taken by `i` in `for (int i = 0; i < indexBuffer.size(); i += 3)`. -/
def triangleStarts (indexBuffer : List Nat) : List Nat :=
  (List.range ((indexBuffer.length + 2) / 3)).map (fun k => 3 * k)

/-- The element `buffer[i]` of a `std::vector`; out of bounds is a fault. -/
def fetch {α : Type} (buffer : List α) (i : Nat) : Except Fault α :=
  match buffer[i]? with
  | some a => Except.ok a
  | none => Except.error Fault.outOfBounds

/-- The three vertex reads of lines 148-150 and 244-246. -/
def fetchTriangle (vertexBuffer : List Vertex) (indexBuffer : List Nat) (i : Nat) :
    Except Fault (Vec3 × Vec3 × Vec3) :=
  match fetch indexBuffer i with
  | Except.error e => Except.error e
  | Except.ok i0 =>
    match fetch vertexBuffer i0 with
    | Except.error e => Except.error e
    | Except.ok v0 =>
      match fetch indexBuffer (i + 1) with
      | Except.error e => Except.error e
      | Except.ok i1 =>
        match fetch vertexBuffer i1 with
        | Except.error e => Except.error e
        | Except.ok v1 =>
          match fetch indexBuffer (i + 2) with
          | Except.error e => Except.error e
          | Except.ok i2 =>
            match fetch vertexBuffer i2 with
            | Except.error e => Except.error e
            | Except.ok v2 => Except.ok (v0.position, v1.position, v2.position)

/-- The loop of lines 147-156 over the remaining values of `i`; it returns at the
first triangle that meets the voxel. -/
def checkVoxelLoop (x y z : Int) (vertexBuffer : List Vertex) (indexBuffer : List Nat)
    (grid : Grid) : List Nat → Except Fault Grid
  | [] => Except.ok grid
  | i :: rest =>
    match fetchTriangle vertexBuffer indexBuffer i with
    | Except.error e => Except.error e
    | Except.ok (v0, v1, v2) =>
      match intersectTriangleCube v0 v1 v2 (voxelMin x y z) (voxelMax x y z) with
      | Except.error e => Except.error e
      | Except.ok true => gridSet grid (get3DIndex x y z cGridX cGridY)
      | Except.ok false => checkVoxelLoop x y z vertexBuffer indexBuffer grid rest

/-- `checkVoxel` (lines 140-157). -/
def checkVoxel (x y z : Int) (vertexBuffer : List Vertex) (indexBuffer : List Nat)
    (grid : Grid) : Except Fault Grid :=
  checkVoxelLoop x y z vertexBuffer indexBuffer grid (triangleStarts indexBuffer)

/-- The pruning test of lines 172-174: the triangle's bounding box misses the voxel. -/
def pruned (min max vMin vMax : Vec3) : Bool :=
  F64.gt min.x vMax.x || F64.lt max.x vMin.x ||
  F64.gt min.y vMax.y || F64.lt max.y vMin.y ||
  F64.gt min.z vMax.z || F64.lt max.z vMin.z

/-- The body of the innermost loop of `checkTriangle` (lines 166-181). -/
def checkTriangleCell (v0 v1 v2 min max : Vec3) (x y z : Int) (grid : Grid) :
    Except Fault Grid :=
  if pruned min max (voxelMin x y z) (voxelMax x y z) then Except.ok grid
  else
    match intersectTriangleCube v0 v1 v2 (voxelMin x y z) (voxelMax x y z) with
    | Except.error e => Except.error e
    | Except.ok true => gridSet grid (get3DIndex x y z cGridX cGridY)
    | Except.ok false => Except.ok grid

/-- The values of a loop variable `for (int v = 0; v < bound; v++)`. -/
def upTo (bound : Int) : List Int := (List.range bound.toNat).map Int.ofNat

/-- `checkTriangle` (lines 159-185); the two buffers are not used. -/
def checkTriangle (v0 v1 v2 : Vec3) (_vertexBuffer : List Vertex) (_indexBuffer : List Nat)
    (grid : Grid) : Except Fault Grid :=
  let min := Vec3.min v0 (Vec3.min v1 v2)
  let max := Vec3.max v0 (Vec3.max v1 v2)
  forEach (upTo cGridZ) (fun z g =>
    forEach (upTo cGridY) (fun y g =>
      forEach (upTo cGridX) (fun x g => checkTriangleCell v0 v1 v2 min max x y z g) g) g) grid

/-- The per-triangle strategy of `main` (lines 243-253). -/
def mainSequentialTriangle (vertexBuffer : List Vertex) (indexBuffer : List Nat)
    (grid : Grid) : Except Fault Grid :=
  forEach (triangleStarts indexBuffer) (fun i g =>
    match fetchTriangle vertexBuffer indexBuffer i with
    | Except.error e => Except.error e
    | Except.ok (v0, v1, v2) => checkTriangle v0 v1 v2 vertexBuffer indexBuffer g) grid

/-- The per-voxel strategy of `main` (lines 255-267). -/
def mainSequentialVoxel (vertexBuffer : List Vertex) (indexBuffer : List Nat)
    (grid : Grid) : Except Fault Grid :=
  forEach (upTo cGridZ) (fun z g =>
    forEach (upTo cGridY) (fun y g =>
      forEach (upTo cGridX) (fun x g => checkVoxel x y z vertexBuffer indexBuffer g) g) g) grid

/-! ## Normalization (lines 201-229 of `main`) -/

/-- The six running bounds `minX` ... `maxZ`. -/
structure Bounds where
  minX : F64
  minY : F64
  minZ : F64
  maxX : F64
  maxY : F64
  maxZ : F64
  deriving DecidableEq

/-- The bounds of lines 201-206, read from `vertexBuffer[0]`. -/
def initBounds (v : Vertex) : Bounds :=
  ⟨v.position.x, v.position.y, v.position.z, v.position.x, v.position.y, v.position.z⟩

/-- One iteration of the loop of lines 208-216. -/
def boundsStep (b : Bounds) (vertex : Vertex) : Bounds :=
  ⟨stdMin b.minX vertex.position.x, stdMin b.minY vertex.position.y,
   stdMin b.minZ vertex.position.z, stdMax b.maxX vertex.position.x,
   stdMax b.maxY vertex.position.y, stdMax b.maxZ vertex.position.z⟩

/-- The bounds after the loop of lines 208-216; `vertexBuffer[0]` of an empty
buffer is a fault. -/
def meshBounds (vertexBuffer : List Vertex) : Except Fault Bounds :=
  match vertexBuffer with
  | [] => Except.error Fault.outOfBounds
  | v :: _ => Except.ok (vertexBuffer.foldl boundsStep (initBounds v))

/-- `rangeX` (line 218). -/
def Bounds.rangeX (b : Bounds) : F64 := F64.sub b.maxX b.minX

/-- `rangeY` (line 219). -/
def Bounds.rangeY (b : Bounds) : F64 := F64.sub b.maxY b.minY

/-- `rangeZ` (line 220). -/
def Bounds.rangeZ (b : Bounds) : F64 := F64.sub b.maxZ b.minZ

/-- `maxRange` (line 223). -/
def Bounds.maxRange (b : Bounds) : F64 := stdMax3 b.rangeX b.rangeY b.rangeZ

/-- The body of the loop of lines 225-229. -/
def normalizeVertex (b : Bounds) (vertex : Vertex) : Vertex :=
  ⟨⟨F64.div (F64.sub vertex.position.x b.minX) b.maxRange,
    F64.div (F64.sub vertex.position.y b.minY) b.maxRange,
    F64.div (F64.sub vertex.position.z b.minZ) b.maxRange⟩⟩

/-- The normalization step of `main` (lines 201-229). -/
def normalize (vertexBuffer : List Vertex) : Except Fault (List Vertex) :=
  match meshBounds vertexBuffer with
  | Except.error e => Except.error e
  | Except.ok b => Except.ok (vertexBuffer.map (normalizeVertex b))

/-! ## Binary64 arithmetic

In IEEE 754 the result of an operation is the exact result, rounded.  `F64.round` is the
rounding of binary64: to the nearest number with a 53-bit significand, ties to the even
one, with gradual underflow below `2^-1022` and overflow to an infinity from
`2^1024 - 2^970` on.  The operations of `Binary64` round the exact results of `F64.add`,
`F64.sub`, `F64.mul` and `F64.div`, and the functions of the program that compute with
doubles are embedded a second time over them. -/

/-- Rounding of a rational to the nearest integer, ties to the even one. -/
def roundHalfEven (x : ℚ) : Int :=
  if x - ⌊x⌋ < 1 / 2 then ⌊x⌋
  else if 1 / 2 < x - ⌊x⌋ then ⌊x⌋ + 1
  else if ⌊x⌋ % 2 = 0 then ⌊x⌋ else ⌊x⌋ + 1

/-- The exponent of the binade of `q`, not below the least normal exponent. -/
def F64.exponent (q : ℚ) : Int := max (Int.log 2 |q|) (-1022)

/-- Binary64 rounding to nearest, ties to even, of an exact result. -/
def F64.round (q : ℚ) : F64 :=
  let ulp : ℚ := 2 ^ (F64.exponent q - 52)
  let r : ℚ := roundHalfEven (q / ulp) * ulp
  if 2 ^ 1024 ≤ |r| then F64.signedInf (decide (0 < q)) else F64.fin r

/-- The rounding of the exact result of an operation; a special value is returned as
it is. -/
def F64.rounded : F64 → F64
  | F64.fin q => F64.round q
  | a => a

namespace Binary64

/-- `a + b` in binary64: the exact sum, rounded. -/
def add (a b : F64) : F64 := (F64.add a b).rounded

/-- `a - b` in binary64: the exact difference, rounded. -/
def sub (a b : F64) : F64 := (F64.sub a b).rounded

/-- `a * b` in binary64: the exact product, rounded. -/
def mul (a b : F64) : F64 := (F64.mul a b).rounded

/-- `a / b` in binary64: the exact quotient, rounded. -/
def div (a b : F64) : F64 := (F64.div a b).rounded

/-- Component-wise `a + b` in binary64. -/
def addVec (a b : Vec3) : Vec3 := ⟨add a.x b.x, add a.y b.y, add a.z b.z⟩

/-- Component-wise `a - b` in binary64. -/
def subVec (a b : Vec3) : Vec3 := ⟨sub a.x b.x, sub a.y b.y, sub a.z b.z⟩

/-- Component-wise `a / b` (the `/=` of line 142) in binary64. -/
def divVec (a b : Vec3) : Vec3 := ⟨div a.x b.x, div a.y b.y, div a.z b.z⟩

/-- Vector times scalar, `a * t`, in binary64. -/
def scaleVec (a : Vec3) (t : F64) : Vec3 := ⟨mul a.x t, mul a.y t, mul a.z t⟩

/-- The parameter `t` of lines 46-53, in binary64. -/
def planeParam (plane : Plane) (linePoint1 linePoint2 quadMin : Vec3) : F64 :=
  let constant := quadMin.get plane
  match plane with
  | Plane.X => div (sub constant linePoint1.x) (sub linePoint2.x linePoint1.x)
  | Plane.Y => div (sub constant linePoint1.y) (sub linePoint2.y linePoint1.y)
  | Plane.Z => div (sub constant linePoint1.z) (sub linePoint2.z linePoint1.z)

/-- `intersectLineQuad` (lines 33-74), in binary64. -/
def intersectLineQuad (linePoint1 linePoint2 quadMin quadMax : Vec3) : Except Fault Bool :=
  match selectPlane quadMin quadMax with
  | Except.error e => Except.error e
  | Except.ok plane =>
    let t := planeParam plane linePoint1 linePoint2 quadMin
    if F64.lt t (F64.fin 0) || F64.gt t (F64.fin 1) then Except.ok false
    else
      let intersection := addVec linePoint1 (scaleVec (subVec linePoint2 linePoint1) t)
      if outsideBox intersection quadMin quadMax then Except.ok false
      else Except.ok true

/-- The loop of lines 109-113, in binary64. -/
def anyFace (linePoint1 linePoint2 : Vec3) : List (Vec3 × Vec3) → Except Fault Bool
  | [] => Except.ok false
  | q :: rest =>
    match intersectLineQuad linePoint1 linePoint2 q.1 q.2 with
    | Except.error e => Except.error e
    | Except.ok true => Except.ok true
    | Except.ok false => anyFace linePoint1 linePoint2 rest

/-- `intersectLineCube` (lines 76-116), in binary64. -/
def intersectLineCube (linePoint1 linePoint2 cubeMin cubeMax : Vec3) : Except Fault Bool :=
  if insideBox linePoint1 cubeMin cubeMax then Except.ok true
  else if insideBox linePoint2 cubeMin cubeMax then Except.ok true
  else anyFace linePoint1 linePoint2 (cubeFaces cubeMin cubeMax)

/-- `intersectTriangleCube` (lines 118-132), in binary64. -/
def intersectTriangleCube (v0 v1 v2 cubeMin cubeMax : Vec3) : Except Fault Bool :=
  match intersectLineCube v0 v1 cubeMin cubeMax with
  | Except.error e => Except.error e
  | Except.ok true => Except.ok true
  | Except.ok false =>
    match intersectLineCube v1 v2 cubeMin cubeMax with
    | Except.error e => Except.error e
    | Except.ok true => Except.ok true
    | Except.ok false =>
      match intersectLineCube v2 v0 cubeMin cubeMax with
      | Except.error e => Except.error e
      | Except.ok true => Except.ok true
      | Except.ok false => Except.ok false

/-- `rangeX` (line 218), in binary64. -/
def rangeX (b : Bounds) : F64 := sub b.maxX b.minX

/-- `rangeY` (line 219), in binary64. -/
def rangeY (b : Bounds) : F64 := sub b.maxY b.minY

/-- `rangeZ` (line 220), in binary64. -/
def rangeZ (b : Bounds) : F64 := sub b.maxZ b.minZ

/-- `maxRange` (line 223), in binary64. -/
def maxRange (b : Bounds) : F64 := stdMax3 (rangeX b) (rangeY b) (rangeZ b)

/-- The body of the loop of lines 225-229, in binary64. -/
def normalizeVertex (b : Bounds) (vertex : Vertex) : Vertex :=
  ⟨⟨div (sub vertex.position.x b.minX) (maxRange b),
    div (sub vertex.position.y b.minY) (maxRange b),
    div (sub vertex.position.z b.minZ) (maxRange b)⟩⟩

/-- The normalization step of `main` (lines 201-229), in binary64. -/
def normalize (vertexBuffer : List Vertex) : Except Fault (List Vertex) :=
  match meshBounds vertexBuffer with
  | Except.error e => Except.error e
  | Except.ok b => Except.ok (vertexBuffer.map (normalizeVertex b))

/-- `voxelCenter` (lines 141-142 and 166-167), in binary64. -/
def voxelCenter (x y z : Int) : Vec3 :=
  divVec ⟨F64.ofInt x, F64.ofInt y, F64.ofInt z⟩
    ⟨F64.ofInt cGridX, F64.ofInt cGridY, F64.ofInt cGridZ⟩

/-- `cVoxelSize` (line 138), in binary64. -/
def cVoxelSize : F64 := div (F64.fin 1) (F64.ofInt cGridX)

/-- `voxelMin` (lines 144 and 169), in binary64. -/
def voxelMin (x y z : Int) : Vec3 :=
  subVec (voxelCenter x y z) (Vec3.splat (mul cVoxelSize (F64.fin (1 / 2))))

/-- `voxelMax` (lines 145 and 170), in binary64. -/
def voxelMax (x y z : Int) : Vec3 :=
  addVec (voxelCenter x y z) (Vec3.splat (mul cVoxelSize (F64.fin (1 / 2))))

end Binary64

/-! ## Specification-side notions -/

/-- The point `p` lies within `[lo, hi]` on all three axes, bounds included. -/
def Vec3.within (p lo hi : Vec3) : Prop :=
  F64.le lo.x p.x = true ∧ F64.le p.x hi.x = true ∧
  F64.le lo.y p.y = true ∧ F64.le p.y hi.y = true ∧
  F64.le lo.z p.z = true ∧ F64.le p.z hi.z = true

/-- The finite point with one rational coordinate per axis. -/
def Vec3.ofAxes (p : Plane → ℚ) : Vec3 :=
  ⟨F64.fin (p Plane.X), F64.fin (p Plane.Y), F64.fin (p Plane.Z)⟩

/-- The grid `g'` is the grid `g` with the cells of `S` set, and no other change. -/
def Marks (S : Nat → Prop) (g g' : Grid) : Prop :=
  g'.length = g.length ∧ ∀ i, gridGet g' i = true ↔ (gridGet g i = true ∨ S i)

/-- The coordinates name a voxel of the lattice. -/
def InGrid (x y z : Int) : Prop :=
  (0 ≤ x ∧ x < cGridX) ∧ (0 ≤ y ∧ y < cGridY) ∧ (0 ≤ z ∧ z < cGridZ)

/-- The triangle is not pruned at the voxel and its edges meet the voxel. -/
def TriangleHits (v0 v1 v2 : Vec3) (x y z : Int) : Prop :=
  pruned (Vec3.min v0 (Vec3.min v1 v2)) (Vec3.max v0 (Vec3.max v1 v2)) (voxelMin x y z)
      (voxelMax x y z) = false ∧
    intersectTriangleCube v0 v1 v2 (voxelMin x y z) (voxelMax x y z) = Except.ok true

/-- The index buffer is made of whole triangles whose indices are valid. -/
def ValidMesh (vertexBuffer : List Vertex) (indexBuffer : List Nat) : Prop :=
  indexBuffer.length % 3 = 0 ∧ ∀ k ∈ indexBuffer, k < vertexBuffer.length

/-- Some triangle of the mesh passes `intersectTriangleCube` at the voxel. -/
def MeshHits (vertexBuffer : List Vertex) (indexBuffer : List Nat) (x y z : Int) : Prop :=
  ∃ s ∈ triangleStarts indexBuffer, ∃ v0 v1 v2,
    fetchTriangle vertexBuffer indexBuffer s = Except.ok (v0, v1, v2) ∧
    intersectTriangleCube v0 v1 v2 (voxelMin x y z) (voxelMax x y z) = Except.ok true

/-- Every cell set in `g` is set in `g'`. -/
def GridLe (g g' : Grid) : Prop := ∀ i, gridGet g i = true → gridGet g' i = true

/-- The rational `m` is the least value of `f` on the buffer, and all values are finite. -/
def IsMin (f : Vertex → F64) (vb : List Vertex) (m : ℚ) : Prop :=
  (∀ v ∈ vb, ∃ q, f v = F64.fin q ∧ m ≤ q) ∧ ∃ v ∈ vb, f v = F64.fin m

/-- The rational `m` is the greatest value of `f` on the buffer, and all values are finite. -/
def IsMax (f : Vertex → F64) (vb : List Vertex) (m : ℚ) : Prop :=
  (∀ v ∈ vb, ∃ q, f v = F64.fin q ∧ q ≤ m) ∧ ∃ v ∈ vb, f v = F64.fin m

/-- All coordinates of all vertices are finite. -/
def FiniteBuffer (vertexBuffer : List Vertex) : Prop :=
  ∀ v ∈ vertexBuffer, v.position.isFinite = true

/-- The lower bound of the box on an axis. -/
def Bounds.lo (b : Bounds) : Plane → F64
  | Plane.X => b.minX
  | Plane.Y => b.minY
  | Plane.Z => b.minZ

/-- The upper bound of the box on an axis. -/
def Bounds.hi (b : Bounds) : Plane → F64
  | Plane.X => b.maxX
  | Plane.Y => b.maxY
  | Plane.Z => b.maxZ

/-- The extent of the box on an axis: `rangeX`, `rangeY` or `rangeZ`. -/
def Bounds.range (b : Bounds) (a : Plane) : F64 := F64.sub (b.hi a) (b.lo a)

/-- The bounds `b` are the exact finite bounds `lo`, `hi` of the buffer. -/
def BoundsOf (vb : List Vertex) (b : Bounds) (lo hi : Plane → ℚ) : Prop :=
  (∀ a, b.lo a = F64.fin (lo a) ∧ b.hi a = F64.fin (hi a)) ∧
  ∀ a, IsMin (fun v => v.position.get a) vb (lo a) ∧ IsMax (fun v => v.position.get a) vb (hi a)

/-! ## Sample inputs -/

/-- The mesh of one triangle with an edge in the plane `x = 1/256`; it is a fixed
point of the normalization step. -/
def inPlaneVertices : List Vertex :=
  [⟨Vec3.ofRat (1 / 256) 0 1⟩, ⟨Vec3.ofRat (1 / 256) 0 0⟩, ⟨Vec3.ofRat 0 0 0⟩]

/-! ## Further specification-side notions and sample inputs -/

/-- The three answers of `quadMin == quadMax`, axis by axis. -/
def degenerateAxes (q : Vec3 × Vec3) : Bool × Bool × Bool :=
  (F64.eq q.1.x q.2.x, F64.eq q.1.y q.2.y, F64.eq q.1.z q.2.z)

/-- The mesh of one triangle with a vertex at `(1, 0, 0)`. -/
def cornerVertices : List Vertex :=
  [⟨Vec3.ofRat 1 0 0⟩, ⟨Vec3.ofRat 0 1 0⟩, ⟨Vec3.ofRat 0 0 1⟩]

/-- The point `p` lies strictly between `lo` and `hi` on all three axes. -/
def Vec3.strictlyWithin (p lo hi : Vec3) : Prop :=
  F64.lt lo.x p.x = true ∧ F64.lt p.x hi.x = true ∧
  F64.lt lo.y p.y = true ∧ F64.lt p.y hi.y = true ∧
  F64.lt lo.z p.z = true ∧ F64.lt p.z hi.z = true

/-- The rational point `(x, y, z)`, one coordinate per axis. -/
def axes (x y z : ℚ) : Plane → ℚ
  | Plane.X => x
  | Plane.Y => y
  | Plane.Z => z

/-- Some point `p1 + t * (p2 - p1)` of the segment, `t` in `[0, 1]`, lies in the closed
box `[lo, hi]`. -/
def SegmentMeetsBox (p1 p2 lo hi : Plane → ℚ) : Prop :=
  ∃ t : ℚ, 0 ≤ t ∧ t ≤ 1 ∧
    ∀ a, lo a ≤ p1 a + t * (p2 a - p1 a) ∧ p1 a + t * (p2 a - p1 a) ≤ hi a

/-- Some point of the interior of the triangle (positive barycentric weights) lies in
the closed box `[lo, hi]`. -/
def InteriorMeetsBox (v0 v1 v2 lo hi : Plane → ℚ) : Prop :=
  ∃ a b c : ℚ, 0 < a ∧ 0 < b ∧ 0 < c ∧ a + b + c = 1 ∧
    ∀ k, lo k ≤ a * v0 k + b * v1 k + c * v2 k ∧ a * v0 k + b * v1 k + c * v2 k ≤ hi k

/-- The segment crosses the face of the box on axis `a` at the bound `c` (`lo a` or
`hi a`): the crossing parameter lies in `[0, 1]` and the crossing point in the box. -/
def CrossesFace (p1 p2 lo hi : Plane → ℚ) (a : Plane) (c : ℚ) : Prop :=
  p1 a ≠ p2 a ∧ 0 ≤ (c - p1 a) / (p2 a - p1 a) ∧ (c - p1 a) / (p2 a - p1 a) ≤ 1 ∧
    ∀ b, lo b ≤ p1 b + (c - p1 a) / (p2 a - p1 a) * (p2 b - p1 b) ∧
      p1 b + (c - p1 a) / (p2 a - p1 a) * (p2 b - p1 b) ≤ hi b

/-- The extent of the box on an axis in binary64: `rangeX`, `rangeY` or `rangeZ`. -/
def Binary64.range (b : Bounds) (a : Plane) : F64 := Binary64.sub (b.hi a) (b.lo a)

/-- A buffer on which the quotients of normalization are not exact: extents 3, 0 and 0. -/
def thirdsVertices : List Vertex := [⟨Vec3.ofRat 0 0 0⟩, ⟨Vec3.ofRat 1 0 0⟩, ⟨Vec3.ofRat 3 0 0⟩]

/-- The bounds of `thirdsVertices`. -/
def thirdsBounds : Bounds := ⟨F64.fin 0, F64.fin 0, F64.fin 0, F64.fin 3, F64.fin 0, F64.fin 0⟩

/-! ## Lemmas on the primitives -/

theorem intersectLineQuad_ok_of_plane (p1 p2 quadMin quadMax : Vec3) (plane : Plane)
    (h : selectPlane quadMin quadMax = Except.ok plane) :
    ∃ b, intersectLineQuad p1 p2 quadMin quadMax = Except.ok b := by
  unfold intersectLineQuad
  rw [h]
  dsimp only
  split_ifs <;> exact ⟨_, rfl⟩

theorem anyFace_total (p1 p2 : Vec3) (faces : List (Vec3 × Vec3))
    (h : ∀ q ∈ faces, ∃ plane, selectPlane q.1 q.2 = Except.ok plane) :
    ∃ r, anyFace p1 p2 faces = Except.ok r := by
  induction faces with
  | nil => exact ⟨false, rfl⟩
  | cons q rest ih =>
    obtain ⟨plane, hp⟩ := h q (List.mem_cons_self _ _)
    obtain ⟨b, hb⟩ := intersectLineQuad_ok_of_plane p1 p2 q.1 q.2 plane hp
    unfold anyFace
    rw [hb]
    cases b
    · exact ih (fun q' hq' => h q' (List.mem_cons_of_mem _ hq'))
    · exact ⟨true, rfl⟩

theorem selectPlane_cubeFaces (a b c d e f : ℚ) :
    ∀ q ∈ cubeFaces (Vec3.ofRat a b c) (Vec3.ofRat d e f),
      ∃ plane, selectPlane q.1 q.2 = Except.ok plane := by
  intro q hq
  simp only [cubeFaces, Vec3.ofRat, List.mem_cons, List.mem_singleton, List.mem_nil_iff,
    or_false] at hq
  rcases hq with h | h | h | h | h | h <;> subst h <;>
    simp only [selectPlane, F64.eq, decide_True, if_true] <;>
    first
      | exact ⟨_, rfl⟩
      | (split_ifs <;> exact ⟨_, rfl⟩)

theorem intersectLineCube_total (p1 p2 : Vec3) (a b c d e f : ℚ) :
    ∃ r, intersectLineCube p1 p2 (Vec3.ofRat a b c) (Vec3.ofRat d e f) = Except.ok r := by
  unfold intersectLineCube
  split_ifs
  · exact ⟨true, rfl⟩
  · exact ⟨true, rfl⟩
  · exact anyFace_total p1 p2 _ (selectPlane_cubeFaces a b c d e f)

theorem intersectTriangleCube_total (v0 v1 v2 : Vec3) (a b c d e f : ℚ) :
    ∃ r, intersectTriangleCube v0 v1 v2 (Vec3.ofRat a b c) (Vec3.ofRat d e f) = Except.ok r := by
  obtain ⟨r0, h0⟩ := intersectLineCube_total v0 v1 a b c d e f
  obtain ⟨r1, h1⟩ := intersectLineCube_total v1 v2 a b c d e f
  obtain ⟨r2, h2⟩ := intersectLineCube_total v2 v0 a b c d e f
  unfold intersectTriangleCube
  rw [h0, h1, h2]
  cases r0 <;> cases r1 <;> cases r2 <;> exact ⟨_, rfl⟩

theorem voxelMin_eq (x y z : Int) :
    voxelMin x y z = Vec3.ofRat ((x : ℚ) / 128 - 1 / 256) ((y : ℚ) / 128 - 1 / 256)
      ((z : ℚ) / 128 - 1 / 256) := by
  simp [voxelMin, voxelCenter, Vec3.div, Vec3.sub, Vec3.splat, cVoxelSize, F64.ofInt, cGridX,
    cGridY, cGridZ, F64.div, F64.mul, F64.sub, F64.add, F64.neg, Vec3.ofRat]
  norm_num [sub_eq_add_neg]

theorem voxelMax_eq (x y z : Int) :
    voxelMax x y z = Vec3.ofRat ((x : ℚ) / 128 + 1 / 256) ((y : ℚ) / 128 + 1 / 256)
      ((z : ℚ) / 128 + 1 / 256) := by
  simp [voxelMax, voxelCenter, Vec3.div, Vec3.add, Vec3.splat, cVoxelSize, F64.ofInt, cGridX,
    cGridY, cGridZ, F64.div, F64.mul, F64.add, Vec3.ofRat]
  norm_num

theorem intersectTriangleCube_voxel_total (v0 v1 v2 : Vec3) (x y z : Int) :
    ∃ r, intersectTriangleCube v0 v1 v2 (voxelMin x y z) (voxelMax x y z) = Except.ok r := by
  rw [voxelMin_eq, voxelMax_eq]
  exact intersectTriangleCube_total _ _ _ _ _ _ _ _ _

theorem Marks.refl_of_empty (S : Nat → Prop) (g : Grid) (h : ∀ i, ¬ S i) : Marks S g g :=
  ⟨rfl, fun i => by simp [h i]⟩

theorem Marks.congr {S S' : Nat → Prop} {g g' : Grid} (h : Marks S g g')
    (hS : ∀ i, S i ↔ S' i) : Marks S' g g' :=
  ⟨h.1, fun i => by rw [h.2 i, hS i]⟩

theorem gridGet_set (g : Grid) (idx i : Nat) (h : idx < g.length) :
    gridGet (g.set idx true) i = true ↔ (gridGet g i = true ∨ i = idx) := by
  unfold gridGet
  by_cases hi : i = idx
  · subst hi
    simp [List.getD_eq_getElem?_getD, List.getElem?_set, h]
  · have : ¬ idx = i := fun h => hi h.symm
    simp [List.getD_eq_getElem?_getD, List.getElem?_set, hi, this]

theorem gridSet_marks (g : Grid) (idx : Nat) (h : idx < g.length) :
    ∃ g', gridSet g idx = Except.ok g' ∧ Marks (fun i => i = idx) g g' := by
  refine ⟨g.set idx true, ?_, ?_, ?_⟩
  · simp [gridSet, h]
  · simp
  · intro i
    exact gridGet_set g idx i h

theorem forEach_marks {α : Type} (n : Nat) (xs : List α) (body : α → Grid → Except Fault Grid)
    (S : α → Nat → Prop)
    (hbody : ∀ a ∈ xs, ∀ g : Grid, g.length = n →
      ∃ g', body a g = Except.ok g' ∧ Marks (S a) g g') :
    ∀ g : Grid, g.length = n →
      ∃ g', forEach xs body g = Except.ok g' ∧ Marks (fun i => ∃ a ∈ xs, S a i) g g' := by
  induction xs with
  | nil =>
    intro g _
    exact ⟨g, rfl, Marks.refl_of_empty _ g (by simp)⟩
  | cons a rest ih =>
    intro g hg
    obtain ⟨g1, h1, m1⟩ := hbody a (List.mem_cons_self _ _) g hg
    obtain ⟨g2, h2, m2⟩ := ih (fun b hb => hbody b (List.mem_cons_of_mem _ hb)) g1
      (by rw [m1.1, hg])
    refine ⟨g2, ?_, ?_, ?_⟩
    · unfold forEach
      rw [h1]
      exact h2
    · rw [m2.1, m1.1]
    · intro i
      rw [m2.2 i, m1.2 i]
      simp only [List.mem_cons, exists_eq_or_imp]
      tauto

theorem forEach_invariant {α σ : Type} (R : σ → σ → Prop) (hrefl : ∀ s, R s s)
    (htrans : ∀ a b c, R a b → R b c → R a c)
    (xs : List α) (body : α → σ → Except Fault σ)
    (hbody : ∀ a ∈ xs, ∀ s s', body a s = Except.ok s' → R s s') :
    ∀ s s', forEach xs body s = Except.ok s' → R s s' := by
  induction xs with
  | nil =>
    intro s s' h
    simp only [forEach, Except.ok.injEq] at h
    subst h
    exact hrefl s
  | cons a rest ih =>
    intro s s' h
    unfold forEach at h
    cases hb : body a s with
    | error e => rw [hb] at h; cases h
    | ok s1 =>
      rw [hb] at h
      exact htrans _ _ _ (hbody a (List.mem_cons_self _ _) s s1 hb)
        (ih (fun b hb' => hbody b (List.mem_cons_of_mem _ hb')) s1 s' h)

theorem intersectLineQuad_error_of_plane (p1 p2 quadMin quadMax : Vec3) (e : Fault)
    (h : selectPlane quadMin quadMax = Except.error e) :
    intersectLineQuad p1 p2 quadMin quadMax = Except.error e := by
  unfold intersectLineQuad
  rw [h]

theorem insideBox_iff (p lo hi : Vec3) : insideBox p lo hi = true ↔ Vec3.within p lo hi := by
  simp [insideBox, Vec3.within, F64.ge, and_assoc]

/-! ## Lemmas on the linear index -/

theorem wrapInt_of_range (n : Int) (h0 : 0 ≤ n) (h1 : n < 2 ^ 31) : wrapInt n = n := by
  unfold wrapInt
  omega

theorem toSizeT_of_range (n : Int) (h0 : 0 ≤ n) (h1 : n < 2 ^ 31) : (toSizeT n : Int) = n := by
  unfold toSizeT
  omega

/-- In-range coordinates on a grid that fits in an `int`: no step of `get3DIndex` wraps. -/
theorem get3DIndex_eq (W H D x y z : Int) (hfit : W * H * D ≤ 2 ^ 31)
    (hx0 : 0 ≤ x) (hxW : x < W) (hy0 : 0 ≤ y) (hyH : y < H) (hz0 : 0 ≤ z) (hzD : z < D) :
    (get3DIndex x y z W H : Int) = x + y * W + z * W * H ∧
      (get3DIndex x y z W H : Int) < W * H * D := by
  have hW : 0 < W := by omega
  have hH : 0 < H := by omega
  have hD : 0 < D := by omega
  have hWH : 0 < W * H := mul_pos hW hH
  have e1 : 0 ≤ y * W := mul_nonneg hy0 hW.le
  have e2 : y * W ≤ (H - 1) * W := mul_le_mul_of_nonneg_right (by omega) hW.le
  have e3 : 0 ≤ z * W := mul_nonneg hz0 hW.le
  have e4 : 0 ≤ z * W * H := mul_nonneg e3 hH.le
  have e5 : z * W * H ≤ (D - 1) * (W * H) := by
    rw [mul_assoc]
    exact mul_le_mul_of_nonneg_right (by omega) hWH.le
  have e6 : z * W ≤ z * W * H := by
    have : z * W * 1 ≤ z * W * H := mul_le_mul_of_nonneg_left (by omega) e3
    simpa using this
  have e7 : (H - 1) * W = W * H - W := by ring
  have e8 : (D - 1) * (W * H) = W * H * D - W * H := by ring
  have tot : x + y * W + z * W * H < W * H * D := by linarith
  have r1 : wrapInt (y * W) = y * W := wrapInt_of_range _ e1 (by linarith)
  have r2 : wrapInt (x + y * W) = x + y * W := wrapInt_of_range _ (by linarith) (by linarith)
  have r3 : wrapInt (z * W) = z * W := wrapInt_of_range _ e3 (by linarith)
  have r4 : wrapInt (z * W * H) = z * W * H := wrapInt_of_range _ e4 (by linarith)
  have r5 : wrapInt (x + y * W + z * W * H) = x + y * W + z * W * H :=
    wrapInt_of_range _ (by linarith) (by linarith)
  have key : (get3DIndex x y z W H : Int) = x + y * W + z * W * H := by
    unfold get3DIndex
    rw [r1, r2, r3, r4, r5]
    exact toSizeT_of_range _ (by linarith) (by linarith)
  exact ⟨key, by rw [key]; exact tot⟩

/-- The formula `x + y * W + z * W * H` is injective on in-range coordinates. -/
theorem linear_index_inj (W H x y z x' y' z' : Int)
    (hx0 : 0 ≤ x) (hxW : x < W) (hy0 : 0 ≤ y) (hyH : y < H)
    (hx0' : 0 ≤ x') (hxW' : x' < W) (hy0' : 0 ≤ y') (hyH' : y' < H)
    (h : x' + y' * W + z' * W * H = x + y * W + z * W * H) :
    x' = x ∧ y' = y ∧ z' = z := by
  have hW : 0 < W := by omega
  have hH : 0 < H := by omega
  have m1 : (x' + y' * W + z' * W * H) % W = x' := by
    have : x' + y' * W + z' * W * H = x' + W * (y' + z' * H) := by ring
    rw [this, Int.add_mul_emod_self_left]
    exact Int.emod_eq_of_lt hx0' hxW'
  have m2 : (x + y * W + z * W * H) % W = x := by
    have : x + y * W + z * W * H = x + W * (y + z * H) := by ring
    rw [this, Int.add_mul_emod_self_left]
    exact Int.emod_eq_of_lt hx0 hxW
  have hxx : x' = x := by rw [← m1, ← m2, h]
  subst hxx
  have h2 : W * (y' + z' * H) = W * (y + z * H) := by linarith
  have h3 : y' + z' * H = y + z * H := mul_left_cancel₀ hW.ne' h2
  have n1 : (y' + z' * H) % H = y' := by
    rw [mul_comm, Int.add_mul_emod_self_left]
    exact Int.emod_eq_of_lt hy0' hyH'
  have n2 : (y + z * H) % H = y := by
    rw [mul_comm, Int.add_mul_emod_self_left]
    exact Int.emod_eq_of_lt hy0 hyH
  have hyy : y' = y := by rw [← n1, ← n2, h3]
  subst hyy
  have h4 : z' * H = z * H := by linarith
  exact ⟨rfl, rfl, mul_right_cancel₀ hH.ne' h4⟩

/-! ## Lemmas on the voxelizer loops -/

theorem mem_upTo (bound x : Int) : x ∈ upTo bound ↔ 0 ≤ x ∧ x < bound := by
  unfold upTo
  simp only [List.mem_map, List.mem_range, Int.ofNat_eq_coe]
  constructor
  · rintro ⟨n, hn, rfl⟩
    omega
  · rintro ⟨h0, h1⟩
    exact ⟨x.toNat, by omega, by omega⟩

theorem emptyGrid_length : emptyGrid.length = 2097152 := by
  unfold emptyGrid
  rw [List.length_replicate]
  rfl

theorem gridGet_emptyGrid (i : Nat) : gridGet emptyGrid i = false := by
  unfold gridGet emptyGrid
  rw [List.getD_eq_getElem?_getD, List.getElem?_replicate]
  split_ifs <;> rfl

/-- On the lattice the linear index is in the buffer. -/
theorem get3DIndex_grid (x y z : Int) (h : InGrid x y z) :
    (get3DIndex x y z cGridX cGridY : Int) = x + y * 128 + z * 128 * 128 ∧
      get3DIndex x y z cGridX cGridY < 2097152 := by
  obtain ⟨⟨hx0, hx1⟩, ⟨hy0, hy1⟩, ⟨hz0, hz1⟩⟩ := h
  have := get3DIndex_eq cGridX cGridY cGridZ x y z (by norm_num [cGridX, cGridY, cGridZ])
    hx0 hx1 hy0 hy1 hz0 hz1
  simp only [cGridX, cGridY, cGridZ] at this ⊢
  omega

theorem get3DIndex_grid_inj (x y z x' y' z' : Int) (h : InGrid x y z) (h' : InGrid x' y' z')
    (e : get3DIndex x' y' z' cGridX cGridY = get3DIndex x y z cGridX cGridY) :
    x' = x ∧ y' = y ∧ z' = z := by
  have a := (get3DIndex_grid x y z h).1
  have a' := (get3DIndex_grid x' y' z' h').1
  obtain ⟨⟨hx0, hx1⟩, ⟨hy0, hy1⟩, ⟨hz0, hz1⟩⟩ := h
  obtain ⟨⟨hx0', hx1'⟩, ⟨hy0', hy1'⟩, ⟨hz0', hz1'⟩⟩ := h'
  simp only [cGridX, cGridY, cGridZ] at *
  rw [e] at a'
  omega

theorem checkTriangleCell_marks (v0 v1 v2 : Vec3) (x y z : Int) (h : InGrid x y z) (g : Grid)
    (hg : g.length = 2097152) :
    ∃ g', checkTriangleCell v0 v1 v2 (Vec3.min v0 (Vec3.min v1 v2))
        (Vec3.max v0 (Vec3.max v1 v2)) x y z g = Except.ok g' ∧
      Marks (fun i => i = get3DIndex x y z cGridX cGridY ∧ TriangleHits v0 v1 v2 x y z) g g' := by
  unfold checkTriangleCell TriangleHits
  cases hp : pruned (Vec3.min v0 (Vec3.min v1 v2)) (Vec3.max v0 (Vec3.max v1 v2))
      (voxelMin x y z) (voxelMax x y z)
  · obtain ⟨r, hr⟩ := intersectTriangleCube_voxel_total v0 v1 v2 x y z
    rw [hr]
    cases r
    · exact ⟨g, by simp, Marks.refl_of_empty _ g (by simp)⟩
    · obtain ⟨g', h1, h2⟩ := gridSet_marks g (get3DIndex x y z cGridX cGridY)
        (by rw [hg]; exact (get3DIndex_grid x y z h).2)
      exact ⟨g', by simpa using h1, h2.congr (by simp)⟩
  · exact ⟨g, by simp, Marks.refl_of_empty _ g (by simp)⟩

theorem checkTriangle_marks (v0 v1 v2 : Vec3) (vb : List Vertex) (ib : List Nat) (g : Grid)
    (hg : g.length = 2097152) :
    ∃ g', checkTriangle v0 v1 v2 vb ib g = Except.ok g' ∧
      Marks (fun i => ∃ x y z, InGrid x y z ∧ i = get3DIndex x y z cGridX cGridY ∧
        TriangleHits v0 v1 v2 x y z) g g' := by
  unfold checkTriangle
  have hz := forEach_marks 2097152 (upTo cGridZ)
    (fun z g =>
      forEach (upTo cGridY) (fun y g =>
        forEach (upTo cGridX) (fun x g => checkTriangleCell v0 v1 v2
          (Vec3.min v0 (Vec3.min v1 v2)) (Vec3.max v0 (Vec3.max v1 v2)) x y z g) g) g)
    (fun z i => ∃ y ∈ upTo cGridY, ∃ x ∈ upTo cGridX,
      i = get3DIndex x y z cGridX cGridY ∧ TriangleHits v0 v1 v2 x y z)
    (fun z hz g hg =>
      forEach_marks 2097152 (upTo cGridY) _
        (fun y i => ∃ x ∈ upTo cGridX,
          i = get3DIndex x y z cGridX cGridY ∧ TriangleHits v0 v1 v2 x y z)
        (fun y hy g hg =>
          forEach_marks 2097152 (upTo cGridX) _
            (fun x i => i = get3DIndex x y z cGridX cGridY ∧ TriangleHits v0 v1 v2 x y z)
            (fun x hx g hg => checkTriangleCell_marks v0 v1 v2 x y z
              ⟨(mem_upTo _ _).1 hx, (mem_upTo _ _).1 hy, (mem_upTo _ _).1 hz⟩ g hg) g hg)
        g hg)
    g hg
  obtain ⟨g', h1, h2⟩ := hz
  refine ⟨g', h1, h2.congr ?_⟩
  intro i
  simp only [mem_upTo, InGrid]
  constructor
  · rintro ⟨z, hz, y, hy, x, hx, h⟩
    exact ⟨x, y, z, ⟨hx, hy, hz⟩, h⟩
  · rintro ⟨x, y, z, ⟨hx, hy, hz⟩, h⟩
    exact ⟨z, hz, y, hy, x, hx, h⟩

theorem mem_triangleStarts (ib : List Nat) (s : Nat) :
    s ∈ triangleStarts ib ↔ s % 3 = 0 ∧ s < ib.length := by
  unfold triangleStarts
  simp only [List.mem_map, List.mem_range]
  constructor
  · rintro ⟨k, hk, rfl⟩
    omega
  · rintro ⟨h0, h1⟩
    exact ⟨s / 3, by omega, by omega⟩

theorem fetch_of_lt {α : Type} (buffer : List α) (i : Nat) (h : i < buffer.length) :
    fetch buffer i = Except.ok buffer[i] := by
  unfold fetch
  rw [List.getElem?_eq_getElem h]

theorem fetchTriangle_valid (vb : List Vertex) (ib : List Nat) (hv : ValidMesh vb ib) (s : Nat)
    (hs : s ∈ triangleStarts ib) : ∃ t, fetchTriangle vb ib s = Except.ok t := by
  obtain ⟨h3, hk⟩ := hv
  obtain ⟨hs0, hs1⟩ := (mem_triangleStarts ib s).1 hs
  have l0 : s < ib.length := hs1
  have l1 : s + 1 < ib.length := by omega
  have l2 : s + 2 < ib.length := by omega
  have k0 := hk _ (List.getElem_mem l0)
  have k1 := hk _ (List.getElem_mem l1)
  have k2 := hk _ (List.getElem_mem l2)
  unfold fetchTriangle
  rw [fetch_of_lt ib s l0]
  dsimp only
  rw [fetch_of_lt vb _ k0]
  dsimp only
  rw [fetch_of_lt ib _ l1]
  dsimp only
  rw [fetch_of_lt vb _ k1]
  dsimp only
  rw [fetch_of_lt ib _ l2]
  dsimp only
  rw [fetch_of_lt vb _ k2]
  exact ⟨_, rfl⟩

theorem mainSequentialTriangle_marks (vb : List Vertex) (ib : List Nat) (hv : ValidMesh vb ib)
    (g : Grid) (hg : g.length = 2097152) :
    ∃ g', mainSequentialTriangle vb ib g = Except.ok g' ∧
      Marks (fun i => ∃ s ∈ triangleStarts ib, ∃ v0 v1 v2,
        fetchTriangle vb ib s = Except.ok (v0, v1, v2) ∧
        ∃ x y z, InGrid x y z ∧ i = get3DIndex x y z cGridX cGridY ∧
          TriangleHits v0 v1 v2 x y z) g g' := by
  unfold mainSequentialTriangle
  refine forEach_marks 2097152 (triangleStarts ib) _
    (fun s i => ∃ v0 v1 v2, fetchTriangle vb ib s = Except.ok (v0, v1, v2) ∧
        ∃ x y z, InGrid x y z ∧ i = get3DIndex x y z cGridX cGridY ∧
          TriangleHits v0 v1 v2 x y z) ?_ g hg
  intro s hs g hg
  obtain ⟨⟨v0, v1, v2⟩, ht⟩ := fetchTriangle_valid vb ib hv s hs
  obtain ⟨g', h1, h2⟩ := checkTriangle_marks v0 v1 v2 vb ib g hg
  refine ⟨g', ?_, h2.congr ?_⟩
  · simp only [ht]
    exact h1
  · intro i
    constructor
    · intro h
      exact ⟨v0, v1, v2, ht, h⟩
    · rintro ⟨w0, w1, w2, hw, h⟩
      rw [ht] at hw
      simp only [Except.ok.injEq, Prod.mk.injEq] at hw
      obtain ⟨rfl, rfl, rfl⟩ := hw
      exact h

theorem checkVoxelLoop_marks (x y z : Int) (hin : InGrid x y z) (vb : List Vertex)
    (ib : List Nat) (g : Grid) (hg : g.length = 2097152) (starts : List Nat)
    (hs : ∀ s ∈ starts, ∃ t, fetchTriangle vb ib s = Except.ok t) :
    ∃ g', checkVoxelLoop x y z vb ib g starts = Except.ok g' ∧
      Marks (fun i => i = get3DIndex x y z cGridX cGridY ∧ ∃ s ∈ starts, ∃ v0 v1 v2,
        fetchTriangle vb ib s = Except.ok (v0, v1, v2) ∧
        intersectTriangleCube v0 v1 v2 (voxelMin x y z) (voxelMax x y z) = Except.ok true)
        g g' := by
  induction starts with
  | nil => exact ⟨g, rfl, Marks.refl_of_empty _ g (by simp)⟩
  | cons s rest ih =>
    obtain ⟨⟨v0, v1, v2⟩, ht⟩ := hs s (List.mem_cons_self _ _)
    obtain ⟨r, hr⟩ := intersectTriangleCube_voxel_total v0 v1 v2 x y z
    unfold checkVoxelLoop
    simp only [ht, hr]
    cases r
    · obtain ⟨g', h1, h2⟩ := ih (fun s' hs' => hs s' (List.mem_cons_of_mem _ hs'))
      refine ⟨g', h1, h2.congr ?_⟩
      intro i
      simp only [List.mem_cons, exists_eq_or_imp, ht, Except.ok.injEq, Prod.mk.injEq]
      constructor
      · rintro ⟨hi, h⟩
        exact ⟨hi, Or.inr h⟩
      · rintro ⟨hi, h | h⟩
        · obtain ⟨w0, w1, w2, ⟨rfl, rfl, rfl⟩, hw⟩ := h
          rw [hr] at hw
          cases hw
        · exact ⟨hi, h⟩
    · obtain ⟨g', h1, h2⟩ := gridSet_marks g (get3DIndex x y z cGridX cGridY)
        (by rw [hg]; exact (get3DIndex_grid x y z hin).2)
      refine ⟨g', h1, h2.congr ?_⟩
      intro i
      constructor
      · intro hi
        exact ⟨hi, s, List.mem_cons_self _ _, v0, v1, v2, ht, hr⟩
      · rintro ⟨hi, -⟩
        exact hi

theorem checkVoxel_marks (x y z : Int) (hin : InGrid x y z) (vb : List Vertex)
    (ib : List Nat) (hv : ValidMesh vb ib) (g : Grid) (hg : g.length = 2097152) :
    ∃ g', checkVoxel x y z vb ib g = Except.ok g' ∧
      Marks (fun i => i = get3DIndex x y z cGridX cGridY ∧ MeshHits vb ib x y z) g g' :=
  checkVoxelLoop_marks x y z hin vb ib g hg (triangleStarts ib) (fetchTriangle_valid vb ib hv)

theorem mainSequentialVoxel_marks (vb : List Vertex) (ib : List Nat) (hv : ValidMesh vb ib)
    (g : Grid) (hg : g.length = 2097152) :
    ∃ g', mainSequentialVoxel vb ib g = Except.ok g' ∧
      Marks (fun i => ∃ x y z, InGrid x y z ∧ i = get3DIndex x y z cGridX cGridY ∧
        MeshHits vb ib x y z) g g' := by
  unfold mainSequentialVoxel
  have hz := forEach_marks 2097152 (upTo cGridZ)
    (fun z g =>
      forEach (upTo cGridY) (fun y g =>
        forEach (upTo cGridX) (fun x g => checkVoxel x y z vb ib g) g) g)
    (fun z i => ∃ y ∈ upTo cGridY, ∃ x ∈ upTo cGridX,
      i = get3DIndex x y z cGridX cGridY ∧ MeshHits vb ib x y z)
    (fun z hz g hg =>
      forEach_marks 2097152 (upTo cGridY) _
        (fun y i => ∃ x ∈ upTo cGridX,
          i = get3DIndex x y z cGridX cGridY ∧ MeshHits vb ib x y z)
        (fun y hy g hg =>
          forEach_marks 2097152 (upTo cGridX) _
            (fun x i => i = get3DIndex x y z cGridX cGridY ∧ MeshHits vb ib x y z)
            (fun x hx g hg => checkVoxel_marks x y z
              ⟨(mem_upTo _ _).1 hx, (mem_upTo _ _).1 hy, (mem_upTo _ _).1 hz⟩ vb ib hv g hg)
            g hg)
        g hg)
    g hg
  obtain ⟨g', h1, h2⟩ := hz
  refine ⟨g', h1, h2.congr ?_⟩
  intro i
  simp only [mem_upTo, InGrid]
  constructor
  · rintro ⟨z, hz, y, hy, x, hx, h⟩
    exact ⟨x, y, z, ⟨hx, hy, hz⟩, h⟩
  · rintro ⟨x, y, z, ⟨hx, hy, hz⟩, h⟩
    exact ⟨z, hz, y, hy, x, hx, h⟩

theorem GridLe.refl (g : Grid) : GridLe g g := fun _ h => h

theorem GridLe.trans (a b c : Grid) (h1 : GridLe a b) (h2 : GridLe b c) : GridLe a c :=
  fun i h => h2 i (h1 i h)

theorem gridSet_gridLe (g g' : Grid) (idx : Nat) (h : gridSet g idx = Except.ok g') :
    GridLe g g' := by
  unfold gridSet at h
  split_ifs at h with hlt
  simp only [Except.ok.injEq] at h
  subst h
  intro i hi
  exact (gridGet_set g idx i hlt).2 (Or.inl hi)

theorem checkTriangleCell_gridLe (v0 v1 v2 mn mx : Vec3) (x y z : Int) (g g' : Grid)
    (h : checkTriangleCell v0 v1 v2 mn mx x y z g = Except.ok g') : GridLe g g' := by
  unfold checkTriangleCell at h
  split_ifs at h
  · simp only [Except.ok.injEq] at h
    subst h
    exact GridLe.refl g
  · cases hr : intersectTriangleCube v0 v1 v2 (voxelMin x y z) (voxelMax x y z) with
    | error e => rw [hr] at h; cases h
    | ok r =>
      rw [hr] at h
      cases r
      · simp only [Except.ok.injEq] at h
        subst h
        exact GridLe.refl g
      · exact gridSet_gridLe g g' _ h

theorem checkTriangle_gridLe (v0 v1 v2 : Vec3) (vb : List Vertex) (ib : List Nat) (g g' : Grid)
    (h : checkTriangle v0 v1 v2 vb ib g = Except.ok g') : GridLe g g' := by
  unfold checkTriangle at h
  refine forEach_invariant GridLe GridLe.refl GridLe.trans _ _ ?_ g g' h
  intro z _ g1 g1' h1
  refine forEach_invariant GridLe GridLe.refl GridLe.trans _ _ ?_ g1 g1' h1
  intro y _ g2 g2' h2
  refine forEach_invariant GridLe GridLe.refl GridLe.trans _ _ ?_ g2 g2' h2
  intro x _ g3 g3' h3
  exact checkTriangleCell_gridLe _ _ _ _ _ _ _ _ g3 g3' h3

theorem checkVoxelLoop_gridLe (x y z : Int) (vb : List Vertex) (ib : List Nat) (g g' : Grid)
    (starts : List Nat) (h : checkVoxelLoop x y z vb ib g starts = Except.ok g') :
    GridLe g g' := by
  induction starts with
  | nil =>
    simp only [checkVoxelLoop, Except.ok.injEq] at h
    subst h
    exact GridLe.refl g
  | cons s rest ih =>
    unfold checkVoxelLoop at h
    cases ht : fetchTriangle vb ib s with
    | error e => rw [ht] at h; cases h
    | ok t =>
      obtain ⟨v0, v1, v2⟩ := t
      rw [ht] at h
      dsimp only at h
      cases hr : intersectTriangleCube v0 v1 v2 (voxelMin x y z) (voxelMax x y z) with
      | error e => rw [hr] at h; cases h
      | ok r =>
        rw [hr] at h
        cases r
        · exact ih h
        · exact gridSet_gridLe g g' _ h

theorem fetch_append {α : Type} (buffer more : List α) (i : Nat) (a : α)
    (h : fetch buffer i = Except.ok a) : fetch (buffer ++ more) i = Except.ok a := by
  unfold fetch at h ⊢
  cases hb : buffer[i]? with
  | none => rw [hb] at h; cases h
  | some b =>
    have hlt : i < buffer.length := by
      by_contra hge
      rw [List.getElem?_eq_none (by omega)] at hb
      cases hb
    rw [List.getElem?_append_left hlt, hb]
    rw [hb] at h
    exact h

theorem fetchTriangle_append (vb extra : List Vertex) (ib more : List Nat) (s : Nat)
    (t : Vec3 × Vec3 × Vec3) (h : fetchTriangle vb ib s = Except.ok t) :
    fetchTriangle (vb ++ extra) (ib ++ more) s = Except.ok t := by
  unfold fetchTriangle at h ⊢
  cases h0 : fetch ib s with
  | error e => rw [h0] at h; cases h
  | ok i0 =>
  rw [h0] at h; dsimp only at h
  rw [fetch_append ib more s i0 h0]; dsimp only
  cases h1 : fetch vb i0 with
  | error e => rw [h1] at h; cases h
  | ok w0 =>
  rw [h1] at h; dsimp only at h
  rw [fetch_append vb extra i0 w0 h1]; dsimp only
  cases h2 : fetch ib (s + 1) with
  | error e => rw [h2] at h; cases h
  | ok i1 =>
  rw [h2] at h; dsimp only at h
  rw [fetch_append ib more (s + 1) i1 h2]; dsimp only
  cases h3 : fetch vb i1 with
  | error e => rw [h3] at h; cases h
  | ok w1 =>
  rw [h3] at h; dsimp only at h
  rw [fetch_append vb extra i1 w1 h3]; dsimp only
  cases h4 : fetch ib (s + 2) with
  | error e => rw [h4] at h; cases h
  | ok i2 =>
  rw [h4] at h; dsimp only at h
  rw [fetch_append ib more (s + 2) i2 h4]; dsimp only
  cases h5 : fetch vb i2 with
  | error e => rw [h5] at h; cases h
  | ok w2 =>
  rw [h5] at h; dsimp only at h
  rw [fetch_append vb extra i2 w2 h5]
  exact h

theorem ValidMesh.append (vb extra : List Vertex) (ib : List Nat) (a b c : Nat)
    (hv : ValidMesh vb ib) (ha : a < (vb ++ extra).length) (hb : b < (vb ++ extra).length)
    (hc : c < (vb ++ extra).length) : ValidMesh (vb ++ extra) (ib ++ [a, b, c]) := by
  obtain ⟨h3, hk⟩ := hv
  refine ⟨?_, ?_⟩
  · simp only [List.length_append, List.length_cons, List.length_nil]
    omega
  · intro k hmem
    simp only [List.mem_append, List.mem_cons, List.mem_singleton, List.mem_nil_iff,
      or_false] at hmem
    rcases hmem with h | rfl | rfl | rfl
    · have := hk k h
      simp only [List.length_append]
      omega
    · exact ha
    · exact hb
    · exact hc

theorem mem_triangleStarts_append (ib more : List Nat) (s : Nat)
    (hs : s ∈ triangleStarts ib) : s ∈ triangleStarts (ib ++ more) := by
  rw [mem_triangleStarts] at hs ⊢
  simp only [List.length_append]
  omega

/-! ## Lemmas on normalization -/

theorem isFinite_iff (a : F64) : a.isFinite = true ↔ ∃ q, a = F64.fin q := by
  cases a <;> simp [F64.isFinite]

theorem stdMin_fin (a b : ℚ) : stdMin (F64.fin a) (F64.fin b) = F64.fin (min a b) := by
  unfold stdMin F64.lt
  by_cases h : b < a
  · simp [h, min_eq_right h.le]
  · simp [h, min_eq_left (not_lt.1 h)]

theorem stdMax_fin (a b : ℚ) : stdMax (F64.fin a) (F64.fin b) = F64.fin (max a b) := by
  unfold stdMax F64.lt
  by_cases h : a < b
  · simp [h, max_eq_right h.le]
  · simp [h, max_eq_left (not_lt.1 h)]

theorem stdMax3_fin (a b c : ℚ) :
    stdMax3 (F64.fin a) (F64.fin b) (F64.fin c) = F64.fin (max (max a b) c) := by
  have h1 := stdMax_fin a b
  have h2 := stdMax_fin (max a b) c
  unfold stdMax at h1 h2
  unfold stdMax3
  simp only [h1, h2]

theorem foldMin_spec (f : Vertex → F64) (vb : List Vertex)
    (hf : ∀ v ∈ vb, ∃ q, f v = F64.fin q) (m0 : ℚ) :
    ∃ m, vb.foldl (fun acc v => stdMin acc (f v)) (F64.fin m0) = F64.fin m ∧ m ≤ m0 ∧
      (∀ v ∈ vb, ∃ q, f v = F64.fin q ∧ m ≤ q) ∧ (m = m0 ∨ ∃ v ∈ vb, f v = F64.fin m) := by
  induction vb generalizing m0 with
  | nil => exact ⟨m0, rfl, le_refl _, by simp, Or.inl rfl⟩
  | cons v rest ih =>
    obtain ⟨q, hq⟩ := hf v (List.mem_cons_self _ _)
    obtain ⟨m, h1, h2, h3, h4⟩ := ih (fun w hw => hf w (List.mem_cons_of_mem _ hw)) (min m0 q)
    refine ⟨m, ?_, le_trans h2 (min_le_left _ _), ?_, ?_⟩
    · simp only [List.foldl_cons, hq, stdMin_fin]
      exact h1
    · intro w hw
      rcases List.mem_cons.1 hw with rfl | hw
      · exact ⟨q, hq, le_trans h2 (min_le_right _ _)⟩
      · exact h3 w hw
    · rcases h4 with h | ⟨w, hw, hw'⟩
      · rcases min_choice m0 q with hm | hm
        · left; rw [h, hm]
        · right
          exact ⟨v, List.mem_cons_self _ _, by rw [hq, h, hm]⟩
      · right
        exact ⟨w, List.mem_cons_of_mem _ hw, hw'⟩

theorem foldMax_spec (f : Vertex → F64) (vb : List Vertex)
    (hf : ∀ v ∈ vb, ∃ q, f v = F64.fin q) (m0 : ℚ) :
    ∃ m, vb.foldl (fun acc v => stdMax acc (f v)) (F64.fin m0) = F64.fin m ∧ m0 ≤ m ∧
      (∀ v ∈ vb, ∃ q, f v = F64.fin q ∧ q ≤ m) ∧ (m = m0 ∨ ∃ v ∈ vb, f v = F64.fin m) := by
  induction vb generalizing m0 with
  | nil => exact ⟨m0, rfl, le_refl _, by simp, Or.inl rfl⟩
  | cons v rest ih =>
    obtain ⟨q, hq⟩ := hf v (List.mem_cons_self _ _)
    obtain ⟨m, h1, h2, h3, h4⟩ := ih (fun w hw => hf w (List.mem_cons_of_mem _ hw)) (max m0 q)
    refine ⟨m, ?_, le_trans (le_max_left _ _) h2, ?_, ?_⟩
    · simp only [List.foldl_cons, hq, stdMax_fin]
      exact h1
    · intro w hw
      rcases List.mem_cons.1 hw with rfl | hw
      · exact ⟨q, hq, le_trans (le_max_right _ _) h2⟩
      · exact h3 w hw
    · rcases h4 with h | ⟨w, hw, hw'⟩
      · rcases max_choice m0 q with hm | hm
        · left; rw [h, hm]
        · right
          exact ⟨v, List.mem_cons_self _ _, by rw [hq, h, hm]⟩
      · right
        exact ⟨w, List.mem_cons_of_mem _ hw, hw'⟩

theorem foldl_boundsStep (vb : List Vertex) (b : Bounds) :
    vb.foldl boundsStep b =
      ⟨vb.foldl (fun acc v => stdMin acc v.position.x) b.minX,
       vb.foldl (fun acc v => stdMin acc v.position.y) b.minY,
       vb.foldl (fun acc v => stdMin acc v.position.z) b.minZ,
       vb.foldl (fun acc v => stdMax acc v.position.x) b.maxX,
       vb.foldl (fun acc v => stdMax acc v.position.y) b.maxY,
       vb.foldl (fun acc v => stdMax acc v.position.z) b.maxZ⟩ := by
  induction vb generalizing b with
  | nil => rfl
  | cons v rest ih =>
    simp only [List.foldl_cons]
    rw [ih]
    rfl

theorem isMin_of_fold (f : Vertex → F64) (v0 : Vertex) (rest : List Vertex)
    (hf : ∀ v ∈ v0 :: rest, ∃ q, f v = F64.fin q) :
    ∃ m, (v0 :: rest).foldl (fun acc v => stdMin acc (f v)) (f v0) = F64.fin m ∧
      IsMin f (v0 :: rest) m := by
  obtain ⟨q0, hq0⟩ := hf v0 (List.mem_cons_self _ _)
  obtain ⟨m, h1, -, h3, h4⟩ := foldMin_spec f (v0 :: rest) hf q0
  refine ⟨m, by rw [hq0]; exact h1, h3, ?_⟩
  rcases h4 with h | h
  · exact ⟨v0, List.mem_cons_self _ _, by rw [hq0, h]⟩
  · exact h

theorem isMax_of_fold (f : Vertex → F64) (v0 : Vertex) (rest : List Vertex)
    (hf : ∀ v ∈ v0 :: rest, ∃ q, f v = F64.fin q) :
    ∃ m, (v0 :: rest).foldl (fun acc v => stdMax acc (f v)) (f v0) = F64.fin m ∧
      IsMax f (v0 :: rest) m := by
  obtain ⟨q0, hq0⟩ := hf v0 (List.mem_cons_self _ _)
  obtain ⟨m, h1, -, h3, h4⟩ := foldMax_spec f (v0 :: rest) hf q0
  refine ⟨m, by rw [hq0]; exact h1, h3, ?_⟩
  rcases h4 with h | h
  · exact ⟨v0, List.mem_cons_self _ _, by rw [hq0, h]⟩
  · exact h

theorem FiniteBuffer.coords (vb : List Vertex) (h : FiniteBuffer vb) :
    (∀ v ∈ vb, ∃ q, v.position.x = F64.fin q) ∧ (∀ v ∈ vb, ∃ q, v.position.y = F64.fin q) ∧
      (∀ v ∈ vb, ∃ q, v.position.z = F64.fin q) := by
  refine ⟨fun v hv => ?_, fun v hv => ?_, fun v hv => ?_⟩ <;>
  · have := h v hv
    simp only [Vec3.isFinite, Bool.and_eq_true] at this
    first
      | exact (isFinite_iff _).1 this.1.1
      | exact (isFinite_iff _).1 this.1.2
      | exact (isFinite_iff _).1 this.2

theorem meshBounds_spec (vb : List Vertex) (hfin : FiniteBuffer vb) (b : Bounds)
    (hb : meshBounds vb = Except.ok b) :
    ∃ x0 y0 z0 x1 y1 z1 : ℚ,
      b = ⟨F64.fin x0, F64.fin y0, F64.fin z0, F64.fin x1, F64.fin y1, F64.fin z1⟩ ∧
      IsMin (fun v => v.position.x) vb x0 ∧ IsMin (fun v => v.position.y) vb y0 ∧
      IsMin (fun v => v.position.z) vb z0 ∧ IsMax (fun v => v.position.x) vb x1 ∧
      IsMax (fun v => v.position.y) vb y1 ∧ IsMax (fun v => v.position.z) vb z1 := by
  cases vb with
  | nil => cases hb
  | cons v0 rest =>
    obtain ⟨cx, cy, cz⟩ := FiniteBuffer.coords _ hfin
    simp only [meshBounds, Except.ok.injEq] at hb
    rw [foldl_boundsStep] at hb
    obtain ⟨x0, e0, m0⟩ := isMin_of_fold (fun v => v.position.x) v0 rest cx
    obtain ⟨y0, e1, m1⟩ := isMin_of_fold (fun v => v.position.y) v0 rest cy
    obtain ⟨z0, e2, m2⟩ := isMin_of_fold (fun v => v.position.z) v0 rest cz
    obtain ⟨x1, e3, m3⟩ := isMax_of_fold (fun v => v.position.x) v0 rest cx
    obtain ⟨y1, e4, m4⟩ := isMax_of_fold (fun v => v.position.y) v0 rest cy
    obtain ⟨z1, e5, m5⟩ := isMax_of_fold (fun v => v.position.z) v0 rest cz
    refine ⟨x0, y0, z0, x1, y1, z1, ?_, m0, m1, m2, m3, m4, m5⟩
    rw [← hb]
    simp only [initBounds]
    rw [e0, e1, e2, e3, e4, e5]

theorem meshBounds_boundsOf (vb : List Vertex) (hfin : FiniteBuffer vb) (b : Bounds)
    (hb : meshBounds vb = Except.ok b) : ∃ lo hi, BoundsOf vb b lo hi := by
  obtain ⟨x0, y0, z0, x1, y1, z1, rfl, m0, m1, m2, m3, m4, m5⟩ := meshBounds_spec vb hfin b hb
  refine ⟨fun a => match a with | Plane.X => x0 | Plane.Y => y0 | Plane.Z => z0,
    fun a => match a with | Plane.X => x1 | Plane.Y => y1 | Plane.Z => z1, ?_, ?_⟩
  · intro a
    cases a <;> exact ⟨rfl, rfl⟩
  · intro a
    cases a
    · exact ⟨m0, m3⟩
    · exact ⟨m1, m4⟩
    · exact ⟨m2, m5⟩

theorem BoundsOf.lo_le_hi {vb : List Vertex} {b : Bounds} {lo hi : Plane → ℚ}
    (h : BoundsOf vb b lo hi) (a : Plane) : lo a ≤ hi a := by
  obtain ⟨⟨-, v, hv, e⟩, ⟨hmax, -⟩⟩ := h.2 a
  obtain ⟨q, hq, hle⟩ := hmax v hv
  rw [e] at hq
  cases hq
  exact hle

theorem BoundsOf.range_eq {vb : List Vertex} {b : Bounds} {lo hi : Plane → ℚ}
    (h : BoundsOf vb b lo hi) (a : Plane) : b.range a = F64.fin (hi a - lo a) := by
  unfold Bounds.range
  rw [(h.1 a).1, (h.1 a).2]
  simp [F64.sub, F64.add, F64.neg, sub_eq_add_neg]

theorem BoundsOf.maxRange_eq {vb : List Vertex} {b : Bounds} {lo hi : Plane → ℚ}
    (h : BoundsOf vb b lo hi) :
    b.maxRange = F64.fin (max (max (hi Plane.X - lo Plane.X) (hi Plane.Y - lo Plane.Y))
      (hi Plane.Z - lo Plane.Z)) := by
  have hx := h.range_eq Plane.X
  have hy := h.range_eq Plane.Y
  have hz := h.range_eq Plane.Z
  unfold Bounds.range Bounds.hi Bounds.lo at hx hy hz
  unfold Bounds.maxRange Bounds.rangeX Bounds.rangeY Bounds.rangeZ
  rw [hx, hy, hz, stdMax3_fin]

theorem BoundsOf.range_le {vb : List Vertex} {b : Bounds} {lo hi : Plane → ℚ}
    (h : BoundsOf vb b lo hi) (r : ℚ) (hr : b.maxRange = F64.fin r) (a : Plane) :
    hi a - lo a ≤ r := by
  rw [h.maxRange_eq] at hr
  cases hr
  cases a
  · exact le_trans (le_max_left _ _) (le_max_left _ _)
  · exact le_trans (le_max_right _ _) (le_max_left _ _)
  · exact le_max_right _ _

theorem normalizeVertex_get (b : Bounds) (v : Vertex) (a : Plane) :
    (normalizeVertex b v).position.get a =
      F64.div (F64.sub (v.position.get a) (b.lo a)) b.maxRange := by
  cases a <;> rfl

theorem normalize_eq (vb : List Vertex) (b : Bounds) (hb : meshBounds vb = Except.ok b) :
    normalize vb = Except.ok (vb.map (normalizeVertex b)) := by
  unfold normalize
  rw [hb]

theorem isMin_unique {f : Vertex → F64} {vb : List Vertex} {m m' : ℚ} (h : IsMin f vb m)
    (h' : IsMin f vb m') : m = m' := by
  obtain ⟨hall, v, hv, e⟩ := h
  obtain ⟨hall', v', hv', e'⟩ := h'
  obtain ⟨q, hq, h1⟩ := hall v' hv'
  obtain ⟨q', hq', h2⟩ := hall' v hv
  rw [e'] at hq
  rw [e] at hq'
  cases hq
  cases hq'
  exact le_antisymm h1 h2

theorem isMax_unique {f : Vertex → F64} {vb : List Vertex} {m m' : ℚ} (h : IsMax f vb m)
    (h' : IsMax f vb m') : m = m' := by
  obtain ⟨hall, v, hv, e⟩ := h
  obtain ⟨hall', v', hv', e'⟩ := h'
  obtain ⟨q, hq, h1⟩ := hall v' hv'
  obtain ⟨q', hq', h2⟩ := hall' v hv
  rw [e'] at hq
  rw [e] at hq'
  cases hq
  cases hq'
  exact le_antisymm h2 h1

theorem meshBounds_map_ok (vb : List Vertex) (b : Bounds) (hb : meshBounds vb = Except.ok b)
    (f : Vertex → Vertex) : ∃ b', meshBounds (vb.map f) = Except.ok b' := by
  cases vb with
  | nil => cases hb
  | cons v rest => exact ⟨_, rfl⟩

/-! ## Evaluation on the sample inputs -/

theorem inPlane_valid : ValidMesh inPlaneVertices [0, 1, 2] :=
  ⟨by decide, by decide⟩

theorem inPlane_fetch :
    fetchTriangle inPlaneVertices [0, 1, 2] 0 =
      Except.ok (Vec3.ofRat (1 / 256) 0 1, Vec3.ofRat (1 / 256) 0 0, Vec3.ofRat 0 0 0) := rfl

theorem inPlane_hits :
    intersectTriangleCube (Vec3.ofRat (1 / 256) 0 1) (Vec3.ofRat (1 / 256) 0 0) (Vec3.ofRat 0 0 0)
      (voxelMin 0 5 0) (voxelMax 0 5 0) = Except.ok true := by
  rw [voxelMin_eq, voxelMax_eq]
  norm_num [intersectTriangleCube, intersectLineCube, insideBox, cubeFaces, anyFace,
    intersectLineQuad, selectPlane, planeParam, outsideBox, Vec3.get, Vec3.ofRat, Vec3.add,
    Vec3.sub, Vec3.scale, F64.eq, F64.le, F64.ge, F64.lt, F64.gt, F64.sub, F64.add, F64.neg,
    F64.div, F64.mul, F64.signedInf]

theorem inPlane_pruned :
    pruned (Vec3.min (Vec3.ofRat (1 / 256) 0 1) (Vec3.min (Vec3.ofRat (1 / 256) 0 0)
        (Vec3.ofRat 0 0 0)))
      (Vec3.max (Vec3.ofRat (1 / 256) 0 1) (Vec3.max (Vec3.ofRat (1 / 256) 0 0)
        (Vec3.ofRat 0 0 0)))
      (voxelMin 0 5 0) (voxelMax 0 5 0) = true := by
  rw [voxelMin_eq, voxelMax_eq]
  norm_num [pruned, Vec3.min, Vec3.max, stdMin, stdMax, Vec3.ofRat, F64.lt, F64.gt]

theorem inPlane_normalize : normalize inPlaneVertices = Except.ok inPlaneVertices := by
  norm_num [normalize, inPlaneVertices, meshBounds, initBounds, boundsStep, normalizeVertex,
    Bounds.maxRange, Bounds.rangeX, Bounds.rangeY, Bounds.rangeZ, stdMax3, stdMin, stdMax,
    Vec3.ofRat, F64.lt, F64.sub, F64.add, F64.neg, F64.div]

theorem coincident_finite : FiniteBuffer [⟨Vec3.ofRat 1 2 3⟩, ⟨Vec3.ofRat 1 2 3⟩] := by
  intro v hv
  simp only [List.mem_cons, List.mem_singleton, List.mem_nil_iff, or_false] at hv
  rcases hv with rfl | rfl <;> rfl

theorem coincident_bounds :
    meshBounds [⟨Vec3.ofRat 1 2 3⟩, ⟨Vec3.ofRat 1 2 3⟩] =
      Except.ok ⟨F64.fin 1, F64.fin 2, F64.fin 3, F64.fin 1, F64.fin 2, F64.fin 3⟩ := by
  norm_num [meshBounds, initBounds, boundsStep, stdMin, stdMax, Vec3.ofRat, F64.lt]

/-! ## Further lemmas -/

theorem voxelCenter_eq (x y z : Int) :
    voxelCenter x y z = Vec3.ofRat ((x : ℚ) / 128) ((y : ℚ) / 128) ((z : ℚ) / 128) := by
  simp [voxelCenter, Vec3.div, F64.ofInt, cGridX, cGridY, cGridZ, F64.div, Vec3.ofRat]

theorem voxel_cover_axis (q : ℚ) (h0 : -1 / 256 ≤ q) (h1 : q ≤ 255 / 256) :
    ∃ n : Int, (0 ≤ n ∧ n < 128) ∧ (n : ℚ) / 128 - 1 / 256 ≤ q ∧ q ≤ (n : ℚ) / 128 + 1 / 256 := by
  have hfl := Int.floor_le (128 * q + 1 / 2)
  have hlt := Int.lt_floor_add_one (128 * q + 1 / 2)
  have hm0 : 0 ≤ ⌊128 * q + 1 / 2⌋ := Int.floor_nonneg.2 (by linarith)
  by_cases hm : ⌊128 * q + 1 / 2⌋ ≤ 127
  · refine ⟨⌊128 * q + 1 / 2⌋, ⟨hm0, by omega⟩, ?_, ?_⟩ <;> linarith
  · have h128 : (128 : ℚ) ≤ ((⌊128 * q + 1 / 2⌋ : Int) : ℚ) := by
      have : (128 : Int) ≤ ⌊128 * q + 1 / 2⌋ := by omega
      exact_mod_cast this
    refine ⟨127, ⟨by norm_num, by norm_num⟩, ?_, ?_⟩
    · push_cast
      linarith
    · push_cast
      linarith

theorem within_fin (p : Vec3) (a b c d e f : ℚ) :
    Vec3.within p (Vec3.ofRat a b c) (Vec3.ofRat d e f) ↔
      ∃ px py pz : ℚ, p = Vec3.ofRat px py pz ∧ (a ≤ px ∧ px ≤ d) ∧ (b ≤ py ∧ py ≤ e) ∧
        (c ≤ pz ∧ pz ≤ f) := by
  obtain ⟨px, py, pz⟩ := p
  constructor
  · intro h
    cases px <;> cases py <;> cases pz <;>
      simp [Vec3.within, Vec3.ofRat, F64.le] at h
    rename_i qx qy qz
    exact ⟨qx, qy, qz, rfl, ⟨h.1, h.2.1⟩, ⟨h.2.2.1, h.2.2.2.1⟩, ⟨h.2.2.2.2.1, h.2.2.2.2.2⟩⟩
  · rintro ⟨qx, qy, qz, hp, ⟨h1, h2⟩, ⟨h3, h4⟩, ⟨h5, h6⟩⟩
    simp only [Vec3.ofRat, Vec3.mk.injEq] at hp
    obtain ⟨rfl, rfl, rfl⟩ := hp
    simp [Vec3.within, Vec3.ofRat, F64.le, h1, h2, h3, h4, h5, h6]

theorem within_voxel_iff (p : Vec3) :
    (∃ x y z, InGrid x y z ∧ Vec3.within p (voxelMin x y z) (voxelMax x y z)) ↔
      Vec3.within p (Vec3.ofRat (-1 / 256) (-1 / 256) (-1 / 256))
        (Vec3.ofRat (255 / 256) (255 / 256) (255 / 256)) := by
  constructor
  · rintro ⟨x, y, z, ⟨⟨hx0, hx1⟩, ⟨hy0, hy1⟩, ⟨hz0, hz1⟩⟩, h⟩
    rw [voxelMin_eq, voxelMax_eq, within_fin] at h
    obtain ⟨px, py, pz, rfl, ⟨a1, a2⟩, ⟨b1, b2⟩, ⟨c1, c2⟩⟩ := h
    simp only [cGridX, cGridY, cGridZ] at hx1 hy1 hz1
    have ex0 : (0 : ℚ) ≤ x := by exact_mod_cast hx0
    have ex1 : (x : ℚ) ≤ 127 := by exact_mod_cast (by omega : x ≤ 127)
    have ey0 : (0 : ℚ) ≤ y := by exact_mod_cast hy0
    have ey1 : (y : ℚ) ≤ 127 := by exact_mod_cast (by omega : y ≤ 127)
    have ez0 : (0 : ℚ) ≤ z := by exact_mod_cast hz0
    have ez1 : (z : ℚ) ≤ 127 := by exact_mod_cast (by omega : z ≤ 127)
    rw [within_fin]
    refine ⟨px, py, pz, rfl, ⟨?_, ?_⟩, ⟨?_, ?_⟩, ⟨?_, ?_⟩⟩ <;> linarith
  · intro h
    rw [within_fin] at h
    obtain ⟨px, py, pz, rfl, ⟨a1, a2⟩, ⟨b1, b2⟩, ⟨c1, c2⟩⟩ := h
    obtain ⟨x, hx, x1, x2⟩ := voxel_cover_axis px a1 a2
    obtain ⟨y, hy, y1, y2⟩ := voxel_cover_axis py b1 b2
    obtain ⟨z, hz, z1, z2⟩ := voxel_cover_axis pz c1 c2
    refine ⟨x, y, z, ⟨hx, hy, hz⟩, ?_⟩
    rw [voxelMin_eq, voxelMax_eq, within_fin]
    exact ⟨px, py, pz, rfl, ⟨x1, x2⟩, ⟨y1, y2⟩, ⟨z1, z2⟩⟩

theorem eq_of_lt (a b : F64) (h : F64.lt a b = true) :
    F64.eq a a = true ∧ F64.eq b b = true ∧ F64.eq a b = false := by
  cases a <;> cases b <;> simp [F64.lt, F64.eq] at h ⊢
  exact ne_of_lt h

theorem cubeFaces_axes (cubeMin cubeMax : Vec3) (hx : F64.lt cubeMin.x cubeMax.x = true)
    (hy : F64.lt cubeMin.y cubeMax.y = true) (hz : F64.lt cubeMin.z cubeMax.z = true) :
    (cubeFaces cubeMin cubeMax).map degenerateAxes =
      [(true, false, false), (true, false, false), (false, true, false), (false, true, false),
        (false, false, true), (false, false, true)] ∧
    (cubeFaces cubeMin cubeMax).map (fun q => selectPlane q.1 q.2) =
      [Except.ok Plane.X, Except.ok Plane.X, Except.ok Plane.Y, Except.ok Plane.Y,
        Except.ok Plane.Z, Except.ok Plane.Z] := by
  obtain ⟨x1, x2, x3⟩ := eq_of_lt _ _ hx
  obtain ⟨y1, y2, y3⟩ := eq_of_lt _ _ hy
  obtain ⟨z1, z2, z3⟩ := eq_of_lt _ _ hz
  simp [cubeFaces, degenerateAxes, selectPlane, x1, x2, x3, y1, y2, y3, z1, z2, z3]

theorem intersectLineCube_total_of_lt (p1 p2 cubeMin cubeMax : Vec3)
    (hx : F64.lt cubeMin.x cubeMax.x = true) (hy : F64.lt cubeMin.y cubeMax.y = true)
    (hz : F64.lt cubeMin.z cubeMax.z = true) :
    ∃ r, intersectLineCube p1 p2 cubeMin cubeMax = Except.ok r := by
  unfold intersectLineCube
  split_ifs
  · exact ⟨true, rfl⟩
  · exact ⟨true, rfl⟩
  · apply anyFace_total
    intro q hq
    have h := (cubeFaces_axes cubeMin cubeMax hx hy hz).2
    have hm : selectPlane q.1 q.2 ∈ (cubeFaces cubeMin cubeMax).map
        (fun q => selectPlane q.1 q.2) := List.mem_map_of_mem _ hq
    rw [h] at hm
    simp only [List.mem_cons, List.mem_singleton, List.mem_nil_iff, or_false] at hm
    rcases hm with h | h | h | h | h | h <;> exact ⟨_, h⟩

theorem intersectTriangleCube_total_of_lt (v0 v1 v2 cubeMin cubeMax : Vec3)
    (hx : F64.lt cubeMin.x cubeMax.x = true) (hy : F64.lt cubeMin.y cubeMax.y = true)
    (hz : F64.lt cubeMin.z cubeMax.z = true) :
    ∃ r, intersectTriangleCube v0 v1 v2 cubeMin cubeMax = Except.ok r := by
  obtain ⟨r0, h0⟩ := intersectLineCube_total_of_lt v0 v1 cubeMin cubeMax hx hy hz
  obtain ⟨r1, h1⟩ := intersectLineCube_total_of_lt v1 v2 cubeMin cubeMax hx hy hz
  obtain ⟨r2, h2⟩ := intersectLineCube_total_of_lt v2 v0 cubeMin cubeMax hx hy hz
  unfold intersectTriangleCube
  rw [h0, h1, h2]
  cases r0 <;> cases r1 <;> cases r2 <;> exact ⟨_, rfl⟩

theorem fetch_error {α : Type} (buffer : List α) (i : Nat) (e : Fault)
    (h : fetch buffer i = Except.error e) : e = Fault.outOfBounds := by
  unfold fetch at h
  cases hb : buffer[i]? with
  | none =>
    rw [hb] at h
    simp only [Except.error.injEq] at h
    exact h.symm
  | some a => rw [hb] at h; cases h

theorem fetchTriangle_error (vb : List Vertex) (ib : List Nat) (s : Nat) (e : Fault)
    (h : fetchTriangle vb ib s = Except.error e) : e = Fault.outOfBounds := by
  unfold fetchTriangle at h
  cases h0 : fetch ib s with
  | error e0 => rw [h0] at h; cases h; exact fetch_error _ _ _ h0
  | ok i0 =>
  rw [h0] at h; dsimp only at h
  cases h1 : fetch vb i0 with
  | error e0 => rw [h1] at h; cases h; exact fetch_error _ _ _ h1
  | ok w0 =>
  rw [h1] at h; dsimp only at h
  cases h2 : fetch ib (s + 1) with
  | error e0 => rw [h2] at h; cases h; exact fetch_error _ _ _ h2
  | ok i1 =>
  rw [h2] at h; dsimp only at h
  cases h3 : fetch vb i1 with
  | error e0 => rw [h3] at h; cases h; exact fetch_error _ _ _ h3
  | ok w1 =>
  rw [h3] at h; dsimp only at h
  cases h4 : fetch ib (s + 2) with
  | error e0 => rw [h4] at h; cases h; exact fetch_error _ _ _ h4
  | ok i2 =>
  rw [h4] at h; dsimp only at h
  cases h5 : fetch vb i2 with
  | error e0 => rw [h5] at h; cases h; exact fetch_error _ _ _ h5
  | ok w2 =>
  rw [h5] at h
  cases h

theorem gridSet_error (g : Grid) (idx : Nat) (e : Fault) (h : gridSet g idx = Except.error e) :
    e = Fault.outOfBounds := by
  unfold gridSet at h
  split_ifs at h
  simp only [Except.error.injEq] at h
  exact h.symm

theorem forEach_error {α σ : Type} (P : Fault → Prop) (xs : List α)
    (body : α → σ → Except Fault σ)
    (hbody : ∀ a ∈ xs, ∀ s e, body a s = Except.error e → P e) :
    ∀ s e, forEach xs body s = Except.error e → P e := by
  induction xs with
  | nil =>
    intro s e h
    cases h
  | cons a rest ih =>
    intro s e h
    unfold forEach at h
    cases hb : body a s with
    | error e0 =>
      rw [hb] at h
      simp only [Except.error.injEq] at h
      subst h
      exact hbody a (List.mem_cons_self _ _) s e0 hb
    | ok s1 =>
      rw [hb] at h
      exact ih (fun b hb' => hbody b (List.mem_cons_of_mem _ hb')) s1 e h

theorem checkTriangleCell_error (v0 v1 v2 mn mx : Vec3) (x y z : Int) (g : Grid) (e : Fault)
    (h : checkTriangleCell v0 v1 v2 mn mx x y z g = Except.error e) :
    e = Fault.outOfBounds := by
  unfold checkTriangleCell at h
  split_ifs at h
  obtain ⟨r, hr⟩ := intersectTriangleCube_voxel_total v0 v1 v2 x y z
  rw [hr] at h
  cases r
  · cases h
  · exact gridSet_error _ _ _ h

theorem checkTriangle_error (v0 v1 v2 : Vec3) (vb : List Vertex) (ib : List Nat) (g : Grid)
    (e : Fault) (h : checkTriangle v0 v1 v2 vb ib g = Except.error e) :
    e = Fault.outOfBounds := by
  unfold checkTriangle at h
  refine forEach_error (fun e => e = Fault.outOfBounds) _ _ ?_ g e h
  intro z _ g1 e1 h1
  refine forEach_error (fun e => e = Fault.outOfBounds) _ _ ?_ g1 e1 h1
  intro y _ g2 e2 h2
  refine forEach_error (fun e => e = Fault.outOfBounds) _ _ ?_ g2 e2 h2
  intro x _ g3 e3 h3
  exact checkTriangleCell_error _ _ _ _ _ _ _ _ _ _ h3

theorem checkVoxelLoop_error (x y z : Int) (vb : List Vertex) (ib : List Nat) (g : Grid)
    (starts : List Nat) (e : Fault)
    (h : checkVoxelLoop x y z vb ib g starts = Except.error e) : e = Fault.outOfBounds := by
  induction starts with
  | nil => cases h
  | cons s rest ih =>
    unfold checkVoxelLoop at h
    cases ht : fetchTriangle vb ib s with
    | error e0 =>
      rw [ht] at h
      cases h
      exact fetchTriangle_error _ _ _ _ ht
    | ok t =>
      obtain ⟨v0, v1, v2⟩ := t
      rw [ht] at h
      dsimp only at h
      obtain ⟨r, hr⟩ := intersectTriangleCube_voxel_total v0 v1 v2 x y z
      rw [hr] at h
      cases r
      · exact ih h
      · exact gridSet_error _ _ _ h

theorem grid_ext (g1 g2 : Grid) (hl : g1.length = g2.length)
    (h : ∀ i, gridGet g1 i = true ↔ gridGet g2 i = true) : g1 = g2 := by
  apply List.ext_getElem hl
  intro n h1 h2
  have := h n
  unfold gridGet at this
  rw [List.getD_eq_getElem _ _ h1, List.getD_eq_getElem _ _ h2] at this
  cases ha : g1[n] <;> cases hb : g2[n] <;> simp_all

theorem gridSet_of_set (g : Grid) (idx : Nat) (h : gridGet g idx = true) :
    gridSet g idx = Except.ok g := by
  have hlt : idx < g.length := by
    by_contra hge
    unfold gridGet at h
    rw [List.getD_eq_default _ _ (by omega)] at h
    cases h
  obtain ⟨g', h1, h2⟩ := gridSet_marks g idx hlt
  rw [h1]
  congr 1
  apply grid_ext _ _ h2.1
  intro i
  rw [h2.2 i]
  constructor
  · rintro (hi | rfl)
    · exact hi
    · exact h
  · exact Or.inl

theorem get3DIndex_grid_any (x y z : Int) (hx0 : 0 ≤ x) (hx1 : x < 65536) (hy0 : 0 ≤ y)
    (hy1 : y < 65536) (hz0 : 0 ≤ z) (hz1 : z < 65536) :
    (get3DIndex x y z cGridX cGridY : Int) = x + y * 128 + z * 128 * 128 := by
  unfold get3DIndex wrapInt toSizeT
  simp only [cGridX, cGridY]
  omega

theorem checkVoxelLoop_hit (x y z : Int) (vb : List Vertex) (ib : List Nat) (g : Grid)
    (starts : List Nat) (hs : ∀ s ∈ starts, ∃ t, fetchTriangle vb ib s = Except.ok t)
    (hhit : ∃ s ∈ starts, ∃ v0 v1 v2, fetchTriangle vb ib s = Except.ok (v0, v1, v2) ∧
      intersectTriangleCube v0 v1 v2 (voxelMin x y z) (voxelMax x y z) = Except.ok true) :
    checkVoxelLoop x y z vb ib g starts = gridSet g (get3DIndex x y z cGridX cGridY) := by
  induction starts with
  | nil =>
    obtain ⟨s, hs', -⟩ := hhit
    cases hs'
  | cons s rest ih =>
    obtain ⟨⟨v0, v1, v2⟩, ht⟩ := hs s (List.mem_cons_self _ _)
    obtain ⟨r, hr⟩ := intersectTriangleCube_voxel_total v0 v1 v2 x y z
    unfold checkVoxelLoop
    simp only [ht, hr]
    cases r
    · apply ih (fun s' hs' => hs s' (List.mem_cons_of_mem _ hs'))
      obtain ⟨s', hs', w0, w1, w2, hf, hw⟩ := hhit
      rcases List.mem_cons.1 hs' with rfl | hmem
      · rw [ht] at hf
        simp only [Except.ok.injEq, Prod.mk.injEq] at hf
        obtain ⟨rfl, rfl, rfl⟩ := hf
        rw [hr] at hw
        cases hw
      · exact ⟨s', hmem, w0, w1, w2, hf, hw⟩
    · rfl

theorem cornerVertices_valid : ValidMesh cornerVertices [0, 1, 2] :=
  ⟨by decide, by decide⟩

theorem cornerVertices_hits : MeshHits cornerVertices [0, 1, 2] 128 0 0 := by
  refine ⟨0, by decide, Vec3.ofRat 1 0 0, Vec3.ofRat 0 1 0, Vec3.ofRat 0 0 1, rfl, ?_⟩
  rw [voxelMin_eq, voxelMax_eq]
  norm_num [intersectTriangleCube, intersectLineCube, insideBox, Vec3.ofRat, F64.le, F64.ge]

theorem single_triangle_marks (v0 v1 v2 : Vec3) :
    ∃ g, mainSequentialTriangle [⟨v0⟩, ⟨v1⟩, ⟨v2⟩] [0, 1, 2] emptyGrid = Except.ok g ∧
      g.length = emptyGrid.length ∧
      ∀ i, gridGet g i = true ↔
        ∃ x y z, InGrid x y z ∧ i = get3DIndex x y z cGridX cGridY ∧
          TriangleHits v0 v1 v2 x y z := by
  have hv : ValidMesh [(⟨v0⟩ : Vertex), ⟨v1⟩, ⟨v2⟩] [0, 1, 2] := by
    refine ⟨by decide, ?_⟩
    intro k hk
    simp only [List.mem_cons, List.mem_singleton, List.mem_nil_iff, or_false] at hk
    simp only [List.length_cons, List.length_nil]
    omega
  have hf : fetchTriangle [(⟨v0⟩ : Vertex), ⟨v1⟩, ⟨v2⟩] [0, 1, 2] 0 = Except.ok (v0, v1, v2) := rfl
  obtain ⟨g, h1, m1⟩ := mainSequentialTriangle_marks _ _ hv emptyGrid emptyGrid_length
  refine ⟨g, h1, m1.1, ?_⟩
  intro i
  rw [m1.2 i]
  constructor
  · rintro (h | ⟨s, hs, w0, w1, w2, hw, hrest⟩)
    · rw [gridGet_emptyGrid] at h
      cases h
    · have hs0 : s = 0 := by
        have := (mem_triangleStarts _ _).1 hs
        simp only [List.length_cons, List.length_nil] at this
        omega
      subst hs0
      rw [hf] at hw
      simp only [Except.ok.injEq, Prod.mk.injEq] at hw
      obtain ⟨rfl, rfl, rfl⟩ := hw
      exact hrest
  · intro h
    exact Or.inr ⟨0, by decide, v0, v1, v2, hf, h⟩

theorem strictlyWithin_fin (p : Vec3) (a b c d e f : ℚ) :
    Vec3.strictlyWithin p (Vec3.ofRat a b c) (Vec3.ofRat d e f) ↔
      ∃ px py pz : ℚ, p = Vec3.ofRat px py pz ∧ (a < px ∧ px < d) ∧ (b < py ∧ py < e) ∧
        (c < pz ∧ pz < f) := by
  obtain ⟨px, py, pz⟩ := p
  constructor
  · intro h
    cases px <;> cases py <;> cases pz <;>
      simp [Vec3.strictlyWithin, Vec3.ofRat, F64.lt] at h
    rename_i qx qy qz
    exact ⟨qx, qy, qz, rfl, ⟨h.1, h.2.1⟩, ⟨h.2.2.1, h.2.2.2.1⟩, ⟨h.2.2.2.2.1, h.2.2.2.2.2⟩⟩
  · rintro ⟨qx, qy, qz, hp, ⟨h1, h2⟩, ⟨h3, h4⟩, ⟨h5, h6⟩⟩
    simp only [Vec3.ofRat, Vec3.mk.injEq] at hp
    obtain ⟨rfl, rfl, rfl⟩ := hp
    simp [Vec3.strictlyWithin, Vec3.ofRat, F64.lt, h1, h2, h3, h4, h5, h6]

theorem strictlyWithin_within (p lo hi : Vec3) (h : Vec3.strictlyWithin p lo hi) :
    Vec3.within p lo hi := by
  have key : ∀ a b : F64, F64.lt a b = true → F64.le a b = true := by
    intro a b hab
    cases a <;> cases b <;> simp [F64.lt, F64.le] at hab ⊢
    exact hab.le
  obtain ⟨h1, h2, h3, h4, h5, h6⟩ := h
  exact ⟨key _ _ h1, key _ _ h2, key _ _ h3, key _ _ h4, key _ _ h5, key _ _ h6⟩

theorem pruned_fin (a0 a1 a2 b0 b1 b2 c0 c1 c2 : ℚ) (x y z : Int) :
    pruned (Vec3.min (Vec3.ofRat a0 b0 c0) (Vec3.min (Vec3.ofRat a1 b1 c1) (Vec3.ofRat a2 b2 c2)))
      (Vec3.max (Vec3.ofRat a0 b0 c0) (Vec3.max (Vec3.ofRat a1 b1 c1) (Vec3.ofRat a2 b2 c2)))
      (voxelMin x y z) (voxelMax x y z) = false ↔
    (min a0 (min a1 a2) ≤ (x : ℚ) / 128 + 1 / 256 ∧ (x : ℚ) / 128 - 1 / 256 ≤ max a0 (max a1 a2)) ∧
    (min b0 (min b1 b2) ≤ (y : ℚ) / 128 + 1 / 256 ∧ (y : ℚ) / 128 - 1 / 256 ≤ max b0 (max b1 b2)) ∧
    (min c0 (min c1 c2) ≤ (z : ℚ) / 128 + 1 / 256 ∧ (z : ℚ) / 128 - 1 / 256 ≤ max c0 (max c1 c2)) := by
  rw [voxelMin_eq, voxelMax_eq]
  simp only [pruned, Vec3.min, Vec3.max, Vec3.ofRat, stdMin_fin, stdMax_fin, F64.gt, F64.lt,
    Bool.or_eq_false_iff, decide_eq_false_iff_not, not_lt]
  tauto

theorem axis_unique (x x' : Int) (a0 a1 a2 : ℚ)
    (h0 : (x : ℚ) / 128 - 1 / 256 < a0 ∧ a0 < (x : ℚ) / 128 + 1 / 256)
    (h1 : (x : ℚ) / 128 - 1 / 256 < a1 ∧ a1 < (x : ℚ) / 128 + 1 / 256)
    (h2 : (x : ℚ) / 128 - 1 / 256 < a2 ∧ a2 < (x : ℚ) / 128 + 1 / 256)
    (hp : min a0 (min a1 a2) ≤ (x' : ℚ) / 128 + 1 / 256 ∧
      (x' : ℚ) / 128 - 1 / 256 ≤ max a0 (max a1 a2)) : x' = x := by
  have hmin : (x : ℚ) / 128 - 1 / 256 < min a0 (min a1 a2) :=
    lt_min h0.1 (lt_min h1.1 h2.1)
  have hmax : max a0 (max a1 a2) < (x : ℚ) / 128 + 1 / 256 :=
    max_lt h0.2 (max_lt h1.2 h2.2)
  have e1 : (x : ℚ) < x' + 1 := by linarith [hp.1]
  have e2 : (x' : ℚ) < x + 1 := by linarith [hp.2]
  have i1 : x < x' + 1 := by exact_mod_cast e1
  have i2 : x' < x + 1 := by exact_mod_cast e2
  omega

theorem axis_not_pruned (x : Int) (a0 a1 a2 : ℚ)
    (h0 : (x : ℚ) / 128 - 1 / 256 < a0 ∧ a0 < (x : ℚ) / 128 + 1 / 256) :
    min a0 (min a1 a2) ≤ (x : ℚ) / 128 + 1 / 256 ∧
      (x : ℚ) / 128 - 1 / 256 ≤ max a0 (max a1 a2) :=
  ⟨le_trans (min_le_left _ _) h0.2.le, le_trans h0.1.le (le_max_left _ _)⟩

theorem triangleHits_of_inside (v0 v1 v2 : Vec3) (x y z : Int)
    (hp : pruned (Vec3.min v0 (Vec3.min v1 v2)) (Vec3.max v0 (Vec3.max v1 v2)) (voxelMin x y z)
      (voxelMax x y z) = false)
    (h0 : Vec3.within v0 (voxelMin x y z) (voxelMax x y z)) : TriangleHits v0 v1 v2 x y z := by
  refine ⟨hp, ?_⟩
  unfold intersectTriangleCube intersectLineCube
  rw [(insideBox_iff _ _ _).2 h0]
  rfl

theorem hits_of_first_inside (v0 v1 v2 : Vec3) (x y z : Int)
    (hp : pruned (Vec3.min v0 (Vec3.min v1 v2)) (Vec3.max v0 (Vec3.max v1 v2)) (voxelMin x y z)
      (voxelMax x y z) = false)
    (h1 : insideBox v0 (voxelMin x y z) (voxelMax x y z) = true ∨
      insideBox v1 (voxelMin x y z) (voxelMax x y z) = true) : TriangleHits v0 v1 v2 x y z := by
  refine ⟨hp, ?_⟩
  unfold intersectTriangleCube intersectLineCube
  rcases h1 with h | h
  · rw [h]
    rfl
  · rw [h]
    cases insideBox v0 (voxelMin x y z) (voxelMax x y z) <;> rfl

theorem ofAxes_axes (x y z : ℚ) : Vec3.ofAxes (axes x y z) = Vec3.ofRat x y z := rfl

theorem voxel64_bounds :
    voxelMin 64 64 64 = Vec3.ofAxes (axes (127 / 256) (127 / 256) (127 / 256)) ∧
    voxelMax 64 64 64 = Vec3.ofAxes (axes (129 / 256) (129 / 256) (129 / 256)) := by
  rw [voxelMin_eq, voxelMax_eq, ofAxes_axes, ofAxes_axes]
  constructor <;> norm_num [Vec3.ofRat]

theorem voxel050_bounds :
    voxelMin 0 5 0 = Vec3.ofAxes (axes (-1 / 256) (9 / 256) (-1 / 256)) ∧
    voxelMax 0 5 0 = Vec3.ofAxes (axes (1 / 256) (11 / 256) (1 / 256)) := by
  rw [voxelMin_eq, voxelMax_eq, ofAxes_axes, ofAxes_axes]
  constructor <;> norm_num [Vec3.ofRat]

/-! ## Lemmas on binary64 rounding -/

theorem roundHalfEven_intCast (n : Int) : roundHalfEven (n : ℚ) = n := by
  simp [roundHalfEven]

theorem roundHalfEven_of_near (x : ℚ) (n : Int) (h : |x - n| < 1 / 2) : roundHalfEven x = n := by
  rw [abs_lt] at h
  obtain ⟨h1, h2⟩ := h
  unfold roundHalfEven
  have hf1 : ((⌊x⌋ : Int) : ℚ) ≤ x := Int.floor_le x
  have hf2 : x < (⌊x⌋ : ℚ) + 1 := Int.lt_floor_add_one x
  split_ifs with a b c
  · -- x - floor < 1/2, so floor = n
    have h3 : (n : ℚ) - 1 < (⌊x⌋ : ℚ) := by linarith
    have h4 : ((⌊x⌋ : Int) : ℚ) < (n : ℚ) + 1 := by linarith
    have h3' : n - 1 < ⌊x⌋ := by exact_mod_cast h3
    have h4' : ⌊x⌋ < n + 1 := by exact_mod_cast h4
    omega
  · have h3 : (n : ℚ) - 1 < (⌊x⌋ : ℚ) + 1 := by linarith
    have h4 : ((⌊x⌋ : Int) : ℚ) + 1 < (n : ℚ) + 1 := by linarith
    have h3' : n - 1 < ⌊x⌋ + 1 := by exact_mod_cast h3
    have h4' : ⌊x⌋ + 1 < n + 1 := by exact_mod_cast h4
    omega
  · exfalso
    have e : x - (⌊x⌋ : ℚ) = 1 / 2 := le_antisymm (not_lt.1 b) (not_lt.1 a)
    have h3 : (n : ℚ) - 1 < (⌊x⌋ : ℚ) := by linarith
    have h4 : ((⌊x⌋ : Int) : ℚ) < (n : ℚ) := by linarith
    have h3' : n - 1 < ⌊x⌋ := by exact_mod_cast h3
    have h4' : ⌊x⌋ < n := by exact_mod_cast h4
    omega
  · exfalso
    have e : x - (⌊x⌋ : ℚ) = 1 / 2 := le_antisymm (not_lt.1 b) (not_lt.1 a)
    have h3 : (n : ℚ) - 1 < (⌊x⌋ : ℚ) := by linarith
    have h4 : ((⌊x⌋ : Int) : ℚ) < (n : ℚ) := by linarith
    have h3' : n - 1 < ⌊x⌋ := by exact_mod_cast h3
    have h4' : ⌊x⌋ < n := by exact_mod_cast h4
    omega

/-- The rounded value lies between the floor and the floor plus one. -/
theorem roundHalfEven_bounds (x : ℚ) : ⌊x⌋ ≤ roundHalfEven x ∧ roundHalfEven x ≤ ⌊x⌋ + 1 := by
  unfold roundHalfEven
  split_ifs <;> omega

theorem roundHalfEven_mono (x y : ℚ) (h : x ≤ y) : roundHalfEven x ≤ roundHalfEven y := by
  rcases lt_or_eq_of_le (Int.floor_mono h) with hlt | heq
  · -- floors differ
    have := (roundHalfEven_bounds x).2
    have := (roundHalfEven_bounds y).1
    omega
  · unfold roundHalfEven
    rw [← heq]
    have hx : x - (⌊x⌋ : ℚ) ≤ y - (⌊x⌋ : ℚ) := by linarith
    split_ifs <;> first | omega | (exfalso; linarith)

theorem roundHalfEven_le_of_le (x : ℚ) (n : Int) (h : x ≤ n) : roundHalfEven x ≤ n := by
  have := roundHalfEven_mono x n h
  rwa [roundHalfEven_intCast] at this

theorem le_roundHalfEven_of_le (x : ℚ) (n : Int) (h : (n : ℚ) ≤ x) : n ≤ roundHalfEven x := by
  have := roundHalfEven_mono n x h
  rwa [roundHalfEven_intCast] at this

theorem exponent_ge (q : ℚ) : -1022 ≤ F64.exponent q := le_max_right _ _

theorem abs_lt_exponent (q : ℚ) : |q| < (2 : ℚ) ^ (F64.exponent q + 1) := by
  have h := Int.lt_zpow_succ_log_self (b := 2) (by norm_num) |q|
  rw [Nat.cast_ofNat] at h
  refine lt_of_lt_of_le h ?_
  apply zpow_le_zpow_right₀ (by norm_num)
  have : Int.log 2 |q| ≤ F64.exponent q := le_max_left _ _
  omega

theorem exponent_le_abs (q : ℚ) (hq0 : q ≠ 0) (h : -1022 < F64.exponent q) :
    (2 : ℚ) ^ F64.exponent q ≤ |q| := by
  have he : F64.exponent q = Int.log 2 |q| := by
    unfold F64.exponent at h ⊢
    rcases le_total (Int.log 2 |q|) (-1022) with h' | h'
    · rw [max_eq_right h'] at h
      omega
    · exact max_eq_left h'
  have hq : 0 < |q| := abs_pos.2 hq0
  rw [he]
  have := Int.zpow_log_le_self (b := 2) (by norm_num) hq
  rwa [Nat.cast_ofNat] at this

theorem exponent_eq (q : ℚ) (e : Int) (h1 : (2 : ℚ) ^ e ≤ |q|) (h2 : |q| < (2 : ℚ) ^ (e + 1))
    (h3 : -1022 ≤ e) : F64.exponent q = e := by
  have hq : 0 < |q| := lt_of_lt_of_le (by positivity) h1
  have a1 : e ≤ Int.log 2 |q| := by
    rw [← Int.zpow_le_iff_le_log (by norm_num) hq, Nat.cast_ofNat]
    exact h1
  have a2 : Int.log 2 |q| < e + 1 := by
    rw [← Int.lt_zpow_iff_log_lt (by norm_num) hq, Nat.cast_ofNat]
    exact h2
  unfold F64.exponent
  rw [max_eq_left (by omega)]
  omega

theorem exponent_mono (a b : ℚ) (ha : a ≠ 0) (h : |a| ≤ |b|) :
    F64.exponent a ≤ F64.exponent b := by
  by_contra hlt
  have hlt : F64.exponent b < F64.exponent a := not_le.1 hlt
  have h1 := exponent_le_abs a ha (by have := exponent_ge b; omega)
  have h2 := abs_lt_exponent b
  have h3 : (2 : ℚ) ^ (F64.exponent b + 1) ≤ (2 : ℚ) ^ F64.exponent a :=
    zpow_le_zpow_right₀ (by norm_num) (by omega)
  linarith

theorem round_zero : F64.round 0 = F64.fin 0 := by
  simp [F64.round, roundHalfEven]

/-- The unit in the last place is positive. -/
theorem ulp_pos (e : Int) : (0 : ℚ) < 2 ^ (e - 52) := by positivity

theorem round_of_near (q : ℚ) (e n : Int) (he : F64.exponent q = e)
    (hn : |q / 2 ^ (e - 52) - n| < 1 / 2) (hfin : |(n : ℚ) * 2 ^ (e - 52)| < 2 ^ 1024) :
    F64.round q = F64.fin (n * 2 ^ (e - 52)) := by
  unfold F64.round
  simp only [he]
  rw [roundHalfEven_of_near _ n hn, if_neg (not_le.2 hfin)]

theorem round_exact (n k : Int) (hn : |n| < 2 ^ 53) (hk : -1074 ≤ k)
    (hfin : |(n : ℚ) * 2 ^ k| < 2 ^ 1024) : F64.round (n * 2 ^ k) = F64.fin (n * 2 ^ k) := by
  rcases eq_or_ne n 0 with hn0 | hn0
  · subst hn0
    simp [round_zero]
  have hq0 : (n : ℚ) * 2 ^ k ≠ 0 := mul_ne_zero (by exact_mod_cast hn0) (by positivity)
  have hle : F64.exponent ((n : ℚ) * 2 ^ k) - 52 ≤ k := by
    rcases eq_or_lt_of_le (exponent_ge ((n : ℚ) * 2 ^ k)) with h | h
    · omega
    · have h1 := exponent_le_abs _ hq0 h
      rw [abs_mul, abs_of_pos (by positivity : (0 : ℚ) < 2 ^ k)] at h1
      have h2 : |(n : ℚ)| < 2 ^ (53 : Int) := by
        have : ((|n| : Int) : ℚ) < ((2 ^ 53 : Int) : ℚ) := by exact_mod_cast hn
        rw [Int.cast_abs] at this
        norm_num at this ⊢
        exact this
      have h3 : (2 : ℚ) ^ F64.exponent ((n : ℚ) * 2 ^ k) < 2 ^ (53 + k) := by
        rw [zpow_add₀ (by norm_num)]
        exact lt_of_le_of_lt h1 (mul_lt_mul_of_pos_right h2 (by positivity))
      have := (zpow_lt_zpow_iff_right₀ (by norm_num : (1 : ℚ) < 2)).1 h3
      omega
  obtain ⟨d, hd⟩ : ∃ d : Nat, k = F64.exponent ((n : ℚ) * 2 ^ k) - 52 + d :=
    ⟨(k - (F64.exponent ((n : ℚ) * 2 ^ k) - 52)).toNat, by omega⟩
  have hq : (n : ℚ) * 2 ^ k / 2 ^ (F64.exponent ((n : ℚ) * 2 ^ k) - 52) = ((n * 2 ^ d : Int) : ℚ) := by
    rw [div_eq_iff (ulp_pos _).ne']
    conv_lhs => rw [hd]
    rw [zpow_add₀ (by norm_num), zpow_natCast]
    push_cast
    ring
  have := round_of_near ((n : ℚ) * 2 ^ k) _ (n * 2 ^ d) rfl (by rw [hq]; simp) (by
    rw [← hq, div_mul_cancel₀ _ (ulp_pos _).ne']
    exact hfin)
  rw [this, ← hq, div_mul_cancel₀ _ (ulp_pos _).ne']

theorem round_one : F64.round 1 = F64.fin 1 := by
  have := round_exact 1 0 (by norm_num) (by norm_num) (by norm_num)
  simpa using this

/-- The rounded magnitude of `q` in units of the last place, as a rational. -/
theorem round_eq_ite (q : ℚ) :
    F64.round q =
      if (2 : ℚ) ^ 1024 ≤ |(roundHalfEven (q / 2 ^ (F64.exponent q - 52)) : ℚ) *
          2 ^ (F64.exponent q - 52)|
      then F64.signedInf (decide (0 < q))
      else F64.fin (roundHalfEven (q / 2 ^ (F64.exponent q - 52)) * 2 ^ (F64.exponent q - 52)) :=
  rfl

theorem roundHalfEven_nonneg (x : ℚ) (h : 0 ≤ x) : 0 ≤ roundHalfEven x :=
  le_roundHalfEven_of_le x 0 (by simpa using h)

/-- The candidate value of a non-negative number is non-negative. -/
theorem candidate_nonneg (q : ℚ) (h : 0 ≤ q) :
    (0 : ℚ) ≤ (roundHalfEven (q / 2 ^ (F64.exponent q - 52)) : ℚ) * 2 ^ (F64.exponent q - 52) := by
  apply mul_nonneg _ (ulp_pos _).le
  exact_mod_cast roundHalfEven_nonneg _ (div_nonneg h (ulp_pos _).le)

/-- The candidate values of two non-negative numbers are ordered as the numbers are. -/
theorem candidate_mono (a b : ℚ) (h0 : 0 < a) (h : a ≤ b) :
    (roundHalfEven (a / 2 ^ (F64.exponent a - 52)) : ℚ) * 2 ^ (F64.exponent a - 52) ≤
      (roundHalfEven (b / 2 ^ (F64.exponent b - 52)) : ℚ) * 2 ^ (F64.exponent b - 52) := by
  have hb0 : 0 < b := lt_of_lt_of_le h0 h
  have hexp := exponent_mono a b h0.ne' (by rw [abs_of_pos h0, abs_of_pos hb0]; exact h)
  rcases eq_or_lt_of_le hexp with he | hlt
  · rw [← he]
    apply mul_le_mul_of_nonneg_right _ (ulp_pos _).le
    exact_mod_cast roundHalfEven_mono _ _ (div_le_div_of_nonneg_right h (ulp_pos _).le)
  · -- different binades: a power of two lies between the two candidates
    have ha := abs_lt_exponent a
    rw [abs_of_pos h0] at ha
    have hb := exponent_le_abs b hb0.ne' (by have := exponent_ge a; omega)
    rw [abs_of_pos hb0] at hb
    have e1 : (2 : ℚ) ^ (F64.exponent a + 1) = 2 ^ (53 : Int) * 2 ^ (F64.exponent a - 52) := by
      rw [← zpow_add₀ (by norm_num)]
      congr 1
      omega
    have e2 : (2 : ℚ) ^ (F64.exponent b) = 2 ^ (52 : Int) * 2 ^ (F64.exponent b - 52) := by
      rw [← zpow_add₀ (by norm_num)]
      congr 1
      omega
    have n1 : roundHalfEven (a / 2 ^ (F64.exponent a - 52)) ≤ 2 ^ 53 := by
      apply roundHalfEven_le_of_le
      rw [div_le_iff₀ (ulp_pos _)]
      push_cast
      have h53 : (2 : ℚ) ^ (53 : Int) = 9007199254740992 := by norm_num
      rw [e1, h53] at ha
      exact ha.le
    have n2 : 2 ^ 52 ≤ roundHalfEven (b / 2 ^ (F64.exponent b - 52)) := by
      apply le_roundHalfEven_of_le
      rw [le_div_iff₀ (ulp_pos _)]
      push_cast
      have h52 : (2 : ℚ) ^ (52 : Int) = 4503599627370496 := by norm_num
      rw [e2, h52] at hb
      exact hb
    have m1 : (roundHalfEven (a / 2 ^ (F64.exponent a - 52)) : ℚ) * 2 ^ (F64.exponent a - 52) ≤
        2 ^ (F64.exponent a + 1) := by
      rw [e1]
      apply mul_le_mul_of_nonneg_right _ (ulp_pos _).le
      have : ((roundHalfEven (a / 2 ^ (F64.exponent a - 52)) : Int) : ℚ) ≤ ((2 ^ 53 : Int) : ℚ) := by
        exact_mod_cast n1
      norm_num at this ⊢
      exact this
    have m2 : (2 : ℚ) ^ (F64.exponent b) ≤
        (roundHalfEven (b / 2 ^ (F64.exponent b - 52)) : ℚ) * 2 ^ (F64.exponent b - 52) := by
      rw [e2]
      apply mul_le_mul_of_nonneg_right _ (ulp_pos _).le
      have : ((2 ^ 52 : Int) : ℚ) ≤ ((roundHalfEven (b / 2 ^ (F64.exponent b - 52)) : Int) : ℚ) := by
        exact_mod_cast n2
      norm_num at this ⊢
      exact this
    have m3 : (2 : ℚ) ^ (F64.exponent a + 1) ≤ 2 ^ (F64.exponent b) :=
      zpow_le_zpow_right₀ (by norm_num) (by omega)
    linarith

/-- Rounding a non-negative number gives a non-negative number or `+inf`. -/
theorem round_of_nonneg (q : ℚ) (h : 0 ≤ q) :
    F64.round q = F64.pinf ∨ ∃ r, F64.round q = F64.fin r ∧ 0 ≤ r := by
  rw [round_eq_ite]
  split_ifs with hov
  · left
    have hq : 0 < q := by
      rcases eq_or_lt_of_le h with h0 | h0
      · exfalso
        rw [← h0] at hov
        norm_num [roundHalfEven] at hov
      · exact h0
    simp [F64.signedInf, hq]
  · exact Or.inr ⟨_, rfl, candidate_nonneg q h⟩

/-- Rounding is monotone on the non-negative numbers. -/
theorem round_mono (a b : ℚ) (h0 : 0 ≤ a) (h : a ≤ b) :
    F64.le (F64.round a) (F64.round b) = true := by
  rcases eq_or_lt_of_le h0 with ha0 | ha0
  · rw [← ha0, round_zero]
    rcases round_of_nonneg b (h0.trans h) with e | ⟨r, e, hr⟩
    · rw [e]; rfl
    · rw [e]
      simpa [F64.le] using hr
  have hb0 : 0 < b := lt_of_lt_of_le ha0 h
  have hc := candidate_mono a b ha0 h
  have hna := candidate_nonneg a h0
  have hnb := candidate_nonneg b hb0.le
  rw [round_eq_ite a, round_eq_ite b]
  rw [abs_of_nonneg hna, abs_of_nonneg hnb]
  split_ifs with h1 h2 h2
  · simp [F64.signedInf, ha0, hb0, F64.le]
  · exfalso
    linarith [not_le.1 h2]
  · simp [F64.signedInf, hb0, F64.le]
  · simpa [F64.le] using hc

/-- A quotient in `[0, 1]` rounds to a number in `[0, 1]`. -/
theorem round_unit (q : ℚ) (h0 : 0 ≤ q) (h1 : q ≤ 1) :
    ∃ r, F64.round q = F64.fin r ∧ 0 ≤ r ∧ r ≤ 1 := by
  have hm := round_mono q 1 h0 h1
  rw [round_one] at hm
  rcases round_of_nonneg q h0 with e | ⟨r, e, hr⟩
  · rw [e] at hm
    cases hm
  · rw [e] at hm
    exact ⟨r, e, hr, by simpa [F64.le] using hm⟩

theorem binary64_add_fin (a b : ℚ) :
    Binary64.add (F64.fin a) (F64.fin b) = F64.round (a + b) := rfl

theorem binary64_sub_fin (a b : ℚ) :
    Binary64.sub (F64.fin a) (F64.fin b) = F64.round (a - b) := by
  simp only [Binary64.sub, F64.sub, F64.neg, F64.add, F64.rounded, sub_eq_add_neg]

theorem binary64_mul_fin (a b : ℚ) :
    Binary64.mul (F64.fin a) (F64.fin b) = F64.round (a * b) := rfl

theorem binary64_div_fin (a b : ℚ) (hb : b ≠ 0) :
    Binary64.div (F64.fin a) (F64.fin b) = F64.round (a / b) := by
  simp only [Binary64.div, F64.div, if_neg hb, F64.rounded]

/-- Evaluation of an inexact rounding: `q` lies in the binade of exponent `e`, and `n` is
the integer nearest to `q` in units of the last place. -/
theorem round_eval (q r : ℚ) (e n : Int) (h1 : (2 : ℚ) ^ e ≤ q ∨ (2 : ℚ) ^ e ≤ -q)
    (h2 : -(2 : ℚ) ^ (e + 1) < q ∧ q < (2 : ℚ) ^ (e + 1)) (h3 : -1022 ≤ e) (h4 : e ≤ 1022)
    (hn : -(1 / 2) < q / 2 ^ (e - 52) - n ∧ q / 2 ^ (e - 52) - n < 1 / 2)
    (hr : r = n * 2 ^ (e - 52)) : F64.round q = F64.fin r := by
  have he : F64.exponent q = e := exponent_eq q e (le_abs.2 h1) (abs_lt.2 h2) h3
  have hq : |q / 2 ^ (e - 52)| < 2 ^ (53 : Int) := by
    rw [abs_div, abs_of_pos (ulp_pos e), div_lt_iff₀ (ulp_pos e), ← zpow_add₀ (by norm_num)]
    have : (53 : Int) + (e - 52) = e + 1 := by omega
    rw [this]
    exact abs_lt.2 h2
  have hn' : |q / 2 ^ (e - 52) - n| < 1 / 2 := abs_lt.2 hn
  have hnb : |(n : ℚ)| < 2 ^ (53 : Int) + 1 / 2 := by
    have := abs_sub_abs_le_abs_sub (n : ℚ) (q / 2 ^ (e - 52))
    rw [abs_sub_comm] at hn'
    linarith
  rw [hr]
  apply round_of_near q e n he hn'
  rw [abs_mul, abs_of_pos (ulp_pos e)]
  have h5 : (2 : ℚ) ^ (e - 52) ≤ 2 ^ (970 : Int) := zpow_le_zpow_right₀ (by norm_num) (by omega)
  have h6 : |(n : ℚ)| * 2 ^ (e - 52) ≤ (2 ^ (53 : Int) + 1 / 2) * 2 ^ (970 : Int) :=
    mul_le_mul hnb.le h5 (ulp_pos e).le (by positivity)
  refine lt_of_le_of_lt h6 ?_
  norm_num

/-- Evaluation of an exact rounding: `q` is `m * 2^k` with `m` below `2^53`. -/
theorem round_eval_exact (q r : ℚ) (m k : Int) (hq : q = m * 2 ^ k) (hr : r = q)
    (hm : -2 ^ 53 < m ∧ m < 2 ^ 53) (hk : -1074 ≤ k) (hk' : k ≤ 970) :
    F64.round q = F64.fin r := by
  rw [hr, hq]
  apply round_exact m k (abs_lt.2 hm) hk
  rw [abs_mul, abs_of_pos (by positivity : (0 : ℚ) < 2 ^ k)]
  have h1 : |(m : ℚ)| ≤ 2 ^ (53 : Int) := by
    have : ((|m| : Int) : ℚ) ≤ ((2 ^ 53 : Int) : ℚ) := by exact_mod_cast (abs_lt.2 hm).le
    rw [Int.cast_abs] at this
    norm_num at this ⊢
    exact this
  have h2 : (2 : ℚ) ^ k ≤ 2 ^ (970 : Int) := zpow_le_zpow_right₀ (by norm_num) hk'
  have h3 : |(m : ℚ)| * 2 ^ k ≤ 2 ^ (53 : Int) * 2 ^ (970 : Int) :=
    mul_le_mul h1 h2 (by positivity) (by positivity)
  refine lt_of_le_of_lt h3 ?_
  norm_num

theorem roundHalfEven_of_tie (x : ℚ) (n : Int) (h : x - n = 1 / 2 ∨ x - n = -(1 / 2))
    (hn : n % 2 = 0) : roundHalfEven x = n := by
  have hf1 : ((⌊x⌋ : Int) : ℚ) ≤ x := Int.floor_le x
  have hf2 : x < (⌊x⌋ : ℚ) + 1 := Int.lt_floor_add_one x
  rcases h with h | h
  · have hfl : ⌊x⌋ = n := by
      rw [Int.floor_eq_iff]
      constructor <;> linarith
    unfold roundHalfEven
    rw [hfl, h]
    simp [hn]
  · have hfl : ⌊x⌋ = n - 1 := by
      rw [Int.floor_eq_iff]
      push_cast
      constructor <;> linarith
    have e : x - ((n - 1 : Int) : ℚ) = 1 / 2 := by
      push_cast
      linarith
    have hodd : ¬ (n - 1) % 2 = 0 := by omega
    unfold roundHalfEven
    rw [hfl, e]
    simp only [lt_self_iff_false, if_false, hodd]
    omega

/-- Evaluation of a rounding at a tie: `q` lies half way between two neighbours, and `n`
is the even one, in units of the last place. -/
theorem round_eval_tie (q r : ℚ) (e n : Int) (h1 : (2 : ℚ) ^ e ≤ q ∨ (2 : ℚ) ^ e ≤ -q)
    (h2 : -(2 : ℚ) ^ (e + 1) < q ∧ q < (2 : ℚ) ^ (e + 1)) (h3 : -1022 ≤ e) (h4 : e ≤ 1022)
    (hn : q / 2 ^ (e - 52) - n = 1 / 2 ∨ q / 2 ^ (e - 52) - n = -(1 / 2)) (heven : n % 2 = 0)
    (hr : r = n * 2 ^ (e - 52)) : F64.round q = F64.fin r := by
  have he : F64.exponent q = e := exponent_eq q e (le_abs.2 h1) (abs_lt.2 h2) h3
  have hq : |q / 2 ^ (e - 52)| < 2 ^ (53 : Int) := by
    rw [abs_div, abs_of_pos (ulp_pos e), div_lt_iff₀ (ulp_pos e), ← zpow_add₀ (by norm_num)]
    have : (53 : Int) + (e - 52) = e + 1 := by omega
    rw [this]
    exact abs_lt.2 h2
  have hn' : |q / 2 ^ (e - 52) - n| ≤ 1 / 2 := by
    rcases hn with h | h <;> rw [h] <;> norm_num [abs_of_pos]
  have hnb : |(n : ℚ)| < 2 ^ (53 : Int) + 1 := by
    have := abs_sub_abs_le_abs_sub (n : ℚ) (q / 2 ^ (e - 52))
    rw [abs_sub_comm] at hn'
    linarith
  have hfin : |(n : ℚ) * 2 ^ (e - 52)| < 2 ^ 1024 := by
    rw [abs_mul, abs_of_pos (ulp_pos e)]
    have h5 : (2 : ℚ) ^ (e - 52) ≤ 2 ^ (970 : Int) := zpow_le_zpow_right₀ (by norm_num) (by omega)
    have h6 : |(n : ℚ)| * 2 ^ (e - 52) ≤ (2 ^ (53 : Int) + 1) * 2 ^ (970 : Int) :=
      mul_le_mul hnb.le h5 (ulp_pos e).le (by positivity)
    refine lt_of_le_of_lt h6 ?_
    norm_num
  rw [hr]
  unfold F64.round
  simp only [he]
  rw [roundHalfEven_of_tie _ n hn heven, if_neg (not_le.2 hfin)]

/-- Below a number that rounds to a finite value, rounding gives a finite value that is
not larger. -/
theorem round_fin_of_le (a b rb : ℚ) (h0 : 0 ≤ a) (h : a ≤ b) (hb : F64.round b = F64.fin rb) :
    ∃ ra, F64.round a = F64.fin ra ∧ 0 ≤ ra ∧ ra ≤ rb := by
  have hm := round_mono a b h0 h
  rw [hb] at hm
  rcases round_of_nonneg a h0 with e | ⟨ra, e, hra⟩
  · rw [e] at hm
    cases hm
  · rw [e] at hm
    exact ⟨ra, e, hra, by simpa [F64.le] using hm⟩

theorem round_overflow (q : ℚ) (h : (2 : ℚ) ^ 1024 ≤ q) : F64.round q = F64.pinf := by
  have hq0 : 0 < q := lt_of_lt_of_le (by positivity) h
  have h1024 : (2 : ℚ) ^ (1024 : Int) ≤ |q| := by
    rw [abs_of_pos hq0, zpow_ofNat]
    exact h
  have he : 1024 ≤ F64.exponent q := by
    by_contra hlt
    have h2 := abs_lt_exponent q
    have h3 : (2 : ℚ) ^ (F64.exponent q + 1) ≤ 2 ^ (1024 : Int) :=
      zpow_le_zpow_right₀ (by norm_num) (by omega)
    linarith
  have hx := exponent_le_abs q hq0.ne' (by omega)
  rw [abs_of_pos hq0] at hx
  have e2 : (2 : ℚ) ^ (F64.exponent q) = 2 ^ (52 : Int) * 2 ^ (F64.exponent q - 52) := by
    rw [← zpow_add₀ (by norm_num)]
    congr 1
    omega
  have n2 : 2 ^ 52 ≤ roundHalfEven (q / 2 ^ (F64.exponent q - 52)) := by
    apply le_roundHalfEven_of_le
    rw [le_div_iff₀ (ulp_pos _)]
    push_cast
    have h52 : (2 : ℚ) ^ (52 : Int) = 4503599627370496 := by norm_num
    rw [e2, h52] at hx
    exact hx
  have m2 : (2 : ℚ) ^ (F64.exponent q) ≤
      (roundHalfEven (q / 2 ^ (F64.exponent q - 52)) : ℚ) * 2 ^ (F64.exponent q - 52) := by
    rw [e2]
    apply mul_le_mul_of_nonneg_right _ (ulp_pos _).le
    have : ((2 ^ 52 : Int) : ℚ) ≤ ((roundHalfEven (q / 2 ^ (F64.exponent q - 52)) : Int) : ℚ) := by
      exact_mod_cast n2
    norm_num at this ⊢
    exact this
  have m3 : (2 : ℚ) ^ (1024 : Int) ≤ 2 ^ (F64.exponent q) :=
    zpow_le_zpow_right₀ (by norm_num) he
  rw [round_eq_ite, abs_of_nonneg (candidate_nonneg q hq0.le), if_pos]
  · simp [F64.signedInf, hq0]
  · have : (2 : ℚ) ^ (1024 : Int) = 2 ^ 1024 := by norm_num
    rw [← this]
    exact m3.trans m2

/-- A rounded value is a fixed point of rounding. -/
theorem round_idem (q r : ℚ) (h : F64.round q = F64.fin r) : F64.round r = F64.fin r := by
  rw [round_eq_ite] at h
  split_ifs at h with hov
  · cases hq : decide (0 < q) <;> rw [hq] at h <;> cases h
  have hr := F64.fin.inj h
  have hfin := not_le.1 hov
  rw [hr] at hfin
  have hlt := abs_lt_exponent q
  have hn : |(roundHalfEven (q / 2 ^ (F64.exponent q - 52)) : ℚ)| ≤ 2 ^ (53 : Int) := by
    have hq : |q / 2 ^ (F64.exponent q - 52)| ≤ 2 ^ (53 : Int) := by
      rw [abs_div, abs_of_pos (ulp_pos _), div_le_iff₀ (ulp_pos _), ← zpow_add₀ (by norm_num)]
      have : (53 : Int) + (F64.exponent q - 52) = F64.exponent q + 1 := by omega
      rw [this]
      exact hlt.le
    rw [abs_le] at hq ⊢
    have h53 : (2 : ℚ) ^ (53 : Int) = ((2 ^ 53 : Int) : ℚ) := by norm_num
    rw [h53] at hq ⊢
    constructor
    · have := le_roundHalfEven_of_le _ (-(2 ^ 53)) (by push_cast; push_cast at hq; exact hq.1)
      exact_mod_cast this
    · have := roundHalfEven_le_of_le _ (2 ^ 53) hq.2
      exact_mod_cast this
  set n := roundHalfEven (q / 2 ^ (F64.exponent q - 52)) with hndef
  rcases lt_or_eq_of_le hn with hlt53 | heq53
  · have hn' : |n| < 2 ^ 53 := by
      have : ((|n| : Int) : ℚ) < ((2 ^ 53 : Int) : ℚ) := by
        rw [Int.cast_abs]
        norm_num at hlt53 ⊢
        exact hlt53
      exact_mod_cast this
    have := round_exact n (F64.exponent q - 52) hn' (by have := exponent_ge q; omega)
      (by rw [hr]; exact hfin)
    rw [hr] at this
    exact this
  · -- the candidate is a power of two
    have hcases : (n : ℚ) = 2 ^ (53 : Int) ∨ (n : ℚ) = -2 ^ (53 : Int) := by
      rcases abs_cases (n : ℚ) with ⟨e, -⟩ | ⟨e, -⟩
      · left; rw [← e]; exact heq53
      · right; rw [← heq53, e]; ring
    have e1 : (2 : ℚ) ^ (53 : Int) * 2 ^ (F64.exponent q - 52) = 2 ^ (F64.exponent q + 1) := by
      rw [← zpow_add₀ (by norm_num)]
      congr 1
      omega
    rcases hcases with e | e
    · have hr' : r = ((1 : Int) : ℚ) * 2 ^ (F64.exponent q + 1) := by
        rw [← hr, e, e1]
        simp
      have := round_exact 1 (F64.exponent q + 1) (by norm_num) (by have := exponent_ge q; omega)
        (by rw [← hr']; exact hfin)
      rw [← hr'] at this
      exact this
    · have hr' : r = ((-1 : Int) : ℚ) * 2 ^ (F64.exponent q + 1) := by
        rw [← hr, e, neg_mul, e1]
        simp
      have := round_exact (-1) (F64.exponent q + 1) (by norm_num)
        (by have := exponent_ge q; omega) (by rw [← hr']; exact hfin)
      rw [← hr'] at this
      exact this

/-! ## Lemmas on the predicates and the voxel bounds in binary64 -/

theorem binary64_intersectLineQuad_of_plane (p1 p2 quadMin quadMax : Vec3) (plane : Plane)
    (h : selectPlane quadMin quadMax = Except.ok plane) :
    Binary64.intersectLineQuad p1 p2 quadMin quadMax =
      if (F64.lt (Binary64.planeParam plane p1 p2 quadMin) (F64.fin 0) ||
          F64.gt (Binary64.planeParam plane p1 p2 quadMin) (F64.fin 1)) = true then
        Except.ok false
      else if outsideBox (Binary64.addVec p1 (Binary64.scaleVec (Binary64.subVec p2 p1)
          (Binary64.planeParam plane p1 p2 quadMin))) quadMin quadMax = true then Except.ok false
      else Except.ok true := by
  unfold Binary64.intersectLineQuad
  rw [h]

theorem binary64_intersectLineQuad_of_param_outside (p1 p2 quadMin quadMax : Vec3)
    (plane : Plane) (t : F64) (h : selectPlane quadMin quadMax = Except.ok plane)
    (ht : Binary64.planeParam plane p1 p2 quadMin = t)
    (hout : (F64.lt t (F64.fin 0) || F64.gt t (F64.fin 1)) = true) :
    Binary64.intersectLineQuad p1 p2 quadMin quadMax = Except.ok false := by
  rw [binary64_intersectLineQuad_of_plane _ _ _ _ plane h, ht, if_pos hout]

theorem binary64_intersectLineQuad_of_point (p1 p2 quadMin quadMax : Vec3) (plane : Plane)
    (t : F64) (point : Vec3) (r : Bool) (h : selectPlane quadMin quadMax = Except.ok plane)
    (ht : Binary64.planeParam plane p1 p2 quadMin = t)
    (hin : (F64.lt t (F64.fin 0) || F64.gt t (F64.fin 1)) = false)
    (hp : Binary64.addVec p1 (Binary64.scaleVec (Binary64.subVec p2 p1) t) = point)
    (hr : outsideBox point quadMin quadMax = r) :
    Binary64.intersectLineQuad p1 p2 quadMin quadMax = Except.ok (!r) := by
  rw [binary64_intersectLineQuad_of_plane _ _ _ _ plane h, ht, hp, hr, hin]
  cases r <;> rfl

theorem binary64_intersectLineCube_of_outside (p1 p2 cubeMin cubeMax : Vec3)
    (h1 : insideBox p1 cubeMin cubeMax = false) (h2 : insideBox p2 cubeMin cubeMax = false) :
    Binary64.intersectLineCube p1 p2 cubeMin cubeMax =
      Binary64.anyFace p1 p2 (cubeFaces cubeMin cubeMax) := by
  unfold Binary64.intersectLineCube
  rw [h1, h2]
  simp

theorem binary64_intersectLineCube_of_faces (p1 p2 : Vec3) (a b c d e f : F64)
    (r0 r1 r2 r3 r4 r5 : Bool)
    (h1 : insideBox p1 (Vec3.mk a b c) (Vec3.mk d e f) = false)
    (h2 : insideBox p2 (Vec3.mk a b c) (Vec3.mk d e f) = false)
    (f0 : Binary64.intersectLineQuad p1 p2 (Vec3.mk a b c) (Vec3.mk a e f) = Except.ok r0)
    (f1 : Binary64.intersectLineQuad p1 p2 (Vec3.mk d b c) (Vec3.mk d e f) = Except.ok r1)
    (f2 : Binary64.intersectLineQuad p1 p2 (Vec3.mk a b c) (Vec3.mk d b f) = Except.ok r2)
    (f3 : Binary64.intersectLineQuad p1 p2 (Vec3.mk a e c) (Vec3.mk d e f) = Except.ok r3)
    (f4 : Binary64.intersectLineQuad p1 p2 (Vec3.mk a b c) (Vec3.mk d e c) = Except.ok r4)
    (f5 : Binary64.intersectLineQuad p1 p2 (Vec3.mk a b f) (Vec3.mk d e f) = Except.ok r5) :
    Binary64.intersectLineCube p1 p2 (Vec3.mk a b c) (Vec3.mk d e f) =
      Except.ok (r0 || r1 || r2 || r3 || r4 || r5) := by
  rw [binary64_intersectLineCube_of_outside _ _ _ _ h1 h2]
  simp only [cubeFaces, Binary64.anyFace, f0, f1, f2, f3, f4, f5]
  cases r0 <;> cases r1 <;> cases r2 <;> cases r3 <;> cases r4 <;> cases r5 <;> rfl

theorem binary64_intersectTriangleCube_of_edges (v0 v1 v2 cubeMin cubeMax : Vec3)
    (r0 r1 r2 : Bool)
    (h0 : Binary64.intersectLineCube v0 v1 cubeMin cubeMax = Except.ok r0)
    (h1 : Binary64.intersectLineCube v1 v2 cubeMin cubeMax = Except.ok r1)
    (h2 : Binary64.intersectLineCube v2 v0 cubeMin cubeMax = Except.ok r2) :
    Binary64.intersectTriangleCube v0 v1 v2 cubeMin cubeMax = Except.ok (r0 || r1 || r2) := by
  simp only [Binary64.intersectTriangleCube, h0, h1, h2]
  cases r0 <;> cases r1 <;> cases r2 <;> rfl

/-- A multiple of a power of two with a numerator below `2^53` is a binary64 number. -/
theorem round_dyadic (n : Int) (k : Nat) (hn : -2 ^ 53 < n ∧ n < 2 ^ 53) (hk : k ≤ 1074) :
    F64.round ((n : ℚ) / 2 ^ k) = F64.fin ((n : ℚ) / 2 ^ k) := by
  apply round_eval_exact _ _ n (-(k : Int)) _ rfl hn (by omega) (by omega)
  rw [zpow_neg, zpow_natCast, div_eq_mul_inv]

theorem binary64_cVoxelSize : Binary64.mul Binary64.cVoxelSize (F64.fin (1 / 2)) =
    F64.fin (1 / 256) := by
  have h1 : Binary64.cVoxelSize = F64.fin (1 / 128) := by
    unfold Binary64.cVoxelSize
    simp only [F64.ofInt, cGridX]
    rw [binary64_div_fin _ _ (by norm_num)]
    exact round_eval_exact _ _ 1 (-7) (by norm_num) (by norm_num) (by norm_num) (by norm_num)
      (by norm_num)
  rw [h1, binary64_mul_fin]
  exact round_eval_exact _ _ 1 (-8) (by norm_num) (by norm_num) (by norm_num) (by norm_num)
    (by norm_num)

/-- One coordinate of the voxel bounds: for an `int` coordinate every operation is exact. -/
theorem binary64_voxel_axis (x : Int) (h0 : -2 ^ 31 ≤ x) (h1 : x < 2 ^ 31) :
    Binary64.div (F64.ofInt x) (F64.fin 128) = F64.fin ((x : ℚ) / 128) ∧
    Binary64.sub (F64.fin ((x : ℚ) / 128)) (F64.fin (1 / 256)) =
      F64.fin ((x : ℚ) / 128 - 1 / 256) ∧
    Binary64.add (F64.fin ((x : ℚ) / 128)) (F64.fin (1 / 256)) =
      F64.fin ((x : ℚ) / 128 + 1 / 256) := by
  refine ⟨?_, ?_, ?_⟩
  · unfold F64.ofInt
    rw [binary64_div_fin _ _ (by norm_num)]
    have := round_dyadic x 7 (by constructor <;> omega) (by norm_num)
    norm_num at this ⊢
    exact this
  · rw [binary64_sub_fin]
    have := round_dyadic (2 * x - 1) 8 (by constructor <;> omega) (by norm_num)
    have e : (((2 * x - 1 : Int)) : ℚ) / 2 ^ 8 = (x : ℚ) / 128 - 1 / 256 := by
      push_cast
      ring
    rw [e] at this
    exact this
  · rw [binary64_add_fin]
    have := round_dyadic (2 * x + 1) 8 (by constructor <;> omega) (by norm_num)
    have e : (((2 * x + 1 : Int)) : ℚ) / 2 ^ 8 = (x : ℚ) / 128 + 1 / 256 := by
      push_cast
      ring
    rw [e] at this
    exact this

/-- For `int` coordinates the voxel bounds computed in binary64 are the exact ones: every
intermediate result is a multiple of `1/256` that binary64 represents. -/
theorem binary64_voxel_bounds (x y z : Int) (hx : -2 ^ 31 ≤ x ∧ x < 2 ^ 31)
    (hy : -2 ^ 31 ≤ y ∧ y < 2 ^ 31) (hz : -2 ^ 31 ≤ z ∧ z < 2 ^ 31) :
    Binary64.voxelCenter x y z = voxelCenter x y z ∧
    Binary64.voxelMin x y z = voxelMin x y z ∧
    Binary64.voxelMax x y z = voxelMax x y z := by
  obtain ⟨cx, mx, px⟩ := binary64_voxel_axis x hx.1 hx.2
  obtain ⟨cy, my, py⟩ := binary64_voxel_axis y hy.1 hy.2
  obtain ⟨cz, mz, pz⟩ := binary64_voxel_axis z hz.1 hz.2
  have hc : Binary64.voxelCenter x y z =
      Vec3.ofRat ((x : ℚ) / 128) ((y : ℚ) / 128) ((z : ℚ) / 128) := by
    unfold Binary64.voxelCenter Binary64.divVec
    have e : F64.ofInt cGridX = F64.fin 128 ∧ F64.ofInt cGridY = F64.fin 128 ∧
        F64.ofInt cGridZ = F64.fin 128 := by
      simp [F64.ofInt, cGridX, cGridY, cGridZ]
    rw [e.1, e.2.1, e.2.2, cx, cy, cz]
    rfl
  refine ⟨?_, ?_, ?_⟩
  · rw [hc, voxelCenter_eq]
  · rw [voxelMin_eq]
    unfold Binary64.voxelMin
    rw [hc, binary64_cVoxelSize]
    simp only [Binary64.subVec, Vec3.splat, Vec3.ofRat, mx, my, mz]
  · rw [voxelMax_eq]
    unfold Binary64.voxelMax
    rw [hc, binary64_cVoxelSize]
    simp only [Binary64.addVec, Vec3.splat, Vec3.ofRat, px, py, pz]

/-- The failing input of claim C4 in binary64: every operation on it is exact or yields a
special value, `t` is `0 / 0 = NaN`, and `intersectLineQuad` returns true as it does over
the exact operations. -/
theorem binary64_accepts_in_plane_segment :
    Binary64.intersectLineQuad (Vec3.ofRat (1 / 256) 0 1) (Vec3.ofRat (1 / 256) 0 0)
      (Vec3.ofRat (1 / 256) (9 / 256) (-1 / 256))
      (Vec3.ofRat (1 / 256) (11 / 256) (1 / 256)) = Except.ok true := by
  have s1 : Binary64.sub (F64.fin (1 / 256)) (F64.fin (1 / 256)) = F64.fin 0 := by
    rw [binary64_sub_fin]
    exact round_eval_exact _ _ 0 0 (by norm_num) (by norm_num) (by norm_num) (by norm_num)
      (by norm_num)
  have s2 : Binary64.div (F64.fin 0) (F64.fin 0) = F64.nan := by
    norm_num [Binary64.div, F64.div, F64.sub, F64.add, F64.neg, F64.rounded, F64.signedInf,
      round_zero]
  have s3 : Binary64.sub (F64.fin 0) (F64.fin 0) = F64.fin 0 := by
    rw [binary64_sub_fin]
    exact round_eval_exact _ _ 0 0 (by norm_num) (by norm_num) (by norm_num) (by norm_num)
      (by norm_num)
  have s4 : Binary64.sub (F64.fin 0) (F64.fin 1) = F64.fin (-1) := by
    rw [binary64_sub_fin]
    exact round_eval_exact _ _ (-1) 0 (by norm_num) (by norm_num) (by norm_num) (by norm_num)
      (by norm_num)
  have s5 : Binary64.mul (F64.fin 0) F64.nan = F64.nan := by
    norm_num [Binary64.mul, F64.mul, F64.sub, F64.add, F64.neg, F64.rounded, F64.signedInf,
      round_zero]
  have s6 : Binary64.mul (F64.fin (-1)) F64.nan = F64.nan := by
    norm_num [Binary64.mul, F64.mul, F64.sub, F64.add, F64.neg, F64.rounded, F64.signedInf,
      round_zero]
  have s7 : Binary64.add (F64.fin (1 / 256)) F64.nan = F64.nan := by
    norm_num [Binary64.add, F64.add, F64.sub, F64.add, F64.neg, F64.rounded, F64.signedInf,
      round_zero]
  have s8 : Binary64.add (F64.fin 0) F64.nan = F64.nan := by
    norm_num [Binary64.add, F64.add, F64.sub, F64.add, F64.neg, F64.rounded, F64.signedInf,
      round_zero]
  have s9 : Binary64.add (F64.fin 1) F64.nan = F64.nan := by
    norm_num [Binary64.add, F64.add, F64.sub, F64.add, F64.neg, F64.rounded, F64.signedInf,
      round_zero]
  have f1 : Binary64.intersectLineQuad (Vec3.mk (F64.fin (1 / 256)) (F64.fin 0) (F64.fin 1))
      (Vec3.mk (F64.fin (1 / 256)) (F64.fin 0) (F64.fin 0))
      (Vec3.mk (F64.fin (1 / 256)) (F64.fin (9 / 256)) (F64.fin (-1 / 256)))
      (Vec3.mk (F64.fin (1 / 256)) (F64.fin (11 / 256)) (F64.fin (1 / 256))) = Except.ok true := by
    refine binary64_intersectLineQuad_of_point _ _ _ _ Plane.X F64.nan
      (Vec3.mk F64.nan F64.nan F64.nan) false ?_ ?_ ?_ ?_ ?_
    · norm_num [selectPlane, F64.eq]
    · simp only [Binary64.planeParam, Vec3.get, s1, s2]
    · norm_num [F64.lt, F64.gt]
    · simp only [Binary64.addVec, Binary64.scaleVec, Binary64.subVec, s1, s3, s4, s5, s6, s7, s8,
        s9]
    · norm_num [outsideBox, F64.lt, F64.gt]
  exact f1

/-- The failing input of claim C17 in binary64: `intersectLineCube` returns true on the
bounds of voxel `(0, 5, 0)` as it does over the exact operations. -/
theorem binary64_accepts_outside_segment :
    Binary64.intersectLineCube (Vec3.ofRat (1 / 256) 0 1) (Vec3.ofRat (1 / 256) 0 0)
      (Binary64.voxelMin 0 5 0) (Binary64.voxelMax 0 5 0) = Except.ok true := by
  have s1 : Binary64.sub (F64.fin (-1 / 256)) (F64.fin (1 / 256)) = F64.fin (-1 / 128) := by
    rw [binary64_sub_fin]
    exact round_eval_exact _ _ (-1) (-7) (by norm_num) (by norm_num) (by norm_num) (by norm_num)
      (by norm_num)
  have s2 : Binary64.sub (F64.fin (1 / 256)) (F64.fin (1 / 256)) = F64.fin 0 := by
    rw [binary64_sub_fin]
    exact round_eval_exact _ _ 0 0 (by norm_num) (by norm_num) (by norm_num) (by norm_num)
      (by norm_num)
  have s3 : Binary64.div (F64.fin (-1 / 128)) (F64.fin 0) = F64.ninf := by
    norm_num [Binary64.div, F64.div, F64.sub, F64.add, F64.neg, F64.rounded, F64.signedInf,
      round_zero]
  have s4 : Binary64.div (F64.fin 0) (F64.fin 0) = F64.nan := by
    norm_num [Binary64.div, F64.div, F64.sub, F64.add, F64.neg, F64.rounded, F64.signedInf,
      round_zero]
  have s5 : Binary64.sub (F64.fin 0) (F64.fin 0) = F64.fin 0 := by
    rw [binary64_sub_fin]
    exact round_eval_exact _ _ 0 0 (by norm_num) (by norm_num) (by norm_num) (by norm_num)
      (by norm_num)
  have s6 : Binary64.sub (F64.fin 0) (F64.fin 1) = F64.fin (-1) := by
    rw [binary64_sub_fin]
    exact round_eval_exact _ _ (-1) 0 (by norm_num) (by norm_num) (by norm_num) (by norm_num)
      (by norm_num)
  have s7 : Binary64.mul (F64.fin 0) F64.nan = F64.nan := by
    norm_num [Binary64.mul, F64.mul, F64.sub, F64.add, F64.neg, F64.rounded, F64.signedInf,
      round_zero]
  have s8 : Binary64.mul (F64.fin (-1)) F64.nan = F64.nan := by
    norm_num [Binary64.mul, F64.mul, F64.sub, F64.add, F64.neg, F64.rounded, F64.signedInf,
      round_zero]
  have s9 : Binary64.add (F64.fin (1 / 256)) F64.nan = F64.nan := by
    norm_num [Binary64.add, F64.add, F64.sub, F64.add, F64.neg, F64.rounded, F64.signedInf,
      round_zero]
  have s10 : Binary64.add (F64.fin 0) F64.nan = F64.nan := by
    norm_num [Binary64.add, F64.add, F64.sub, F64.add, F64.neg, F64.rounded, F64.signedInf,
      round_zero]
  have s11 : Binary64.add (F64.fin 1) F64.nan = F64.nan := by
    norm_num [Binary64.add, F64.add, F64.sub, F64.add, F64.neg, F64.rounded, F64.signedInf,
      round_zero]
  have s12 : Binary64.sub (F64.fin (9 / 256)) (F64.fin 0) = F64.fin (9 / 256) := by
    rw [binary64_sub_fin]
    exact round_eval_exact _ _ 9 (-8) (by norm_num) (by norm_num) (by norm_num) (by norm_num)
      (by norm_num)
  have s13 : Binary64.div (F64.fin (9 / 256)) (F64.fin 0) = F64.pinf := by
    norm_num [Binary64.div, F64.div, F64.sub, F64.add, F64.neg, F64.rounded, F64.signedInf,
      round_zero]
  have s14 : Binary64.sub (F64.fin (11 / 256)) (F64.fin 0) = F64.fin (11 / 256) := by
    rw [binary64_sub_fin]
    exact round_eval_exact _ _ 11 (-8) (by norm_num) (by norm_num) (by norm_num) (by norm_num)
      (by norm_num)
  have s15 : Binary64.div (F64.fin (11 / 256)) (F64.fin 0) = F64.pinf := by
    norm_num [Binary64.div, F64.div, F64.sub, F64.add, F64.neg, F64.rounded, F64.signedInf,
      round_zero]
  have s16 : Binary64.sub (F64.fin (-1 / 256)) (F64.fin 1) = F64.fin (-257 / 256) := by
    rw [binary64_sub_fin]
    exact round_eval_exact _ _ (-257) (-8) (by norm_num) (by norm_num) (by norm_num) (by norm_num)
      (by norm_num)
  have s17 : Binary64.div (F64.fin (-257 / 256)) (F64.fin (-1)) = F64.fin (257 / 256) := by
    rw [binary64_div_fin _ _ (by norm_num)]
    exact round_eval_exact _ _ 257 (-8) (by norm_num) (by norm_num) (by norm_num) (by norm_num)
      (by norm_num)
  have s18 : Binary64.sub (F64.fin (1 / 256)) (F64.fin 1) = F64.fin (-255 / 256) := by
    rw [binary64_sub_fin]
    exact round_eval_exact _ _ (-255) (-8) (by norm_num) (by norm_num) (by norm_num) (by norm_num)
      (by norm_num)
  have s19 : Binary64.div (F64.fin (-255 / 256)) (F64.fin (-1)) = F64.fin (255 / 256) := by
    rw [binary64_div_fin _ _ (by norm_num)]
    exact round_eval_exact _ _ 255 (-8) (by norm_num) (by norm_num) (by norm_num) (by norm_num)
      (by norm_num)
  have s20 : Binary64.mul (F64.fin 0) (F64.fin (255 / 256)) = F64.fin 0 := by
    rw [binary64_mul_fin]
    exact round_eval_exact _ _ 0 0 (by norm_num) (by norm_num) (by norm_num) (by norm_num)
      (by norm_num)
  have s21 : Binary64.mul (F64.fin (-1)) (F64.fin (255 / 256)) = F64.fin (-255 / 256) := by
    rw [binary64_mul_fin]
    exact round_eval_exact _ _ (-255) (-8) (by norm_num) (by norm_num) (by norm_num) (by norm_num)
      (by norm_num)
  have s22 : Binary64.add (F64.fin (1 / 256)) (F64.fin 0) = F64.fin (1 / 256) := by
    rw [binary64_add_fin]
    exact round_eval_exact _ _ 1 (-8) (by norm_num) (by norm_num) (by norm_num) (by norm_num)
      (by norm_num)
  have s23 : Binary64.add (F64.fin 0) (F64.fin 0) = F64.fin 0 := by
    rw [binary64_add_fin]
    exact round_eval_exact _ _ 0 0 (by norm_num) (by norm_num) (by norm_num) (by norm_num)
      (by norm_num)
  have s24 : Binary64.add (F64.fin 1) (F64.fin (-255 / 256)) = F64.fin (1 / 256) := by
    rw [binary64_add_fin]
    exact round_eval_exact _ _ 1 (-8) (by norm_num) (by norm_num) (by norm_num) (by norm_num)
      (by norm_num)
  have f0 : Binary64.intersectLineQuad (Vec3.mk (F64.fin (1 / 256)) (F64.fin 0) (F64.fin 1))
      (Vec3.mk (F64.fin (1 / 256)) (F64.fin 0) (F64.fin 0))
      (Vec3.mk (F64.fin (-1 / 256)) (F64.fin (9 / 256)) (F64.fin (-1 / 256)))
      (Vec3.mk (F64.fin (-1 / 256)) (F64.fin (11 / 256)) (F64.fin (1 / 256))) = Except.ok false := by
    refine binary64_intersectLineQuad_of_param_outside _ _ _ _ Plane.X F64.ninf ?_ ?_ ?_
    · norm_num [selectPlane, F64.eq]
    · simp only [Binary64.planeParam, Vec3.get, s1, s2, s3]
    · norm_num [F64.lt, F64.gt]
  have f1 : Binary64.intersectLineQuad (Vec3.mk (F64.fin (1 / 256)) (F64.fin 0) (F64.fin 1))
      (Vec3.mk (F64.fin (1 / 256)) (F64.fin 0) (F64.fin 0))
      (Vec3.mk (F64.fin (1 / 256)) (F64.fin (9 / 256)) (F64.fin (-1 / 256)))
      (Vec3.mk (F64.fin (1 / 256)) (F64.fin (11 / 256)) (F64.fin (1 / 256))) = Except.ok true := by
    refine binary64_intersectLineQuad_of_point _ _ _ _ Plane.X F64.nan
      (Vec3.mk F64.nan F64.nan F64.nan) false ?_ ?_ ?_ ?_ ?_
    · norm_num [selectPlane, F64.eq]
    · simp only [Binary64.planeParam, Vec3.get, s2, s4]
    · norm_num [F64.lt, F64.gt]
    · simp only [Binary64.addVec, Binary64.scaleVec, Binary64.subVec, s2, s5, s6, s7, s8, s9, s10,
        s11]
    · norm_num [outsideBox, F64.lt, F64.gt]
  have f2 : Binary64.intersectLineQuad (Vec3.mk (F64.fin (1 / 256)) (F64.fin 0) (F64.fin 1))
      (Vec3.mk (F64.fin (1 / 256)) (F64.fin 0) (F64.fin 0))
      (Vec3.mk (F64.fin (-1 / 256)) (F64.fin (9 / 256)) (F64.fin (-1 / 256)))
      (Vec3.mk (F64.fin (1 / 256)) (F64.fin (9 / 256)) (F64.fin (1 / 256))) = Except.ok false := by
    refine binary64_intersectLineQuad_of_param_outside _ _ _ _ Plane.Y F64.pinf ?_ ?_ ?_
    · norm_num [selectPlane, F64.eq]
    · simp only [Binary64.planeParam, Vec3.get, s12, s5, s13]
    · norm_num [F64.lt, F64.gt]
  have f3 : Binary64.intersectLineQuad (Vec3.mk (F64.fin (1 / 256)) (F64.fin 0) (F64.fin 1))
      (Vec3.mk (F64.fin (1 / 256)) (F64.fin 0) (F64.fin 0))
      (Vec3.mk (F64.fin (-1 / 256)) (F64.fin (11 / 256)) (F64.fin (-1 / 256)))
      (Vec3.mk (F64.fin (1 / 256)) (F64.fin (11 / 256)) (F64.fin (1 / 256))) = Except.ok false := by
    refine binary64_intersectLineQuad_of_param_outside _ _ _ _ Plane.Y F64.pinf ?_ ?_ ?_
    · norm_num [selectPlane, F64.eq]
    · simp only [Binary64.planeParam, Vec3.get, s14, s5, s15]
    · norm_num [F64.lt, F64.gt]
  have f4 : Binary64.intersectLineQuad (Vec3.mk (F64.fin (1 / 256)) (F64.fin 0) (F64.fin 1))
      (Vec3.mk (F64.fin (1 / 256)) (F64.fin 0) (F64.fin 0))
      (Vec3.mk (F64.fin (-1 / 256)) (F64.fin (9 / 256)) (F64.fin (-1 / 256)))
      (Vec3.mk (F64.fin (1 / 256)) (F64.fin (11 / 256)) (F64.fin (-1 / 256))) = Except.ok false := by
    refine binary64_intersectLineQuad_of_param_outside _ _ _ _ Plane.Z (F64.fin (257 / 256)) ?_ ?_
      ?_
    · norm_num [selectPlane, F64.eq]
    · simp only [Binary64.planeParam, Vec3.get, s16, s6, s17]
    · norm_num [F64.lt, F64.gt]
  have f5 : Binary64.intersectLineQuad (Vec3.mk (F64.fin (1 / 256)) (F64.fin 0) (F64.fin 1))
      (Vec3.mk (F64.fin (1 / 256)) (F64.fin 0) (F64.fin 0))
      (Vec3.mk (F64.fin (-1 / 256)) (F64.fin (9 / 256)) (F64.fin (1 / 256)))
      (Vec3.mk (F64.fin (1 / 256)) (F64.fin (11 / 256)) (F64.fin (1 / 256))) = Except.ok false := by
    refine binary64_intersectLineQuad_of_point _ _ _ _ Plane.Z (F64.fin (255 / 256))
      (Vec3.mk (F64.fin (1 / 256)) (F64.fin 0) (F64.fin (1 / 256))) true ?_ ?_ ?_ ?_ ?_
    · norm_num [selectPlane, F64.eq]
    · simp only [Binary64.planeParam, Vec3.get, s18, s6, s19]
    · norm_num [F64.lt, F64.gt]
    · simp only [Binary64.addVec, Binary64.scaleVec, Binary64.subVec, s2, s5, s6, s20, s21, s22,
        s23, s24]
    · norm_num [outsideBox, F64.lt, F64.gt]
  have fi1 : insideBox (Vec3.mk (F64.fin (1 / 256)) (F64.fin 0) (F64.fin 1))
      (Vec3.mk (F64.fin (-1 / 256)) (F64.fin (9 / 256)) (F64.fin (-1 / 256)))
      (Vec3.mk (F64.fin (1 / 256)) (F64.fin (11 / 256)) (F64.fin (1 / 256))) = false := by
    norm_num [insideBox, F64.le, F64.ge]
  have fi2 : insideBox (Vec3.mk (F64.fin (1 / 256)) (F64.fin 0) (F64.fin 0))
      (Vec3.mk (F64.fin (-1 / 256)) (F64.fin (9 / 256)) (F64.fin (-1 / 256)))
      (Vec3.mk (F64.fin (1 / 256)) (F64.fin (11 / 256)) (F64.fin (1 / 256))) = false := by
    norm_num [insideBox, F64.le, F64.ge]
  have hc : Binary64.intersectLineCube (Vec3.mk (F64.fin (1 / 256)) (F64.fin 0) (F64.fin 1))
      (Vec3.mk (F64.fin (1 / 256)) (F64.fin 0) (F64.fin 0))
      (Vec3.mk (F64.fin (-1 / 256)) (F64.fin (9 / 256)) (F64.fin (-1 / 256)))
      (Vec3.mk (F64.fin (1 / 256)) (F64.fin (11 / 256)) (F64.fin (1 / 256))) = Except.ok true :=
    binary64_intersectLineCube_of_faces _ _ _ _ _ _ _ _ _ _ _ _ _ _ fi1 fi2 f0 f1 f2 f3 f4 f5
  rw [(binary64_voxel_bounds 0 5 0 (by norm_num) (by norm_num) (by norm_num)).2.1,
    (binary64_voxel_bounds 0 5 0 (by norm_num) (by norm_num) (by norm_num)).2.2,
    voxelMin_eq, voxelMax_eq]
  norm_num [Vec3.ofRat] at hc ⊢
  exact hc

/-- A segment that crosses a voxel and is missed in binary64: the segment from the origin
to `(23/64, 0, 0)` runs through voxel `(31, 0, 0)`, the points computed on the Left and on
the Right face are one unit in the last place outside the face, and `intersectLineCube`
returns false. -/
theorem binary64_misses_crossing_segment :
    SegmentMeetsBox (axes 0 0 0) (axes (23 / 64) 0 0) (axes (61 / 256) (-1 / 256) (-1 / 256))
      (axes (63 / 256) (1 / 256) (1 / 256)) ∧
    Binary64.intersectLineCube (Vec3.ofRat 0 0 0) (Vec3.ofRat (23 / 64) 0 0)
      (Binary64.voxelMin 31 0 0) (Binary64.voxelMax 31 0 0) = Except.ok false := by
  have s1 : Binary64.sub (F64.fin (61 / 256)) (F64.fin 0) = F64.fin (61 / 256) := by
    rw [binary64_sub_fin]
    exact round_eval_exact _ _ 61 (-8) (by norm_num) (by norm_num) (by norm_num) (by norm_num)
      (by norm_num)
  have s2 : Binary64.sub (F64.fin (23 / 64)) (F64.fin 0) = F64.fin (23 / 64) := by
    rw [binary64_sub_fin]
    exact round_eval_exact _ _ 23 (-6) (by norm_num) (by norm_num) (by norm_num) (by norm_num)
      (by norm_num)
  have s3 : Binary64.div (F64.fin (61 / 256)) (F64.fin (23 / 64)) =
      F64.fin (5972164723252179 / 9007199254740992) := by
    rw [binary64_div_fin _ _ (by norm_num)]
    exact round_eval _ _ (-1) 5972164723252179 (by norm_num) (by norm_num) (by norm_num)
      (by norm_num) (by norm_num) (by norm_num)
  have s4 : Binary64.sub (F64.fin 0) (F64.fin 0) = F64.fin 0 := by
    rw [binary64_sub_fin]
    exact round_eval_exact _ _ 0 0 (by norm_num) (by norm_num) (by norm_num) (by norm_num)
      (by norm_num)
  have s5 : Binary64.mul (F64.fin (23 / 64)) (F64.fin (5972164723252179 / 9007199254740992)) =
      F64.fin (8584986789675007 / 36028797018963968) := by
    rw [binary64_mul_fin]
    exact round_eval _ _ (-3) 8584986789675007 (by norm_num) (by norm_num) (by norm_num)
      (by norm_num) (by norm_num) (by norm_num)
  have s6 : Binary64.mul (F64.fin 0) (F64.fin (5972164723252179 / 9007199254740992)) =
      F64.fin 0 := by
    rw [binary64_mul_fin]
    exact round_eval_exact _ _ 0 0 (by norm_num) (by norm_num) (by norm_num) (by norm_num)
      (by norm_num)
  have s7 : Binary64.add (F64.fin 0) (F64.fin (8584986789675007 / 36028797018963968)) =
      F64.fin (8584986789675007 / 36028797018963968) := by
    rw [binary64_add_fin]
    exact round_eval_exact _ _ 8584986789675007 (-55) (by norm_num) (by norm_num) (by norm_num)
      (by norm_num) (by norm_num)
  have s8 : Binary64.add (F64.fin 0) (F64.fin 0) = F64.fin 0 := by
    rw [binary64_add_fin]
    exact round_eval_exact _ _ 0 0 (by norm_num) (by norm_num) (by norm_num) (by norm_num)
      (by norm_num)
  have s9 : Binary64.sub (F64.fin (63 / 256)) (F64.fin 0) = F64.fin (63 / 256) := by
    rw [binary64_sub_fin]
    exact round_eval_exact _ _ 63 (-8) (by norm_num) (by norm_num) (by norm_num) (by norm_num)
      (by norm_num)
  have s10 : Binary64.div (F64.fin (63 / 256)) (F64.fin (23 / 64)) =
      F64.fin (6167973402703071 / 9007199254740992) := by
    rw [binary64_div_fin _ _ (by norm_num)]
    exact round_eval _ _ (-1) 6167973402703071 (by norm_num) (by norm_num) (by norm_num)
      (by norm_num) (by norm_num) (by norm_num)
  have s11 : Binary64.mul (F64.fin (23 / 64)) (F64.fin (6167973402703071 / 9007199254740992)) =
      F64.fin (8866461766385665 / 36028797018963968) := by
    rw [binary64_mul_fin]
    exact round_eval _ _ (-3) 8866461766385665 (by norm_num) (by norm_num) (by norm_num)
      (by norm_num) (by norm_num) (by norm_num)
  have s12 : Binary64.mul (F64.fin 0) (F64.fin (6167973402703071 / 9007199254740992)) =
      F64.fin 0 := by
    rw [binary64_mul_fin]
    exact round_eval_exact _ _ 0 0 (by norm_num) (by norm_num) (by norm_num) (by norm_num)
      (by norm_num)
  have s13 : Binary64.add (F64.fin 0) (F64.fin (8866461766385665 / 36028797018963968)) =
      F64.fin (8866461766385665 / 36028797018963968) := by
    rw [binary64_add_fin]
    exact round_eval_exact _ _ 8866461766385665 (-55) (by norm_num) (by norm_num) (by norm_num)
      (by norm_num) (by norm_num)
  have s14 : Binary64.sub (F64.fin (-1 / 256)) (F64.fin 0) = F64.fin (-1 / 256) := by
    rw [binary64_sub_fin]
    exact round_eval_exact _ _ (-1) (-8) (by norm_num) (by norm_num) (by norm_num) (by norm_num)
      (by norm_num)
  have s15 : Binary64.div (F64.fin (-1 / 256)) (F64.fin 0) = F64.ninf := by
    norm_num [Binary64.div, F64.div, F64.sub, F64.add, F64.neg, F64.rounded, F64.signedInf,
      round_zero]
  have s16 : Binary64.sub (F64.fin (1 / 256)) (F64.fin 0) = F64.fin (1 / 256) := by
    rw [binary64_sub_fin]
    exact round_eval_exact _ _ 1 (-8) (by norm_num) (by norm_num) (by norm_num) (by norm_num)
      (by norm_num)
  have s17 : Binary64.div (F64.fin (1 / 256)) (F64.fin 0) = F64.pinf := by
    norm_num [Binary64.div, F64.div, F64.sub, F64.add, F64.neg, F64.rounded, F64.signedInf,
      round_zero]
  have f0 : Binary64.intersectLineQuad (Vec3.mk (F64.fin 0) (F64.fin 0) (F64.fin 0))
      (Vec3.mk (F64.fin (23 / 64)) (F64.fin 0) (F64.fin 0))
      (Vec3.mk (F64.fin (61 / 256)) (F64.fin (-1 / 256)) (F64.fin (-1 / 256)))
      (Vec3.mk (F64.fin (61 / 256)) (F64.fin (1 / 256)) (F64.fin (1 / 256))) = Except.ok false := by
    refine binary64_intersectLineQuad_of_point _ _ _ _ Plane.X
      (F64.fin (5972164723252179 / 9007199254740992))
      (Vec3.mk (F64.fin (8584986789675007 / 36028797018963968)) (F64.fin 0) (F64.fin 0)) true ?_ ?_
      ?_ ?_ ?_
    · norm_num [selectPlane, F64.eq]
    · simp only [Binary64.planeParam, Vec3.get, s1, s2, s3]
    · norm_num [F64.lt, F64.gt]
    · simp only [Binary64.addVec, Binary64.scaleVec, Binary64.subVec, s2, s4, s5, s6, s7, s8]
    · norm_num [outsideBox, F64.lt, F64.gt]
  have f1 : Binary64.intersectLineQuad (Vec3.mk (F64.fin 0) (F64.fin 0) (F64.fin 0))
      (Vec3.mk (F64.fin (23 / 64)) (F64.fin 0) (F64.fin 0))
      (Vec3.mk (F64.fin (63 / 256)) (F64.fin (-1 / 256)) (F64.fin (-1 / 256)))
      (Vec3.mk (F64.fin (63 / 256)) (F64.fin (1 / 256)) (F64.fin (1 / 256))) = Except.ok false := by
    refine binary64_intersectLineQuad_of_point _ _ _ _ Plane.X
      (F64.fin (6167973402703071 / 9007199254740992))
      (Vec3.mk (F64.fin (8866461766385665 / 36028797018963968)) (F64.fin 0) (F64.fin 0)) true ?_ ?_
      ?_ ?_ ?_
    · norm_num [selectPlane, F64.eq]
    · simp only [Binary64.planeParam, Vec3.get, s9, s2, s10]
    · norm_num [F64.lt, F64.gt]
    · simp only [Binary64.addVec, Binary64.scaleVec, Binary64.subVec, s2, s4, s11, s12, s13, s8]
    · norm_num [outsideBox, F64.lt, F64.gt]
  have f2 : Binary64.intersectLineQuad (Vec3.mk (F64.fin 0) (F64.fin 0) (F64.fin 0))
      (Vec3.mk (F64.fin (23 / 64)) (F64.fin 0) (F64.fin 0))
      (Vec3.mk (F64.fin (61 / 256)) (F64.fin (-1 / 256)) (F64.fin (-1 / 256)))
      (Vec3.mk (F64.fin (63 / 256)) (F64.fin (-1 / 256)) (F64.fin (1 / 256))) = Except.ok false := by
    refine binary64_intersectLineQuad_of_param_outside _ _ _ _ Plane.Y F64.ninf ?_ ?_ ?_
    · norm_num [selectPlane, F64.eq]
    · simp only [Binary64.planeParam, Vec3.get, s14, s4, s15]
    · norm_num [F64.lt, F64.gt]
  have f3 : Binary64.intersectLineQuad (Vec3.mk (F64.fin 0) (F64.fin 0) (F64.fin 0))
      (Vec3.mk (F64.fin (23 / 64)) (F64.fin 0) (F64.fin 0))
      (Vec3.mk (F64.fin (61 / 256)) (F64.fin (1 / 256)) (F64.fin (-1 / 256)))
      (Vec3.mk (F64.fin (63 / 256)) (F64.fin (1 / 256)) (F64.fin (1 / 256))) = Except.ok false := by
    refine binary64_intersectLineQuad_of_param_outside _ _ _ _ Plane.Y F64.pinf ?_ ?_ ?_
    · norm_num [selectPlane, F64.eq]
    · simp only [Binary64.planeParam, Vec3.get, s16, s4, s17]
    · norm_num [F64.lt, F64.gt]
  have f4 : Binary64.intersectLineQuad (Vec3.mk (F64.fin 0) (F64.fin 0) (F64.fin 0))
      (Vec3.mk (F64.fin (23 / 64)) (F64.fin 0) (F64.fin 0))
      (Vec3.mk (F64.fin (61 / 256)) (F64.fin (-1 / 256)) (F64.fin (-1 / 256)))
      (Vec3.mk (F64.fin (63 / 256)) (F64.fin (1 / 256)) (F64.fin (-1 / 256))) = Except.ok false := by
    refine binary64_intersectLineQuad_of_param_outside _ _ _ _ Plane.Z F64.ninf ?_ ?_ ?_
    · norm_num [selectPlane, F64.eq]
    · simp only [Binary64.planeParam, Vec3.get, s14, s4, s15]
    · norm_num [F64.lt, F64.gt]
  have f5 : Binary64.intersectLineQuad (Vec3.mk (F64.fin 0) (F64.fin 0) (F64.fin 0))
      (Vec3.mk (F64.fin (23 / 64)) (F64.fin 0) (F64.fin 0))
      (Vec3.mk (F64.fin (61 / 256)) (F64.fin (-1 / 256)) (F64.fin (1 / 256)))
      (Vec3.mk (F64.fin (63 / 256)) (F64.fin (1 / 256)) (F64.fin (1 / 256))) = Except.ok false := by
    refine binary64_intersectLineQuad_of_param_outside _ _ _ _ Plane.Z F64.pinf ?_ ?_ ?_
    · norm_num [selectPlane, F64.eq]
    · simp only [Binary64.planeParam, Vec3.get, s16, s4, s17]
    · norm_num [F64.lt, F64.gt]
  have fi1 : insideBox (Vec3.mk (F64.fin 0) (F64.fin 0) (F64.fin 0))
      (Vec3.mk (F64.fin (61 / 256)) (F64.fin (-1 / 256)) (F64.fin (-1 / 256)))
      (Vec3.mk (F64.fin (63 / 256)) (F64.fin (1 / 256)) (F64.fin (1 / 256))) = false := by
    norm_num [insideBox, F64.le, F64.ge]
  have fi2 : insideBox (Vec3.mk (F64.fin (23 / 64)) (F64.fin 0) (F64.fin 0))
      (Vec3.mk (F64.fin (61 / 256)) (F64.fin (-1 / 256)) (F64.fin (-1 / 256)))
      (Vec3.mk (F64.fin (63 / 256)) (F64.fin (1 / 256)) (F64.fin (1 / 256))) = false := by
    norm_num [insideBox, F64.le, F64.ge]
  have hc : Binary64.intersectLineCube (Vec3.mk (F64.fin 0) (F64.fin 0) (F64.fin 0))
      (Vec3.mk (F64.fin (23 / 64)) (F64.fin 0) (F64.fin 0))
      (Vec3.mk (F64.fin (61 / 256)) (F64.fin (-1 / 256)) (F64.fin (-1 / 256)))
      (Vec3.mk (F64.fin (63 / 256)) (F64.fin (1 / 256)) (F64.fin (1 / 256))) = Except.ok false :=
    binary64_intersectLineCube_of_faces _ _ _ _ _ _ _ _ _ _ _ _ _ _ fi1 fi2 f0 f1 f2 f3 f4 f5
  constructor
  · refine ⟨2 / 3, by norm_num, by norm_num, ?_⟩
    intro a
    cases a <;> norm_num [axes]
  · rw [(binary64_voxel_bounds 31 0 0 (by norm_num) (by norm_num) (by norm_num)).2.1,
      (binary64_voxel_bounds 31 0 0 (by norm_num) (by norm_num) (by norm_num)).2.2,
      voxelMin_eq, voxelMax_eq]
    norm_num [Vec3.ofRat] at hc ⊢
    exact hc

/-- The two triangles of claim C15 in binary64, on the bounds of voxel `(64, 64, 64)`:
every operation on them is exact or yields a special value, and `intersectTriangleCube`
returns false on the first and true on the second, as it does over the exact operations. -/
theorem binary64_edge_only_cases :
    Binary64.intersectTriangleCube (Vec3.ofRat 0 0 (1 / 2)) (Vec3.ofRat 1 0 (1 / 2))
      (Vec3.ofRat (1 / 2) 1 (1 / 2)) (Binary64.voxelMin 64 64 64)
      (Binary64.voxelMax 64 64 64) = Except.ok false ∧
    Binary64.intersectTriangleCube (Vec3.ofRat (129 / 256) 1 0) (Vec3.ofRat (129 / 256) 0 (3 / 4))
      (Vec3.ofRat (63 / 128) (1 / 2) (3 / 4)) (Binary64.voxelMin 64 64 64)
      (Binary64.voxelMax 64 64 64) = Except.ok true := by
  have s1 : Binary64.sub (F64.fin (127 / 256)) (F64.fin 0) = F64.fin (127 / 256) := by
    rw [binary64_sub_fin]
    exact round_eval_exact _ _ 127 (-8) (by norm_num) (by norm_num) (by norm_num) (by norm_num)
      (by norm_num)
  have s2 : Binary64.sub (F64.fin 1) (F64.fin 0) = F64.fin 1 := by
    rw [binary64_sub_fin]
    exact round_eval_exact _ _ 1 0 (by norm_num) (by norm_num) (by norm_num) (by norm_num)
      (by norm_num)
  have s3 : Binary64.div (F64.fin (127 / 256)) (F64.fin 1) = F64.fin (127 / 256) := by
    rw [binary64_div_fin _ _ (by norm_num)]
    exact round_eval_exact _ _ 127 (-8) (by norm_num) (by norm_num) (by norm_num) (by norm_num)
      (by norm_num)
  have s4 : Binary64.sub (F64.fin 0) (F64.fin 0) = F64.fin 0 := by
    rw [binary64_sub_fin]
    exact round_eval_exact _ _ 0 0 (by norm_num) (by norm_num) (by norm_num) (by norm_num)
      (by norm_num)
  have s5 : Binary64.sub (F64.fin (1 / 2)) (F64.fin (1 / 2)) = F64.fin 0 := by
    rw [binary64_sub_fin]
    exact round_eval_exact _ _ 0 0 (by norm_num) (by norm_num) (by norm_num) (by norm_num)
      (by norm_num)
  have s6 : Binary64.mul (F64.fin 1) (F64.fin (127 / 256)) = F64.fin (127 / 256) := by
    rw [binary64_mul_fin]
    exact round_eval_exact _ _ 127 (-8) (by norm_num) (by norm_num) (by norm_num) (by norm_num)
      (by norm_num)
  have s7 : Binary64.mul (F64.fin 0) (F64.fin (127 / 256)) = F64.fin 0 := by
    rw [binary64_mul_fin]
    exact round_eval_exact _ _ 0 0 (by norm_num) (by norm_num) (by norm_num) (by norm_num)
      (by norm_num)
  have s8 : Binary64.add (F64.fin 0) (F64.fin (127 / 256)) = F64.fin (127 / 256) := by
    rw [binary64_add_fin]
    exact round_eval_exact _ _ 127 (-8) (by norm_num) (by norm_num) (by norm_num) (by norm_num)
      (by norm_num)
  have s9 : Binary64.add (F64.fin 0) (F64.fin 0) = F64.fin 0 := by
    rw [binary64_add_fin]
    exact round_eval_exact _ _ 0 0 (by norm_num) (by norm_num) (by norm_num) (by norm_num)
      (by norm_num)
  have s10 : Binary64.add (F64.fin (1 / 2)) (F64.fin 0) = F64.fin (1 / 2) := by
    rw [binary64_add_fin]
    exact round_eval_exact _ _ 1 (-1) (by norm_num) (by norm_num) (by norm_num) (by norm_num)
      (by norm_num)
  have s11 : Binary64.sub (F64.fin (129 / 256)) (F64.fin 0) = F64.fin (129 / 256) := by
    rw [binary64_sub_fin]
    exact round_eval_exact _ _ 129 (-8) (by norm_num) (by norm_num) (by norm_num) (by norm_num)
      (by norm_num)
  have s12 : Binary64.div (F64.fin (129 / 256)) (F64.fin 1) = F64.fin (129 / 256) := by
    rw [binary64_div_fin _ _ (by norm_num)]
    exact round_eval_exact _ _ 129 (-8) (by norm_num) (by norm_num) (by norm_num) (by norm_num)
      (by norm_num)
  have s13 : Binary64.mul (F64.fin 1) (F64.fin (129 / 256)) = F64.fin (129 / 256) := by
    rw [binary64_mul_fin]
    exact round_eval_exact _ _ 129 (-8) (by norm_num) (by norm_num) (by norm_num) (by norm_num)
      (by norm_num)
  have s14 : Binary64.mul (F64.fin 0) (F64.fin (129 / 256)) = F64.fin 0 := by
    rw [binary64_mul_fin]
    exact round_eval_exact _ _ 0 0 (by norm_num) (by norm_num) (by norm_num) (by norm_num)
      (by norm_num)
  have s15 : Binary64.add (F64.fin 0) (F64.fin (129 / 256)) = F64.fin (129 / 256) := by
    rw [binary64_add_fin]
    exact round_eval_exact _ _ 129 (-8) (by norm_num) (by norm_num) (by norm_num) (by norm_num)
      (by norm_num)
  have s16 : Binary64.div (F64.fin (127 / 256)) (F64.fin 0) = F64.pinf := by
    norm_num [Binary64.div, F64.div, F64.sub, F64.add, F64.neg, F64.rounded, F64.signedInf,
      round_zero]
  have s17 : Binary64.div (F64.fin (129 / 256)) (F64.fin 0) = F64.pinf := by
    norm_num [Binary64.div, F64.div, F64.sub, F64.add, F64.neg, F64.rounded, F64.signedInf,
      round_zero]
  have s18 : Binary64.sub (F64.fin (127 / 256)) (F64.fin (1 / 2)) = F64.fin (-1 / 256) := by
    rw [binary64_sub_fin]
    exact round_eval_exact _ _ (-1) (-8) (by norm_num) (by norm_num) (by norm_num) (by norm_num)
      (by norm_num)
  have s19 : Binary64.div (F64.fin (-1 / 256)) (F64.fin 0) = F64.ninf := by
    norm_num [Binary64.div, F64.div, F64.sub, F64.add, F64.neg, F64.rounded, F64.signedInf,
      round_zero]
  have s20 : Binary64.sub (F64.fin (129 / 256)) (F64.fin (1 / 2)) = F64.fin (1 / 256) := by
    rw [binary64_sub_fin]
    exact round_eval_exact _ _ 1 (-8) (by norm_num) (by norm_num) (by norm_num) (by norm_num)
      (by norm_num)
  have s21 : Binary64.div (F64.fin (1 / 256)) (F64.fin 0) = F64.pinf := by
    norm_num [Binary64.div, F64.div, F64.sub, F64.add, F64.neg, F64.rounded, F64.signedInf,
      round_zero]
  have s22 : Binary64.sub (F64.fin (127 / 256)) (F64.fin 1) = F64.fin (-129 / 256) := by
    rw [binary64_sub_fin]
    exact round_eval_exact _ _ (-129) (-8) (by norm_num) (by norm_num) (by norm_num) (by norm_num)
      (by norm_num)
  have s23 : Binary64.sub (F64.fin (1 / 2)) (F64.fin 1) = F64.fin (-1 / 2) := by
    rw [binary64_sub_fin]
    exact round_eval_exact _ _ (-1) (-1) (by norm_num) (by norm_num) (by norm_num) (by norm_num)
      (by norm_num)
  have s24 : Binary64.div (F64.fin (-129 / 256)) (F64.fin (-1 / 2)) = F64.fin (129 / 128) := by
    rw [binary64_div_fin _ _ (by norm_num)]
    exact round_eval_exact _ _ 129 (-7) (by norm_num) (by norm_num) (by norm_num) (by norm_num)
      (by norm_num)
  have s25 : Binary64.sub (F64.fin (129 / 256)) (F64.fin 1) = F64.fin (-127 / 256) := by
    rw [binary64_sub_fin]
    exact round_eval_exact _ _ (-127) (-8) (by norm_num) (by norm_num) (by norm_num) (by norm_num)
      (by norm_num)
  have s26 : Binary64.div (F64.fin (-127 / 256)) (F64.fin (-1 / 2)) = F64.fin (127 / 128) := by
    rw [binary64_div_fin _ _ (by norm_num)]
    exact round_eval_exact _ _ 127 (-7) (by norm_num) (by norm_num) (by norm_num) (by norm_num)
      (by norm_num)
  have s27 : Binary64.mul (F64.fin (-1 / 2)) (F64.fin (127 / 128)) = F64.fin (-127 / 256) := by
    rw [binary64_mul_fin]
    exact round_eval_exact _ _ (-127) (-8) (by norm_num) (by norm_num) (by norm_num) (by norm_num)
      (by norm_num)
  have s28 : Binary64.mul (F64.fin 1) (F64.fin (127 / 128)) = F64.fin (127 / 128) := by
    rw [binary64_mul_fin]
    exact round_eval_exact _ _ 127 (-7) (by norm_num) (by norm_num) (by norm_num) (by norm_num)
      (by norm_num)
  have s29 : Binary64.mul (F64.fin 0) (F64.fin (127 / 128)) = F64.fin 0 := by
    rw [binary64_mul_fin]
    exact round_eval_exact _ _ 0 0 (by norm_num) (by norm_num) (by norm_num) (by norm_num)
      (by norm_num)
  have s30 : Binary64.add (F64.fin 1) (F64.fin (-127 / 256)) = F64.fin (129 / 256) := by
    rw [binary64_add_fin]
    exact round_eval_exact _ _ 129 (-8) (by norm_num) (by norm_num) (by norm_num) (by norm_num)
      (by norm_num)
  have s31 : Binary64.add (F64.fin 0) (F64.fin (127 / 128)) = F64.fin (127 / 128) := by
    rw [binary64_add_fin]
    exact round_eval_exact _ _ 127 (-7) (by norm_num) (by norm_num) (by norm_num) (by norm_num)
      (by norm_num)
  have s32 : Binary64.mul (F64.fin (-1 / 2)) (F64.fin (127 / 256)) = F64.fin (-127 / 512) := by
    rw [binary64_mul_fin]
    exact round_eval_exact _ _ (-127) (-9) (by norm_num) (by norm_num) (by norm_num) (by norm_num)
      (by norm_num)
  have s33 : Binary64.add (F64.fin 1) (F64.fin (-127 / 512)) = F64.fin (385 / 512) := by
    rw [binary64_add_fin]
    exact round_eval_exact _ _ 385 (-9) (by norm_num) (by norm_num) (by norm_num) (by norm_num)
      (by norm_num)
  have s34 : Binary64.mul (F64.fin (-1 / 2)) (F64.fin (129 / 256)) = F64.fin (-129 / 512) := by
    rw [binary64_mul_fin]
    exact round_eval_exact _ _ (-129) (-9) (by norm_num) (by norm_num) (by norm_num) (by norm_num)
      (by norm_num)
  have s35 : Binary64.add (F64.fin 1) (F64.fin (-129 / 512)) = F64.fin (383 / 512) := by
    rw [binary64_add_fin]
    exact round_eval_exact _ _ 383 (-9) (by norm_num) (by norm_num) (by norm_num) (by norm_num)
      (by norm_num)
  have s36 : Binary64.sub (F64.fin 0) (F64.fin (1 / 2)) = F64.fin (-1 / 2) := by
    rw [binary64_sub_fin]
    exact round_eval_exact _ _ (-1) (-1) (by norm_num) (by norm_num) (by norm_num) (by norm_num)
      (by norm_num)
  have s37 : Binary64.div (F64.fin (-1 / 256)) (F64.fin (-1 / 2)) = F64.fin (1 / 128) := by
    rw [binary64_div_fin _ _ (by norm_num)]
    exact round_eval_exact _ _ 1 (-7) (by norm_num) (by norm_num) (by norm_num) (by norm_num)
      (by norm_num)
  have s38 : Binary64.sub (F64.fin 0) (F64.fin 1) = F64.fin (-1) := by
    rw [binary64_sub_fin]
    exact round_eval_exact _ _ (-1) 0 (by norm_num) (by norm_num) (by norm_num) (by norm_num)
      (by norm_num)
  have s39 : Binary64.mul (F64.fin (-1 / 2)) (F64.fin (1 / 128)) = F64.fin (-1 / 256) := by
    rw [binary64_mul_fin]
    exact round_eval_exact _ _ (-1) (-8) (by norm_num) (by norm_num) (by norm_num) (by norm_num)
      (by norm_num)
  have s40 : Binary64.mul (F64.fin (-1)) (F64.fin (1 / 128)) = F64.fin (-1 / 128) := by
    rw [binary64_mul_fin]
    exact round_eval_exact _ _ (-1) (-7) (by norm_num) (by norm_num) (by norm_num) (by norm_num)
      (by norm_num)
  have s41 : Binary64.mul (F64.fin 0) (F64.fin (1 / 128)) = F64.fin 0 := by
    rw [binary64_mul_fin]
    exact round_eval_exact _ _ 0 0 (by norm_num) (by norm_num) (by norm_num) (by norm_num)
      (by norm_num)
  have s42 : Binary64.add (F64.fin (1 / 2)) (F64.fin (-1 / 256)) = F64.fin (127 / 256) := by
    rw [binary64_add_fin]
    exact round_eval_exact _ _ 127 (-8) (by norm_num) (by norm_num) (by norm_num) (by norm_num)
      (by norm_num)
  have s43 : Binary64.add (F64.fin 1) (F64.fin (-1 / 128)) = F64.fin (127 / 128) := by
    rw [binary64_add_fin]
    exact round_eval_exact _ _ 127 (-7) (by norm_num) (by norm_num) (by norm_num) (by norm_num)
      (by norm_num)
  have s44 : Binary64.div (F64.fin (1 / 256)) (F64.fin (-1 / 2)) = F64.fin (-1 / 128) := by
    rw [binary64_div_fin _ _ (by norm_num)]
    exact round_eval_exact _ _ (-1) (-7) (by norm_num) (by norm_num) (by norm_num) (by norm_num)
      (by norm_num)
  have s45 : Binary64.div (F64.fin (-129 / 256)) (F64.fin (-1)) = F64.fin (129 / 256) := by
    rw [binary64_div_fin _ _ (by norm_num)]
    exact round_eval_exact _ _ 129 (-8) (by norm_num) (by norm_num) (by norm_num) (by norm_num)
      (by norm_num)
  have s46 : Binary64.mul (F64.fin (-1)) (F64.fin (129 / 256)) = F64.fin (-129 / 256) := by
    rw [binary64_mul_fin]
    exact round_eval_exact _ _ (-129) (-8) (by norm_num) (by norm_num) (by norm_num) (by norm_num)
      (by norm_num)
  have s47 : Binary64.add (F64.fin (1 / 2)) (F64.fin (-129 / 512)) = F64.fin (127 / 512) := by
    rw [binary64_add_fin]
    exact round_eval_exact _ _ 127 (-9) (by norm_num) (by norm_num) (by norm_num) (by norm_num)
      (by norm_num)
  have s48 : Binary64.add (F64.fin 1) (F64.fin (-129 / 256)) = F64.fin (127 / 256) := by
    rw [binary64_add_fin]
    exact round_eval_exact _ _ 127 (-8) (by norm_num) (by norm_num) (by norm_num) (by norm_num)
      (by norm_num)
  have s49 : Binary64.div (F64.fin (-127 / 256)) (F64.fin (-1)) = F64.fin (127 / 256) := by
    rw [binary64_div_fin _ _ (by norm_num)]
    exact round_eval_exact _ _ 127 (-8) (by norm_num) (by norm_num) (by norm_num) (by norm_num)
      (by norm_num)
  have s50 : Binary64.mul (F64.fin (-1)) (F64.fin (127 / 256)) = F64.fin (-127 / 256) := by
    rw [binary64_mul_fin]
    exact round_eval_exact _ _ (-127) (-8) (by norm_num) (by norm_num) (by norm_num) (by norm_num)
      (by norm_num)
  have s51 : Binary64.add (F64.fin (1 / 2)) (F64.fin (-127 / 512)) = F64.fin (129 / 512) := by
    rw [binary64_add_fin]
    exact round_eval_exact _ _ 129 (-9) (by norm_num) (by norm_num) (by norm_num) (by norm_num)
      (by norm_num)
  have s52 : Binary64.sub (F64.fin (127 / 256)) (F64.fin (129 / 256)) = F64.fin (-1 / 128) := by
    rw [binary64_sub_fin]
    exact round_eval_exact _ _ (-1) (-7) (by norm_num) (by norm_num) (by norm_num) (by norm_num)
      (by norm_num)
  have s53 : Binary64.sub (F64.fin (129 / 256)) (F64.fin (129 / 256)) = F64.fin 0 := by
    rw [binary64_sub_fin]
    exact round_eval_exact _ _ 0 0 (by norm_num) (by norm_num) (by norm_num) (by norm_num)
      (by norm_num)
  have s54 : Binary64.div (F64.fin (-1 / 128)) (F64.fin 0) = F64.ninf := by
    norm_num [Binary64.div, F64.div, F64.sub, F64.add, F64.neg, F64.rounded, F64.signedInf,
      round_zero]
  have s55 : Binary64.div (F64.fin 0) (F64.fin 0) = F64.nan := by
    norm_num [Binary64.div, F64.div, F64.sub, F64.add, F64.neg, F64.rounded, F64.signedInf,
      round_zero]
  have s56 : Binary64.sub (F64.fin (3 / 4)) (F64.fin 0) = F64.fin (3 / 4) := by
    rw [binary64_sub_fin]
    exact round_eval_exact _ _ 3 (-2) (by norm_num) (by norm_num) (by norm_num) (by norm_num)
      (by norm_num)
  have s57 : Binary64.mul (F64.fin 0) F64.nan = F64.nan := by
    norm_num [Binary64.mul, F64.mul, F64.sub, F64.add, F64.neg, F64.rounded, F64.signedInf,
      round_zero]
  have s58 : Binary64.mul (F64.fin (-1)) F64.nan = F64.nan := by
    norm_num [Binary64.mul, F64.mul, F64.sub, F64.add, F64.neg, F64.rounded, F64.signedInf,
      round_zero]
  have s59 : Binary64.mul (F64.fin (3 / 4)) F64.nan = F64.nan := by
    norm_num [Binary64.mul, F64.mul, F64.sub, F64.add, F64.neg, F64.rounded, F64.signedInf,
      round_zero]
  have s60 : Binary64.add (F64.fin (129 / 256)) F64.nan = F64.nan := by
    norm_num [Binary64.add, F64.add, F64.sub, F64.add, F64.neg, F64.rounded, F64.signedInf,
      round_zero]
  have s61 : Binary64.add (F64.fin 1) F64.nan = F64.nan := by
    norm_num [Binary64.add, F64.add, F64.sub, F64.add, F64.neg, F64.rounded, F64.signedInf,
      round_zero]
  have s62 : Binary64.add (F64.fin 0) F64.nan = F64.nan := by
    norm_num [Binary64.add, F64.add, F64.sub, F64.add, F64.neg, F64.rounded, F64.signedInf,
      round_zero]
  have s63 : Binary64.mul (F64.fin (3 / 4)) (F64.fin (129 / 256)) = F64.fin (387 / 1024) := by
    rw [binary64_mul_fin]
    exact round_eval_exact _ _ 387 (-10) (by norm_num) (by norm_num) (by norm_num) (by norm_num)
      (by norm_num)
  have s64 : Binary64.add (F64.fin (129 / 256)) (F64.fin 0) = F64.fin (129 / 256) := by
    rw [binary64_add_fin]
    exact round_eval_exact _ _ 129 (-8) (by norm_num) (by norm_num) (by norm_num) (by norm_num)
      (by norm_num)
  have s65 : Binary64.add (F64.fin 0) (F64.fin (387 / 1024)) = F64.fin (387 / 1024) := by
    rw [binary64_add_fin]
    exact round_eval_exact _ _ 387 (-10) (by norm_num) (by norm_num) (by norm_num) (by norm_num)
      (by norm_num)
  have s66 : Binary64.mul (F64.fin (3 / 4)) (F64.fin (127 / 256)) = F64.fin (381 / 1024) := by
    rw [binary64_mul_fin]
    exact round_eval_exact _ _ 381 (-10) (by norm_num) (by norm_num) (by norm_num) (by norm_num)
      (by norm_num)
  have s67 : Binary64.add (F64.fin 0) (F64.fin (381 / 1024)) = F64.fin (381 / 1024) := by
    rw [binary64_add_fin]
    exact round_eval_exact _ _ 381 (-10) (by norm_num) (by norm_num) (by norm_num) (by norm_num)
      (by norm_num)
  have s68 : Binary64.div (F64.fin (127 / 256)) (F64.fin (3 / 4)) =
      F64.fin (5957887007042219 / 9007199254740992) := by
    rw [binary64_div_fin _ _ (by norm_num)]
    exact round_eval _ _ (-1) 5957887007042219 (by norm_num) (by norm_num) (by norm_num)
      (by norm_num) (by norm_num) (by norm_num)
  have s69 : Binary64.mul (F64.fin 0) (F64.fin (5957887007042219 / 9007199254740992)) =
      F64.fin 0 := by
    rw [binary64_mul_fin]
    exact round_eval_exact _ _ 0 0 (by norm_num) (by norm_num) (by norm_num) (by norm_num)
      (by norm_num)
  have s70 : Binary64.mul (F64.fin (-1)) (F64.fin (5957887007042219 / 9007199254740992)) =
      F64.fin (-5957887007042219 / 9007199254740992) := by
    rw [binary64_mul_fin]
    exact round_eval_exact _ _ (-5957887007042219) (-53) (by norm_num) (by norm_num) (by norm_num)
      (by norm_num) (by norm_num)
  have s71 : Binary64.mul (F64.fin (3 / 4)) (F64.fin (5957887007042219 / 9007199254740992)) =
      F64.fin (127 / 256) := by
    rw [binary64_mul_fin]
    exact round_eval_tie _ _ (-2) 8936830510563328 (by norm_num) (by norm_num) (by norm_num)
      (by norm_num) (by norm_num) (by norm_num) (by norm_num)
  have s72 : Binary64.add (F64.fin 1) (F64.fin (-5957887007042219 / 9007199254740992)) =
      F64.fin (3049312247698773 / 9007199254740992) := by
    rw [binary64_add_fin]
    exact round_eval_exact _ _ 3049312247698773 (-53) (by norm_num) (by norm_num) (by norm_num)
      (by norm_num) (by norm_num)
  have s73 : Binary64.div (F64.fin (129 / 256)) (F64.fin (3 / 4)) = F64.fin (43 / 64) := by
    rw [binary64_div_fin _ _ (by norm_num)]
    exact round_eval_exact _ _ 43 (-6) (by norm_num) (by norm_num) (by norm_num) (by norm_num)
      (by norm_num)
  have s74 : Binary64.mul (F64.fin 0) (F64.fin (43 / 64)) = F64.fin 0 := by
    rw [binary64_mul_fin]
    exact round_eval_exact _ _ 0 0 (by norm_num) (by norm_num) (by norm_num) (by norm_num)
      (by norm_num)
  have s75 : Binary64.mul (F64.fin (-1)) (F64.fin (43 / 64)) = F64.fin (-43 / 64) := by
    rw [binary64_mul_fin]
    exact round_eval_exact _ _ (-43) (-6) (by norm_num) (by norm_num) (by norm_num) (by norm_num)
      (by norm_num)
  have s76 : Binary64.mul (F64.fin (3 / 4)) (F64.fin (43 / 64)) = F64.fin (129 / 256) := by
    rw [binary64_mul_fin]
    exact round_eval_exact _ _ 129 (-8) (by norm_num) (by norm_num) (by norm_num) (by norm_num)
      (by norm_num)
  have s77 : Binary64.add (F64.fin 1) (F64.fin (-43 / 64)) = F64.fin (21 / 64) := by
    rw [binary64_add_fin]
    exact round_eval_exact _ _ 21 (-6) (by norm_num) (by norm_num) (by norm_num) (by norm_num)
      (by norm_num)
  have s78 : Binary64.sub (F64.fin (63 / 128)) (F64.fin (129 / 256)) = F64.fin (-3 / 256) := by
    rw [binary64_sub_fin]
    exact round_eval_exact _ _ (-3) (-8) (by norm_num) (by norm_num) (by norm_num) (by norm_num)
      (by norm_num)
  have s79 : Binary64.div (F64.fin (-1 / 128)) (F64.fin (-3 / 256)) =
      F64.fin (6004799503160661 / 9007199254740992) := by
    rw [binary64_div_fin _ _ (by norm_num)]
    exact round_eval _ _ (-1) 6004799503160661 (by norm_num) (by norm_num) (by norm_num)
      (by norm_num) (by norm_num) (by norm_num)
  have s80 : Binary64.sub (F64.fin (1 / 2)) (F64.fin 0) = F64.fin (1 / 2) := by
    rw [binary64_sub_fin]
    exact round_eval_exact _ _ 1 (-1) (by norm_num) (by norm_num) (by norm_num) (by norm_num)
      (by norm_num)
  have s81 : Binary64.sub (F64.fin (3 / 4)) (F64.fin (3 / 4)) = F64.fin 0 := by
    rw [binary64_sub_fin]
    exact round_eval_exact _ _ 0 0 (by norm_num) (by norm_num) (by norm_num) (by norm_num)
      (by norm_num)
  have s82 : Binary64.mul (F64.fin (-3 / 256)) (F64.fin (6004799503160661 / 9007199254740992)) =
      F64.fin (-1 / 128) := by
    rw [binary64_mul_fin]
    exact round_eval_tie _ _ (-8) (-9007199254740992) (by norm_num) (by norm_num) (by norm_num)
      (by norm_num) (by norm_num) (by norm_num) (by norm_num)
  have s83 : Binary64.mul (F64.fin (1 / 2)) (F64.fin (6004799503160661 / 9007199254740992)) =
      F64.fin (6004799503160661 / 18014398509481984) := by
    rw [binary64_mul_fin]
    exact round_eval_exact _ _ 6004799503160661 (-54) (by norm_num) (by norm_num) (by norm_num)
      (by norm_num) (by norm_num)
  have s84 : Binary64.mul (F64.fin 0) (F64.fin (6004799503160661 / 9007199254740992)) =
      F64.fin 0 := by
    rw [binary64_mul_fin]
    exact round_eval_exact _ _ 0 0 (by norm_num) (by norm_num) (by norm_num) (by norm_num)
      (by norm_num)
  have s85 : Binary64.add (F64.fin (129 / 256)) (F64.fin (-1 / 128)) = F64.fin (127 / 256) := by
    rw [binary64_add_fin]
    exact round_eval_exact _ _ 127 (-8) (by norm_num) (by norm_num) (by norm_num) (by norm_num)
      (by norm_num)
  have s86 : Binary64.add (F64.fin 0) (F64.fin (6004799503160661 / 18014398509481984)) =
      F64.fin (6004799503160661 / 18014398509481984) := by
    rw [binary64_add_fin]
    exact round_eval_exact _ _ 6004799503160661 (-54) (by norm_num) (by norm_num) (by norm_num)
      (by norm_num) (by norm_num)
  have s87 : Binary64.add (F64.fin (3 / 4)) (F64.fin 0) = F64.fin (3 / 4) := by
    rw [binary64_add_fin]
    exact round_eval_exact _ _ 3 (-2) (by norm_num) (by norm_num) (by norm_num) (by norm_num)
      (by norm_num)
  have s88 : Binary64.div (F64.fin 0) (F64.fin (-3 / 256)) = F64.fin 0 := by
    rw [binary64_div_fin _ _ (by norm_num)]
    exact round_eval_exact _ _ 0 0 (by norm_num) (by norm_num) (by norm_num) (by norm_num)
      (by norm_num)
  have s89 : Binary64.mul (F64.fin (-3 / 256)) (F64.fin 0) = F64.fin 0 := by
    rw [binary64_mul_fin]
    exact round_eval_exact _ _ 0 0 (by norm_num) (by norm_num) (by norm_num) (by norm_num)
      (by norm_num)
  have s90 : Binary64.mul (F64.fin (1 / 2)) (F64.fin 0) = F64.fin 0 := by
    rw [binary64_mul_fin]
    exact round_eval_exact _ _ 0 0 (by norm_num) (by norm_num) (by norm_num) (by norm_num)
      (by norm_num)
  have s91 : Binary64.mul (F64.fin 0) (F64.fin 0) = F64.fin 0 := by
    rw [binary64_mul_fin]
    exact round_eval_exact _ _ 0 0 (by norm_num) (by norm_num) (by norm_num) (by norm_num)
      (by norm_num)
  have s92 : Binary64.div (F64.fin (127 / 256)) (F64.fin (1 / 2)) = F64.fin (127 / 128) := by
    rw [binary64_div_fin _ _ (by norm_num)]
    exact round_eval_exact _ _ 127 (-7) (by norm_num) (by norm_num) (by norm_num) (by norm_num)
      (by norm_num)
  have s93 : Binary64.mul (F64.fin (-3 / 256)) (F64.fin (127 / 128)) = F64.fin (-381 / 32768) := by
    rw [binary64_mul_fin]
    exact round_eval_exact _ _ (-381) (-15) (by norm_num) (by norm_num) (by norm_num) (by norm_num)
      (by norm_num)
  have s94 : Binary64.mul (F64.fin (1 / 2)) (F64.fin (127 / 128)) = F64.fin (127 / 256) := by
    rw [binary64_mul_fin]
    exact round_eval_exact _ _ 127 (-8) (by norm_num) (by norm_num) (by norm_num) (by norm_num)
      (by norm_num)
  have s95 : Binary64.add (F64.fin (129 / 256)) (F64.fin (-381 / 32768)) =
      F64.fin (16131 / 32768) := by
    rw [binary64_add_fin]
    exact round_eval_exact _ _ 16131 (-15) (by norm_num) (by norm_num) (by norm_num) (by norm_num)
      (by norm_num)
  have s96 : Binary64.div (F64.fin (129 / 256)) (F64.fin (1 / 2)) = F64.fin (129 / 128) := by
    rw [binary64_div_fin _ _ (by norm_num)]
    exact round_eval_exact _ _ 129 (-7) (by norm_num) (by norm_num) (by norm_num) (by norm_num)
      (by norm_num)
  have s97 : Binary64.sub (F64.fin (127 / 256)) (F64.fin (3 / 4)) = F64.fin (-65 / 256) := by
    rw [binary64_sub_fin]
    exact round_eval_exact _ _ (-65) (-8) (by norm_num) (by norm_num) (by norm_num) (by norm_num)
      (by norm_num)
  have s98 : Binary64.div (F64.fin (-65 / 256)) (F64.fin 0) = F64.ninf := by
    norm_num [Binary64.div, F64.div, F64.sub, F64.add, F64.neg, F64.rounded, F64.signedInf,
      round_zero]
  have s99 : Binary64.sub (F64.fin (129 / 256)) (F64.fin (3 / 4)) = F64.fin (-63 / 256) := by
    rw [binary64_sub_fin]
    exact round_eval_exact _ _ (-63) (-8) (by norm_num) (by norm_num) (by norm_num) (by norm_num)
      (by norm_num)
  have s100 : Binary64.div (F64.fin (-63 / 256)) (F64.fin 0) = F64.ninf := by
    norm_num [Binary64.div, F64.div, F64.sub, F64.add, F64.neg, F64.rounded, F64.signedInf,
      round_zero]
  have s101 : Binary64.sub (F64.fin (127 / 256)) (F64.fin (63 / 128)) = F64.fin (1 / 256) := by
    rw [binary64_sub_fin]
    exact round_eval_exact _ _ 1 (-8) (by norm_num) (by norm_num) (by norm_num) (by norm_num)
      (by norm_num)
  have s102 : Binary64.sub (F64.fin (129 / 256)) (F64.fin (63 / 128)) = F64.fin (3 / 256) := by
    rw [binary64_sub_fin]
    exact round_eval_exact _ _ 3 (-8) (by norm_num) (by norm_num) (by norm_num) (by norm_num)
      (by norm_num)
  have s103 : Binary64.div (F64.fin (1 / 256)) (F64.fin (3 / 256)) =
      F64.fin (6004799503160661 / 18014398509481984) := by
    rw [binary64_div_fin _ _ (by norm_num)]
    exact round_eval _ _ (-2) 6004799503160661 (by norm_num) (by norm_num) (by norm_num)
      (by norm_num) (by norm_num) (by norm_num)
  have s104 : Binary64.sub (F64.fin 1) (F64.fin (1 / 2)) = F64.fin (1 / 2) := by
    rw [binary64_sub_fin]
    exact round_eval_exact _ _ 1 (-1) (by norm_num) (by norm_num) (by norm_num) (by norm_num)
      (by norm_num)
  have s105 : Binary64.sub (F64.fin 0) (F64.fin (3 / 4)) = F64.fin (-3 / 4) := by
    rw [binary64_sub_fin]
    exact round_eval_exact _ _ (-3) (-2) (by norm_num) (by norm_num) (by norm_num) (by norm_num)
      (by norm_num)
  have s106 : Binary64.mul (F64.fin (3 / 256)) (F64.fin (6004799503160661 / 18014398509481984)) =
      F64.fin (1 / 256) := by
    rw [binary64_mul_fin]
    exact round_eval_tie _ _ (-9) 9007199254740992 (by norm_num) (by norm_num) (by norm_num)
      (by norm_num) (by norm_num) (by norm_num) (by norm_num)
  have s107 : Binary64.mul (F64.fin (1 / 2)) (F64.fin (6004799503160661 / 18014398509481984)) =
      F64.fin (6004799503160661 / 36028797018963968) := by
    rw [binary64_mul_fin]
    exact round_eval_exact _ _ 6004799503160661 (-55) (by norm_num) (by norm_num) (by norm_num)
      (by norm_num) (by norm_num)
  have s108 : Binary64.mul (F64.fin (-3 / 4)) (F64.fin (6004799503160661 / 18014398509481984)) =
      F64.fin (-1 / 4) := by
    rw [binary64_mul_fin]
    exact round_eval_tie _ _ (-3) (-9007199254740992) (by norm_num) (by norm_num) (by norm_num)
      (by norm_num) (by norm_num) (by norm_num) (by norm_num)
  have s109 : Binary64.add (F64.fin (63 / 128)) (F64.fin (1 / 256)) = F64.fin (127 / 256) := by
    rw [binary64_add_fin]
    exact round_eval_exact _ _ 127 (-8) (by norm_num) (by norm_num) (by norm_num) (by norm_num)
      (by norm_num)
  have s110 : Binary64.add (F64.fin (1 / 2)) (F64.fin (6004799503160661 / 36028797018963968)) =
      F64.fin (6004799503160661 / 9007199254740992) := by
    rw [binary64_add_fin]
    exact round_eval _ _ (-1) 6004799503160661 (by norm_num) (by norm_num) (by norm_num)
      (by norm_num) (by norm_num) (by norm_num)
  have s111 : Binary64.add (F64.fin (3 / 4)) (F64.fin (-1 / 4)) = F64.fin (1 / 2) := by
    rw [binary64_add_fin]
    exact round_eval_exact _ _ 1 (-1) (by norm_num) (by norm_num) (by norm_num) (by norm_num)
      (by norm_num)
  have s112 : Binary64.div (F64.fin (3 / 256)) (F64.fin (3 / 256)) = F64.fin 1 := by
    rw [binary64_div_fin _ _ (by norm_num)]
    exact round_eval_exact _ _ 1 0 (by norm_num) (by norm_num) (by norm_num) (by norm_num)
      (by norm_num)
  have s113 : Binary64.mul (F64.fin (3 / 256)) (F64.fin 1) = F64.fin (3 / 256) := by
    rw [binary64_mul_fin]
    exact round_eval_exact _ _ 3 (-8) (by norm_num) (by norm_num) (by norm_num) (by norm_num)
      (by norm_num)
  have s114 : Binary64.mul (F64.fin (1 / 2)) (F64.fin 1) = F64.fin (1 / 2) := by
    rw [binary64_mul_fin]
    exact round_eval_exact _ _ 1 (-1) (by norm_num) (by norm_num) (by norm_num) (by norm_num)
      (by norm_num)
  have s115 : Binary64.mul (F64.fin (-3 / 4)) (F64.fin 1) = F64.fin (-3 / 4) := by
    rw [binary64_mul_fin]
    exact round_eval_exact _ _ (-3) (-2) (by norm_num) (by norm_num) (by norm_num) (by norm_num)
      (by norm_num)
  have s116 : Binary64.add (F64.fin (63 / 128)) (F64.fin (3 / 256)) = F64.fin (129 / 256) := by
    rw [binary64_add_fin]
    exact round_eval_exact _ _ 129 (-8) (by norm_num) (by norm_num) (by norm_num) (by norm_num)
      (by norm_num)
  have s117 : Binary64.add (F64.fin (1 / 2)) (F64.fin (1 / 2)) = F64.fin 1 := by
    rw [binary64_add_fin]
    exact round_eval_exact _ _ 1 0 (by norm_num) (by norm_num) (by norm_num) (by norm_num)
      (by norm_num)
  have s118 : Binary64.add (F64.fin (3 / 4)) (F64.fin (-3 / 4)) = F64.fin 0 := by
    rw [binary64_add_fin]
    exact round_eval_exact _ _ 0 0 (by norm_num) (by norm_num) (by norm_num) (by norm_num)
      (by norm_num)
  have s119 : Binary64.div (F64.fin (-1 / 256)) (F64.fin (1 / 2)) = F64.fin (-1 / 128) := by
    rw [binary64_div_fin _ _ (by norm_num)]
    exact round_eval_exact _ _ (-1) (-7) (by norm_num) (by norm_num) (by norm_num) (by norm_num)
      (by norm_num)
  have s120 : Binary64.div (F64.fin (1 / 256)) (F64.fin (1 / 2)) = F64.fin (1 / 128) := by
    rw [binary64_div_fin _ _ (by norm_num)]
    exact round_eval_exact _ _ 1 (-7) (by norm_num) (by norm_num) (by norm_num) (by norm_num)
      (by norm_num)
  have s121 : Binary64.mul (F64.fin (3 / 256)) (F64.fin (1 / 128)) = F64.fin (3 / 32768) := by
    rw [binary64_mul_fin]
    exact round_eval_exact _ _ 3 (-15) (by norm_num) (by norm_num) (by norm_num) (by norm_num)
      (by norm_num)
  have s122 : Binary64.mul (F64.fin (1 / 2)) (F64.fin (1 / 128)) = F64.fin (1 / 256) := by
    rw [binary64_mul_fin]
    exact round_eval_exact _ _ 1 (-8) (by norm_num) (by norm_num) (by norm_num) (by norm_num)
      (by norm_num)
  have s123 : Binary64.mul (F64.fin (-3 / 4)) (F64.fin (1 / 128)) = F64.fin (-3 / 512) := by
    rw [binary64_mul_fin]
    exact round_eval_exact _ _ (-3) (-9) (by norm_num) (by norm_num) (by norm_num) (by norm_num)
      (by norm_num)
  have s124 : Binary64.add (F64.fin (63 / 128)) (F64.fin (3 / 32768)) =
      F64.fin (16131 / 32768) := by
    rw [binary64_add_fin]
    exact round_eval_exact _ _ 16131 (-15) (by norm_num) (by norm_num) (by norm_num) (by norm_num)
      (by norm_num)
  have s125 : Binary64.add (F64.fin (1 / 2)) (F64.fin (1 / 256)) = F64.fin (129 / 256) := by
    rw [binary64_add_fin]
    exact round_eval_exact _ _ 129 (-8) (by norm_num) (by norm_num) (by norm_num) (by norm_num)
      (by norm_num)
  have s126 : Binary64.add (F64.fin (3 / 4)) (F64.fin (-3 / 512)) = F64.fin (381 / 512) := by
    rw [binary64_add_fin]
    exact round_eval_exact _ _ 381 (-9) (by norm_num) (by norm_num) (by norm_num) (by norm_num)
      (by norm_num)
  have s127 : Binary64.div (F64.fin (-65 / 256)) (F64.fin (-3 / 4)) =
      F64.fin (6098624495397547 / 18014398509481984) := by
    rw [binary64_div_fin _ _ (by norm_num)]
    exact round_eval _ _ (-2) 6098624495397547 (by norm_num) (by norm_num) (by norm_num)
      (by norm_num) (by norm_num) (by norm_num)
  have s128 : Binary64.mul (F64.fin (3 / 256)) (F64.fin (6098624495397547 / 18014398509481984)) =
      F64.fin (65 / 16384) := by
    rw [binary64_mul_fin]
    exact round_eval _ _ (-8) 4573968371548160 (by norm_num) (by norm_num) (by norm_num)
      (by norm_num) (by norm_num) (by norm_num)
  have s129 : Binary64.mul (F64.fin (1 / 2)) (F64.fin (6098624495397547 / 18014398509481984)) =
      F64.fin (6098624495397547 / 36028797018963968) := by
    rw [binary64_mul_fin]
    exact round_eval_exact _ _ 6098624495397547 (-55) (by norm_num) (by norm_num) (by norm_num)
      (by norm_num) (by norm_num)
  have s130 : Binary64.mul (F64.fin (-3 / 4)) (F64.fin (6098624495397547 / 18014398509481984)) =
      F64.fin (-65 / 256) := by
    rw [binary64_mul_fin]
    exact round_eval _ _ (-2) (-4573968371548160) (by norm_num) (by norm_num) (by norm_num)
      (by norm_num) (by norm_num) (by norm_num)
  have s131 : Binary64.add (F64.fin (63 / 128)) (F64.fin (65 / 16384)) =
      F64.fin (8129 / 16384) := by
    rw [binary64_add_fin]
    exact round_eval_exact _ _ 8129 (-14) (by norm_num) (by norm_num) (by norm_num) (by norm_num)
      (by norm_num)
  have s132 : Binary64.add (F64.fin (1 / 2)) (F64.fin (6098624495397547 / 36028797018963968)) =
      F64.fin (6028255751219883 / 9007199254740992) := by
    rw [binary64_add_fin]
    exact round_eval _ _ (-1) 6028255751219883 (by norm_num) (by norm_num) (by norm_num)
      (by norm_num) (by norm_num) (by norm_num)
  have s133 : Binary64.add (F64.fin (3 / 4)) (F64.fin (-65 / 256)) = F64.fin (127 / 256) := by
    rw [binary64_add_fin]
    exact round_eval_exact _ _ 127 (-8) (by norm_num) (by norm_num) (by norm_num) (by norm_num)
      (by norm_num)
  have s134 : Binary64.div (F64.fin (-63 / 256)) (F64.fin (-3 / 4)) = F64.fin (21 / 64) := by
    rw [binary64_div_fin _ _ (by norm_num)]
    exact round_eval_exact _ _ 21 (-6) (by norm_num) (by norm_num) (by norm_num) (by norm_num)
      (by norm_num)
  have s135 : Binary64.mul (F64.fin (3 / 256)) (F64.fin (21 / 64)) = F64.fin (63 / 16384) := by
    rw [binary64_mul_fin]
    exact round_eval_exact _ _ 63 (-14) (by norm_num) (by norm_num) (by norm_num) (by norm_num)
      (by norm_num)
  have s136 : Binary64.mul (F64.fin (1 / 2)) (F64.fin (21 / 64)) = F64.fin (21 / 128) := by
    rw [binary64_mul_fin]
    exact round_eval_exact _ _ 21 (-7) (by norm_num) (by norm_num) (by norm_num) (by norm_num)
      (by norm_num)
  have s137 : Binary64.mul (F64.fin (-3 / 4)) (F64.fin (21 / 64)) = F64.fin (-63 / 256) := by
    rw [binary64_mul_fin]
    exact round_eval_exact _ _ (-63) (-8) (by norm_num) (by norm_num) (by norm_num) (by norm_num)
      (by norm_num)
  have s138 : Binary64.add (F64.fin (63 / 128)) (F64.fin (63 / 16384)) =
      F64.fin (8127 / 16384) := by
    rw [binary64_add_fin]
    exact round_eval_exact _ _ 8127 (-14) (by norm_num) (by norm_num) (by norm_num) (by norm_num)
      (by norm_num)
  have s139 : Binary64.add (F64.fin (1 / 2)) (F64.fin (21 / 128)) = F64.fin (85 / 128) := by
    rw [binary64_add_fin]
    exact round_eval_exact _ _ 85 (-7) (by norm_num) (by norm_num) (by norm_num) (by norm_num)
      (by norm_num)
  have s140 : Binary64.add (F64.fin (3 / 4)) (F64.fin (-63 / 256)) = F64.fin (129 / 256) := by
    rw [binary64_add_fin]
    exact round_eval_exact _ _ 129 (-8) (by norm_num) (by norm_num) (by norm_num) (by norm_num)
      (by norm_num)
  have a0_0 : Binary64.intersectLineQuad (Vec3.mk (F64.fin 0) (F64.fin 0) (F64.fin (1 / 2)))
      (Vec3.mk (F64.fin 1) (F64.fin 0) (F64.fin (1 / 2)))
      (Vec3.mk (F64.fin (127 / 256)) (F64.fin (127 / 256)) (F64.fin (127 / 256)))
      (Vec3.mk (F64.fin (127 / 256)) (F64.fin (129 / 256)) (F64.fin (129 / 256))) = Except.ok false :=
      by
    refine binary64_intersectLineQuad_of_point _ _ _ _ Plane.X (F64.fin (127 / 256))
      (Vec3.mk (F64.fin (127 / 256)) (F64.fin 0) (F64.fin (1 / 2))) true ?_ ?_ ?_ ?_ ?_
    · norm_num [selectPlane, F64.eq]
    · simp only [Binary64.planeParam, Vec3.get, s1, s2, s3]
    · norm_num [F64.lt, F64.gt]
    · simp only [Binary64.addVec, Binary64.scaleVec, Binary64.subVec, s2, s4, s5, s6, s7, s8, s9,
        s10]
    · norm_num [outsideBox, F64.lt, F64.gt]
  have a0_1 : Binary64.intersectLineQuad (Vec3.mk (F64.fin 0) (F64.fin 0) (F64.fin (1 / 2)))
      (Vec3.mk (F64.fin 1) (F64.fin 0) (F64.fin (1 / 2)))
      (Vec3.mk (F64.fin (129 / 256)) (F64.fin (127 / 256)) (F64.fin (127 / 256)))
      (Vec3.mk (F64.fin (129 / 256)) (F64.fin (129 / 256)) (F64.fin (129 / 256))) = Except.ok false :=
      by
    refine binary64_intersectLineQuad_of_point _ _ _ _ Plane.X (F64.fin (129 / 256))
      (Vec3.mk (F64.fin (129 / 256)) (F64.fin 0) (F64.fin (1 / 2))) true ?_ ?_ ?_ ?_ ?_
    · norm_num [selectPlane, F64.eq]
    · simp only [Binary64.planeParam, Vec3.get, s11, s2, s12]
    · norm_num [F64.lt, F64.gt]
    · simp only [Binary64.addVec, Binary64.scaleVec, Binary64.subVec, s2, s4, s5, s13, s14, s15, s9,
        s10]
    · norm_num [outsideBox, F64.lt, F64.gt]
  have a0_2 : Binary64.intersectLineQuad (Vec3.mk (F64.fin 0) (F64.fin 0) (F64.fin (1 / 2)))
      (Vec3.mk (F64.fin 1) (F64.fin 0) (F64.fin (1 / 2)))
      (Vec3.mk (F64.fin (127 / 256)) (F64.fin (127 / 256)) (F64.fin (127 / 256)))
      (Vec3.mk (F64.fin (129 / 256)) (F64.fin (127 / 256)) (F64.fin (129 / 256))) = Except.ok false :=
      by
    refine binary64_intersectLineQuad_of_param_outside _ _ _ _ Plane.Y F64.pinf ?_ ?_ ?_
    · norm_num [selectPlane, F64.eq]
    · simp only [Binary64.planeParam, Vec3.get, s1, s4, s16]
    · norm_num [F64.lt, F64.gt]
  have a0_3 : Binary64.intersectLineQuad (Vec3.mk (F64.fin 0) (F64.fin 0) (F64.fin (1 / 2)))
      (Vec3.mk (F64.fin 1) (F64.fin 0) (F64.fin (1 / 2)))
      (Vec3.mk (F64.fin (127 / 256)) (F64.fin (129 / 256)) (F64.fin (127 / 256)))
      (Vec3.mk (F64.fin (129 / 256)) (F64.fin (129 / 256)) (F64.fin (129 / 256))) = Except.ok false :=
      by
    refine binary64_intersectLineQuad_of_param_outside _ _ _ _ Plane.Y F64.pinf ?_ ?_ ?_
    · norm_num [selectPlane, F64.eq]
    · simp only [Binary64.planeParam, Vec3.get, s11, s4, s17]
    · norm_num [F64.lt, F64.gt]
  have a0_4 : Binary64.intersectLineQuad (Vec3.mk (F64.fin 0) (F64.fin 0) (F64.fin (1 / 2)))
      (Vec3.mk (F64.fin 1) (F64.fin 0) (F64.fin (1 / 2)))
      (Vec3.mk (F64.fin (127 / 256)) (F64.fin (127 / 256)) (F64.fin (127 / 256)))
      (Vec3.mk (F64.fin (129 / 256)) (F64.fin (129 / 256)) (F64.fin (127 / 256))) = Except.ok false :=
      by
    refine binary64_intersectLineQuad_of_param_outside _ _ _ _ Plane.Z F64.ninf ?_ ?_ ?_
    · norm_num [selectPlane, F64.eq]
    · simp only [Binary64.planeParam, Vec3.get, s18, s5, s19]
    · norm_num [F64.lt, F64.gt]
  have a0_5 : Binary64.intersectLineQuad (Vec3.mk (F64.fin 0) (F64.fin 0) (F64.fin (1 / 2)))
      (Vec3.mk (F64.fin 1) (F64.fin 0) (F64.fin (1 / 2)))
      (Vec3.mk (F64.fin (127 / 256)) (F64.fin (127 / 256)) (F64.fin (129 / 256)))
      (Vec3.mk (F64.fin (129 / 256)) (F64.fin (129 / 256)) (F64.fin (129 / 256))) = Except.ok false :=
      by
    refine binary64_intersectLineQuad_of_param_outside _ _ _ _ Plane.Z F64.pinf ?_ ?_ ?_
    · norm_num [selectPlane, F64.eq]
    · simp only [Binary64.planeParam, Vec3.get, s20, s5, s21]
    · norm_num [F64.lt, F64.gt]
  have a0_i1 : insideBox (Vec3.mk (F64.fin 0) (F64.fin 0) (F64.fin (1 / 2)))
      (Vec3.mk (F64.fin (127 / 256)) (F64.fin (127 / 256)) (F64.fin (127 / 256)))
      (Vec3.mk (F64.fin (129 / 256)) (F64.fin (129 / 256)) (F64.fin (129 / 256))) = false := by
    norm_num [insideBox, F64.le, F64.ge]
  have a0_i2 : insideBox (Vec3.mk (F64.fin 1) (F64.fin 0) (F64.fin (1 / 2)))
      (Vec3.mk (F64.fin (127 / 256)) (F64.fin (127 / 256)) (F64.fin (127 / 256)))
      (Vec3.mk (F64.fin (129 / 256)) (F64.fin (129 / 256)) (F64.fin (129 / 256))) = false := by
    norm_num [insideBox, F64.le, F64.ge]
  have ha0 : Binary64.intersectLineCube (Vec3.mk (F64.fin 0) (F64.fin 0) (F64.fin (1 / 2)))
      (Vec3.mk (F64.fin 1) (F64.fin 0) (F64.fin (1 / 2)))
      (Vec3.mk (F64.fin (127 / 256)) (F64.fin (127 / 256)) (F64.fin (127 / 256)))
      (Vec3.mk (F64.fin (129 / 256)) (F64.fin (129 / 256)) (F64.fin (129 / 256))) = Except.ok false :=
    binary64_intersectLineCube_of_faces _ _ _ _ _ _ _ _ _ _ _ _ _ _ a0_i1 a0_i2 a0_0 a0_1 a0_2 a0_3
      a0_4 a0_5
  have a1_0 : Binary64.intersectLineQuad (Vec3.mk (F64.fin 1) (F64.fin 0) (F64.fin (1 / 2)))
      (Vec3.mk (F64.fin (1 / 2)) (F64.fin 1) (F64.fin (1 / 2)))
      (Vec3.mk (F64.fin (127 / 256)) (F64.fin (127 / 256)) (F64.fin (127 / 256)))
      (Vec3.mk (F64.fin (127 / 256)) (F64.fin (129 / 256)) (F64.fin (129 / 256))) = Except.ok false :=
      by
    refine binary64_intersectLineQuad_of_param_outside _ _ _ _ Plane.X (F64.fin (129 / 128)) ?_ ?_
      ?_
    · norm_num [selectPlane, F64.eq]
    · simp only [Binary64.planeParam, Vec3.get, s22, s23, s24]
    · norm_num [F64.lt, F64.gt]
  have a1_1 : Binary64.intersectLineQuad (Vec3.mk (F64.fin 1) (F64.fin 0) (F64.fin (1 / 2)))
      (Vec3.mk (F64.fin (1 / 2)) (F64.fin 1) (F64.fin (1 / 2)))
      (Vec3.mk (F64.fin (129 / 256)) (F64.fin (127 / 256)) (F64.fin (127 / 256)))
      (Vec3.mk (F64.fin (129 / 256)) (F64.fin (129 / 256)) (F64.fin (129 / 256))) = Except.ok false :=
      by
    refine binary64_intersectLineQuad_of_point _ _ _ _ Plane.X (F64.fin (127 / 128))
      (Vec3.mk (F64.fin (129 / 256)) (F64.fin (127 / 128)) (F64.fin (1 / 2))) true ?_ ?_ ?_ ?_ ?_
    · norm_num [selectPlane, F64.eq]
    · simp only [Binary64.planeParam, Vec3.get, s25, s23, s26]
    · norm_num [F64.lt, F64.gt]
    · simp only [Binary64.addVec, Binary64.scaleVec, Binary64.subVec, s23, s2, s5, s27, s28, s29,
        s30, s31, s10]
    · norm_num [outsideBox, F64.lt, F64.gt]
  have a1_2 : Binary64.intersectLineQuad (Vec3.mk (F64.fin 1) (F64.fin 0) (F64.fin (1 / 2)))
      (Vec3.mk (F64.fin (1 / 2)) (F64.fin 1) (F64.fin (1 / 2)))
      (Vec3.mk (F64.fin (127 / 256)) (F64.fin (127 / 256)) (F64.fin (127 / 256)))
      (Vec3.mk (F64.fin (129 / 256)) (F64.fin (127 / 256)) (F64.fin (129 / 256))) = Except.ok false :=
      by
    refine binary64_intersectLineQuad_of_point _ _ _ _ Plane.Y (F64.fin (127 / 256))
      (Vec3.mk (F64.fin (385 / 512)) (F64.fin (127 / 256)) (F64.fin (1 / 2))) true ?_ ?_ ?_ ?_ ?_
    · norm_num [selectPlane, F64.eq]
    · simp only [Binary64.planeParam, Vec3.get, s1, s2, s3]
    · norm_num [F64.lt, F64.gt]
    · simp only [Binary64.addVec, Binary64.scaleVec, Binary64.subVec, s23, s2, s5, s32, s6, s7, s33,
        s8, s10]
    · norm_num [outsideBox, F64.lt, F64.gt]
  have a1_3 : Binary64.intersectLineQuad (Vec3.mk (F64.fin 1) (F64.fin 0) (F64.fin (1 / 2)))
      (Vec3.mk (F64.fin (1 / 2)) (F64.fin 1) (F64.fin (1 / 2)))
      (Vec3.mk (F64.fin (127 / 256)) (F64.fin (129 / 256)) (F64.fin (127 / 256)))
      (Vec3.mk (F64.fin (129 / 256)) (F64.fin (129 / 256)) (F64.fin (129 / 256))) = Except.ok false :=
      by
    refine binary64_intersectLineQuad_of_point _ _ _ _ Plane.Y (F64.fin (129 / 256))
      (Vec3.mk (F64.fin (383 / 512)) (F64.fin (129 / 256)) (F64.fin (1 / 2))) true ?_ ?_ ?_ ?_ ?_
    · norm_num [selectPlane, F64.eq]
    · simp only [Binary64.planeParam, Vec3.get, s11, s2, s12]
    · norm_num [F64.lt, F64.gt]
    · simp only [Binary64.addVec, Binary64.scaleVec, Binary64.subVec, s23, s2, s5, s34, s13, s14,
        s35, s15, s10]
    · norm_num [outsideBox, F64.lt, F64.gt]
  have a1_4 : Binary64.intersectLineQuad (Vec3.mk (F64.fin 1) (F64.fin 0) (F64.fin (1 / 2)))
      (Vec3.mk (F64.fin (1 / 2)) (F64.fin 1) (F64.fin (1 / 2)))
      (Vec3.mk (F64.fin (127 / 256)) (F64.fin (127 / 256)) (F64.fin (127 / 256)))
      (Vec3.mk (F64.fin (129 / 256)) (F64.fin (129 / 256)) (F64.fin (127 / 256))) = Except.ok false :=
      by
    refine binary64_intersectLineQuad_of_param_outside _ _ _ _ Plane.Z F64.ninf ?_ ?_ ?_
    · norm_num [selectPlane, F64.eq]
    · simp only [Binary64.planeParam, Vec3.get, s18, s5, s19]
    · norm_num [F64.lt, F64.gt]
  have a1_5 : Binary64.intersectLineQuad (Vec3.mk (F64.fin 1) (F64.fin 0) (F64.fin (1 / 2)))
      (Vec3.mk (F64.fin (1 / 2)) (F64.fin 1) (F64.fin (1 / 2)))
      (Vec3.mk (F64.fin (127 / 256)) (F64.fin (127 / 256)) (F64.fin (129 / 256)))
      (Vec3.mk (F64.fin (129 / 256)) (F64.fin (129 / 256)) (F64.fin (129 / 256))) = Except.ok false :=
      by
    refine binary64_intersectLineQuad_of_param_outside _ _ _ _ Plane.Z F64.pinf ?_ ?_ ?_
    · norm_num [selectPlane, F64.eq]
    · simp only [Binary64.planeParam, Vec3.get, s20, s5, s21]
    · norm_num [F64.lt, F64.gt]
  have a1_i1 : insideBox (Vec3.mk (F64.fin 1) (F64.fin 0) (F64.fin (1 / 2)))
      (Vec3.mk (F64.fin (127 / 256)) (F64.fin (127 / 256)) (F64.fin (127 / 256)))
      (Vec3.mk (F64.fin (129 / 256)) (F64.fin (129 / 256)) (F64.fin (129 / 256))) = false := by
    norm_num [insideBox, F64.le, F64.ge]
  have a1_i2 : insideBox (Vec3.mk (F64.fin (1 / 2)) (F64.fin 1) (F64.fin (1 / 2)))
      (Vec3.mk (F64.fin (127 / 256)) (F64.fin (127 / 256)) (F64.fin (127 / 256)))
      (Vec3.mk (F64.fin (129 / 256)) (F64.fin (129 / 256)) (F64.fin (129 / 256))) = false := by
    norm_num [insideBox, F64.le, F64.ge]
  have ha1 : Binary64.intersectLineCube (Vec3.mk (F64.fin 1) (F64.fin 0) (F64.fin (1 / 2)))
      (Vec3.mk (F64.fin (1 / 2)) (F64.fin 1) (F64.fin (1 / 2)))
      (Vec3.mk (F64.fin (127 / 256)) (F64.fin (127 / 256)) (F64.fin (127 / 256)))
      (Vec3.mk (F64.fin (129 / 256)) (F64.fin (129 / 256)) (F64.fin (129 / 256))) = Except.ok false :=
    binary64_intersectLineCube_of_faces _ _ _ _ _ _ _ _ _ _ _ _ _ _ a1_i1 a1_i2 a1_0 a1_1 a1_2 a1_3
      a1_4 a1_5
  have a2_0 : Binary64.intersectLineQuad (Vec3.mk (F64.fin (1 / 2)) (F64.fin 1) (F64.fin (1 / 2)))
      (Vec3.mk (F64.fin 0) (F64.fin 0) (F64.fin (1 / 2)))
      (Vec3.mk (F64.fin (127 / 256)) (F64.fin (127 / 256)) (F64.fin (127 / 256)))
      (Vec3.mk (F64.fin (127 / 256)) (F64.fin (129 / 256)) (F64.fin (129 / 256))) = Except.ok false :=
      by
    refine binary64_intersectLineQuad_of_point _ _ _ _ Plane.X (F64.fin (1 / 128))
      (Vec3.mk (F64.fin (127 / 256)) (F64.fin (127 / 128)) (F64.fin (1 / 2))) true ?_ ?_ ?_ ?_ ?_
    · norm_num [selectPlane, F64.eq]
    · simp only [Binary64.planeParam, Vec3.get, s18, s36, s37]
    · norm_num [F64.lt, F64.gt]
    · simp only [Binary64.addVec, Binary64.scaleVec, Binary64.subVec, s36, s38, s5, s39, s40, s41,
        s42, s43, s10]
    · norm_num [outsideBox, F64.lt, F64.gt]
  have a2_1 : Binary64.intersectLineQuad (Vec3.mk (F64.fin (1 / 2)) (F64.fin 1) (F64.fin (1 / 2)))
      (Vec3.mk (F64.fin 0) (F64.fin 0) (F64.fin (1 / 2)))
      (Vec3.mk (F64.fin (129 / 256)) (F64.fin (127 / 256)) (F64.fin (127 / 256)))
      (Vec3.mk (F64.fin (129 / 256)) (F64.fin (129 / 256)) (F64.fin (129 / 256))) = Except.ok false :=
      by
    refine binary64_intersectLineQuad_of_param_outside _ _ _ _ Plane.X (F64.fin (-1 / 128)) ?_ ?_ ?_
    · norm_num [selectPlane, F64.eq]
    · simp only [Binary64.planeParam, Vec3.get, s20, s36, s44]
    · norm_num [F64.lt, F64.gt]
  have a2_2 : Binary64.intersectLineQuad (Vec3.mk (F64.fin (1 / 2)) (F64.fin 1) (F64.fin (1 / 2)))
      (Vec3.mk (F64.fin 0) (F64.fin 0) (F64.fin (1 / 2)))
      (Vec3.mk (F64.fin (127 / 256)) (F64.fin (127 / 256)) (F64.fin (127 / 256)))
      (Vec3.mk (F64.fin (129 / 256)) (F64.fin (127 / 256)) (F64.fin (129 / 256))) = Except.ok false :=
      by
    refine binary64_intersectLineQuad_of_point _ _ _ _ Plane.Y (F64.fin (129 / 256))
      (Vec3.mk (F64.fin (127 / 512)) (F64.fin (127 / 256)) (F64.fin (1 / 2))) true ?_ ?_ ?_ ?_ ?_
    · norm_num [selectPlane, F64.eq]
    · simp only [Binary64.planeParam, Vec3.get, s22, s38, s45]
    · norm_num [F64.lt, F64.gt]
    · simp only [Binary64.addVec, Binary64.scaleVec, Binary64.subVec, s36, s38, s5, s34, s46, s14,
        s47, s48, s10]
    · norm_num [outsideBox, F64.lt, F64.gt]
  have a2_3 : Binary64.intersectLineQuad (Vec3.mk (F64.fin (1 / 2)) (F64.fin 1) (F64.fin (1 / 2)))
      (Vec3.mk (F64.fin 0) (F64.fin 0) (F64.fin (1 / 2)))
      (Vec3.mk (F64.fin (127 / 256)) (F64.fin (129 / 256)) (F64.fin (127 / 256)))
      (Vec3.mk (F64.fin (129 / 256)) (F64.fin (129 / 256)) (F64.fin (129 / 256))) = Except.ok false :=
      by
    refine binary64_intersectLineQuad_of_point _ _ _ _ Plane.Y (F64.fin (127 / 256))
      (Vec3.mk (F64.fin (129 / 512)) (F64.fin (129 / 256)) (F64.fin (1 / 2))) true ?_ ?_ ?_ ?_ ?_
    · norm_num [selectPlane, F64.eq]
    · simp only [Binary64.planeParam, Vec3.get, s25, s38, s49]
    · norm_num [F64.lt, F64.gt]
    · simp only [Binary64.addVec, Binary64.scaleVec, Binary64.subVec, s36, s38, s5, s32, s50, s7,
        s51, s30, s10]
    · norm_num [outsideBox, F64.lt, F64.gt]
  have a2_4 : Binary64.intersectLineQuad (Vec3.mk (F64.fin (1 / 2)) (F64.fin 1) (F64.fin (1 / 2)))
      (Vec3.mk (F64.fin 0) (F64.fin 0) (F64.fin (1 / 2)))
      (Vec3.mk (F64.fin (127 / 256)) (F64.fin (127 / 256)) (F64.fin (127 / 256)))
      (Vec3.mk (F64.fin (129 / 256)) (F64.fin (129 / 256)) (F64.fin (127 / 256))) = Except.ok false :=
      by
    refine binary64_intersectLineQuad_of_param_outside _ _ _ _ Plane.Z F64.ninf ?_ ?_ ?_
    · norm_num [selectPlane, F64.eq]
    · simp only [Binary64.planeParam, Vec3.get, s18, s5, s19]
    · norm_num [F64.lt, F64.gt]
  have a2_5 : Binary64.intersectLineQuad (Vec3.mk (F64.fin (1 / 2)) (F64.fin 1) (F64.fin (1 / 2)))
      (Vec3.mk (F64.fin 0) (F64.fin 0) (F64.fin (1 / 2)))
      (Vec3.mk (F64.fin (127 / 256)) (F64.fin (127 / 256)) (F64.fin (129 / 256)))
      (Vec3.mk (F64.fin (129 / 256)) (F64.fin (129 / 256)) (F64.fin (129 / 256))) = Except.ok false :=
      by
    refine binary64_intersectLineQuad_of_param_outside _ _ _ _ Plane.Z F64.pinf ?_ ?_ ?_
    · norm_num [selectPlane, F64.eq]
    · simp only [Binary64.planeParam, Vec3.get, s20, s5, s21]
    · norm_num [F64.lt, F64.gt]
  have a2_i1 : insideBox (Vec3.mk (F64.fin (1 / 2)) (F64.fin 1) (F64.fin (1 / 2)))
      (Vec3.mk (F64.fin (127 / 256)) (F64.fin (127 / 256)) (F64.fin (127 / 256)))
      (Vec3.mk (F64.fin (129 / 256)) (F64.fin (129 / 256)) (F64.fin (129 / 256))) = false := by
    norm_num [insideBox, F64.le, F64.ge]
  have a2_i2 : insideBox (Vec3.mk (F64.fin 0) (F64.fin 0) (F64.fin (1 / 2)))
      (Vec3.mk (F64.fin (127 / 256)) (F64.fin (127 / 256)) (F64.fin (127 / 256)))
      (Vec3.mk (F64.fin (129 / 256)) (F64.fin (129 / 256)) (F64.fin (129 / 256))) = false := by
    norm_num [insideBox, F64.le, F64.ge]
  have ha2 : Binary64.intersectLineCube (Vec3.mk (F64.fin (1 / 2)) (F64.fin 1) (F64.fin (1 / 2)))
      (Vec3.mk (F64.fin 0) (F64.fin 0) (F64.fin (1 / 2)))
      (Vec3.mk (F64.fin (127 / 256)) (F64.fin (127 / 256)) (F64.fin (127 / 256)))
      (Vec3.mk (F64.fin (129 / 256)) (F64.fin (129 / 256)) (F64.fin (129 / 256))) = Except.ok false :=
    binary64_intersectLineCube_of_faces _ _ _ _ _ _ _ _ _ _ _ _ _ _ a2_i1 a2_i2 a2_0 a2_1 a2_2 a2_3
      a2_4 a2_5
  have ha : Binary64.intersectTriangleCube (Vec3.mk (F64.fin 0) (F64.fin 0) (F64.fin (1 / 2)))
      (Vec3.mk (F64.fin 1) (F64.fin 0) (F64.fin (1 / 2)))
      (Vec3.mk (F64.fin (1 / 2)) (F64.fin 1) (F64.fin (1 / 2)))
      (Vec3.mk (F64.fin (127 / 256)) (F64.fin (127 / 256)) (F64.fin (127 / 256)))
      (Vec3.mk (F64.fin (129 / 256)) (F64.fin (129 / 256)) (F64.fin (129 / 256))) = Except.ok false :=
    binary64_intersectTriangleCube_of_edges _ _ _ _ _ _ _ _ ha0 ha1 ha2
  have b0_0 : Binary64.intersectLineQuad (Vec3.mk (F64.fin (129 / 256)) (F64.fin 1) (F64.fin 0))
      (Vec3.mk (F64.fin (129 / 256)) (F64.fin 0) (F64.fin (3 / 4)))
      (Vec3.mk (F64.fin (127 / 256)) (F64.fin (127 / 256)) (F64.fin (127 / 256)))
      (Vec3.mk (F64.fin (127 / 256)) (F64.fin (129 / 256)) (F64.fin (129 / 256))) = Except.ok false :=
      by
    refine binary64_intersectLineQuad_of_param_outside _ _ _ _ Plane.X F64.ninf ?_ ?_ ?_
    · norm_num [selectPlane, F64.eq]
    · simp only [Binary64.planeParam, Vec3.get, s52, s53, s54]
    · norm_num [F64.lt, F64.gt]
  have b0_1 : Binary64.intersectLineQuad (Vec3.mk (F64.fin (129 / 256)) (F64.fin 1) (F64.fin 0))
      (Vec3.mk (F64.fin (129 / 256)) (F64.fin 0) (F64.fin (3 / 4)))
      (Vec3.mk (F64.fin (129 / 256)) (F64.fin (127 / 256)) (F64.fin (127 / 256)))
      (Vec3.mk (F64.fin (129 / 256)) (F64.fin (129 / 256)) (F64.fin (129 / 256))) = Except.ok true :=
      by
    refine binary64_intersectLineQuad_of_point _ _ _ _ Plane.X F64.nan
      (Vec3.mk F64.nan F64.nan F64.nan) false ?_ ?_ ?_ ?_ ?_
    · norm_num [selectPlane, F64.eq]
    · simp only [Binary64.planeParam, Vec3.get, s53, s55]
    · norm_num [F64.lt, F64.gt]
    · simp only [Binary64.addVec, Binary64.scaleVec, Binary64.subVec, s53, s38, s56, s57, s58, s59,
        s60, s61, s62]
    · norm_num [outsideBox, F64.lt, F64.gt]
  have b0_2 : Binary64.intersectLineQuad (Vec3.mk (F64.fin (129 / 256)) (F64.fin 1) (F64.fin 0))
      (Vec3.mk (F64.fin (129 / 256)) (F64.fin 0) (F64.fin (3 / 4)))
      (Vec3.mk (F64.fin (127 / 256)) (F64.fin (127 / 256)) (F64.fin (127 / 256)))
      (Vec3.mk (F64.fin (129 / 256)) (F64.fin (127 / 256)) (F64.fin (129 / 256))) = Except.ok false :=
      by
    refine binary64_intersectLineQuad_of_point _ _ _ _ Plane.Y (F64.fin (129 / 256))
      (Vec3.mk (F64.fin (129 / 256)) (F64.fin (127 / 256)) (F64.fin (387 / 1024))) true ?_ ?_ ?_ ?_
      ?_
    · norm_num [selectPlane, F64.eq]
    · simp only [Binary64.planeParam, Vec3.get, s22, s38, s45]
    · norm_num [F64.lt, F64.gt]
    · simp only [Binary64.addVec, Binary64.scaleVec, Binary64.subVec, s53, s38, s56, s14, s46, s63,
        s64, s48, s65]
    · norm_num [outsideBox, F64.lt, F64.gt]
  have b0_3 : Binary64.intersectLineQuad (Vec3.mk (F64.fin (129 / 256)) (F64.fin 1) (F64.fin 0))
      (Vec3.mk (F64.fin (129 / 256)) (F64.fin 0) (F64.fin (3 / 4)))
      (Vec3.mk (F64.fin (127 / 256)) (F64.fin (129 / 256)) (F64.fin (127 / 256)))
      (Vec3.mk (F64.fin (129 / 256)) (F64.fin (129 / 256)) (F64.fin (129 / 256))) = Except.ok false :=
      by
    refine binary64_intersectLineQuad_of_point _ _ _ _ Plane.Y (F64.fin (127 / 256))
      (Vec3.mk (F64.fin (129 / 256)) (F64.fin (129 / 256)) (F64.fin (381 / 1024))) true ?_ ?_ ?_ ?_
      ?_
    · norm_num [selectPlane, F64.eq]
    · simp only [Binary64.planeParam, Vec3.get, s25, s38, s49]
    · norm_num [F64.lt, F64.gt]
    · simp only [Binary64.addVec, Binary64.scaleVec, Binary64.subVec, s53, s38, s56, s7, s50, s66,
        s64, s30, s67]
    · norm_num [outsideBox, F64.lt, F64.gt]
  have b0_4 : Binary64.intersectLineQuad (Vec3.mk (F64.fin (129 / 256)) (F64.fin 1) (F64.fin 0))
      (Vec3.mk (F64.fin (129 / 256)) (F64.fin 0) (F64.fin (3 / 4)))
      (Vec3.mk (F64.fin (127 / 256)) (F64.fin (127 / 256)) (F64.fin (127 / 256)))
      (Vec3.mk (F64.fin (129 / 256)) (F64.fin (129 / 256)) (F64.fin (127 / 256))) = Except.ok false :=
      by
    refine binary64_intersectLineQuad_of_point _ _ _ _ Plane.Z
      (F64.fin (5957887007042219 / 9007199254740992))
      (Vec3.mk (F64.fin (129 / 256)) (F64.fin (3049312247698773 / 9007199254740992)) (F64.fin (127 / 256)))
      true ?_ ?_ ?_ ?_ ?_
    · norm_num [selectPlane, F64.eq]
    · simp only [Binary64.planeParam, Vec3.get, s1, s56, s68]
    · norm_num [F64.lt, F64.gt]
    · simp only [Binary64.addVec, Binary64.scaleVec, Binary64.subVec, s53, s38, s56, s69, s70, s71,
        s64, s72, s8]
    · norm_num [outsideBox, F64.lt, F64.gt]
  have b0_5 : Binary64.intersectLineQuad (Vec3.mk (F64.fin (129 / 256)) (F64.fin 1) (F64.fin 0))
      (Vec3.mk (F64.fin (129 / 256)) (F64.fin 0) (F64.fin (3 / 4)))
      (Vec3.mk (F64.fin (127 / 256)) (F64.fin (127 / 256)) (F64.fin (129 / 256)))
      (Vec3.mk (F64.fin (129 / 256)) (F64.fin (129 / 256)) (F64.fin (129 / 256))) = Except.ok false :=
      by
    refine binary64_intersectLineQuad_of_point _ _ _ _ Plane.Z (F64.fin (43 / 64))
      (Vec3.mk (F64.fin (129 / 256)) (F64.fin (21 / 64)) (F64.fin (129 / 256))) true ?_ ?_ ?_ ?_ ?_
    · norm_num [selectPlane, F64.eq]
    · simp only [Binary64.planeParam, Vec3.get, s11, s56, s73]
    · norm_num [F64.lt, F64.gt]
    · simp only [Binary64.addVec, Binary64.scaleVec, Binary64.subVec, s53, s38, s56, s74, s75, s76,
        s64, s77, s15]
    · norm_num [outsideBox, F64.lt, F64.gt]
  have b0_i1 : insideBox (Vec3.mk (F64.fin (129 / 256)) (F64.fin 1) (F64.fin 0))
      (Vec3.mk (F64.fin (127 / 256)) (F64.fin (127 / 256)) (F64.fin (127 / 256)))
      (Vec3.mk (F64.fin (129 / 256)) (F64.fin (129 / 256)) (F64.fin (129 / 256))) = false := by
    norm_num [insideBox, F64.le, F64.ge]
  have b0_i2 : insideBox (Vec3.mk (F64.fin (129 / 256)) (F64.fin 0) (F64.fin (3 / 4)))
      (Vec3.mk (F64.fin (127 / 256)) (F64.fin (127 / 256)) (F64.fin (127 / 256)))
      (Vec3.mk (F64.fin (129 / 256)) (F64.fin (129 / 256)) (F64.fin (129 / 256))) = false := by
    norm_num [insideBox, F64.le, F64.ge]
  have hb0 : Binary64.intersectLineCube (Vec3.mk (F64.fin (129 / 256)) (F64.fin 1) (F64.fin 0))
      (Vec3.mk (F64.fin (129 / 256)) (F64.fin 0) (F64.fin (3 / 4)))
      (Vec3.mk (F64.fin (127 / 256)) (F64.fin (127 / 256)) (F64.fin (127 / 256)))
      (Vec3.mk (F64.fin (129 / 256)) (F64.fin (129 / 256)) (F64.fin (129 / 256))) = Except.ok true :=
    binary64_intersectLineCube_of_faces _ _ _ _ _ _ _ _ _ _ _ _ _ _ b0_i1 b0_i2 b0_0 b0_1 b0_2 b0_3
      b0_4 b0_5
  have b1_0 : Binary64.intersectLineQuad
      (Vec3.mk (F64.fin (129 / 256)) (F64.fin 0) (F64.fin (3 / 4)))
      (Vec3.mk (F64.fin (63 / 128)) (F64.fin (1 / 2)) (F64.fin (3 / 4)))
      (Vec3.mk (F64.fin (127 / 256)) (F64.fin (127 / 256)) (F64.fin (127 / 256)))
      (Vec3.mk (F64.fin (127 / 256)) (F64.fin (129 / 256)) (F64.fin (129 / 256))) = Except.ok false :=
      by
    refine binary64_intersectLineQuad_of_point _ _ _ _ Plane.X
      (F64.fin (6004799503160661 / 9007199254740992))
      (Vec3.mk (F64.fin (127 / 256)) (F64.fin (6004799503160661 / 18014398509481984)) (F64.fin (3 / 4)))
      true ?_ ?_ ?_ ?_ ?_
    · norm_num [selectPlane, F64.eq]
    · simp only [Binary64.planeParam, Vec3.get, s52, s78, s79]
    · norm_num [F64.lt, F64.gt]
    · simp only [Binary64.addVec, Binary64.scaleVec, Binary64.subVec, s78, s80, s81, s82, s83, s84,
        s85, s86, s87]
    · norm_num [outsideBox, F64.lt, F64.gt]
  have b1_1 : Binary64.intersectLineQuad
      (Vec3.mk (F64.fin (129 / 256)) (F64.fin 0) (F64.fin (3 / 4)))
      (Vec3.mk (F64.fin (63 / 128)) (F64.fin (1 / 2)) (F64.fin (3 / 4)))
      (Vec3.mk (F64.fin (129 / 256)) (F64.fin (127 / 256)) (F64.fin (127 / 256)))
      (Vec3.mk (F64.fin (129 / 256)) (F64.fin (129 / 256)) (F64.fin (129 / 256))) = Except.ok false :=
      by
    refine binary64_intersectLineQuad_of_point _ _ _ _ Plane.X (F64.fin 0)
      (Vec3.mk (F64.fin (129 / 256)) (F64.fin 0) (F64.fin (3 / 4))) true ?_ ?_ ?_ ?_ ?_
    · norm_num [selectPlane, F64.eq]
    · simp only [Binary64.planeParam, Vec3.get, s53, s78, s88]
    · norm_num [F64.lt, F64.gt]
    · simp only [Binary64.addVec, Binary64.scaleVec, Binary64.subVec, s78, s80, s81, s89, s90, s91,
        s64, s9, s87]
    · norm_num [outsideBox, F64.lt, F64.gt]
  have b1_2 : Binary64.intersectLineQuad
      (Vec3.mk (F64.fin (129 / 256)) (F64.fin 0) (F64.fin (3 / 4)))
      (Vec3.mk (F64.fin (63 / 128)) (F64.fin (1 / 2)) (F64.fin (3 / 4)))
      (Vec3.mk (F64.fin (127 / 256)) (F64.fin (127 / 256)) (F64.fin (127 / 256)))
      (Vec3.mk (F64.fin (129 / 256)) (F64.fin (127 / 256)) (F64.fin (129 / 256))) = Except.ok false :=
      by
    refine binary64_intersectLineQuad_of_point _ _ _ _ Plane.Y (F64.fin (127 / 128))
      (Vec3.mk (F64.fin (16131 / 32768)) (F64.fin (127 / 256)) (F64.fin (3 / 4))) true ?_ ?_ ?_ ?_
      ?_
    · norm_num [selectPlane, F64.eq]
    · simp only [Binary64.planeParam, Vec3.get, s1, s80, s92]
    · norm_num [F64.lt, F64.gt]
    · simp only [Binary64.addVec, Binary64.scaleVec, Binary64.subVec, s78, s80, s81, s93, s94, s29,
        s95, s8, s87]
    · norm_num [outsideBox, F64.lt, F64.gt]
  have b1_3 : Binary64.intersectLineQuad
      (Vec3.mk (F64.fin (129 / 256)) (F64.fin 0) (F64.fin (3 / 4)))
      (Vec3.mk (F64.fin (63 / 128)) (F64.fin (1 / 2)) (F64.fin (3 / 4)))
      (Vec3.mk (F64.fin (127 / 256)) (F64.fin (129 / 256)) (F64.fin (127 / 256)))
      (Vec3.mk (F64.fin (129 / 256)) (F64.fin (129 / 256)) (F64.fin (129 / 256))) = Except.ok false :=
      by
    refine binary64_intersectLineQuad_of_param_outside _ _ _ _ Plane.Y (F64.fin (129 / 128)) ?_ ?_
      ?_
    · norm_num [selectPlane, F64.eq]
    · simp only [Binary64.planeParam, Vec3.get, s11, s80, s96]
    · norm_num [F64.lt, F64.gt]
  have b1_4 : Binary64.intersectLineQuad
      (Vec3.mk (F64.fin (129 / 256)) (F64.fin 0) (F64.fin (3 / 4)))
      (Vec3.mk (F64.fin (63 / 128)) (F64.fin (1 / 2)) (F64.fin (3 / 4)))
      (Vec3.mk (F64.fin (127 / 256)) (F64.fin (127 / 256)) (F64.fin (127 / 256)))
      (Vec3.mk (F64.fin (129 / 256)) (F64.fin (129 / 256)) (F64.fin (127 / 256))) = Except.ok false :=
      by
    refine binary64_intersectLineQuad_of_param_outside _ _ _ _ Plane.Z F64.ninf ?_ ?_ ?_
    · norm_num [selectPlane, F64.eq]
    · simp only [Binary64.planeParam, Vec3.get, s97, s81, s98]
    · norm_num [F64.lt, F64.gt]
  have b1_5 : Binary64.intersectLineQuad
      (Vec3.mk (F64.fin (129 / 256)) (F64.fin 0) (F64.fin (3 / 4)))
      (Vec3.mk (F64.fin (63 / 128)) (F64.fin (1 / 2)) (F64.fin (3 / 4)))
      (Vec3.mk (F64.fin (127 / 256)) (F64.fin (127 / 256)) (F64.fin (129 / 256)))
      (Vec3.mk (F64.fin (129 / 256)) (F64.fin (129 / 256)) (F64.fin (129 / 256))) = Except.ok false :=
      by
    refine binary64_intersectLineQuad_of_param_outside _ _ _ _ Plane.Z F64.ninf ?_ ?_ ?_
    · norm_num [selectPlane, F64.eq]
    · simp only [Binary64.planeParam, Vec3.get, s99, s81, s100]
    · norm_num [F64.lt, F64.gt]
  have b1_i1 : insideBox (Vec3.mk (F64.fin (129 / 256)) (F64.fin 0) (F64.fin (3 / 4)))
      (Vec3.mk (F64.fin (127 / 256)) (F64.fin (127 / 256)) (F64.fin (127 / 256)))
      (Vec3.mk (F64.fin (129 / 256)) (F64.fin (129 / 256)) (F64.fin (129 / 256))) = false := by
    norm_num [insideBox, F64.le, F64.ge]
  have b1_i2 : insideBox (Vec3.mk (F64.fin (63 / 128)) (F64.fin (1 / 2)) (F64.fin (3 / 4)))
      (Vec3.mk (F64.fin (127 / 256)) (F64.fin (127 / 256)) (F64.fin (127 / 256)))
      (Vec3.mk (F64.fin (129 / 256)) (F64.fin (129 / 256)) (F64.fin (129 / 256))) = false := by
    norm_num [insideBox, F64.le, F64.ge]
  have hb1 : Binary64.intersectLineCube
      (Vec3.mk (F64.fin (129 / 256)) (F64.fin 0) (F64.fin (3 / 4)))
      (Vec3.mk (F64.fin (63 / 128)) (F64.fin (1 / 2)) (F64.fin (3 / 4)))
      (Vec3.mk (F64.fin (127 / 256)) (F64.fin (127 / 256)) (F64.fin (127 / 256)))
      (Vec3.mk (F64.fin (129 / 256)) (F64.fin (129 / 256)) (F64.fin (129 / 256))) = Except.ok false :=
    binary64_intersectLineCube_of_faces _ _ _ _ _ _ _ _ _ _ _ _ _ _ b1_i1 b1_i2 b1_0 b1_1 b1_2 b1_3
      b1_4 b1_5
  have b2_0 : Binary64.intersectLineQuad
      (Vec3.mk (F64.fin (63 / 128)) (F64.fin (1 / 2)) (F64.fin (3 / 4)))
      (Vec3.mk (F64.fin (129 / 256)) (F64.fin 1) (F64.fin 0))
      (Vec3.mk (F64.fin (127 / 256)) (F64.fin (127 / 256)) (F64.fin (127 / 256)))
      (Vec3.mk (F64.fin (127 / 256)) (F64.fin (129 / 256)) (F64.fin (129 / 256))) = Except.ok false :=
      by
    refine binary64_intersectLineQuad_of_point _ _ _ _ Plane.X
      (F64.fin (6004799503160661 / 18014398509481984))
      (Vec3.mk (F64.fin (127 / 256)) (F64.fin (6004799503160661 / 9007199254740992)) (F64.fin (1 / 2)))
      true ?_ ?_ ?_ ?_ ?_
    · norm_num [selectPlane, F64.eq]
    · simp only [Binary64.planeParam, Vec3.get, s101, s102, s103]
    · norm_num [F64.lt, F64.gt]
    · simp only [Binary64.addVec, Binary64.scaleVec, Binary64.subVec, s102, s104, s105, s106, s107,
        s108, s109, s110, s111]
    · norm_num [outsideBox, F64.lt, F64.gt]
  have b2_1 : Binary64.intersectLineQuad
      (Vec3.mk (F64.fin (63 / 128)) (F64.fin (1 / 2)) (F64.fin (3 / 4)))
      (Vec3.mk (F64.fin (129 / 256)) (F64.fin 1) (F64.fin 0))
      (Vec3.mk (F64.fin (129 / 256)) (F64.fin (127 / 256)) (F64.fin (127 / 256)))
      (Vec3.mk (F64.fin (129 / 256)) (F64.fin (129 / 256)) (F64.fin (129 / 256))) = Except.ok false :=
      by
    refine binary64_intersectLineQuad_of_point _ _ _ _ Plane.X (F64.fin 1)
      (Vec3.mk (F64.fin (129 / 256)) (F64.fin 1) (F64.fin 0)) true ?_ ?_ ?_ ?_ ?_
    · norm_num [selectPlane, F64.eq]
    · simp only [Binary64.planeParam, Vec3.get, s102, s112]
    · norm_num [F64.lt, F64.gt]
    · simp only [Binary64.addVec, Binary64.scaleVec, Binary64.subVec, s102, s104, s105, s113, s114,
        s115, s116, s117, s118]
    · norm_num [outsideBox, F64.lt, F64.gt]
  have b2_2 : Binary64.intersectLineQuad
      (Vec3.mk (F64.fin (63 / 128)) (F64.fin (1 / 2)) (F64.fin (3 / 4)))
      (Vec3.mk (F64.fin (129 / 256)) (F64.fin 1) (F64.fin 0))
      (Vec3.mk (F64.fin (127 / 256)) (F64.fin (127 / 256)) (F64.fin (127 / 256)))
      (Vec3.mk (F64.fin (129 / 256)) (F64.fin (127 / 256)) (F64.fin (129 / 256))) = Except.ok false :=
      by
    refine binary64_intersectLineQuad_of_param_outside _ _ _ _ Plane.Y (F64.fin (-1 / 128)) ?_ ?_ ?_
    · norm_num [selectPlane, F64.eq]
    · simp only [Binary64.planeParam, Vec3.get, s18, s104, s119]
    · norm_num [F64.lt, F64.gt]
  have b2_3 : Binary64.intersectLineQuad
      (Vec3.mk (F64.fin (63 / 128)) (F64.fin (1 / 2)) (F64.fin (3 / 4)))
      (Vec3.mk (F64.fin (129 / 256)) (F64.fin 1) (F64.fin 0))
      (Vec3.mk (F64.fin (127 / 256)) (F64.fin (129 / 256)) (F64.fin (127 / 256)))
      (Vec3.mk (F64.fin (129 / 256)) (F64.fin (129 / 256)) (F64.fin (129 / 256))) = Except.ok false :=
      by
    refine binary64_intersectLineQuad_of_point _ _ _ _ Plane.Y (F64.fin (1 / 128))
      (Vec3.mk (F64.fin (16131 / 32768)) (F64.fin (129 / 256)) (F64.fin (381 / 512))) true ?_ ?_ ?_
      ?_ ?_
    · norm_num [selectPlane, F64.eq]
    · simp only [Binary64.planeParam, Vec3.get, s20, s104, s120]
    · norm_num [F64.lt, F64.gt]
    · simp only [Binary64.addVec, Binary64.scaleVec, Binary64.subVec, s102, s104, s105, s121, s122,
        s123, s124, s125, s126]
    · norm_num [outsideBox, F64.lt, F64.gt]
  have b2_4 : Binary64.intersectLineQuad
      (Vec3.mk (F64.fin (63 / 128)) (F64.fin (1 / 2)) (F64.fin (3 / 4)))
      (Vec3.mk (F64.fin (129 / 256)) (F64.fin 1) (F64.fin 0))
      (Vec3.mk (F64.fin (127 / 256)) (F64.fin (127 / 256)) (F64.fin (127 / 256)))
      (Vec3.mk (F64.fin (129 / 256)) (F64.fin (129 / 256)) (F64.fin (127 / 256))) = Except.ok false :=
      by
    refine binary64_intersectLineQuad_of_point _ _ _ _ Plane.Z
      (F64.fin (6098624495397547 / 18014398509481984))
      (Vec3.mk (F64.fin (8129 / 16384)) (F64.fin (6028255751219883 / 9007199254740992)) (F64.fin (127 / 256)))
      true ?_ ?_ ?_ ?_ ?_
    · norm_num [selectPlane, F64.eq]
    · simp only [Binary64.planeParam, Vec3.get, s97, s105, s127]
    · norm_num [F64.lt, F64.gt]
    · simp only [Binary64.addVec, Binary64.scaleVec, Binary64.subVec, s102, s104, s105, s128, s129,
        s130, s131, s132, s133]
    · norm_num [outsideBox, F64.lt, F64.gt]
  have b2_5 : Binary64.intersectLineQuad
      (Vec3.mk (F64.fin (63 / 128)) (F64.fin (1 / 2)) (F64.fin (3 / 4)))
      (Vec3.mk (F64.fin (129 / 256)) (F64.fin 1) (F64.fin 0))
      (Vec3.mk (F64.fin (127 / 256)) (F64.fin (127 / 256)) (F64.fin (129 / 256)))
      (Vec3.mk (F64.fin (129 / 256)) (F64.fin (129 / 256)) (F64.fin (129 / 256))) = Except.ok false :=
      by
    refine binary64_intersectLineQuad_of_point _ _ _ _ Plane.Z (F64.fin (21 / 64))
      (Vec3.mk (F64.fin (8127 / 16384)) (F64.fin (85 / 128)) (F64.fin (129 / 256))) true ?_ ?_ ?_ ?_
      ?_
    · norm_num [selectPlane, F64.eq]
    · simp only [Binary64.planeParam, Vec3.get, s99, s105, s134]
    · norm_num [F64.lt, F64.gt]
    · simp only [Binary64.addVec, Binary64.scaleVec, Binary64.subVec, s102, s104, s105, s135, s136,
        s137, s138, s139, s140]
    · norm_num [outsideBox, F64.lt, F64.gt]
  have b2_i1 : insideBox (Vec3.mk (F64.fin (63 / 128)) (F64.fin (1 / 2)) (F64.fin (3 / 4)))
      (Vec3.mk (F64.fin (127 / 256)) (F64.fin (127 / 256)) (F64.fin (127 / 256)))
      (Vec3.mk (F64.fin (129 / 256)) (F64.fin (129 / 256)) (F64.fin (129 / 256))) = false := by
    norm_num [insideBox, F64.le, F64.ge]
  have b2_i2 : insideBox (Vec3.mk (F64.fin (129 / 256)) (F64.fin 1) (F64.fin 0))
      (Vec3.mk (F64.fin (127 / 256)) (F64.fin (127 / 256)) (F64.fin (127 / 256)))
      (Vec3.mk (F64.fin (129 / 256)) (F64.fin (129 / 256)) (F64.fin (129 / 256))) = false := by
    norm_num [insideBox, F64.le, F64.ge]
  have hb2 : Binary64.intersectLineCube
      (Vec3.mk (F64.fin (63 / 128)) (F64.fin (1 / 2)) (F64.fin (3 / 4)))
      (Vec3.mk (F64.fin (129 / 256)) (F64.fin 1) (F64.fin 0))
      (Vec3.mk (F64.fin (127 / 256)) (F64.fin (127 / 256)) (F64.fin (127 / 256)))
      (Vec3.mk (F64.fin (129 / 256)) (F64.fin (129 / 256)) (F64.fin (129 / 256))) = Except.ok false :=
    binary64_intersectLineCube_of_faces _ _ _ _ _ _ _ _ _ _ _ _ _ _ b2_i1 b2_i2 b2_0 b2_1 b2_2 b2_3
      b2_4 b2_5
  have hb : Binary64.intersectTriangleCube (Vec3.mk (F64.fin (129 / 256)) (F64.fin 1) (F64.fin 0))
      (Vec3.mk (F64.fin (129 / 256)) (F64.fin 0) (F64.fin (3 / 4)))
      (Vec3.mk (F64.fin (63 / 128)) (F64.fin (1 / 2)) (F64.fin (3 / 4)))
      (Vec3.mk (F64.fin (127 / 256)) (F64.fin (127 / 256)) (F64.fin (127 / 256)))
      (Vec3.mk (F64.fin (129 / 256)) (F64.fin (129 / 256)) (F64.fin (129 / 256))) = Except.ok true :=
    binary64_intersectTriangleCube_of_edges _ _ _ _ _ _ _ _ hb0 hb1 hb2
  have hmin : Binary64.voxelMin 64 64 64 = Vec3.ofRat (127 / 256) (127 / 256) (127 / 256) := by
    rw [(binary64_voxel_bounds 64 64 64 (by norm_num) (by norm_num) (by norm_num)).2.1,
      voxelMin_eq]
    norm_num [Vec3.ofRat]
  have hmax : Binary64.voxelMax 64 64 64 = Vec3.ofRat (129 / 256) (129 / 256) (129 / 256) := by
    rw [(binary64_voxel_bounds 64 64 64 (by norm_num) (by norm_num) (by norm_num)).2.2,
      voxelMax_eq]
    norm_num [Vec3.ofRat]
  rw [hmin, hmax]
  exact ⟨ha, hb⟩

/-! ## Lemmas on normalization in binary64 -/

theorem binary64_normalizeVertex_get (b : Bounds) (v : Vertex) (a : Plane) :
    (Binary64.normalizeVertex b v).position.get a =
      Binary64.div (Binary64.sub (v.position.get a) (b.lo a)) (Binary64.maxRange b) := by
  cases a <;> rfl

theorem binary64_normalize_eq (vb : List Vertex) (b : Bounds)
    (hb : meshBounds vb = Except.ok b) :
    Binary64.normalize vb = Except.ok (vb.map (Binary64.normalizeVertex b)) := by
  unfold Binary64.normalize
  rw [hb]

theorem binary64_range_eq {vb : List Vertex} {b : Bounds} {lo hi : Plane → ℚ}
    (h : BoundsOf vb b lo hi) (a : Plane) : Binary64.range b a = F64.round (hi a - lo a) := by
  unfold Binary64.range
  rw [(h.1 a).1, (h.1 a).2, binary64_sub_fin]

theorem lt_fin_pinf (r : ℚ) : F64.lt (F64.fin r) F64.pinf = true := rfl

theorem lt_pinf (x : F64) : F64.lt F64.pinf x = false := by
  cases x <;> rfl

/-- When the largest of three extents is finite, all three are finite and it is their
maximum. -/
theorem stdMax3_of_fin (a b c : F64) (R : ℚ)
    (ha : a = F64.pinf ∨ ∃ r, a = F64.fin r) (hb : b = F64.pinf ∨ ∃ r, b = F64.fin r)
    (hc : c = F64.pinf ∨ ∃ r, c = F64.fin r) (h : stdMax3 a b c = F64.fin R) :
    ∃ ra rb rc, a = F64.fin ra ∧ b = F64.fin rb ∧ c = F64.fin rc ∧ R = max (max ra rb) rc := by
  rcases ha with rfl | ⟨ra, rfl⟩ <;> rcases hb with rfl | ⟨rb, rfl⟩ <;>
    rcases hc with rfl | ⟨rc, rfl⟩
  all_goals first
    | (rw [stdMax3_fin] at h
       exact ⟨ra, rb, rc, rfl, rfl, rfl, (F64.fin.inj h).symm⟩)
    | (exfalso
       unfold stdMax3 at h
       simp only [lt_fin_pinf, lt_pinf, if_true, if_false, Bool.false_eq_true] at h
       first
         | exact F64.noConfusion h
         | (split_ifs at h <;> first
             | exact F64.noConfusion h
             | simp only [lt_fin_pinf, not_true_eq_false] at *))

/-- The extents of a buffer whose largest rounded extent `R` is finite. -/
theorem binary64_extents {vb : List Vertex} {b : Bounds} {lo hi : Plane → ℚ}
    (h : BoundsOf vb b lo hi) (R : ℚ) (hR : Binary64.maxRange b = F64.fin R) :
    ∃ ρ : Plane → ℚ, (∀ a, F64.round (hi a - lo a) = F64.fin (ρ a) ∧ 0 ≤ ρ a ∧ ρ a ≤ R) ∧
      ∃ a, ρ a = R := by
  have hnn : ∀ a, F64.round (hi a - lo a) = F64.pinf ∨
      ∃ r, F64.round (hi a - lo a) = F64.fin r ∧ 0 ≤ r := fun a =>
    round_of_nonneg _ (by linarith [h.lo_le_hi a])
  have hcase : ∀ a, Binary64.range b a = F64.pinf ∨ ∃ r, Binary64.range b a = F64.fin r := by
    intro a
    rw [binary64_range_eq h a]
    rcases hnn a with e | ⟨r, e, -⟩
    · exact Or.inl e
    · exact Or.inr ⟨r, e⟩
  have hR' : stdMax3 (Binary64.range b Plane.X) (Binary64.range b Plane.Y)
      (Binary64.range b Plane.Z) = F64.fin R := hR
  obtain ⟨rx, ry, rz, ex, ey, ez, hmax⟩ := stdMax3_of_fin _ _ _ R (hcase Plane.X) (hcase Plane.Y)
    (hcase Plane.Z) hR'
  rw [binary64_range_eq h] at ex ey ez
  have nonneg : ∀ a r, F64.round (hi a - lo a) = F64.fin r → 0 ≤ r := by
    intro a r e
    rcases hnn a with e' | ⟨r', e', hr'⟩
    · rw [e] at e'
      cases e'
    · rw [e] at e'
      cases e'
      exact hr'
  refine ⟨fun a => match a with | Plane.X => rx | Plane.Y => ry | Plane.Z => rz, ?_, ?_⟩
  · intro a
    cases a
    · exact ⟨ex, nonneg _ _ ex, by rw [hmax]; exact le_trans (le_max_left _ _) (le_max_left _ _)⟩
    · exact ⟨ey, nonneg _ _ ey, by rw [hmax]; exact le_trans (le_max_right _ _) (le_max_left _ _)⟩
    · exact ⟨ez, nonneg _ _ ez, by rw [hmax]; exact le_max_right _ _⟩
  · rcases max_choice (max rx ry) rz with e | e
    · rcases max_choice rx ry with e' | e'
      · exact ⟨Plane.X, by rw [hmax, e, e']⟩
      · exact ⟨Plane.Y, by rw [hmax, e, e']⟩
    · exact ⟨Plane.Z, by rw [hmax, e]⟩

/-- A vertex of the buffer has finite coordinates between the bounds; its offset from the
lower bound rounds to a number `s` in `[0, R]`, and its normalized coordinate is the
rounded quotient `s / R`, a number in `[0, 1]`. -/
theorem binary64_coord {vb : List Vertex} {b : Bounds} {lo hi : Plane → ℚ}
    (h : BoundsOf vb b lo hi) (R : ℚ) (hR : Binary64.maxRange b = F64.fin R) (hR0 : 0 < R)
    (v : Vertex) (hv : v ∈ vb) (a : Plane) :
    ∃ q s n, v.position.get a = F64.fin q ∧ lo a ≤ q ∧ q ≤ hi a ∧
      F64.round (q - lo a) = F64.fin s ∧ 0 ≤ s ∧ s ≤ R ∧
      F64.round (s / R) = F64.fin n ∧ 0 ≤ n ∧ n ≤ 1 ∧
      (Binary64.normalizeVertex b v).position.get a = F64.fin n := by
  obtain ⟨ρ, hρ, -⟩ := binary64_extents h R hR
  obtain ⟨⟨hmin, -⟩, ⟨hmax, -⟩⟩ := h.2 a
  obtain ⟨q, hq, h1⟩ := hmin v hv
  obtain ⟨q', hq', h2⟩ := hmax v hv
  dsimp only at hq hq'
  rw [hq] at hq'
  cases hq'
  obtain ⟨s, es, hs0, hs1⟩ := round_fin_of_le (q - lo a) (hi a - lo a) (ρ a) (by linarith)
    (by linarith) (hρ a).1
  have hsR : s ≤ R := hs1.trans (hρ a).2.2
  obtain ⟨n, en, hn0, hn1⟩ := round_unit (s / R) (div_nonneg hs0 hR0.le)
    ((div_le_one hR0).2 hsR)
  refine ⟨q, s, n, hq, h1, h2, es, hs0, hsR, en, hn0, hn1, ?_⟩
  rw [binary64_normalizeVertex_get, hq, (h.1 a).1, hR, binary64_sub_fin, es,
    binary64_div_fin _ _ hR0.ne', en]

theorem binary64_maxRange_pos (b : Bounds) (hpos : F64.lt (F64.fin 0) (Binary64.maxRange b) = true)
    (hbounded : (Binary64.maxRange b).isFinite = true) :
    ∃ R, Binary64.maxRange b = F64.fin R ∧ 0 < R := by
  obtain ⟨R, hR⟩ := (isFinite_iff _).1 hbounded
  rw [hR] at hpos
  exact ⟨R, hR, by simpa [F64.lt] using hpos⟩

theorem binary64_normalized_finite {vb : List Vertex} {b : Bounds} {lo hi : Plane → ℚ}
    (h : BoundsOf vb b lo hi) (R : ℚ) (hR : Binary64.maxRange b = F64.fin R) (hR0 : 0 < R) :
    FiniteBuffer (vb.map (Binary64.normalizeVertex b)) := by
  intro w hw
  obtain ⟨v, hv, rfl⟩ := List.mem_map.1 hw
  obtain ⟨_, _, nx, -, -, -, -, -, -, -, -, -, ex⟩ := binary64_coord h R hR hR0 v hv Plane.X
  obtain ⟨_, _, ny, -, -, -, -, -, -, -, -, -, ey⟩ := binary64_coord h R hR hR0 v hv Plane.Y
  obtain ⟨_, _, nz, -, -, -, -, -, -, -, -, -, ez⟩ := binary64_coord h R hR hR0 v hv Plane.Z
  simp only [Vec3.get] at ex ey ez
  simp [Vec3.isFinite, ex, ey, ez, F64.isFinite]

/-- The normalized coordinate is monotone in the offset from the lower bound, across
vertices and axes. -/
theorem binary64_coord_mono {vb : List Vertex} {b : Bounds} {lo hi : Plane → ℚ}
    (h : BoundsOf vb b lo hi) (R : ℚ) (hR : Binary64.maxRange b = F64.fin R) (hR0 : 0 < R)
    (u v : Vertex) (hu : u ∈ vb) (hv : v ∈ vb) (a c : Plane) (p q : ℚ)
    (hp : u.position.get a = F64.fin p) (hq : v.position.get c = F64.fin q)
    (hle : p - lo a ≤ q - lo c) :
    F64.le ((Binary64.normalizeVertex b u).position.get a)
      ((Binary64.normalizeVertex b v).position.get c) = true := by
  obtain ⟨p', s, n, hp', h1, -, es, hs0, -, en, -, -, eu⟩ := binary64_coord h R hR hR0 u hu a
  obtain ⟨q', t, m, hq', -, -, et, ht0, -, em, -, -, ev⟩ := binary64_coord h R hR hR0 v hv c
  rw [hp] at hp'
  rw [hq] at hq'
  cases hp'
  cases hq'
  have h2 := round_mono (p - lo a) (q - lo c) (by linarith) hle
  rw [es, et] at h2
  have hst : s ≤ t := by simpa [F64.le] using h2
  have h3 := round_mono (s / R) (t / R) (div_nonneg hs0 hR0.le)
    (div_le_div_of_nonneg_right hst hR0.le)
  rw [en, em] at h3
  rw [eu, ev]
  exact h3

theorem binary64_normalized_isMin {vb : List Vertex} {b : Bounds} {lo hi : Plane → ℚ}
    (h : BoundsOf vb b lo hi) (R : ℚ) (hR : Binary64.maxRange b = F64.fin R) (hR0 : 0 < R)
    (a : Plane) :
    IsMin (fun v => v.position.get a) (vb.map (Binary64.normalizeVertex b)) 0 := by
  constructor
  · intro w hw
    obtain ⟨v, hv, rfl⟩ := List.mem_map.1 hw
    obtain ⟨_, _, n, -, -, -, -, -, -, -, hn0, -, e⟩ := binary64_coord h R hR hR0 v hv a
    exact ⟨n, e, hn0⟩
  · obtain ⟨-, v, hv, e⟩ := (h.2 a).1
    obtain ⟨q, s, n, hq, -, -, es, -, -, en, -, -, e'⟩ := binary64_coord h R hR hR0 v hv a
    dsimp only at e
    rw [e] at hq
    cases hq
    rw [sub_self, round_zero] at es
    cases es
    rw [zero_div, round_zero] at en
    cases en
    exact ⟨_, List.mem_map_of_mem _ hv, e'⟩

theorem binary64_normalized_isMax {vb : List Vertex} {b : Bounds} {lo hi : Plane → ℚ}
    (h : BoundsOf vb b lo hi) (R : ℚ) (hR : Binary64.maxRange b = F64.fin R) (hR0 : 0 < R)
    (a : Plane) (ρ ν : ℚ) (hρ : F64.round (hi a - lo a) = F64.fin ρ)
    (hν : F64.round (ρ / R) = F64.fin ν) :
    IsMax (fun v => v.position.get a) (vb.map (Binary64.normalizeVertex b)) ν := by
  obtain ⟨-, vmax, hvmax, emax⟩ := (h.2 a).2
  dsimp only at emax
  have key : (Binary64.normalizeVertex b vmax).position.get a = F64.fin ν := by
    obtain ⟨q, s, n, hq, -, -, es, -, -, en, -, -, e'⟩ := binary64_coord h R hR hR0 vmax hvmax a
    rw [emax] at hq
    cases hq
    rw [hρ] at es
    cases es
    rw [hν] at en
    cases en
    exact e'
  constructor
  · intro w hw
    obtain ⟨v, hv, rfl⟩ := List.mem_map.1 hw
    obtain ⟨q, _, n, hq, -, hqhi, -, -, -, -, -, -, e⟩ := binary64_coord h R hR hR0 v hv a
    have hm := binary64_coord_mono h R hR hR0 v vmax hv hvmax a a q (hi a) hq emax (by linarith)
    rw [e, key] at hm
    exact ⟨n, e, by simpa [F64.le] using hm⟩
  · exact ⟨_, List.mem_map_of_mem _ hvmax, key⟩

/-- The division by a zero range in binary64: on a buffer of finite vertices whose
`maxRange` is exactly 0 every normalized coordinate is `0 / 0 = NaN`, as over the exact
operations. -/
theorem binary64_normalize_zero_range (vb : List Vertex) (hfin : FiniteBuffer vb) (b : Bounds)
    (hb : meshBounds vb = Except.ok b) (hzero : Binary64.maxRange b = F64.fin 0) :
    Binary64.normalize vb = Except.ok (vb.map (fun _ => ⟨⟨F64.nan, F64.nan, F64.nan⟩⟩)) := by
  obtain ⟨lo, hi, hbo⟩ := meshBounds_boundsOf vb hfin b hb
  obtain ⟨ρ, hρ, -⟩ := binary64_extents hbo 0 hzero
  rw [binary64_normalize_eq vb b hb]
  congr 1
  apply List.map_congr_left
  intro v hv
  have key : ∀ a, (Binary64.normalizeVertex b v).position.get a = F64.nan := by
    intro a
    obtain ⟨⟨hmin, -⟩, ⟨hmax, -⟩⟩ := hbo.2 a
    obtain ⟨q, hq, h1⟩ := hmin v hv
    obtain ⟨q', hq', h2⟩ := hmax v hv
    dsimp only at hq hq'
    rw [hq] at hq'
    cases hq'
    obtain ⟨s, es, hs0, hs1⟩ := round_fin_of_le (q - lo a) (hi a - lo a) (ρ a) (by linarith)
      (by linarith) (hρ a).1
    have hs : s = 0 := le_antisymm (hs1.trans (hρ a).2.2) hs0
    rw [binary64_normalizeVertex_get, hq, (hbo.1 a).1, hzero, binary64_sub_fin, es, hs]
    simp [Binary64.div, F64.div, F64.rounded]
  have kx := key Plane.X
  have ky := key Plane.Y
  have kz := key Plane.Z
  simp only [Vec3.get] at kx ky kz
  cases hn : Binary64.normalizeVertex b v with
  | mk p =>
    cases p with
    | mk px py pz =>
      rw [hn] at kx ky kz
      simp only at kx ky kz
      rw [kx, ky, kz]

/-- A buffer of two vertices at `-m` and `m` on the x axis, `m >= 2^1023`: the extent
`m - (-m)` overflows, `maxRange` is `+inf`, and the vertex at the maximum gets the
coordinate `inf / inf = NaN`. -/
theorem overflow_buffer (m : ℚ) (hm : (2 : ℚ) ^ 1023 ≤ m) :
    meshBounds [⟨Vec3.ofRat (-m) 0 0⟩, ⟨Vec3.ofRat m 0 0⟩] =
        Except.ok ⟨F64.fin (-m), F64.fin 0, F64.fin 0, F64.fin m, F64.fin 0, F64.fin 0⟩ ∧
      Binary64.maxRange ⟨F64.fin (-m), F64.fin 0, F64.fin 0, F64.fin m, F64.fin 0, F64.fin 0⟩ =
        F64.pinf ∧
      Binary64.normalize [⟨Vec3.ofRat (-m) 0 0⟩, ⟨Vec3.ofRat m 0 0⟩] =
        Except.ok [⟨⟨F64.fin 0, F64.fin 0, F64.fin 0⟩⟩, ⟨⟨F64.nan, F64.fin 0, F64.fin 0⟩⟩] := by
  have hm0 : 0 < m := lt_of_lt_of_le (by positivity) hm
  have hb : meshBounds [⟨Vec3.ofRat (-m) 0 0⟩, ⟨Vec3.ofRat m 0 0⟩] =
      Except.ok ⟨F64.fin (-m), F64.fin 0, F64.fin 0, F64.fin m, F64.fin 0, F64.fin 0⟩ := by
    simp only [meshBounds, List.foldl_cons, List.foldl_nil, initBounds, boundsStep, Vec3.ofRat,
      stdMin_fin, stdMax_fin, min_self, max_self]
    rw [min_eq_left (by linarith : -m ≤ m), max_eq_right (by linarith : -m ≤ m)]
  have hov : F64.round (m - -m) = F64.pinf := by
    apply round_overflow
    have : (2 : ℚ) ^ 1024 = 2 * 2 ^ 1023 := by rw [pow_succ]; ring
    rw [this]
    linarith
  have hr : Binary64.maxRange
      ⟨F64.fin (-m), F64.fin 0, F64.fin 0, F64.fin m, F64.fin 0, F64.fin 0⟩ = F64.pinf := by
    simp only [Binary64.maxRange, Binary64.rangeX, Binary64.rangeY, Binary64.rangeZ,
      binary64_sub_fin, hov,
      sub_self, round_zero, stdMax3, lt_pinf, if_false, Bool.false_eq_true]
  refine ⟨hb, hr, ?_⟩
  rw [binary64_normalize_eq _ _ hb]
  simp only [List.map_cons, List.map_nil, Binary64.normalizeVertex, hr, Vec3.ofRat,
    binary64_sub_fin, hov, sub_self, round_zero]
  simp [Binary64.div, F64.div, F64.rounded, round_zero]

theorem thirdsVertices_finite : FiniteBuffer thirdsVertices := by
  intro v hv
  simp only [thirdsVertices, List.mem_cons, List.mem_singleton, List.not_mem_nil, or_false] at hv
  rcases hv with rfl | rfl | rfl <;> rfl

theorem thirdsVertices_bounds : meshBounds thirdsVertices = Except.ok thirdsBounds := by
  simp only [meshBounds, thirdsVertices, thirdsBounds, List.foldl_cons, List.foldl_nil, initBounds,
    boundsStep, Vec3.ofRat, stdMin_fin, stdMax_fin, min_self, max_self]
  norm_num

theorem round_three : F64.round (3 - 0) = F64.fin 3 :=
  round_eval_exact _ _ 3 0 (by norm_num) (by norm_num) (by norm_num) (by norm_num) (by norm_num)

theorem thirdsBounds_maxRange : Binary64.maxRange thirdsBounds = F64.fin 3 := by
  simp only [Binary64.maxRange, Binary64.rangeX, Binary64.rangeY, Binary64.rangeZ, thirdsBounds,
    binary64_sub_fin, round_three, sub_self, round_zero, stdMax3_fin]
  norm_num

/-! ## Evaluation on the corner mesh -/

theorem cornerVertices_fetch :
    fetchTriangle cornerVertices [0, 1, 2] 0 =
      Except.ok (Vec3.ofRat 1 0 0, Vec3.ofRat 0 1 0, Vec3.ofRat 0 0 1) := rfl

/-- The edge from `(1, 0, 0)` to `(0, 1, 0)` enters voxel `(64, 64, 0)` at the corner
`(127/256, 129/256, 0)` of its Left face; every value involved is a multiple of `1/256`. -/
theorem cornerVertices_hits_centre :
    TriangleHits (Vec3.ofRat 1 0 0) (Vec3.ofRat 0 1 0) (Vec3.ofRat 0 0 1) 64 64 0 := by
  constructor
  · rw [pruned_fin]
    norm_num
  · rw [voxelMin_eq, voxelMax_eq]
    norm_num [intersectTriangleCube, intersectLineCube, insideBox, cubeFaces, anyFace,
      intersectLineQuad, selectPlane, planeParam, outsideBox, Vec3.get,
      Vec3.ofRat, Vec3.add, Vec3.sub, Vec3.scale, F64.eq, F64.le, F64.ge, F64.lt, F64.gt,
      F64.sub, F64.add, F64.neg, F64.div, F64.mul, F64.signedInf]

/-! ## Claims -/

/-- Claim C1, at the failing input: the mesh is one triangle with the edge from
`(1/256, 0, 1)` to `(1/256, 0, 0)` in the plane `x = 1/256` of the Right face of voxel
`(0, 5, 0)`; normalization leaves the mesh as it is.  From the all-false grid both
strategies return a grid; the per-triangle one prunes voxel `(0, 5, 0)` and leaves its
cell clear, the per-voxel one sets it, because `intersectLineQuad` computes
`t = 0 / 0 = NaN` on that face and accepts. -/
theorem strategies_differ_on_in_plane_edge :
    normalize inPlaneVertices = Except.ok inPlaneVertices ∧
    ∃ g1 g2,
      mainSequentialTriangle inPlaneVertices [0, 1, 2] emptyGrid = Except.ok g1 ∧
      mainSequentialVoxel inPlaneVertices [0, 1, 2] emptyGrid = Except.ok g2 ∧
      gridGet g1 (get3DIndex 0 5 0 cGridX cGridY) = false ∧
      gridGet g2 (get3DIndex 0 5 0 cGridX cGridY) = true := by
  refine ⟨inPlane_normalize, ?_⟩
  have hin : InGrid 0 5 0 := by
    simp only [InGrid, cGridX, cGridY, cGridZ]
    omega
  obtain ⟨g1, h1, m1⟩ := mainSequentialTriangle_marks inPlaneVertices [0, 1, 2] inPlane_valid
    emptyGrid emptyGrid_length
  obtain ⟨g2, h2, m2⟩ := mainSequentialVoxel_marks inPlaneVertices [0, 1, 2] inPlane_valid
    emptyGrid emptyGrid_length
  refine ⟨g1, g2, h1, h2, ?_, ?_⟩
  · rw [Bool.eq_false_iff]
    intro hset
    rcases (m1.2 _).1 hset with h | ⟨s, hs, v0, v1, v2, hf, x, y, z, hxyz, hidx, hhit⟩
    · rw [gridGet_emptyGrid] at h
      cases h
    · have hs0 : s = 0 := by
        have := (mem_triangleStarts _ _).1 hs
        simp only [List.length_cons, List.length_nil] at this
        omega
      subst hs0
      rw [inPlane_fetch] at hf
      simp only [Except.ok.injEq, Prod.mk.injEq] at hf
      obtain ⟨rfl, rfl, rfl⟩ := hf
      obtain ⟨rfl, rfl, rfl⟩ := get3DIndex_grid_inj 0 5 0 x y z hin hxyz hidx.symm
      have := hhit.1
      rw [inPlane_pruned] at this
      cases this
  · exact (m2.2 _).2 (Or.inr ⟨0, 5, 0, hin, rfl, 0, by decide, _, _, _, inPlane_fetch,
      inPlane_hits⟩)

/-- Claim C2: if either endpoint of the segment lies within the box on all three
axes, bounds included, `intersectLineCube` returns true, whatever the other
endpoint is, and raises no fault. -/
theorem intersectLineCube_endpoint_inside (p1 p2 cubeMin cubeMax : Vec3)
    (h : Vec3.within p1 cubeMin cubeMax ∨ Vec3.within p2 cubeMin cubeMax) :
    intersectLineCube p1 p2 cubeMin cubeMax = Except.ok true := by
  unfold intersectLineCube
  rcases h with h | h
  · rw [if_pos ((insideBox_iff _ _ _).2 h)]
  · rw [(insideBox_iff _ _ _).2 h]
    simp

theorem intersectLineCube_endpoint_inside_witness :
    intersectLineCube (Vec3.ofRat 7 8 9) (Vec3.ofRat 1 1 0) (Vec3.ofRat 0 0 0)
      (Vec3.ofRat 1 1 1) = Except.ok true :=
  intersectLineCube_endpoint_inside _ _ _ _
    (Or.inr (by simp [Vec3.within, Vec3.ofRat, F64.le]))

/-- Claim C3, at the failing input: the quad is the unit square in the plane `x = 1`,
degenerate on the x axis only, and the segment from `(0, 1/2, 1/2)` to `(49, 1/2, 1/2)`
crosses it at its centre: `t = 1/49` lies in `[0, 1]` and the point `p1 + t * (p2 - p1)`
is `(1, 1/2, 1/2)`.  In binary64 `t` is `1/49` rounded, the x coordinate of the computed
point, `49 * t` rounded, is `1 - 2^-53`, below `quadMin.x = 1`, and `intersectLineQuad`
returns false. -/
theorem intersectLineQuad_rejects_crossing_segment :
    degenerateAxes (Vec3.ofAxes (axes 1 0 0), Vec3.ofAxes (axes 1 1 1)) = (true, false, false) ∧
    CrossesFace (axes 0 (1 / 2) (1 / 2)) (axes 49 (1 / 2) (1 / 2)) (axes 1 0 0) (axes 1 1 1)
      Plane.X 1 ∧
    Binary64.planeParam Plane.X (Vec3.ofAxes (axes 0 (1 / 2) (1 / 2)))
        (Vec3.ofAxes (axes 49 (1 / 2) (1 / 2))) (Vec3.ofAxes (axes 1 0 0)) =
      F64.fin (5882252574524729 / 288230376151711744) ∧
    Binary64.addVec (Vec3.ofAxes (axes 0 (1 / 2) (1 / 2)))
        (Binary64.scaleVec
          (Binary64.subVec (Vec3.ofAxes (axes 49 (1 / 2) (1 / 2)))
            (Vec3.ofAxes (axes 0 (1 / 2) (1 / 2))))
          (F64.fin (5882252574524729 / 288230376151711744))) =
      ⟨F64.fin (9007199254740991 / 9007199254740992), F64.fin (1 / 2), F64.fin (1 / 2)⟩ ∧
    Binary64.intersectLineQuad (Vec3.ofAxes (axes 0 (1 / 2) (1 / 2)))
        (Vec3.ofAxes (axes 49 (1 / 2) (1 / 2))) (Vec3.ofAxes (axes 1 0 0))
        (Vec3.ofAxes (axes 1 1 1)) = Except.ok false := by
  have s1 : Binary64.sub (F64.fin 1) (F64.fin 0) = F64.fin 1 := by
    rw [binary64_sub_fin]
    exact round_eval_exact _ _ 1 0 (by norm_num) (by norm_num) (by norm_num) (by norm_num)
      (by norm_num)
  have s2 : Binary64.sub (F64.fin 49) (F64.fin 0) = F64.fin 49 := by
    rw [binary64_sub_fin]
    exact round_eval_exact _ _ 49 0 (by norm_num) (by norm_num) (by norm_num) (by norm_num)
      (by norm_num)
  have s3 : Binary64.div (F64.fin 1) (F64.fin 49) =
      F64.fin (5882252574524729 / 288230376151711744) := by
    rw [binary64_div_fin _ _ (by norm_num)]
    exact round_eval _ _ (-6) 5882252574524729 (by norm_num) (by norm_num) (by norm_num)
      (by norm_num) (by norm_num) (by norm_num)
  have s4 : Binary64.sub (F64.fin (1 / 2)) (F64.fin (1 / 2)) = F64.fin 0 := by
    rw [binary64_sub_fin]
    exact round_eval_exact _ _ 0 0 (by norm_num) (by norm_num) (by norm_num) (by norm_num)
      (by norm_num)
  have s5 : Binary64.mul (F64.fin 49) (F64.fin (5882252574524729 / 288230376151711744)) =
      F64.fin (9007199254740991 / 9007199254740992) := by
    rw [binary64_mul_fin]
    exact round_eval _ _ (-1) 9007199254740991 (by norm_num) (by norm_num) (by norm_num)
      (by norm_num) (by norm_num) (by norm_num)
  have s6 : Binary64.mul (F64.fin 0) (F64.fin (5882252574524729 / 288230376151711744)) =
      F64.fin 0 := by
    rw [binary64_mul_fin]
    exact round_eval_exact _ _ 0 0 (by norm_num) (by norm_num) (by norm_num) (by norm_num)
      (by norm_num)
  have s7 : Binary64.add (F64.fin 0) (F64.fin (9007199254740991 / 9007199254740992)) =
      F64.fin (9007199254740991 / 9007199254740992) := by
    rw [binary64_add_fin]
    exact round_eval_exact _ _ 9007199254740991 (-53) (by norm_num) (by norm_num) (by norm_num)
      (by norm_num) (by norm_num)
  have s8 : Binary64.add (F64.fin (1 / 2)) (F64.fin 0) = F64.fin (1 / 2) := by
    rw [binary64_add_fin]
    exact round_eval_exact _ _ 1 (-1) (by norm_num) (by norm_num) (by norm_num) (by norm_num)
      (by norm_num)
  have f1 : Binary64.intersectLineQuad (Vec3.mk (F64.fin 0) (F64.fin (1 / 2)) (F64.fin (1 / 2)))
      (Vec3.mk (F64.fin 49) (F64.fin (1 / 2)) (F64.fin (1 / 2)))
      (Vec3.mk (F64.fin 1) (F64.fin 0) (F64.fin 0)) (Vec3.mk (F64.fin 1) (F64.fin 1) (F64.fin 1)) =
      Except.ok false := by
    refine binary64_intersectLineQuad_of_point _ _ _ _ Plane.X
      (F64.fin (5882252574524729 / 288230376151711744))
      (Vec3.mk (F64.fin (9007199254740991 / 9007199254740992)) (F64.fin (1 / 2)) (F64.fin (1 / 2)))
      true ?_ ?_ ?_ ?_ ?_
    · norm_num [selectPlane, F64.eq]
    · simp only [Binary64.planeParam, Vec3.get, s1, s2, s3]
    · norm_num [F64.lt, F64.gt]
    · simp only [Binary64.addVec, Binary64.scaleVec, Binary64.subVec, s2, s4, s5, s6, s7, s8]
    · norm_num [outsideBox, F64.lt, F64.gt]
  refine ⟨?_, ?_, ?_, ?_, f1⟩
  · norm_num [degenerateAxes, Vec3.ofAxes, axes, F64.eq]
  · refine ⟨by norm_num [axes], by norm_num [axes], by norm_num [axes], ?_⟩
    intro b
    cases b <;> norm_num [axes]
  · simp only [Binary64.planeParam, Vec3.get, Vec3.ofAxes, axes]
    simp only [s1, s2, s3, s4, s5, s6, s7, s8]
  · simp only [Binary64.addVec, Binary64.scaleVec, Binary64.subVec, Vec3.ofAxes, axes]
    simp only [s1, s2, s3, s4, s5, s6, s7, s8]

/-- Claim C4, at the failing input: the quad is the Right face of voxel `(0, 5, 0)`,
in the plane `x = 1/256` with `y` in `[9/256, 11/256]`, and the segment from
`(1/256, 0, 1)` to `(1/256, 0, 0)` lies in that plane at `y = 0`, away from the quad;
`t` is `0 / 0 = NaN`, both range tests on `t` and all six bound tests on the `NaN`
intersection point are false, and `intersectLineQuad` returns true. -/
theorem intersectLineQuad_accepts_in_plane_segment :
    intersectLineQuad (Vec3.ofRat (1 / 256) 0 1) (Vec3.ofRat (1 / 256) 0 0)
      (Vec3.ofRat (1 / 256) (9 / 256) (-1 / 256))
      (Vec3.ofRat (1 / 256) (11 / 256) (1 / 256)) = Except.ok true := by
  simp [intersectLineQuad, selectPlane, Vec3.ofRat, F64.eq, planeParam, Vec3.get, F64.sub,
    F64.add, F64.neg, F64.div, F64.lt, F64.gt, Vec3.add, Vec3.scale, Vec3.sub, F64.mul,
    outsideBox]

/-- Claim C5: `intersectLineQuad` fails with `Invalid plane` exactly when `quadMin`
and `quadMax` compare unequal (`==` is false) on all three axes; when they compare
equal on at least one axis it returns a boolean. -/
theorem intersectLineQuad_invalidPlane_iff (p1 p2 quadMin quadMax : Vec3) :
    (intersectLineQuad p1 p2 quadMin quadMax = Except.error Fault.invalidPlane ↔
      (F64.eq quadMin.x quadMax.x = false ∧ F64.eq quadMin.y quadMax.y = false ∧
        F64.eq quadMin.z quadMax.z = false)) ∧
    ((F64.eq quadMin.x quadMax.x = true ∨ F64.eq quadMin.y quadMax.y = true ∨
        F64.eq quadMin.z quadMax.z = true) →
      ∃ b, intersectLineQuad p1 p2 quadMin quadMax = Except.ok b) := by
  have key : (F64.eq quadMin.x quadMax.x = true ∨ F64.eq quadMin.y quadMax.y = true ∨
      F64.eq quadMin.z quadMax.z = true) →
      ∃ plane, selectPlane quadMin quadMax = Except.ok plane := by
    intro h
    unfold selectPlane
    split_ifs with h1 h2 h3
    · exact ⟨_, rfl⟩
    · exact ⟨_, rfl⟩
    · exact ⟨_, rfl⟩
    · simp_all
  constructor
  · constructor
    · intro h
      by_contra hne
      have : F64.eq quadMin.x quadMax.x = true ∨ F64.eq quadMin.y quadMax.y = true ∨
          F64.eq quadMin.z quadMax.z = true := by
        by_contra hh
        apply hne
        simp only [not_or, Bool.not_eq_true] at hh
        exact hh
      obtain ⟨pl, hpl⟩ := key this
      obtain ⟨b, hb⟩ := intersectLineQuad_ok_of_plane p1 p2 quadMin quadMax pl hpl
      rw [hb] at h
      cases h
    · rintro ⟨h1, h2, h3⟩
      apply intersectLineQuad_error_of_plane
      simp [selectPlane, h1, h2, h3]
  · intro h
    obtain ⟨pl, hpl⟩ := key h
    exact intersectLineQuad_ok_of_plane p1 p2 quadMin quadMax pl hpl

theorem intersectLineQuad_invalidPlane_iff_witness :
    intersectLineQuad (Vec3.ofRat 0 0 0) (Vec3.ofRat 1 1 1) (Vec3.ofRat 0 0 0)
        (Vec3.ofRat 1 1 1) = Except.error Fault.invalidPlane ∧
      ∃ b, intersectLineQuad (Vec3.ofRat 0 0 0) (Vec3.ofRat 1 1 1) (Vec3.ofRat 0 0 0)
        (Vec3.ofRat 1 0 1) = Except.ok b :=
  ⟨(intersectLineQuad_invalidPlane_iff _ _ _ _).1.2
      (by simp [Vec3.ofRat, F64.eq]),
    (intersectLineQuad_invalidPlane_iff _ _ _ _).2
      (Or.inr (Or.inl (by simp [Vec3.ofRat, F64.eq])))⟩

/-- Claim C6, as stated, fails when the extent overflows: the buffer of the two finite
vertices `(-2^1023, 0, 0)` and `(2^1023, 0, 0)` has a largest extent greater than 0, but
`maxX - minX` rounds to `+inf`, so `maxRange` is `+inf` and the normalized x coordinate
of the second vertex is `inf / inf = NaN`, which is not in `[0, 1]`. -/
theorem normalize_overflow_gives_nan :
    FiniteBuffer [⟨Vec3.ofRat (-2 ^ 1023) 0 0⟩, ⟨Vec3.ofRat (2 ^ 1023) 0 0⟩] ∧
    meshBounds [⟨Vec3.ofRat (-2 ^ 1023) 0 0⟩, ⟨Vec3.ofRat (2 ^ 1023) 0 0⟩] =
      Except.ok ⟨F64.fin (-2 ^ 1023), F64.fin 0, F64.fin 0, F64.fin (2 ^ 1023), F64.fin 0,
        F64.fin 0⟩ ∧
    Binary64.maxRange ⟨F64.fin (-2 ^ 1023), F64.fin 0, F64.fin 0, F64.fin (2 ^ 1023), F64.fin 0,
      F64.fin 0⟩ = F64.pinf ∧
    F64.lt (F64.fin 0) F64.pinf = true ∧
    Binary64.normalize [⟨Vec3.ofRat (-2 ^ 1023) 0 0⟩, ⟨Vec3.ofRat (2 ^ 1023) 0 0⟩] =
      Except.ok [⟨⟨F64.fin 0, F64.fin 0, F64.fin 0⟩⟩, ⟨⟨F64.nan, F64.fin 0, F64.fin 0⟩⟩] ∧
    F64.le (F64.fin 0) F64.nan = false := by
  obtain ⟨h1, h2, h3⟩ := overflow_buffer (2 ^ 1023) le_rfl
  refine ⟨?_, h1, h2, rfl, h3, rfl⟩
  intro v hv
  simp only [List.mem_cons, List.mem_singleton, List.not_mem_nil, or_false] at hv
  rcases hv with rfl | rfl <;> rfl

/-- Claim C6, amended: for a buffer of finite vertices whose bounds exist (it is not
empty) and whose largest extent `maxRange`, as computed in binary64, is greater than 0
and finite, normalization returns a buffer in which every coordinate lies in `[0, 1]`;
on each axis some normalized coordinate is 0; on an axis whose extent is `maxRange` some
normalized coordinate is exactly 1, and there is such an axis. -/
theorem normalize_unit_cube (vb : List Vertex) (hfin : FiniteBuffer vb) (b : Bounds)
    (hb : meshBounds vb = Except.ok b)
    (hpos : F64.lt (F64.fin 0) (Binary64.maxRange b) = true)
    (hbounded : (Binary64.maxRange b).isFinite = true) :
    ∃ out, Binary64.normalize vb = Except.ok out ∧
      (∀ v ∈ out, ∀ a, F64.le (F64.fin 0) (v.position.get a) = true ∧
        F64.le (v.position.get a) (F64.fin 1) = true) ∧
      (∀ a, ∃ v ∈ out, v.position.get a = F64.fin 0) ∧
      (∀ a, Binary64.range b a = Binary64.maxRange b →
        ∃ v ∈ out, v.position.get a = F64.fin 1) ∧
      (∃ a, Binary64.range b a = Binary64.maxRange b) := by
  obtain ⟨lo, hi, hbo⟩ := meshBounds_boundsOf vb hfin b hb
  obtain ⟨R, hR, hR0⟩ := binary64_maxRange_pos b hpos hbounded
  obtain ⟨ρ, hρ, amax, hamax⟩ := binary64_extents hbo R hR
  refine ⟨vb.map (Binary64.normalizeVertex b), binary64_normalize_eq vb b hb, ?_, ?_, ?_, ?_⟩
  · intro w hw a
    obtain ⟨v, hv, rfl⟩ := List.mem_map.1 hw
    obtain ⟨_, _, n, -, -, -, -, -, -, -, hn0, hn1, e⟩ := binary64_coord hbo R hR hR0 v hv a
    rw [e]
    simp only [F64.le, decide_eq_true_eq]
    exact ⟨hn0, hn1⟩
  · intro a
    obtain ⟨-, v, hv, e⟩ := binary64_normalized_isMin hbo R hR hR0 a
    exact ⟨v, hv, e⟩
  · intro a hmax
    rw [binary64_range_eq hbo a, hR] at hmax
    obtain ⟨-, v, hv, e⟩ := (hbo.2 a).2
    obtain ⟨q, s, n, hq, -, -, es, -, -, en, -, -, e'⟩ := binary64_coord hbo R hR hR0 v hv a
    dsimp only at e
    rw [e] at hq
    cases hq
    rw [hmax] at es
    cases es
    rw [div_self hR0.ne', round_one] at en
    cases en
    exact ⟨_, List.mem_map_of_mem _ hv, e'⟩
  · exact ⟨amax, by rw [binary64_range_eq hbo amax, (hρ amax).1, hamax, hR]⟩

theorem normalize_unit_cube_witness :
    ∃ out, Binary64.normalize thirdsVertices = Except.ok out ∧
      (∀ v ∈ out, ∀ a, F64.le (F64.fin 0) (v.position.get a) = true ∧
        F64.le (v.position.get a) (F64.fin 1) = true) ∧
      ∃ v ∈ out, v.position.get Plane.X = F64.fin 1 := by
  obtain ⟨out, h1, h2, -, h4, -⟩ := normalize_unit_cube thirdsVertices thirdsVertices_finite
    thirdsBounds thirdsVertices_bounds (by rw [thirdsBounds_maxRange]; simp [F64.lt])
    (by rw [thirdsBounds_maxRange]; rfl)
  refine ⟨out, h1, h2, h4 Plane.X ?_⟩
  rw [thirdsBounds_maxRange]
  simp only [Binary64.range, thirdsBounds, Bounds.hi, Bounds.lo, binary64_sub_fin, round_three]

/-- Claim C7, as stated, fails in binary64: in the buffer of the vertices `(0, 0, 0)`,
`(1, 0, 0)`, `(3, 0, 0)` the divisor is 3; the normalized x coordinates of the second and
third vertex are `1/3` rounded and 1, and their difference, rounded, is
`-6004799503160662 / 2^53`, while the difference of the original coordinates divided by
3 is `-2/3` rounded, `-6004799503160661 / 2^53`, one unit in the last place away. -/
theorem normalize_difference_is_rounded :
    meshBounds thirdsVertices = Except.ok thirdsBounds ∧
    Binary64.maxRange thirdsBounds = F64.fin 3 ∧
    Binary64.sub ((Binary64.normalizeVertex thirdsBounds ⟨Vec3.ofRat 1 0 0⟩).position.get Plane.X)
        ((Binary64.normalizeVertex thirdsBounds ⟨Vec3.ofRat 3 0 0⟩).position.get Plane.X) =
      F64.fin (-6004799503160662 / 9007199254740992) ∧
    Binary64.div (Binary64.sub (F64.fin 1) (F64.fin 3)) (Binary64.maxRange thirdsBounds) =
      F64.fin (-6004799503160661 / 9007199254740992) := by
  have t2 : Binary64.sub (F64.fin 1) (F64.fin 0) = F64.fin 1 := by
    rw [binary64_sub_fin]
    exact round_eval_exact _ _ (1) (0) (by norm_num) (by norm_num) (by norm_num) (by norm_num) (by norm_num)
  have t1 : Binary64.sub (F64.fin 3) (F64.fin 0) = F64.fin 3 := by
    rw [binary64_sub_fin]
    exact round_eval_exact _ _ (3) (0) (by norm_num) (by norm_num) (by norm_num) (by norm_num) (by norm_num)
  have t3 : Binary64.div (F64.fin 1) (F64.fin 3) = F64.fin (6004799503160661 / 18014398509481984) := by
    rw [binary64_div_fin _ _ (by norm_num)]
    exact round_eval _ _ (-2) (6004799503160661) (by norm_num) (by norm_num) (by norm_num) (by norm_num) (by norm_num) (by norm_num)
  have t4 : Binary64.div (F64.fin 3) (F64.fin 3) = F64.fin 1 := by
    rw [binary64_div_fin _ _ (by norm_num)]
    exact round_eval_exact _ _ (1) (0) (by norm_num) (by norm_num) (by norm_num) (by norm_num) (by norm_num)
  have t5 : Binary64.sub (F64.fin (6004799503160661 / 18014398509481984)) (F64.fin 1) = F64.fin (-6004799503160662 / 9007199254740992) := by
    rw [binary64_sub_fin]
    exact round_eval_tie _ _ (-1) (-6004799503160662) (by norm_num) (by norm_num) (by norm_num) (by norm_num) (by norm_num) (by norm_num) (by norm_num)
  have t6 : Binary64.sub (F64.fin 1) (F64.fin 3) = F64.fin (-2) := by
    rw [binary64_sub_fin]
    exact round_eval_exact _ _ (-1) (1) (by norm_num) (by norm_num) (by norm_num) (by norm_num) (by norm_num)
  have t7 : Binary64.div (F64.fin (-2)) (F64.fin 3) = F64.fin (-6004799503160661 / 9007199254740992) := by
    rw [binary64_div_fin _ _ (by norm_num)]
    exact round_eval _ _ (-1) (-6004799503160661) (by norm_num) (by norm_num) (by norm_num) (by norm_num) (by norm_num) (by norm_num)
  refine ⟨thirdsVertices_bounds, thirdsBounds_maxRange, ?_, ?_⟩
  · rw [binary64_normalizeVertex_get, binary64_normalizeVertex_get, thirdsBounds_maxRange]
    simp only [Vec3.ofRat, Vec3.get, thirdsBounds, Bounds.lo]
    simp only [t1, t2, t3, t4, t5]
  · rw [thirdsBounds_maxRange, t6, t7]

/-- Claim C7, amended: for a buffer of finite vertices whose `maxRange`, as computed in
binary64, is greater than 0 and finite, with `lo` and `hi` the least and the greatest
coordinate of the buffer on each axis: the divisor `R` is the largest of the three rounded
extents `hi - lo`; every normalized coordinate is the offset of the coordinate from `lo`,
rounded, divided by that one `R`, rounded; a smaller or equal offset gives a smaller or
equal normalized coordinate, whatever the vertices and the axes; and the extent of the
normalized buffer on each axis is the original extent divided by `R`. -/
theorem normalize_one_divisor (vb : List Vertex) (hfin : FiniteBuffer vb) (b : Bounds)
    (hb : meshBounds vb = Except.ok b)
    (hpos : F64.lt (F64.fin 0) (Binary64.maxRange b) = true)
    (hbounded : (Binary64.maxRange b).isFinite = true) :
    ∃ (lo hi : Plane → ℚ) (R : ℚ) (b' : Bounds),
      BoundsOf vb b lo hi ∧
      (∀ a, F64.le (F64.round (hi a - lo a)) (F64.fin R) = true) ∧
      (∃ a, F64.round (hi a - lo a) = F64.fin R) ∧
      Binary64.normalize vb = Except.ok (vb.map (Binary64.normalizeVertex b)) ∧
      (∀ v ∈ vb, ∀ a, ∃ q, v.position.get a = F64.fin q ∧
        (Binary64.normalizeVertex b v).position.get a =
          Binary64.div (Binary64.sub (F64.fin q) (F64.fin (lo a))) (F64.fin R)) ∧
      (∀ u ∈ vb, ∀ v ∈ vb, ∀ (a c : Plane) (p q : ℚ),
        u.position.get a = F64.fin p → v.position.get c = F64.fin q → p - lo a ≤ q - lo c →
        F64.le ((Binary64.normalizeVertex b u).position.get a)
          ((Binary64.normalizeVertex b v).position.get c) = true) ∧
      meshBounds (vb.map (Binary64.normalizeVertex b)) = Except.ok b' ∧
      (∀ a, Binary64.range b' a = Binary64.div (Binary64.range b a) (Binary64.maxRange b)) := by
  obtain ⟨lo, hi, hbo⟩ := meshBounds_boundsOf vb hfin b hb
  obtain ⟨R, hR, hR0⟩ := binary64_maxRange_pos b hpos hbounded
  obtain ⟨ρ, hρ, amax, hamax⟩ := binary64_extents hbo R hR
  obtain ⟨b', hb'⟩ := meshBounds_map_ok vb b hb (Binary64.normalizeVertex b)
  obtain ⟨lo', hi', hbo'⟩ := meshBounds_boundsOf _ (binary64_normalized_finite hbo R hR hR0) b' hb'
  refine ⟨lo, hi, R, b', hbo, ?_, ⟨amax, by rw [(hρ amax).1, hamax]⟩,
    binary64_normalize_eq vb b hb, ?_, ?_, hb', ?_⟩
  · intro a
    rw [(hρ a).1]
    simpa [F64.le] using (hρ a).2.2
  · intro v hv a
    obtain ⟨q, _, _, hq, -, -, -, -, -, -, -, -, -⟩ := binary64_coord hbo R hR hR0 v hv a
    refine ⟨q, hq, ?_⟩
    rw [binary64_normalizeVertex_get, hq, (hbo.1 a).1, hR]
  · intro u hu v hv a c p q hp hq hle
    exact binary64_coord_mono hbo R hR hR0 u v hu hv a c p q hp hq hle
  · intro a
    obtain ⟨ν, eν, -, -⟩ := round_unit (ρ a / R) (div_nonneg (hρ a).2.1 hR0.le)
      ((div_le_one hR0).2 (hρ a).2.2)
    have hlo : lo' a = 0 :=
      isMin_unique (hbo'.2 a).1 (binary64_normalized_isMin hbo R hR hR0 a)
    have hhi : hi' a = ν :=
      isMax_unique (hbo'.2 a).2 (binary64_normalized_isMax hbo R hR hR0 a (ρ a) ν (hρ a).1 eν)
    rw [binary64_range_eq hbo' a, hlo, hhi, sub_zero, round_idem _ _ eν, binary64_range_eq hbo a,
      (hρ a).1, hR, binary64_div_fin _ _ hR0.ne', eν]

theorem normalize_one_divisor_witness :
    ∃ (lo hi : Plane → ℚ) (R : ℚ) (b' : Bounds),
      BoundsOf thirdsVertices thirdsBounds lo hi ∧
      (∃ a, F64.round (hi a - lo a) = F64.fin R) ∧
      meshBounds (thirdsVertices.map (Binary64.normalizeVertex thirdsBounds)) = Except.ok b' ∧
      (∀ a, Binary64.range b' a =
        Binary64.div (Binary64.range thirdsBounds a) (Binary64.maxRange thirdsBounds)) := by
  obtain ⟨lo, hi, R, b', h1, -, h3, -, -, -, h7, h8⟩ := normalize_one_divisor thirdsVertices
    thirdsVertices_finite thirdsBounds thirdsVertices_bounds
    (by rw [thirdsBounds_maxRange]; simp [F64.lt]) (by rw [thirdsBounds_maxRange]; rfl)
  exact ⟨lo, hi, R, b', h1, h3, h7, h8⟩

/-- Claim C8, as stated, fails: a buffer of one vertex has range 0 and is not
rejected; normalization returns it with every coordinate `0 / 0 = NaN`. -/
theorem normalize_accepts_coincident_vertices :
    normalize [⟨Vec3.ofRat 1 2 3⟩] = Except.ok [⟨⟨F64.nan, F64.nan, F64.nan⟩⟩] := by
  simp [normalize, meshBounds, initBounds, boundsStep, normalizeVertex, Bounds.maxRange,
    Bounds.rangeX, Bounds.rangeY, Bounds.rangeZ, stdMax3, stdMin, stdMax, Vec3.ofRat, F64.lt,
    F64.sub, F64.add, F64.neg, F64.div]

/-- Claim C8, amended: normalization has no validity check.  On a buffer of finite
vertices whose bounds exist and whose `maxRange` is exactly 0 it returns a buffer of
the same length in which every coordinate is `NaN`, the quotient `0 / 0`; on the
empty buffer the read of `vertexBuffer[0]` is out of bounds. -/
theorem normalize_zero_range (vb : List Vertex) (hfin : FiniteBuffer vb) (b : Bounds)
    (hb : meshBounds vb = Except.ok b) (hzero : b.maxRange = F64.fin 0) :
    normalize vb = Except.ok (vb.map (fun _ => ⟨⟨F64.nan, F64.nan, F64.nan⟩⟩)) ∧
      normalize [] = Except.error Fault.outOfBounds := by
  refine ⟨?_, rfl⟩
  obtain ⟨lo, hi, hbo⟩ := meshBounds_boundsOf vb hfin b hb
  rw [normalize_eq vb b hb]
  congr 1
  apply List.map_congr_left
  intro v hv
  have key : ∀ a, (normalizeVertex b v).position.get a = F64.nan := by
    intro a
    obtain ⟨⟨hmin, -⟩, ⟨hmax, -⟩⟩ := hbo.2 a
    obtain ⟨q, hq, h1⟩ := hmin v hv
    obtain ⟨q', hq', h2⟩ := hmax v hv
    dsimp only at hq hq'
    rw [hq] at hq'
    cases hq'
    have h3 := hbo.range_le 0 hzero a
    have h4 : q = lo a := by linarith
    rw [normalizeVertex_get, hq, (hbo.1 a).1, hzero, h4]
    simp [F64.sub, F64.add, F64.neg, F64.div]
  have kx := key Plane.X
  have ky := key Plane.Y
  have kz := key Plane.Z
  simp only [Vec3.get] at kx ky kz
  cases hn : normalizeVertex b v with
  | mk p =>
    cases p with
    | mk px py pz =>
      rw [hn] at kx ky kz
      simp only at kx ky kz
      rw [kx, ky, kz]

theorem normalize_zero_range_witness :
    normalize [⟨Vec3.ofRat 1 2 3⟩, ⟨Vec3.ofRat 1 2 3⟩] =
      Except.ok [⟨⟨F64.nan, F64.nan, F64.nan⟩⟩, ⟨⟨F64.nan, F64.nan, F64.nan⟩⟩] :=
  (normalize_zero_range _ coincident_finite _ coincident_bounds
    (by norm_num [Bounds.maxRange, Bounds.rangeX, Bounds.rangeY, Bounds.rangeZ, stdMax3,
      F64.lt, F64.sub, F64.add, F64.neg])).1

/-- Claim C9, as stated, fails for grid dimensions whose linear index overflows
`int`: with `W = H = 65536` the in-range coordinates `(0, 0, 1)` get index 0, not
`1 * W * H`, the index of `(0, 0, 0)`. -/
theorem get3DIndex_wraps :
    ¬ ((get3DIndex 0 0 1 65536 65536 : Int) = 0 + 0 * 65536 + 1 * 65536 * 65536) ∧
      get3DIndex 0 0 1 65536 65536 = get3DIndex 0 0 0 65536 65536 := by
  decide

/-- Claim C9, amended: for grid dimensions with `W * H * D <= 2^31` and in-range
coordinates, `get3DIndex` is `x + y * W + z * W * H`, it is less than `W * H * D`,
and different in-range coordinates get different indices; on the 128 x 128 x 128
grid the cell written for the voxel lies inside a buffer of that size. -/
theorem get3DIndex_spec (W H D x y z : Int) (hfit : W * H * D ≤ 2 ^ 31)
    (hx0 : 0 ≤ x) (hxW : x < W) (hy0 : 0 ≤ y) (hyH : y < H) (hz0 : 0 ≤ z) (hzD : z < D) :
    (get3DIndex x y z W H : Int) = x + y * W + z * W * H ∧
    (get3DIndex x y z W H : Int) < W * H * D ∧
    (∀ x' y' z' : Int, 0 ≤ x' → x' < W → 0 ≤ y' → y' < H → 0 ≤ z' → z' < D →
      get3DIndex x' y' z' W H = get3DIndex x y z W H → x' = x ∧ y' = y ∧ z' = z) ∧
    (W = cGridX → H = cGridY → D = cGridZ → ∀ g : Grid, g.length = emptyGrid.length →
      ∃ g', gridSet g (get3DIndex x y z W H) = Except.ok g') := by
  obtain ⟨e, hlt⟩ := get3DIndex_eq W H D x y z hfit hx0 hxW hy0 hyH hz0 hzD
  refine ⟨e, hlt, ?_, ?_⟩
  · intro x' y' z' hx0' hxW' hy0' hyH' hz0' hzD' heq
    obtain ⟨e', -⟩ := get3DIndex_eq W H D x' y' z' hfit hx0' hxW' hy0' hyH' hz0' hzD'
    rw [heq, e] at e'
    exact linear_index_inj W H x y z x' y' z' hx0 hxW hy0 hyH hx0' hxW' hy0' hyH' e'.symm
  · intro hW hH hD g hg
    subst hW hH hD
    obtain ⟨g', h, -⟩ := gridSet_marks g (get3DIndex x y z cGridX cGridY)
      (by rw [hg, emptyGrid_length]
          exact (get3DIndex_grid x y z ⟨⟨hx0, hxW⟩, ⟨hy0, hyH⟩, ⟨hz0, hzD⟩⟩).2)
    exact ⟨g', h⟩

theorem get3DIndex_spec_witness :
    (get3DIndex 1 2 3 128 128 : Int) = 1 + 2 * 128 + 3 * 128 * 128 :=
  (get3DIndex_spec 128 128 128 1 2 3 (by norm_num) (by norm_num) (by norm_num)
    (by norm_num) (by norm_num) (by norm_num) (by norm_num)).1

/-- Claim C10: `checkTriangle` and `checkVoxel` never clear a cell; and for a valid
mesh on a grid of 128 x 128 x 128 cells, both strategies return a grid for the mesh
and for the mesh with one more triangle (three more indices, possibly more vertices),
and every cell set in the first is set in the second. -/
theorem voxelization_monotone :
    (∀ (v0 v1 v2 : Vec3) (vb : List Vertex) (ib : List Nat) (g g' : Grid),
      checkTriangle v0 v1 v2 vb ib g = Except.ok g' → GridLe g g') ∧
    (∀ (x y z : Int) (vb : List Vertex) (ib : List Nat) (g g' : Grid),
      checkVoxel x y z vb ib g = Except.ok g' → GridLe g g') ∧
    (∀ (vb extra : List Vertex) (ib : List Nat) (a b c : Nat) (g0 : Grid),
      ValidMesh vb ib → a < (vb ++ extra).length → b < (vb ++ extra).length →
      c < (vb ++ extra).length → g0.length = emptyGrid.length →
      ∃ g g', mainSequentialTriangle vb ib g0 = Except.ok g ∧
        mainSequentialTriangle (vb ++ extra) (ib ++ [a, b, c]) g0 = Except.ok g' ∧
        GridLe g g') ∧
    (∀ (vb extra : List Vertex) (ib : List Nat) (a b c : Nat) (g0 : Grid),
      ValidMesh vb ib → a < (vb ++ extra).length → b < (vb ++ extra).length →
      c < (vb ++ extra).length → g0.length = emptyGrid.length →
      ∃ g g', mainSequentialVoxel vb ib g0 = Except.ok g ∧
        mainSequentialVoxel (vb ++ extra) (ib ++ [a, b, c]) g0 = Except.ok g' ∧
        GridLe g g') := by
  refine ⟨checkTriangle_gridLe, ?_, ?_, ?_⟩
  · intro x y z vb ib g g' h
    exact checkVoxelLoop_gridLe x y z vb ib g g' _ h
  · intro vb extra ib a b c g0 hv ha hb hc hg
    rw [emptyGrid_length] at hg
    obtain ⟨g, h1, m1⟩ := mainSequentialTriangle_marks vb ib hv g0 hg
    obtain ⟨g', h2, m2⟩ := mainSequentialTriangle_marks (vb ++ extra) (ib ++ [a, b, c])
      (ValidMesh.append vb extra ib a b c hv ha hb hc) g0 hg
    refine ⟨g, g', h1, h2, ?_⟩
    intro i hi
    rcases (m1.2 i).1 hi with h | ⟨s, hs, v0, v1, v2, hf, hrest⟩
    · exact (m2.2 i).2 (Or.inl h)
    · exact (m2.2 i).2 (Or.inr ⟨s, mem_triangleStarts_append ib _ s hs, v0, v1, v2,
        fetchTriangle_append vb extra ib _ s _ hf, hrest⟩)
  · intro vb extra ib a b c g0 hv ha hb hc hg
    rw [emptyGrid_length] at hg
    obtain ⟨g, h1, m1⟩ := mainSequentialVoxel_marks vb ib hv g0 hg
    obtain ⟨g', h2, m2⟩ := mainSequentialVoxel_marks (vb ++ extra) (ib ++ [a, b, c])
      (ValidMesh.append vb extra ib a b c hv ha hb hc) g0 hg
    refine ⟨g, g', h1, h2, ?_⟩
    intro i hi
    rcases (m1.2 i).1 hi with h | ⟨x, y, z, hin, hidx, s, hs, v0, v1, v2, hf, hhit⟩
    · exact (m2.2 i).2 (Or.inl h)
    · exact (m2.2 i).2 (Or.inr ⟨x, y, z, hin, hidx, s,
        mem_triangleStarts_append ib _ s hs, v0, v1, v2,
        fetchTriangle_append vb extra ib _ s _ hf, hhit⟩)

theorem voxelization_monotone_witness :
    ∃ g g', mainSequentialTriangle cornerVertices [0, 1, 2] emptyGrid = Except.ok g ∧
      mainSequentialTriangle (cornerVertices ++ [⟨Vec3.ofRat 1 1 1⟩]) ([0, 1, 2] ++ [0, 1, 3])
        emptyGrid = Except.ok g' ∧
      GridLe g g' ∧
      gridGet g (get3DIndex 64 64 0 cGridX cGridY) = true ∧
      gridGet g' (get3DIndex 64 64 0 cGridX cGridY) = true := by
  obtain ⟨g, g', h1, h2, h3⟩ := voxelization_monotone.2.2.1 cornerVertices
    [⟨Vec3.ofRat 1 1 1⟩] [0, 1, 2] 0 1 3 emptyGrid cornerVertices_valid (by decide) (by decide)
    (by decide) rfl
  obtain ⟨g0, e0, m0⟩ := mainSequentialTriangle_marks cornerVertices [0, 1, 2]
    cornerVertices_valid emptyGrid emptyGrid_length
  rw [h1] at e0
  cases e0
  have hset : gridGet g (get3DIndex 64 64 0 cGridX cGridY) = true :=
    (m0.2 _).2 (Or.inr ⟨0, by decide, _, _, _, cornerVertices_fetch, 64, 64, 0,
      by simp only [InGrid, cGridX, cGridY, cGridZ]; omega, rfl, cornerVertices_hits_centre⟩)
  exact ⟨g, g', h1, h2, h3, hset, h3 _ hset⟩

/-- Claim C11: for a valid mesh and a grid of 128 x 128 x 128 cells, the per-triangle
voxelization returns a grid, and a second run with the same mesh on that grid returns
the same grid; a write to a cell that is already set leaves the grid as it is; and two
runs from the same grid give the same grid. -/
theorem voxelization_idempotent (vb : List Vertex) (ib : List Nat) (hv : ValidMesh vb ib)
    (g0 : Grid) (hg : g0.length = emptyGrid.length) :
    (∃ g1, mainSequentialTriangle vb ib g0 = Except.ok g1 ∧
      mainSequentialTriangle vb ib g1 = Except.ok g1) ∧
    (∀ (g : Grid) (idx : Nat), gridGet g idx = true → gridSet g idx = Except.ok g) ∧
    (∀ ga gb : Grid, mainSequentialTriangle vb ib emptyGrid = Except.ok ga →
      mainSequentialTriangle vb ib emptyGrid = Except.ok gb → ga = gb) := by
  rw [emptyGrid_length] at hg
  refine ⟨?_, gridSet_of_set, fun ga gb ha hb => by rw [ha] at hb; exact Except.ok.inj hb⟩
  obtain ⟨g1, h1, m1⟩ := mainSequentialTriangle_marks vb ib hv g0 hg
  obtain ⟨g2, h2, m2⟩ := mainSequentialTriangle_marks vb ib hv g1 (by rw [m1.1, hg])
  refine ⟨g1, h1, ?_⟩
  rw [h2]
  congr 1
  apply grid_ext _ _ m2.1
  intro i
  rw [m2.2 i, m1.2 i]
  tauto

theorem voxelization_idempotent_witness :
    ∃ g1, mainSequentialTriangle cornerVertices [0, 1, 2] emptyGrid = Except.ok g1 ∧
      mainSequentialTriangle cornerVertices [0, 1, 2] g1 = Except.ok g1 :=
  (voxelization_idempotent cornerVertices [0, 1, 2] cornerVertices_valid emptyGrid rfl).1

/-- Claim C13, as stated, fails: the three vertices `(1/256, 0, 0)`, `(0, 1/256, 0)`,
`(0, 0, 1/256)` lie within the bounds of voxel `(0, 0, 0)`, bounds included, and the
voxelization of that triangle sets the cells of two different voxels, `(0, 0, 0)` and
`(1, 0, 0)`: the first vertex lies on the face shared by the two voxels. -/
theorem triangle_on_voxel_boundary_marks_two :
    Vec3.within (Vec3.ofRat (1 / 256) 0 0) (voxelMin 0 0 0) (voxelMax 0 0 0) ∧
    Vec3.within (Vec3.ofRat 0 (1 / 256) 0) (voxelMin 0 0 0) (voxelMax 0 0 0) ∧
    Vec3.within (Vec3.ofRat 0 0 (1 / 256)) (voxelMin 0 0 0) (voxelMax 0 0 0) ∧
    ∃ g, mainSequentialTriangle [⟨Vec3.ofRat (1 / 256) 0 0⟩, ⟨Vec3.ofRat 0 (1 / 256) 0⟩,
        ⟨Vec3.ofRat 0 0 (1 / 256)⟩] [0, 1, 2] emptyGrid = Except.ok g ∧
      gridGet g (get3DIndex 0 0 0 cGridX cGridY) = true ∧
      gridGet g (get3DIndex 1 0 0 cGridX cGridY) = true ∧
      get3DIndex 0 0 0 cGridX cGridY ≠ get3DIndex 1 0 0 cGridX cGridY := by
  have hw : ∀ a b c : ℚ, (-1 / 256 ≤ a ∧ a ≤ 1 / 256) → (-1 / 256 ≤ b ∧ b ≤ 1 / 256) →
      (-1 / 256 ≤ c ∧ c ≤ 1 / 256) →
      Vec3.within (Vec3.ofRat a b c) (voxelMin 0 0 0) (voxelMax 0 0 0) := by
    intro a b c ha hb hc
    rw [voxelMin_eq, voxelMax_eq]
    simp only [Vec3.within, Vec3.ofRat, F64.le, decide_eq_true_eq]
    push_cast
    refine ⟨?_, ?_, ?_, ?_, ?_, ?_⟩ <;> linarith [ha.1, ha.2, hb.1, hb.2, hc.1, hc.2]
  refine ⟨hw _ _ _ (by norm_num) (by norm_num) (by norm_num),
    hw _ _ _ (by norm_num) (by norm_num) (by norm_num),
    hw _ _ _ (by norm_num) (by norm_num) (by norm_num), ?_⟩
  obtain ⟨g, hm, -, hg⟩ := single_triangle_marks (Vec3.ofRat (1 / 256) 0 0)
    (Vec3.ofRat 0 (1 / 256) 0) (Vec3.ofRat 0 0 (1 / 256))
  refine ⟨g, hm, ?_, ?_, by decide⟩
  · refine (hg _).2 ⟨0, 0, 0, by simp only [InGrid, cGridX, cGridY, cGridZ]; omega, rfl, ?_⟩
    apply hits_of_first_inside
    · rw [pruned_fin]
      norm_num
    · left
      rw [voxelMin_eq, voxelMax_eq]
      norm_num [insideBox, Vec3.ofRat, F64.le, F64.ge]
  · refine (hg _).2 ⟨1, 0, 0, by simp only [InGrid, cGridX, cGridY, cGridZ]; omega, rfl, ?_⟩
    apply hits_of_first_inside
    · rw [pruned_fin]
      norm_num
    · left
      rw [voxelMin_eq, voxelMax_eq]
      norm_num [insideBox, Vec3.ofRat, F64.le, F64.ge]

/-- Claim C13, amended: if the three vertices of a triangle lie strictly inside the
bounds of one voxel of the lattice, the voxelization of the mesh made of that triangle,
from the all-false grid, returns a grid in which the cell of that voxel is set and no
other cell is. -/
theorem single_triangle_strictly_inside_voxel (x y z : Int) (hin : InGrid x y z)
    (v0 v1 v2 : Vec3)
    (h0 : Vec3.strictlyWithin v0 (voxelMin x y z) (voxelMax x y z))
    (h1 : Vec3.strictlyWithin v1 (voxelMin x y z) (voxelMax x y z))
    (h2 : Vec3.strictlyWithin v2 (voxelMin x y z) (voxelMax x y z)) :
    ∃ g, mainSequentialTriangle [⟨v0⟩, ⟨v1⟩, ⟨v2⟩] [0, 1, 2] emptyGrid = Except.ok g ∧
      ∀ i, gridGet g i = true ↔ i = get3DIndex x y z cGridX cGridY := by
  obtain ⟨g, hm, -, hg⟩ := single_triangle_marks v0 v1 v2
  refine ⟨g, hm, ?_⟩
  have w0 := strictlyWithin_within _ _ _ h0
  rw [voxelMin_eq, voxelMax_eq, strictlyWithin_fin] at h0 h1 h2
  obtain ⟨a0, b0, c0, rfl, ha0, hb0, hc0⟩ := h0
  obtain ⟨a1, b1, c1, rfl, ha1, hb1, hc1⟩ := h1
  obtain ⟨a2, b2, c2, rfl, ha2, hb2, hc2⟩ := h2
  intro i
  rw [hg i]
  constructor
  · rintro ⟨x', y', z', -, hi, hp, -⟩
    rw [pruned_fin] at hp
    obtain ⟨px, py, pz⟩ := hp
    have ex := axis_unique x x' a0 a1 a2 ha0 ha1 ha2 px
    have ey := axis_unique y y' b0 b1 b2 hb0 hb1 hb2 py
    have ez := axis_unique z z' c0 c1 c2 hc0 hc1 hc2 pz
    rw [hi, ex, ey, ez]
  · intro hi
    refine ⟨x, y, z, hin, hi, triangleHits_of_inside _ _ _ x y z ?_ w0⟩
    rw [pruned_fin]
    exact ⟨axis_not_pruned x a0 a1 a2 ha0, axis_not_pruned y b0 b1 b2 hb0,
      axis_not_pruned z c0 c1 c2 hc0⟩

theorem single_triangle_strictly_inside_voxel_witness :
    ∃ g, mainSequentialTriangle [⟨Vec3.ofRat (1 / 128) 0 0⟩, ⟨Vec3.ofRat (1 / 128) (1 / 512) 0⟩,
        ⟨Vec3.ofRat (1 / 128) 0 (1 / 512)⟩] [0, 1, 2] emptyGrid = Except.ok g ∧
      ∀ i, gridGet g i = true ↔ i = get3DIndex 1 0 0 cGridX cGridY := by
  apply single_triangle_strictly_inside_voxel 1 0 0
    (by simp only [InGrid, cGridX, cGridY, cGridZ]; omega) <;>
  · rw [voxelMin_eq, voxelMax_eq, strictlyWithin_fin]
    exact ⟨_, _, _, rfl, by norm_num, by norm_num, by norm_num⟩

/-- Claim C15, on the bounds of voxel `(64, 64, 64)`.  First triangle: a point of its
interior lies in the box, no edge meets the box, and `intersectTriangleCube` returns
false, the false negative of the claim.  Second triangle, the failing input: again a
point of the interior lies in the box and no edge meets the box, but the edge from
`(129/256, 1, 0)` to `(129/256, 0, 3/4)` lies in the plane `x = 129/256` of the Right
face, `t = 0 / 0 = NaN`, and `intersectTriangleCube` returns true. -/
theorem intersectTriangleCube_edge_only_cases :
    voxelMin 64 64 64 = Vec3.ofAxes (axes (127 / 256) (127 / 256) (127 / 256)) ∧
    voxelMax 64 64 64 = Vec3.ofAxes (axes (129 / 256) (129 / 256) (129 / 256)) ∧
    (InteriorMeetsBox (axes 0 0 (1 / 2)) (axes 1 0 (1 / 2)) (axes (1 / 2) 1 (1 / 2))
        (axes (127 / 256) (127 / 256) (127 / 256)) (axes (129 / 256) (129 / 256) (129 / 256)) ∧
      ¬ SegmentMeetsBox (axes 0 0 (1 / 2)) (axes 1 0 (1 / 2))
        (axes (127 / 256) (127 / 256) (127 / 256)) (axes (129 / 256) (129 / 256) (129 / 256)) ∧
      ¬ SegmentMeetsBox (axes 1 0 (1 / 2)) (axes (1 / 2) 1 (1 / 2))
        (axes (127 / 256) (127 / 256) (127 / 256)) (axes (129 / 256) (129 / 256) (129 / 256)) ∧
      ¬ SegmentMeetsBox (axes (1 / 2) 1 (1 / 2)) (axes 0 0 (1 / 2))
        (axes (127 / 256) (127 / 256) (127 / 256)) (axes (129 / 256) (129 / 256) (129 / 256)) ∧
      intersectTriangleCube (Vec3.ofAxes (axes 0 0 (1 / 2))) (Vec3.ofAxes (axes 1 0 (1 / 2)))
        (Vec3.ofAxes (axes (1 / 2) 1 (1 / 2))) (voxelMin 64 64 64) (voxelMax 64 64 64) =
          Except.ok false) ∧
    (InteriorMeetsBox (axes (129 / 256) 1 0) (axes (129 / 256) 0 (3 / 4))
        (axes (63 / 128) (1 / 2) (3 / 4))
        (axes (127 / 256) (127 / 256) (127 / 256)) (axes (129 / 256) (129 / 256) (129 / 256)) ∧
      ¬ SegmentMeetsBox (axes (129 / 256) 1 0) (axes (129 / 256) 0 (3 / 4))
        (axes (127 / 256) (127 / 256) (127 / 256)) (axes (129 / 256) (129 / 256) (129 / 256)) ∧
      ¬ SegmentMeetsBox (axes (129 / 256) 0 (3 / 4)) (axes (63 / 128) (1 / 2) (3 / 4))
        (axes (127 / 256) (127 / 256) (127 / 256)) (axes (129 / 256) (129 / 256) (129 / 256)) ∧
      ¬ SegmentMeetsBox (axes (63 / 128) (1 / 2) (3 / 4)) (axes (129 / 256) 1 0)
        (axes (127 / 256) (127 / 256) (127 / 256)) (axes (129 / 256) (129 / 256) (129 / 256)) ∧
      intersectTriangleCube (Vec3.ofAxes (axes (129 / 256) 1 0))
        (Vec3.ofAxes (axes (129 / 256) 0 (3 / 4))) (Vec3.ofAxes (axes (63 / 128) (1 / 2) (3 / 4)))
        (voxelMin 64 64 64) (voxelMax 64 64 64) = Except.ok true) := by
  refine ⟨voxel64_bounds.1, voxel64_bounds.2, ⟨?_, ?_, ?_, ?_, ?_⟩, ⟨?_, ?_, ?_, ?_, ?_⟩⟩
  · refine ⟨1 / 4, 1 / 4, 1 / 2, by norm_num, by norm_num, by norm_num, by norm_num, ?_⟩
    intro k
    cases k <;> norm_num [axes]
  · rintro ⟨t, -, -, h⟩
    have hy := (h Plane.Y).1
    simp only [axes] at hy
    norm_num at hy
  · rintro ⟨t, h0, h1, h⟩
    have hx := (h Plane.X).2
    have hy := (h Plane.Y).2
    simp only [axes] at hx hy
    linarith
  · rintro ⟨t, h0, h1, h⟩
    have hx := (h Plane.X).1
    have hy := (h Plane.Y).2
    simp only [axes] at hx hy
    linarith
  · rw [voxelMin_eq, voxelMax_eq]
    norm_num [intersectTriangleCube, intersectLineCube, insideBox, cubeFaces, anyFace,
      intersectLineQuad, selectPlane, planeParam, outsideBox, Vec3.get, Vec3.ofAxes, axes,
      Vec3.ofRat, Vec3.add, Vec3.sub, Vec3.scale, F64.eq, F64.le, F64.ge, F64.lt, F64.gt,
      F64.sub, F64.add, F64.neg, F64.div, F64.mul, F64.signedInf]
  · refine ⟨1 / 3, 1 / 3, 1 / 3, by norm_num, by norm_num, by norm_num, by norm_num, ?_⟩
    intro k
    cases k <;> norm_num [axes]
  · rintro ⟨t, h0, h1, h⟩
    have hy := h Plane.Y
    have hz := h Plane.Z
    simp only [axes] at hy hz
    linarith [hy.1, hy.2, hz.1, hz.2]
  · rintro ⟨t, h0, h1, h⟩
    have hz := (h Plane.Z).2
    simp only [axes] at hz
    norm_num at hz
  · rintro ⟨t, h0, h1, h⟩
    have hy := h Plane.Y
    have hz := h Plane.Z
    simp only [axes] at hy hz
    linarith [hy.1, hy.2, hz.1, hz.2]
  · rw [voxelMin_eq, voxelMax_eq]
    norm_num [intersectTriangleCube, intersectLineCube, insideBox, cubeFaces, anyFace,
      intersectLineQuad, selectPlane, planeParam, outsideBox, Vec3.get, Vec3.ofAxes, axes,
      Vec3.ofRat, Vec3.add, Vec3.sub, Vec3.scale, F64.eq, F64.le, F64.ge, F64.lt, F64.gt,
      F64.sub, F64.add, F64.neg, F64.div, F64.mul, F64.signedInf]

/-- Claim C16, as stated, fails: `get3DIndex` returns the index 128 for the coordinates
`(128, 0, 0)`, which are out of range, the index of voxel `(0, 1, 0)`; and `checkVoxel`
called with `(128, 0, 0)` on a mesh with a vertex at `(1, 0, 0)` sets the cell of voxel
`(0, 1, 0)`. -/
theorem get3DIndex_accepts_out_of_range :
    get3DIndex 128 0 0 cGridX cGridY = 128 ∧ get3DIndex 0 1 0 cGridX cGridY = 128 ∧
    ∃ g, checkVoxel 128 0 0 cornerVertices [0, 1, 2] emptyGrid = Except.ok g ∧
      gridGet g (get3DIndex 0 1 0 cGridX cGridY) = true := by
  have e1 : get3DIndex 128 0 0 cGridX cGridY = 128 := by decide
  have e2 : get3DIndex 0 1 0 cGridX cGridY = 128 := by decide
  refine ⟨e1, e2, ?_⟩
  have hw := checkVoxelLoop_hit 128 0 0 cornerVertices [0, 1, 2] emptyGrid
    (triangleStarts [0, 1, 2]) (fetchTriangle_valid _ _ cornerVertices_valid) cornerVertices_hits
  obtain ⟨g, h1, h2⟩ := gridSet_marks emptyGrid (get3DIndex 128 0 0 cGridX cGridY)
    (by rw [e1, emptyGrid_length]; norm_num)
  refine ⟨g, ?_, ?_⟩
  · unfold checkVoxel
    rw [hw, h1]
  · rw [e2, ← e1]
    exact (h2.2 _).2 (Or.inr rfl)

/-- Claim C16, amended: `get3DIndex` has no range check.  On the 128 x 128 x 128 grid
it returns `x + 128 * y + 16384 * z` for all coordinates from 0 up to 65535, in range or
not; `checkVoxel`, when a triangle of a valid mesh meets the voxel bounds, writes at that
index whatever the coordinates are; `checkTriangle` takes its coordinates from its own
loops and never faults on a grid of 128 x 128 x 128 cells. -/
theorem get3DIndex_unchecked (x y z : Int) (hx0 : 0 ≤ x) (hx1 : x < 65536) (hy0 : 0 ≤ y)
    (hy1 : y < 65536) (hz0 : 0 ≤ z) (hz1 : z < 65536) :
    (get3DIndex x y z cGridX cGridY : Int) = x + y * 128 + z * 128 * 128 ∧
    (∀ (vb : List Vertex) (ib : List Nat) (g : Grid), ValidMesh vb ib → MeshHits vb ib x y z →
      checkVoxel x y z vb ib g = gridSet g (get3DIndex x y z cGridX cGridY)) ∧
    (∀ (v0 v1 v2 : Vec3) (vb : List Vertex) (ib : List Nat) (g : Grid),
      g.length = emptyGrid.length → ∃ g', checkTriangle v0 v1 v2 vb ib g = Except.ok g') := by
  refine ⟨get3DIndex_grid_any x y z hx0 hx1 hy0 hy1 hz0 hz1, ?_, ?_⟩
  · intro vb ib g hv hhit
    exact checkVoxelLoop_hit x y z vb ib g _ (fetchTriangle_valid vb ib hv) hhit
  · intro v0 v1 v2 vb ib g hg
    obtain ⟨g', h, -⟩ := checkTriangle_marks v0 v1 v2 vb ib g (by rw [hg, emptyGrid_length])
    exact ⟨g', h⟩

theorem get3DIndex_unchecked_witness :
    (get3DIndex 128 0 0 cGridX cGridY : Int) = 128 + 0 * 128 + 0 * 128 * 128 :=
  (get3DIndex_unchecked 128 0 0 (by norm_num) (by norm_num) (by norm_num) (by norm_num)
    (by norm_num) (by norm_num)).1

/-- Claim C17, at the failing input: the box is the bounds of voxel `(0, 5, 0)` and the
segment from `(1/256, 0, 1)` to `(1/256, 0, 0)` has no point in the box (`y` is 0, the
box starts at `y = 9/256`); it lies in the plane `x = 1/256` of the Right face, `t` is
`0 / 0 = NaN`, and `intersectLineCube` returns true. -/
theorem intersectLineCube_accepts_outside_segment :
    voxelMin 0 5 0 = Vec3.ofAxes (axes (-1 / 256) (9 / 256) (-1 / 256)) ∧
    voxelMax 0 5 0 = Vec3.ofAxes (axes (1 / 256) (11 / 256) (1 / 256)) ∧
    intersectLineCube (Vec3.ofAxes (axes (1 / 256) 0 1)) (Vec3.ofAxes (axes (1 / 256) 0 0))
      (voxelMin 0 5 0) (voxelMax 0 5 0) = Except.ok true ∧
    ¬ SegmentMeetsBox (axes (1 / 256) 0 1) (axes (1 / 256) 0 0)
      (axes (-1 / 256) (9 / 256) (-1 / 256)) (axes (1 / 256) (11 / 256) (1 / 256)) := by
  refine ⟨voxel050_bounds.1, voxel050_bounds.2, ?_, ?_⟩
  · rw [voxelMin_eq, voxelMax_eq]
    norm_num [intersectLineCube, insideBox, cubeFaces, anyFace,
      intersectLineQuad, selectPlane, planeParam, outsideBox, Vec3.get, Vec3.ofAxes, axes,
      Vec3.ofRat, Vec3.add, Vec3.sub, Vec3.scale, F64.eq, F64.le, F64.ge, F64.lt, F64.gt,
      F64.sub, F64.add, F64.neg, F64.div, F64.mul, F64.signedInf]
  · rintro ⟨t, -, -, h⟩
    have hy := (h Plane.Y).1
    simp only [axes] at hy
    norm_num at hy

/-- Claim C18: for a box with `cubeMin < cubeMax` on all three axes, each of the six
face quads compares equal on exactly one axis, the axis of its plane (X for Left and
Right, Y for Bottom and Top, Z for Front and Back), `intersectLineQuad` selects that
plane, and `intersectLineCube` and `intersectTriangleCube` return a boolean; `checkVoxel`
and `checkTriangle` never fail with `Invalid plane`. -/
theorem cube_faces_select_their_plane (cubeMin cubeMax : Vec3)
    (hx : F64.lt cubeMin.x cubeMax.x = true) (hy : F64.lt cubeMin.y cubeMax.y = true)
    (hz : F64.lt cubeMin.z cubeMax.z = true) :
    (cubeFaces cubeMin cubeMax).map degenerateAxes =
      [(true, false, false), (true, false, false), (false, true, false), (false, true, false),
        (false, false, true), (false, false, true)] ∧
    (cubeFaces cubeMin cubeMax).map (fun q => selectPlane q.1 q.2) =
      [Except.ok Plane.X, Except.ok Plane.X, Except.ok Plane.Y, Except.ok Plane.Y,
        Except.ok Plane.Z, Except.ok Plane.Z] ∧
    (∀ p1 p2, ∃ r, intersectLineCube p1 p2 cubeMin cubeMax = Except.ok r) ∧
    (∀ v0 v1 v2, ∃ r, intersectTriangleCube v0 v1 v2 cubeMin cubeMax = Except.ok r) ∧
    (∀ (x y z : Int) (vb : List Vertex) (ib : List Nat) (g : Grid),
      checkVoxel x y z vb ib g ≠ Except.error Fault.invalidPlane) ∧
    (∀ (v0 v1 v2 : Vec3) (vb : List Vertex) (ib : List Nat) (g : Grid),
      checkTriangle v0 v1 v2 vb ib g ≠ Except.error Fault.invalidPlane) := by
  refine ⟨(cubeFaces_axes cubeMin cubeMax hx hy hz).1, (cubeFaces_axes cubeMin cubeMax hx hy hz).2,
    fun p1 p2 => intersectLineCube_total_of_lt p1 p2 cubeMin cubeMax hx hy hz,
    fun v0 v1 v2 => intersectTriangleCube_total_of_lt v0 v1 v2 cubeMin cubeMax hx hy hz, ?_, ?_⟩
  · intro x y z vb ib g h
    have := checkVoxelLoop_error x y z vb ib g _ _ h
    cases this
  · intro v0 v1 v2 vb ib g h
    have := checkTriangle_error v0 v1 v2 vb ib g _ h
    cases this

theorem cube_faces_select_their_plane_witness :
    ∃ r, intersectLineCube (Vec3.ofRat 2 2 2) (Vec3.ofRat 3 3 3) (Vec3.ofRat 0 0 0)
      (Vec3.ofRat 1 1 1) = Except.ok r :=
  (cube_faces_select_their_plane (Vec3.ofRat 0 0 0) (Vec3.ofRat 1 1 1)
    (by simp [Vec3.ofRat, F64.lt]) (by simp [Vec3.ofRat, F64.lt])
    (by simp [Vec3.ofRat, F64.lt])).2.2.1 _ _

/-- Claim C19, at the failing input: the box is the bounds of voxel `(31, 5, 5)` and the
segment from `(0, 5/128, 5/128)` to `(23/64, 5/128, 5/128)` runs along the x axis through
the box.  In binary64 the point computed on the Left face has `x` one unit in the last
place below `61/256` and the point computed on the Right face has `x` one unit above
`63/256`, so `intersectLineCube` returns false; with the endpoints swapped the point
computed on the Left face has `x = 61/256` exactly, and it returns true.  With the third
vertex `(0, 5/128, 1)`, whose two edges miss the box, `intersectTriangleCube` returns false
for the vertices in this order and true with the first two exchanged. -/
theorem predicates_depend_on_order :
    Binary64.voxelMin 31 5 5 = Vec3.ofRat (61 / 256) (9 / 256) (9 / 256) ∧
    Binary64.voxelMax 31 5 5 = Vec3.ofRat (63 / 256) (11 / 256) (11 / 256) ∧
    SegmentMeetsBox (axes 0 (5 / 128) (5 / 128)) (axes (23 / 64) (5 / 128) (5 / 128))
      (axes (61 / 256) (9 / 256) (9 / 256)) (axes (63 / 256) (11 / 256) (11 / 256)) ∧
    Binary64.intersectLineCube (Vec3.ofRat 0 (5 / 128) (5 / 128))
        (Vec3.ofRat (23 / 64) (5 / 128) (5 / 128)) (Binary64.voxelMin 31 5 5)
        (Binary64.voxelMax 31 5 5) = Except.ok false ∧
    Binary64.intersectLineCube (Vec3.ofRat (23 / 64) (5 / 128) (5 / 128))
        (Vec3.ofRat 0 (5 / 128) (5 / 128)) (Binary64.voxelMin 31 5 5)
        (Binary64.voxelMax 31 5 5) = Except.ok true ∧
    Binary64.intersectTriangleCube (Vec3.ofRat 0 (5 / 128) (5 / 128))
        (Vec3.ofRat (23 / 64) (5 / 128) (5 / 128)) (Vec3.ofRat 0 (5 / 128) 1)
        (Binary64.voxelMin 31 5 5) (Binary64.voxelMax 31 5 5) = Except.ok false ∧
    Binary64.intersectTriangleCube (Vec3.ofRat (23 / 64) (5 / 128) (5 / 128))
        (Vec3.ofRat 0 (5 / 128) (5 / 128)) (Vec3.ofRat 0 (5 / 128) 1)
        (Binary64.voxelMin 31 5 5) (Binary64.voxelMax 31 5 5) = Except.ok true := by
  have s1 : Binary64.sub (F64.fin (61 / 256)) (F64.fin 0) = F64.fin (61 / 256) := by
    rw [binary64_sub_fin]
    exact round_eval_exact _ _ 61 (-8) (by norm_num) (by norm_num) (by norm_num) (by norm_num)
      (by norm_num)
  have s2 : Binary64.sub (F64.fin (23 / 64)) (F64.fin 0) = F64.fin (23 / 64) := by
    rw [binary64_sub_fin]
    exact round_eval_exact _ _ 23 (-6) (by norm_num) (by norm_num) (by norm_num) (by norm_num)
      (by norm_num)
  have s3 : Binary64.div (F64.fin (61 / 256)) (F64.fin (23 / 64)) =
      F64.fin (5972164723252179 / 9007199254740992) := by
    rw [binary64_div_fin _ _ (by norm_num)]
    exact round_eval _ _ (-1) 5972164723252179 (by norm_num) (by norm_num) (by norm_num)
      (by norm_num) (by norm_num) (by norm_num)
  have s4 : Binary64.sub (F64.fin (5 / 128)) (F64.fin (5 / 128)) = F64.fin 0 := by
    rw [binary64_sub_fin]
    exact round_eval_exact _ _ 0 0 (by norm_num) (by norm_num) (by norm_num) (by norm_num)
      (by norm_num)
  have s5 : Binary64.mul (F64.fin (23 / 64)) (F64.fin (5972164723252179 / 9007199254740992)) =
      F64.fin (8584986789675007 / 36028797018963968) := by
    rw [binary64_mul_fin]
    exact round_eval _ _ (-3) 8584986789675007 (by norm_num) (by norm_num) (by norm_num)
      (by norm_num) (by norm_num) (by norm_num)
  have s6 : Binary64.mul (F64.fin 0) (F64.fin (5972164723252179 / 9007199254740992)) =
      F64.fin 0 := by
    rw [binary64_mul_fin]
    exact round_eval_exact _ _ 0 0 (by norm_num) (by norm_num) (by norm_num) (by norm_num)
      (by norm_num)
  have s7 : Binary64.add (F64.fin 0) (F64.fin (8584986789675007 / 36028797018963968)) =
      F64.fin (8584986789675007 / 36028797018963968) := by
    rw [binary64_add_fin]
    exact round_eval_exact _ _ 8584986789675007 (-55) (by norm_num) (by norm_num) (by norm_num)
      (by norm_num) (by norm_num)
  have s8 : Binary64.add (F64.fin (5 / 128)) (F64.fin 0) = F64.fin (5 / 128) := by
    rw [binary64_add_fin]
    exact round_eval_exact _ _ 5 (-7) (by norm_num) (by norm_num) (by norm_num) (by norm_num)
      (by norm_num)
  have s9 : Binary64.sub (F64.fin (63 / 256)) (F64.fin 0) = F64.fin (63 / 256) := by
    rw [binary64_sub_fin]
    exact round_eval_exact _ _ 63 (-8) (by norm_num) (by norm_num) (by norm_num) (by norm_num)
      (by norm_num)
  have s10 : Binary64.div (F64.fin (63 / 256)) (F64.fin (23 / 64)) =
      F64.fin (6167973402703071 / 9007199254740992) := by
    rw [binary64_div_fin _ _ (by norm_num)]
    exact round_eval _ _ (-1) 6167973402703071 (by norm_num) (by norm_num) (by norm_num)
      (by norm_num) (by norm_num) (by norm_num)
  have s11 : Binary64.mul (F64.fin (23 / 64)) (F64.fin (6167973402703071 / 9007199254740992)) =
      F64.fin (8866461766385665 / 36028797018963968) := by
    rw [binary64_mul_fin]
    exact round_eval _ _ (-3) 8866461766385665 (by norm_num) (by norm_num) (by norm_num)
      (by norm_num) (by norm_num) (by norm_num)
  have s12 : Binary64.mul (F64.fin 0) (F64.fin (6167973402703071 / 9007199254740992)) =
      F64.fin 0 := by
    rw [binary64_mul_fin]
    exact round_eval_exact _ _ 0 0 (by norm_num) (by norm_num) (by norm_num) (by norm_num)
      (by norm_num)
  have s13 : Binary64.add (F64.fin 0) (F64.fin (8866461766385665 / 36028797018963968)) =
      F64.fin (8866461766385665 / 36028797018963968) := by
    rw [binary64_add_fin]
    exact round_eval_exact _ _ 8866461766385665 (-55) (by norm_num) (by norm_num) (by norm_num)
      (by norm_num) (by norm_num)
  have s14 : Binary64.sub (F64.fin (9 / 256)) (F64.fin (5 / 128)) = F64.fin (-1 / 256) := by
    rw [binary64_sub_fin]
    exact round_eval_exact _ _ (-1) (-8) (by norm_num) (by norm_num) (by norm_num) (by norm_num)
      (by norm_num)
  have s15 : Binary64.div (F64.fin (-1 / 256)) (F64.fin 0) = F64.ninf := by
    norm_num [Binary64.div, F64.div, F64.sub, F64.add, F64.neg, F64.rounded, F64.signedInf,
      round_zero]
  have s16 : Binary64.sub (F64.fin (11 / 256)) (F64.fin (5 / 128)) = F64.fin (1 / 256) := by
    rw [binary64_sub_fin]
    exact round_eval_exact _ _ 1 (-8) (by norm_num) (by norm_num) (by norm_num) (by norm_num)
      (by norm_num)
  have s17 : Binary64.div (F64.fin (1 / 256)) (F64.fin 0) = F64.pinf := by
    norm_num [Binary64.div, F64.div, F64.sub, F64.add, F64.neg, F64.rounded, F64.signedInf,
      round_zero]
  have s18 : Binary64.sub (F64.fin (61 / 256)) (F64.fin (23 / 64)) = F64.fin (-31 / 256) := by
    rw [binary64_sub_fin]
    exact round_eval_exact _ _ (-31) (-8) (by norm_num) (by norm_num) (by norm_num) (by norm_num)
      (by norm_num)
  have s19 : Binary64.sub (F64.fin 0) (F64.fin (23 / 64)) = F64.fin (-23 / 64) := by
    rw [binary64_sub_fin]
    exact round_eval_exact _ _ (-23) (-6) (by norm_num) (by norm_num) (by norm_num) (by norm_num)
      (by norm_num)
  have s20 : Binary64.div (F64.fin (-31 / 256)) (F64.fin (-23 / 64)) =
      F64.fin (6070069062977625 / 18014398509481984) := by
    rw [binary64_div_fin _ _ (by norm_num)]
    exact round_eval _ _ (-2) 6070069062977625 (by norm_num) (by norm_num) (by norm_num)
      (by norm_num) (by norm_num) (by norm_num)
  have s21 : Binary64.mul (F64.fin (-23 / 64)) (F64.fin (6070069062977625 / 18014398509481984)) =
      F64.fin (-31 / 256) := by
    rw [binary64_mul_fin]
    exact round_eval _ _ (-4) (-8725724278030336) (by norm_num) (by norm_num) (by norm_num)
      (by norm_num) (by norm_num) (by norm_num)
  have s22 : Binary64.mul (F64.fin 0) (F64.fin (6070069062977625 / 18014398509481984)) =
      F64.fin 0 := by
    rw [binary64_mul_fin]
    exact round_eval_exact _ _ 0 0 (by norm_num) (by norm_num) (by norm_num) (by norm_num)
      (by norm_num)
  have s23 : Binary64.add (F64.fin (23 / 64)) (F64.fin (-31 / 256)) = F64.fin (61 / 256) := by
    rw [binary64_add_fin]
    exact round_eval_exact _ _ 61 (-8) (by norm_num) (by norm_num) (by norm_num) (by norm_num)
      (by norm_num)
  have s24 : Binary64.sub (F64.fin (63 / 256)) (F64.fin (23 / 64)) = F64.fin (-29 / 256) := by
    rw [binary64_sub_fin]
    exact round_eval_exact _ _ (-29) (-8) (by norm_num) (by norm_num) (by norm_num) (by norm_num)
      (by norm_num)
  have s25 : Binary64.div (F64.fin (-29 / 256)) (F64.fin (-23 / 64)) =
      F64.fin (5678451704075843 / 18014398509481984) := by
    rw [binary64_div_fin _ _ (by norm_num)]
    exact round_eval _ _ (-2) 5678451704075843 (by norm_num) (by norm_num) (by norm_num)
      (by norm_num) (by norm_num) (by norm_num)
  have s26 : Binary64.mul (F64.fin (-23 / 64)) (F64.fin (5678451704075843 / 18014398509481984)) =
      F64.fin (-29 / 256) := by
    rw [binary64_mul_fin]
    exact round_eval _ _ (-4) (-8162774324609024) (by norm_num) (by norm_num) (by norm_num)
      (by norm_num) (by norm_num) (by norm_num)
  have s27 : Binary64.mul (F64.fin 0) (F64.fin (5678451704075843 / 18014398509481984)) =
      F64.fin 0 := by
    rw [binary64_mul_fin]
    exact round_eval_exact _ _ 0 0 (by norm_num) (by norm_num) (by norm_num) (by norm_num)
      (by norm_num)
  have s28 : Binary64.add (F64.fin (23 / 64)) (F64.fin (-29 / 256)) = F64.fin (63 / 256) := by
    rw [binary64_add_fin]
    exact round_eval_exact _ _ 63 (-8) (by norm_num) (by norm_num) (by norm_num) (by norm_num)
      (by norm_num)
  have s29 : Binary64.sub (F64.fin 1) (F64.fin (5 / 128)) = F64.fin (123 / 128) := by
    rw [binary64_sub_fin]
    exact round_eval_exact _ _ 123 (-7) (by norm_num) (by norm_num) (by norm_num) (by norm_num)
      (by norm_num)
  have s30 : Binary64.mul (F64.fin (123 / 128)) (F64.fin (6070069062977625 / 18014398509481984)) =
      F64.fin (2916478495102531 / 9007199254740992) := by
    rw [binary64_mul_fin]
    exact round_eval _ _ (-2) 5832956990205062 (by norm_num) (by norm_num) (by norm_num)
      (by norm_num) (by norm_num) (by norm_num)
  have s31 : Binary64.add (F64.fin (5 / 128)) (F64.fin (2916478495102531 / 9007199254740992)) =
      F64.fin (3268322215990851 / 9007199254740992) := by
    rw [binary64_add_fin]
    exact round_eval_exact _ _ 3268322215990851 (-53) (by norm_num) (by norm_num) (by norm_num)
      (by norm_num) (by norm_num)
  have s32 : Binary64.mul (F64.fin (123 / 128)) (F64.fin (5678451704075843 / 18014398509481984)) =
      F64.fin (1364159296096345 / 4503599627370496) := by
    rw [binary64_mul_fin]
    exact round_eval _ _ (-2) 5456637184385380 (by norm_num) (by norm_num) (by norm_num)
      (by norm_num) (by norm_num) (by norm_num)
  have s33 : Binary64.add (F64.fin (5 / 128)) (F64.fin (1364159296096345 / 4503599627370496)) =
      F64.fin (1540081156540505 / 4503599627370496) := by
    rw [binary64_add_fin]
    exact round_eval_exact _ _ 1540081156540505 (-52) (by norm_num) (by norm_num) (by norm_num)
      (by norm_num) (by norm_num)
  have s34 : Binary64.div (F64.fin (-1 / 256)) (F64.fin (123 / 128)) =
      F64.fin (-4686672782954663 / 1152921504606846976) := by
    rw [binary64_div_fin _ _ (by norm_num)]
    exact round_eval _ _ (-8) (-4686672782954663) (by norm_num) (by norm_num) (by norm_num)
      (by norm_num) (by norm_num) (by norm_num)
  have s35 : Binary64.div (F64.fin (1 / 256)) (F64.fin (123 / 128)) =
      F64.fin (4686672782954663 / 1152921504606846976) := by
    rw [binary64_div_fin _ _ (by norm_num)]
    exact round_eval _ _ (-8) 4686672782954663 (by norm_num) (by norm_num) (by norm_num)
      (by norm_num) (by norm_num) (by norm_num)
  have s36 : Binary64.mul (F64.fin (-23 / 64)) (F64.fin (4686672782954663 / 1152921504606846976)) =
      F64.fin (-421068257843583 / 288230376151711744) := by
    rw [binary64_mul_fin]
    exact round_eval _ _ (-10) (-6737092125497328) (by norm_num) (by norm_num) (by norm_num)
      (by norm_num) (by norm_num) (by norm_num)
  have s37 : Binary64.mul (F64.fin 0) (F64.fin (4686672782954663 / 1152921504606846976)) =
      F64.fin 0 := by
    rw [binary64_mul_fin]
    exact round_eval_exact _ _ 0 0 (by norm_num) (by norm_num) (by norm_num) (by norm_num)
      (by norm_num)
  have s38 : Binary64.mul (F64.fin (123 / 128)) (F64.fin (4686672782954663 / 1152921504606846976)) =
      F64.fin (1 / 256) := by
    rw [binary64_mul_fin]
    exact round_eval _ _ (-8) 4503599627370496 (by norm_num) (by norm_num) (by norm_num)
      (by norm_num) (by norm_num) (by norm_num)
  have s39 : Binary64.add (F64.fin (23 / 64)) (F64.fin (-421068257843583 / 288230376151711744)) =
      F64.fin (805950962278733 / 2251799813685248) := by
    rw [binary64_add_fin]
    exact round_eval _ _ (-2) 6447607698229864 (by norm_num) (by norm_num) (by norm_num)
      (by norm_num) (by norm_num) (by norm_num)
  have s40 : Binary64.add (F64.fin (5 / 128)) (F64.fin (1 / 256)) = F64.fin (11 / 256) := by
    rw [binary64_add_fin]
    exact round_eval_exact _ _ 11 (-8) (by norm_num) (by norm_num) (by norm_num) (by norm_num)
      (by norm_num)
  have s41 : Binary64.sub (F64.fin 0) (F64.fin 0) = F64.fin 0 := by
    rw [binary64_sub_fin]
    exact round_eval_exact _ _ 0 0 (by norm_num) (by norm_num) (by norm_num) (by norm_num)
      (by norm_num)
  have s42 : Binary64.div (F64.fin (61 / 256)) (F64.fin 0) = F64.pinf := by
    norm_num [Binary64.div, F64.div, F64.sub, F64.add, F64.neg, F64.rounded, F64.signedInf,
      round_zero]
  have s43 : Binary64.div (F64.fin (63 / 256)) (F64.fin 0) = F64.pinf := by
    norm_num [Binary64.div, F64.div, F64.sub, F64.add, F64.neg, F64.rounded, F64.signedInf,
      round_zero]
  have s44 : Binary64.sub (F64.fin (9 / 256)) (F64.fin 1) = F64.fin (-247 / 256) := by
    rw [binary64_sub_fin]
    exact round_eval_exact _ _ (-247) (-8) (by norm_num) (by norm_num) (by norm_num) (by norm_num)
      (by norm_num)
  have s45 : Binary64.sub (F64.fin (5 / 128)) (F64.fin 1) = F64.fin (-123 / 128) := by
    rw [binary64_sub_fin]
    exact round_eval_exact _ _ (-123) (-7) (by norm_num) (by norm_num) (by norm_num) (by norm_num)
      (by norm_num)
  have s46 : Binary64.div (F64.fin (-247 / 256)) (F64.fin (-123 / 128)) =
      F64.fin (4521906942928913 / 4503599627370496) := by
    rw [binary64_div_fin _ _ (by norm_num)]
    exact round_eval _ _ 0 4521906942928913 (by norm_num) (by norm_num) (by norm_num) (by norm_num)
      (by norm_num) (by norm_num)
  have s47 : Binary64.sub (F64.fin (11 / 256)) (F64.fin 1) = F64.fin (-245 / 256) := by
    rw [binary64_sub_fin]
    exact round_eval_exact _ _ (-245) (-8) (by norm_num) (by norm_num) (by norm_num) (by norm_num)
      (by norm_num)
  have s48 : Binary64.div (F64.fin (-245 / 256)) (F64.fin (-123 / 128)) =
      F64.fin (8970584623624159 / 9007199254740992) := by
    rw [binary64_div_fin _ _ (by norm_num)]
    exact round_eval _ _ (-1) 8970584623624159 (by norm_num) (by norm_num) (by norm_num)
      (by norm_num) (by norm_num) (by norm_num)
  have s49 : Binary64.mul (F64.fin 0) (F64.fin (8970584623624159 / 9007199254740992)) =
      F64.fin 0 := by
    rw [binary64_mul_fin]
    exact round_eval_exact _ _ 0 0 (by norm_num) (by norm_num) (by norm_num) (by norm_num)
      (by norm_num)
  have s50 : Binary64.mul (F64.fin (-123 / 128)) (F64.fin (8970584623624159 / 9007199254740992)) =
      F64.fin (-245 / 256) := by
    rw [binary64_mul_fin]
    exact round_eval _ _ (-1) (-8620171161763840) (by norm_num) (by norm_num) (by norm_num)
      (by norm_num) (by norm_num) (by norm_num)
  have s51 : Binary64.add (F64.fin 0) (F64.fin 0) = F64.fin 0 := by
    rw [binary64_add_fin]
    exact round_eval_exact _ _ 0 0 (by norm_num) (by norm_num) (by norm_num) (by norm_num)
      (by norm_num)
  have s52 : Binary64.add (F64.fin 1) (F64.fin (-245 / 256)) = F64.fin (11 / 256) := by
    rw [binary64_add_fin]
    exact round_eval_exact _ _ 11 (-8) (by norm_num) (by norm_num) (by norm_num) (by norm_num)
      (by norm_num)
  have s53 : Binary64.mul (F64.fin (-123 / 128)) (F64.fin (5972164723252179 / 9007199254740992)) =
      F64.fin (-5738877038750141 / 9007199254740992) := by
    rw [binary64_mul_fin]
    exact round_eval _ _ (-1) (-5738877038750141) (by norm_num) (by norm_num) (by norm_num)
      (by norm_num) (by norm_num) (by norm_num)
  have s54 : Binary64.add (F64.fin 1) (F64.fin (-5738877038750141 / 9007199254740992)) =
      F64.fin (3268322215990851 / 9007199254740992) := by
    rw [binary64_add_fin]
    exact round_eval_exact _ _ 3268322215990851 (-53) (by norm_num) (by norm_num) (by norm_num)
      (by norm_num) (by norm_num)
  have s55 : Binary64.mul (F64.fin (-123 / 128)) (F64.fin (6167973402703071 / 9007199254740992)) =
      F64.fin (-2963518470829991 / 4503599627370496) := by
    rw [binary64_mul_fin]
    exact round_eval _ _ (-1) (-5927036941659982) (by norm_num) (by norm_num) (by norm_num)
      (by norm_num) (by norm_num) (by norm_num)
  have s56 : Binary64.add (F64.fin 1) (F64.fin (-2963518470829991 / 4503599627370496)) =
      F64.fin (1540081156540505 / 4503599627370496) := by
    rw [binary64_add_fin]
    exact round_eval_exact _ _ 1540081156540505 (-52) (by norm_num) (by norm_num) (by norm_num)
      (by norm_num) (by norm_num)
  have s57 : Binary64.mul (F64.fin (23 / 64)) (F64.fin (8970584623624159 / 9007199254740992)) =
      F64.fin (805950962278733 / 2251799813685248) := by
    rw [binary64_mul_fin]
    exact round_eval _ _ (-2) 6447607698229864 (by norm_num) (by norm_num) (by norm_num)
      (by norm_num) (by norm_num) (by norm_num)
  have s58 : Binary64.add (F64.fin 0) (F64.fin (805950962278733 / 2251799813685248)) =
      F64.fin (805950962278733 / 2251799813685248) := by
    rw [binary64_add_fin]
    exact round_eval_exact _ _ 805950962278733 (-51) (by norm_num) (by norm_num) (by norm_num)
      (by norm_num) (by norm_num)
  have f0 : Binary64.intersectLineQuad (Vec3.mk (F64.fin 0) (F64.fin (5 / 128)) (F64.fin (5 / 128)))
      (Vec3.mk (F64.fin (23 / 64)) (F64.fin (5 / 128)) (F64.fin (5 / 128)))
      (Vec3.mk (F64.fin (61 / 256)) (F64.fin (9 / 256)) (F64.fin (9 / 256)))
      (Vec3.mk (F64.fin (61 / 256)) (F64.fin (11 / 256)) (F64.fin (11 / 256))) = Except.ok false := by
    refine binary64_intersectLineQuad_of_point _ _ _ _ Plane.X
      (F64.fin (5972164723252179 / 9007199254740992))
      (Vec3.mk (F64.fin (8584986789675007 / 36028797018963968)) (F64.fin (5 / 128)) (F64.fin (5 / 128)))
      true ?_ ?_ ?_ ?_ ?_
    · norm_num [selectPlane, F64.eq]
    · simp only [Binary64.planeParam, Vec3.get, s1, s2, s3]
    · norm_num [F64.lt, F64.gt]
    · simp only [Binary64.addVec, Binary64.scaleVec, Binary64.subVec, s2, s4, s5, s6, s7, s8]
    · norm_num [outsideBox, F64.lt, F64.gt]
  have f1 : Binary64.intersectLineQuad (Vec3.mk (F64.fin 0) (F64.fin (5 / 128)) (F64.fin (5 / 128)))
      (Vec3.mk (F64.fin (23 / 64)) (F64.fin (5 / 128)) (F64.fin (5 / 128)))
      (Vec3.mk (F64.fin (63 / 256)) (F64.fin (9 / 256)) (F64.fin (9 / 256)))
      (Vec3.mk (F64.fin (63 / 256)) (F64.fin (11 / 256)) (F64.fin (11 / 256))) = Except.ok false := by
    refine binary64_intersectLineQuad_of_point _ _ _ _ Plane.X
      (F64.fin (6167973402703071 / 9007199254740992))
      (Vec3.mk (F64.fin (8866461766385665 / 36028797018963968)) (F64.fin (5 / 128)) (F64.fin (5 / 128)))
      true ?_ ?_ ?_ ?_ ?_
    · norm_num [selectPlane, F64.eq]
    · simp only [Binary64.planeParam, Vec3.get, s9, s2, s10]
    · norm_num [F64.lt, F64.gt]
    · simp only [Binary64.addVec, Binary64.scaleVec, Binary64.subVec, s2, s4, s11, s12, s13, s8]
    · norm_num [outsideBox, F64.lt, F64.gt]
  have f2 : Binary64.intersectLineQuad (Vec3.mk (F64.fin 0) (F64.fin (5 / 128)) (F64.fin (5 / 128)))
      (Vec3.mk (F64.fin (23 / 64)) (F64.fin (5 / 128)) (F64.fin (5 / 128)))
      (Vec3.mk (F64.fin (61 / 256)) (F64.fin (9 / 256)) (F64.fin (9 / 256)))
      (Vec3.mk (F64.fin (63 / 256)) (F64.fin (9 / 256)) (F64.fin (11 / 256))) = Except.ok false := by
    refine binary64_intersectLineQuad_of_param_outside _ _ _ _ Plane.Y F64.ninf ?_ ?_ ?_
    · norm_num [selectPlane, F64.eq]
    · simp only [Binary64.planeParam, Vec3.get, s14, s4, s15]
    · norm_num [F64.lt, F64.gt]
  have f3 : Binary64.intersectLineQuad (Vec3.mk (F64.fin 0) (F64.fin (5 / 128)) (F64.fin (5 / 128)))
      (Vec3.mk (F64.fin (23 / 64)) (F64.fin (5 / 128)) (F64.fin (5 / 128)))
      (Vec3.mk (F64.fin (61 / 256)) (F64.fin (11 / 256)) (F64.fin (9 / 256)))
      (Vec3.mk (F64.fin (63 / 256)) (F64.fin (11 / 256)) (F64.fin (11 / 256))) = Except.ok false := by
    refine binary64_intersectLineQuad_of_param_outside _ _ _ _ Plane.Y F64.pinf ?_ ?_ ?_
    · norm_num [selectPlane, F64.eq]
    · simp only [Binary64.planeParam, Vec3.get, s16, s4, s17]
    · norm_num [F64.lt, F64.gt]
  have f4 : Binary64.intersectLineQuad (Vec3.mk (F64.fin 0) (F64.fin (5 / 128)) (F64.fin (5 / 128)))
      (Vec3.mk (F64.fin (23 / 64)) (F64.fin (5 / 128)) (F64.fin (5 / 128)))
      (Vec3.mk (F64.fin (61 / 256)) (F64.fin (9 / 256)) (F64.fin (9 / 256)))
      (Vec3.mk (F64.fin (63 / 256)) (F64.fin (11 / 256)) (F64.fin (9 / 256))) = Except.ok false := by
    refine binary64_intersectLineQuad_of_param_outside _ _ _ _ Plane.Z F64.ninf ?_ ?_ ?_
    · norm_num [selectPlane, F64.eq]
    · simp only [Binary64.planeParam, Vec3.get, s14, s4, s15]
    · norm_num [F64.lt, F64.gt]
  have f5 : Binary64.intersectLineQuad (Vec3.mk (F64.fin 0) (F64.fin (5 / 128)) (F64.fin (5 / 128)))
      (Vec3.mk (F64.fin (23 / 64)) (F64.fin (5 / 128)) (F64.fin (5 / 128)))
      (Vec3.mk (F64.fin (61 / 256)) (F64.fin (9 / 256)) (F64.fin (11 / 256)))
      (Vec3.mk (F64.fin (63 / 256)) (F64.fin (11 / 256)) (F64.fin (11 / 256))) = Except.ok false := by
    refine binary64_intersectLineQuad_of_param_outside _ _ _ _ Plane.Z F64.pinf ?_ ?_ ?_
    · norm_num [selectPlane, F64.eq]
    · simp only [Binary64.planeParam, Vec3.get, s16, s4, s17]
    · norm_num [F64.lt, F64.gt]
  have fi1 : insideBox (Vec3.mk (F64.fin 0) (F64.fin (5 / 128)) (F64.fin (5 / 128)))
      (Vec3.mk (F64.fin (61 / 256)) (F64.fin (9 / 256)) (F64.fin (9 / 256)))
      (Vec3.mk (F64.fin (63 / 256)) (F64.fin (11 / 256)) (F64.fin (11 / 256))) = false := by
    norm_num [insideBox, F64.le, F64.ge]
  have fi2 : insideBox (Vec3.mk (F64.fin (23 / 64)) (F64.fin (5 / 128)) (F64.fin (5 / 128)))
      (Vec3.mk (F64.fin (61 / 256)) (F64.fin (9 / 256)) (F64.fin (9 / 256)))
      (Vec3.mk (F64.fin (63 / 256)) (F64.fin (11 / 256)) (F64.fin (11 / 256))) = false := by
    norm_num [insideBox, F64.le, F64.ge]
  have hfwd : Binary64.intersectLineCube
      (Vec3.mk (F64.fin 0) (F64.fin (5 / 128)) (F64.fin (5 / 128)))
      (Vec3.mk (F64.fin (23 / 64)) (F64.fin (5 / 128)) (F64.fin (5 / 128)))
      (Vec3.mk (F64.fin (61 / 256)) (F64.fin (9 / 256)) (F64.fin (9 / 256)))
      (Vec3.mk (F64.fin (63 / 256)) (F64.fin (11 / 256)) (F64.fin (11 / 256))) = Except.ok false :=
    binary64_intersectLineCube_of_faces _ _ _ _ _ _ _ _ _ _ _ _ _ _ fi1 fi2 f0 f1 f2 f3 f4 f5
  have k0 : Binary64.intersectLineQuad
      (Vec3.mk (F64.fin (23 / 64)) (F64.fin (5 / 128)) (F64.fin (5 / 128)))
      (Vec3.mk (F64.fin 0) (F64.fin (5 / 128)) (F64.fin (5 / 128)))
      (Vec3.mk (F64.fin (61 / 256)) (F64.fin (9 / 256)) (F64.fin (9 / 256)))
      (Vec3.mk (F64.fin (61 / 256)) (F64.fin (11 / 256)) (F64.fin (11 / 256))) = Except.ok true := by
    refine binary64_intersectLineQuad_of_point _ _ _ _ Plane.X
      (F64.fin (6070069062977625 / 18014398509481984))
      (Vec3.mk (F64.fin (61 / 256)) (F64.fin (5 / 128)) (F64.fin (5 / 128))) false ?_ ?_ ?_ ?_ ?_
    · norm_num [selectPlane, F64.eq]
    · simp only [Binary64.planeParam, Vec3.get, s18, s19, s20]
    · norm_num [F64.lt, F64.gt]
    · simp only [Binary64.addVec, Binary64.scaleVec, Binary64.subVec, s19, s4, s21, s22, s23, s8]
    · norm_num [outsideBox, F64.lt, F64.gt]
  have k1 : Binary64.intersectLineQuad
      (Vec3.mk (F64.fin (23 / 64)) (F64.fin (5 / 128)) (F64.fin (5 / 128)))
      (Vec3.mk (F64.fin 0) (F64.fin (5 / 128)) (F64.fin (5 / 128)))
      (Vec3.mk (F64.fin (63 / 256)) (F64.fin (9 / 256)) (F64.fin (9 / 256)))
      (Vec3.mk (F64.fin (63 / 256)) (F64.fin (11 / 256)) (F64.fin (11 / 256))) = Except.ok true := by
    refine binary64_intersectLineQuad_of_point _ _ _ _ Plane.X
      (F64.fin (5678451704075843 / 18014398509481984))
      (Vec3.mk (F64.fin (63 / 256)) (F64.fin (5 / 128)) (F64.fin (5 / 128))) false ?_ ?_ ?_ ?_ ?_
    · norm_num [selectPlane, F64.eq]
    · simp only [Binary64.planeParam, Vec3.get, s24, s19, s25]
    · norm_num [F64.lt, F64.gt]
    · simp only [Binary64.addVec, Binary64.scaleVec, Binary64.subVec, s19, s4, s26, s27, s28, s8]
    · norm_num [outsideBox, F64.lt, F64.gt]
  have k2 : Binary64.intersectLineQuad
      (Vec3.mk (F64.fin (23 / 64)) (F64.fin (5 / 128)) (F64.fin (5 / 128)))
      (Vec3.mk (F64.fin 0) (F64.fin (5 / 128)) (F64.fin (5 / 128)))
      (Vec3.mk (F64.fin (61 / 256)) (F64.fin (9 / 256)) (F64.fin (9 / 256)))
      (Vec3.mk (F64.fin (63 / 256)) (F64.fin (9 / 256)) (F64.fin (11 / 256))) = Except.ok false := by
    refine binary64_intersectLineQuad_of_param_outside _ _ _ _ Plane.Y F64.ninf ?_ ?_ ?_
    · norm_num [selectPlane, F64.eq]
    · simp only [Binary64.planeParam, Vec3.get, s14, s4, s15]
    · norm_num [F64.lt, F64.gt]
  have k3 : Binary64.intersectLineQuad
      (Vec3.mk (F64.fin (23 / 64)) (F64.fin (5 / 128)) (F64.fin (5 / 128)))
      (Vec3.mk (F64.fin 0) (F64.fin (5 / 128)) (F64.fin (5 / 128)))
      (Vec3.mk (F64.fin (61 / 256)) (F64.fin (11 / 256)) (F64.fin (9 / 256)))
      (Vec3.mk (F64.fin (63 / 256)) (F64.fin (11 / 256)) (F64.fin (11 / 256))) = Except.ok false := by
    refine binary64_intersectLineQuad_of_param_outside _ _ _ _ Plane.Y F64.pinf ?_ ?_ ?_
    · norm_num [selectPlane, F64.eq]
    · simp only [Binary64.planeParam, Vec3.get, s16, s4, s17]
    · norm_num [F64.lt, F64.gt]
  have k4 : Binary64.intersectLineQuad
      (Vec3.mk (F64.fin (23 / 64)) (F64.fin (5 / 128)) (F64.fin (5 / 128)))
      (Vec3.mk (F64.fin 0) (F64.fin (5 / 128)) (F64.fin (5 / 128)))
      (Vec3.mk (F64.fin (61 / 256)) (F64.fin (9 / 256)) (F64.fin (9 / 256)))
      (Vec3.mk (F64.fin (63 / 256)) (F64.fin (11 / 256)) (F64.fin (9 / 256))) = Except.ok false := by
    refine binary64_intersectLineQuad_of_param_outside _ _ _ _ Plane.Z F64.ninf ?_ ?_ ?_
    · norm_num [selectPlane, F64.eq]
    · simp only [Binary64.planeParam, Vec3.get, s14, s4, s15]
    · norm_num [F64.lt, F64.gt]
  have k5 : Binary64.intersectLineQuad
      (Vec3.mk (F64.fin (23 / 64)) (F64.fin (5 / 128)) (F64.fin (5 / 128)))
      (Vec3.mk (F64.fin 0) (F64.fin (5 / 128)) (F64.fin (5 / 128)))
      (Vec3.mk (F64.fin (61 / 256)) (F64.fin (9 / 256)) (F64.fin (11 / 256)))
      (Vec3.mk (F64.fin (63 / 256)) (F64.fin (11 / 256)) (F64.fin (11 / 256))) = Except.ok false := by
    refine binary64_intersectLineQuad_of_param_outside _ _ _ _ Plane.Z F64.pinf ?_ ?_ ?_
    · norm_num [selectPlane, F64.eq]
    · simp only [Binary64.planeParam, Vec3.get, s16, s4, s17]
    · norm_num [F64.lt, F64.gt]
  have ki1 : insideBox (Vec3.mk (F64.fin (23 / 64)) (F64.fin (5 / 128)) (F64.fin (5 / 128)))
      (Vec3.mk (F64.fin (61 / 256)) (F64.fin (9 / 256)) (F64.fin (9 / 256)))
      (Vec3.mk (F64.fin (63 / 256)) (F64.fin (11 / 256)) (F64.fin (11 / 256))) = false := by
    norm_num [insideBox, F64.le, F64.ge]
  have ki2 : insideBox (Vec3.mk (F64.fin 0) (F64.fin (5 / 128)) (F64.fin (5 / 128)))
      (Vec3.mk (F64.fin (61 / 256)) (F64.fin (9 / 256)) (F64.fin (9 / 256)))
      (Vec3.mk (F64.fin (63 / 256)) (F64.fin (11 / 256)) (F64.fin (11 / 256))) = false := by
    norm_num [insideBox, F64.le, F64.ge]
  have hswp : Binary64.intersectLineCube
      (Vec3.mk (F64.fin (23 / 64)) (F64.fin (5 / 128)) (F64.fin (5 / 128)))
      (Vec3.mk (F64.fin 0) (F64.fin (5 / 128)) (F64.fin (5 / 128)))
      (Vec3.mk (F64.fin (61 / 256)) (F64.fin (9 / 256)) (F64.fin (9 / 256)))
      (Vec3.mk (F64.fin (63 / 256)) (F64.fin (11 / 256)) (F64.fin (11 / 256))) = Except.ok true :=
    binary64_intersectLineCube_of_faces _ _ _ _ _ _ _ _ _ _ _ _ _ _ ki1 ki2 k0 k1 k2 k3 k4 k5
  have m1_0 : Binary64.intersectLineQuad
      (Vec3.mk (F64.fin (23 / 64)) (F64.fin (5 / 128)) (F64.fin (5 / 128)))
      (Vec3.mk (F64.fin 0) (F64.fin (5 / 128)) (F64.fin 1))
      (Vec3.mk (F64.fin (61 / 256)) (F64.fin (9 / 256)) (F64.fin (9 / 256)))
      (Vec3.mk (F64.fin (61 / 256)) (F64.fin (11 / 256)) (F64.fin (11 / 256))) = Except.ok false := by
    refine binary64_intersectLineQuad_of_point _ _ _ _ Plane.X
      (F64.fin (6070069062977625 / 18014398509481984))
      (Vec3.mk (F64.fin (61 / 256)) (F64.fin (5 / 128)) (F64.fin (3268322215990851 / 9007199254740992)))
      true ?_ ?_ ?_ ?_ ?_
    · norm_num [selectPlane, F64.eq]
    · simp only [Binary64.planeParam, Vec3.get, s18, s19, s20]
    · norm_num [F64.lt, F64.gt]
    · simp only [Binary64.addVec, Binary64.scaleVec, Binary64.subVec, s19, s4, s29, s21, s22, s30,
        s23, s8, s31]
    · norm_num [outsideBox, F64.lt, F64.gt]
  have m1_1 : Binary64.intersectLineQuad
      (Vec3.mk (F64.fin (23 / 64)) (F64.fin (5 / 128)) (F64.fin (5 / 128)))
      (Vec3.mk (F64.fin 0) (F64.fin (5 / 128)) (F64.fin 1))
      (Vec3.mk (F64.fin (63 / 256)) (F64.fin (9 / 256)) (F64.fin (9 / 256)))
      (Vec3.mk (F64.fin (63 / 256)) (F64.fin (11 / 256)) (F64.fin (11 / 256))) = Except.ok false := by
    refine binary64_intersectLineQuad_of_point _ _ _ _ Plane.X
      (F64.fin (5678451704075843 / 18014398509481984))
      (Vec3.mk (F64.fin (63 / 256)) (F64.fin (5 / 128)) (F64.fin (1540081156540505 / 4503599627370496)))
      true ?_ ?_ ?_ ?_ ?_
    · norm_num [selectPlane, F64.eq]
    · simp only [Binary64.planeParam, Vec3.get, s24, s19, s25]
    · norm_num [F64.lt, F64.gt]
    · simp only [Binary64.addVec, Binary64.scaleVec, Binary64.subVec, s19, s4, s29, s26, s27, s32,
        s28, s8, s33]
    · norm_num [outsideBox, F64.lt, F64.gt]
  have m1_2 : Binary64.intersectLineQuad
      (Vec3.mk (F64.fin (23 / 64)) (F64.fin (5 / 128)) (F64.fin (5 / 128)))
      (Vec3.mk (F64.fin 0) (F64.fin (5 / 128)) (F64.fin 1))
      (Vec3.mk (F64.fin (61 / 256)) (F64.fin (9 / 256)) (F64.fin (9 / 256)))
      (Vec3.mk (F64.fin (63 / 256)) (F64.fin (9 / 256)) (F64.fin (11 / 256))) = Except.ok false := by
    refine binary64_intersectLineQuad_of_param_outside _ _ _ _ Plane.Y F64.ninf ?_ ?_ ?_
    · norm_num [selectPlane, F64.eq]
    · simp only [Binary64.planeParam, Vec3.get, s14, s4, s15]
    · norm_num [F64.lt, F64.gt]
  have m1_3 : Binary64.intersectLineQuad
      (Vec3.mk (F64.fin (23 / 64)) (F64.fin (5 / 128)) (F64.fin (5 / 128)))
      (Vec3.mk (F64.fin 0) (F64.fin (5 / 128)) (F64.fin 1))
      (Vec3.mk (F64.fin (61 / 256)) (F64.fin (11 / 256)) (F64.fin (9 / 256)))
      (Vec3.mk (F64.fin (63 / 256)) (F64.fin (11 / 256)) (F64.fin (11 / 256))) = Except.ok false := by
    refine binary64_intersectLineQuad_of_param_outside _ _ _ _ Plane.Y F64.pinf ?_ ?_ ?_
    · norm_num [selectPlane, F64.eq]
    · simp only [Binary64.planeParam, Vec3.get, s16, s4, s17]
    · norm_num [F64.lt, F64.gt]
  have m1_4 : Binary64.intersectLineQuad
      (Vec3.mk (F64.fin (23 / 64)) (F64.fin (5 / 128)) (F64.fin (5 / 128)))
      (Vec3.mk (F64.fin 0) (F64.fin (5 / 128)) (F64.fin 1))
      (Vec3.mk (F64.fin (61 / 256)) (F64.fin (9 / 256)) (F64.fin (9 / 256)))
      (Vec3.mk (F64.fin (63 / 256)) (F64.fin (11 / 256)) (F64.fin (9 / 256))) = Except.ok false := by
    refine binary64_intersectLineQuad_of_param_outside _ _ _ _ Plane.Z
      (F64.fin (-4686672782954663 / 1152921504606846976)) ?_ ?_ ?_
    · norm_num [selectPlane, F64.eq]
    · simp only [Binary64.planeParam, Vec3.get, s14, s29, s34]
    · norm_num [F64.lt, F64.gt]
  have m1_5 : Binary64.intersectLineQuad
      (Vec3.mk (F64.fin (23 / 64)) (F64.fin (5 / 128)) (F64.fin (5 / 128)))
      (Vec3.mk (F64.fin 0) (F64.fin (5 / 128)) (F64.fin 1))
      (Vec3.mk (F64.fin (61 / 256)) (F64.fin (9 / 256)) (F64.fin (11 / 256)))
      (Vec3.mk (F64.fin (63 / 256)) (F64.fin (11 / 256)) (F64.fin (11 / 256))) = Except.ok false := by
    refine binary64_intersectLineQuad_of_point _ _ _ _ Plane.Z
      (F64.fin (4686672782954663 / 1152921504606846976))
      (Vec3.mk (F64.fin (805950962278733 / 2251799813685248)) (F64.fin (5 / 128)) (F64.fin (11 / 256)))
      true ?_ ?_ ?_ ?_ ?_
    · norm_num [selectPlane, F64.eq]
    · simp only [Binary64.planeParam, Vec3.get, s16, s29, s35]
    · norm_num [F64.lt, F64.gt]
    · simp only [Binary64.addVec, Binary64.scaleVec, Binary64.subVec, s19, s4, s29, s36, s37, s38,
        s39, s8, s40]
    · norm_num [outsideBox, F64.lt, F64.gt]
  have m1_i1 : insideBox (Vec3.mk (F64.fin (23 / 64)) (F64.fin (5 / 128)) (F64.fin (5 / 128)))
      (Vec3.mk (F64.fin (61 / 256)) (F64.fin (9 / 256)) (F64.fin (9 / 256)))
      (Vec3.mk (F64.fin (63 / 256)) (F64.fin (11 / 256)) (F64.fin (11 / 256))) = false := by
    norm_num [insideBox, F64.le, F64.ge]
  have m1_i2 : insideBox (Vec3.mk (F64.fin 0) (F64.fin (5 / 128)) (F64.fin 1))
      (Vec3.mk (F64.fin (61 / 256)) (F64.fin (9 / 256)) (F64.fin (9 / 256)))
      (Vec3.mk (F64.fin (63 / 256)) (F64.fin (11 / 256)) (F64.fin (11 / 256))) = false := by
    norm_num [insideBox, F64.le, F64.ge]
  have htri1 : Binary64.intersectLineCube
      (Vec3.mk (F64.fin (23 / 64)) (F64.fin (5 / 128)) (F64.fin (5 / 128)))
      (Vec3.mk (F64.fin 0) (F64.fin (5 / 128)) (F64.fin 1))
      (Vec3.mk (F64.fin (61 / 256)) (F64.fin (9 / 256)) (F64.fin (9 / 256)))
      (Vec3.mk (F64.fin (63 / 256)) (F64.fin (11 / 256)) (F64.fin (11 / 256))) = Except.ok false :=
    binary64_intersectLineCube_of_faces _ _ _ _ _ _ _ _ _ _ _ _ _ _ m1_i1 m1_i2 m1_0 m1_1 m1_2 m1_3
      m1_4 m1_5
  have m2_0 : Binary64.intersectLineQuad (Vec3.mk (F64.fin 0) (F64.fin (5 / 128)) (F64.fin 1))
      (Vec3.mk (F64.fin 0) (F64.fin (5 / 128)) (F64.fin (5 / 128)))
      (Vec3.mk (F64.fin (61 / 256)) (F64.fin (9 / 256)) (F64.fin (9 / 256)))
      (Vec3.mk (F64.fin (61 / 256)) (F64.fin (11 / 256)) (F64.fin (11 / 256))) = Except.ok false := by
    refine binary64_intersectLineQuad_of_param_outside _ _ _ _ Plane.X F64.pinf ?_ ?_ ?_
    · norm_num [selectPlane, F64.eq]
    · simp only [Binary64.planeParam, Vec3.get, s1, s41, s42]
    · norm_num [F64.lt, F64.gt]
  have m2_1 : Binary64.intersectLineQuad (Vec3.mk (F64.fin 0) (F64.fin (5 / 128)) (F64.fin 1))
      (Vec3.mk (F64.fin 0) (F64.fin (5 / 128)) (F64.fin (5 / 128)))
      (Vec3.mk (F64.fin (63 / 256)) (F64.fin (9 / 256)) (F64.fin (9 / 256)))
      (Vec3.mk (F64.fin (63 / 256)) (F64.fin (11 / 256)) (F64.fin (11 / 256))) = Except.ok false := by
    refine binary64_intersectLineQuad_of_param_outside _ _ _ _ Plane.X F64.pinf ?_ ?_ ?_
    · norm_num [selectPlane, F64.eq]
    · simp only [Binary64.planeParam, Vec3.get, s9, s41, s43]
    · norm_num [F64.lt, F64.gt]
  have m2_2 : Binary64.intersectLineQuad (Vec3.mk (F64.fin 0) (F64.fin (5 / 128)) (F64.fin 1))
      (Vec3.mk (F64.fin 0) (F64.fin (5 / 128)) (F64.fin (5 / 128)))
      (Vec3.mk (F64.fin (61 / 256)) (F64.fin (9 / 256)) (F64.fin (9 / 256)))
      (Vec3.mk (F64.fin (63 / 256)) (F64.fin (9 / 256)) (F64.fin (11 / 256))) = Except.ok false := by
    refine binary64_intersectLineQuad_of_param_outside _ _ _ _ Plane.Y F64.ninf ?_ ?_ ?_
    · norm_num [selectPlane, F64.eq]
    · simp only [Binary64.planeParam, Vec3.get, s14, s4, s15]
    · norm_num [F64.lt, F64.gt]
  have m2_3 : Binary64.intersectLineQuad (Vec3.mk (F64.fin 0) (F64.fin (5 / 128)) (F64.fin 1))
      (Vec3.mk (F64.fin 0) (F64.fin (5 / 128)) (F64.fin (5 / 128)))
      (Vec3.mk (F64.fin (61 / 256)) (F64.fin (11 / 256)) (F64.fin (9 / 256)))
      (Vec3.mk (F64.fin (63 / 256)) (F64.fin (11 / 256)) (F64.fin (11 / 256))) = Except.ok false := by
    refine binary64_intersectLineQuad_of_param_outside _ _ _ _ Plane.Y F64.pinf ?_ ?_ ?_
    · norm_num [selectPlane, F64.eq]
    · simp only [Binary64.planeParam, Vec3.get, s16, s4, s17]
    · norm_num [F64.lt, F64.gt]
  have m2_4 : Binary64.intersectLineQuad (Vec3.mk (F64.fin 0) (F64.fin (5 / 128)) (F64.fin 1))
      (Vec3.mk (F64.fin 0) (F64.fin (5 / 128)) (F64.fin (5 / 128)))
      (Vec3.mk (F64.fin (61 / 256)) (F64.fin (9 / 256)) (F64.fin (9 / 256)))
      (Vec3.mk (F64.fin (63 / 256)) (F64.fin (11 / 256)) (F64.fin (9 / 256))) = Except.ok false := by
    refine binary64_intersectLineQuad_of_param_outside _ _ _ _ Plane.Z
      (F64.fin (4521906942928913 / 4503599627370496)) ?_ ?_ ?_
    · norm_num [selectPlane, F64.eq]
    · simp only [Binary64.planeParam, Vec3.get, s44, s45, s46]
    · norm_num [F64.lt, F64.gt]
  have m2_5 : Binary64.intersectLineQuad (Vec3.mk (F64.fin 0) (F64.fin (5 / 128)) (F64.fin 1))
      (Vec3.mk (F64.fin 0) (F64.fin (5 / 128)) (F64.fin (5 / 128)))
      (Vec3.mk (F64.fin (61 / 256)) (F64.fin (9 / 256)) (F64.fin (11 / 256)))
      (Vec3.mk (F64.fin (63 / 256)) (F64.fin (11 / 256)) (F64.fin (11 / 256))) = Except.ok false := by
    refine binary64_intersectLineQuad_of_point _ _ _ _ Plane.Z
      (F64.fin (8970584623624159 / 9007199254740992))
      (Vec3.mk (F64.fin 0) (F64.fin (5 / 128)) (F64.fin (11 / 256))) true ?_ ?_ ?_ ?_ ?_
    · norm_num [selectPlane, F64.eq]
    · simp only [Binary64.planeParam, Vec3.get, s47, s45, s48]
    · norm_num [F64.lt, F64.gt]
    · simp only [Binary64.addVec, Binary64.scaleVec, Binary64.subVec, s41, s4, s45, s49, s50, s51,
        s8, s52]
    · norm_num [outsideBox, F64.lt, F64.gt]
  have m2_i1 : insideBox (Vec3.mk (F64.fin 0) (F64.fin (5 / 128)) (F64.fin 1))
      (Vec3.mk (F64.fin (61 / 256)) (F64.fin (9 / 256)) (F64.fin (9 / 256)))
      (Vec3.mk (F64.fin (63 / 256)) (F64.fin (11 / 256)) (F64.fin (11 / 256))) = false := by
    norm_num [insideBox, F64.le, F64.ge]
  have m2_i2 : insideBox (Vec3.mk (F64.fin 0) (F64.fin (5 / 128)) (F64.fin (5 / 128)))
      (Vec3.mk (F64.fin (61 / 256)) (F64.fin (9 / 256)) (F64.fin (9 / 256)))
      (Vec3.mk (F64.fin (63 / 256)) (F64.fin (11 / 256)) (F64.fin (11 / 256))) = false := by
    norm_num [insideBox, F64.le, F64.ge]
  have htri2 : Binary64.intersectLineCube (Vec3.mk (F64.fin 0) (F64.fin (5 / 128)) (F64.fin 1))
      (Vec3.mk (F64.fin 0) (F64.fin (5 / 128)) (F64.fin (5 / 128)))
      (Vec3.mk (F64.fin (61 / 256)) (F64.fin (9 / 256)) (F64.fin (9 / 256)))
      (Vec3.mk (F64.fin (63 / 256)) (F64.fin (11 / 256)) (F64.fin (11 / 256))) = Except.ok false :=
    binary64_intersectLineCube_of_faces _ _ _ _ _ _ _ _ _ _ _ _ _ _ m2_i1 m2_i2 m2_0 m2_1 m2_2 m2_3
      m2_4 m2_5
  have htri : Binary64.intersectTriangleCube
      (Vec3.mk (F64.fin 0) (F64.fin (5 / 128)) (F64.fin (5 / 128)))
      (Vec3.mk (F64.fin (23 / 64)) (F64.fin (5 / 128)) (F64.fin (5 / 128)))
      (Vec3.mk (F64.fin 0) (F64.fin (5 / 128)) (F64.fin 1))
      (Vec3.mk (F64.fin (61 / 256)) (F64.fin (9 / 256)) (F64.fin (9 / 256)))
      (Vec3.mk (F64.fin (63 / 256)) (F64.fin (11 / 256)) (F64.fin (11 / 256))) = Except.ok false :=
    binary64_intersectTriangleCube_of_edges _ _ _ _ _ _ _ _ hfwd htri1 htri2
  have n1_0 : Binary64.intersectLineQuad
      (Vec3.mk (F64.fin 0) (F64.fin (5 / 128)) (F64.fin (5 / 128)))
      (Vec3.mk (F64.fin 0) (F64.fin (5 / 128)) (F64.fin 1))
      (Vec3.mk (F64.fin (61 / 256)) (F64.fin (9 / 256)) (F64.fin (9 / 256)))
      (Vec3.mk (F64.fin (61 / 256)) (F64.fin (11 / 256)) (F64.fin (11 / 256))) = Except.ok false := by
    refine binary64_intersectLineQuad_of_param_outside _ _ _ _ Plane.X F64.pinf ?_ ?_ ?_
    · norm_num [selectPlane, F64.eq]
    · simp only [Binary64.planeParam, Vec3.get, s1, s41, s42]
    · norm_num [F64.lt, F64.gt]
  have n1_1 : Binary64.intersectLineQuad
      (Vec3.mk (F64.fin 0) (F64.fin (5 / 128)) (F64.fin (5 / 128)))
      (Vec3.mk (F64.fin 0) (F64.fin (5 / 128)) (F64.fin 1))
      (Vec3.mk (F64.fin (63 / 256)) (F64.fin (9 / 256)) (F64.fin (9 / 256)))
      (Vec3.mk (F64.fin (63 / 256)) (F64.fin (11 / 256)) (F64.fin (11 / 256))) = Except.ok false := by
    refine binary64_intersectLineQuad_of_param_outside _ _ _ _ Plane.X F64.pinf ?_ ?_ ?_
    · norm_num [selectPlane, F64.eq]
    · simp only [Binary64.planeParam, Vec3.get, s9, s41, s43]
    · norm_num [F64.lt, F64.gt]
  have n1_2 : Binary64.intersectLineQuad
      (Vec3.mk (F64.fin 0) (F64.fin (5 / 128)) (F64.fin (5 / 128)))
      (Vec3.mk (F64.fin 0) (F64.fin (5 / 128)) (F64.fin 1))
      (Vec3.mk (F64.fin (61 / 256)) (F64.fin (9 / 256)) (F64.fin (9 / 256)))
      (Vec3.mk (F64.fin (63 / 256)) (F64.fin (9 / 256)) (F64.fin (11 / 256))) = Except.ok false := by
    refine binary64_intersectLineQuad_of_param_outside _ _ _ _ Plane.Y F64.ninf ?_ ?_ ?_
    · norm_num [selectPlane, F64.eq]
    · simp only [Binary64.planeParam, Vec3.get, s14, s4, s15]
    · norm_num [F64.lt, F64.gt]
  have n1_3 : Binary64.intersectLineQuad
      (Vec3.mk (F64.fin 0) (F64.fin (5 / 128)) (F64.fin (5 / 128)))
      (Vec3.mk (F64.fin 0) (F64.fin (5 / 128)) (F64.fin 1))
      (Vec3.mk (F64.fin (61 / 256)) (F64.fin (11 / 256)) (F64.fin (9 / 256)))
      (Vec3.mk (F64.fin (63 / 256)) (F64.fin (11 / 256)) (F64.fin (11 / 256))) = Except.ok false := by
    refine binary64_intersectLineQuad_of_param_outside _ _ _ _ Plane.Y F64.pinf ?_ ?_ ?_
    · norm_num [selectPlane, F64.eq]
    · simp only [Binary64.planeParam, Vec3.get, s16, s4, s17]
    · norm_num [F64.lt, F64.gt]
  have n1_4 : Binary64.intersectLineQuad
      (Vec3.mk (F64.fin 0) (F64.fin (5 / 128)) (F64.fin (5 / 128)))
      (Vec3.mk (F64.fin 0) (F64.fin (5 / 128)) (F64.fin 1))
      (Vec3.mk (F64.fin (61 / 256)) (F64.fin (9 / 256)) (F64.fin (9 / 256)))
      (Vec3.mk (F64.fin (63 / 256)) (F64.fin (11 / 256)) (F64.fin (9 / 256))) = Except.ok false := by
    refine binary64_intersectLineQuad_of_param_outside _ _ _ _ Plane.Z
      (F64.fin (-4686672782954663 / 1152921504606846976)) ?_ ?_ ?_
    · norm_num [selectPlane, F64.eq]
    · simp only [Binary64.planeParam, Vec3.get, s14, s29, s34]
    · norm_num [F64.lt, F64.gt]
  have n1_5 : Binary64.intersectLineQuad
      (Vec3.mk (F64.fin 0) (F64.fin (5 / 128)) (F64.fin (5 / 128)))
      (Vec3.mk (F64.fin 0) (F64.fin (5 / 128)) (F64.fin 1))
      (Vec3.mk (F64.fin (61 / 256)) (F64.fin (9 / 256)) (F64.fin (11 / 256)))
      (Vec3.mk (F64.fin (63 / 256)) (F64.fin (11 / 256)) (F64.fin (11 / 256))) = Except.ok false := by
    refine binary64_intersectLineQuad_of_point _ _ _ _ Plane.Z
      (F64.fin (4686672782954663 / 1152921504606846976))
      (Vec3.mk (F64.fin 0) (F64.fin (5 / 128)) (F64.fin (11 / 256))) true ?_ ?_ ?_ ?_ ?_
    · norm_num [selectPlane, F64.eq]
    · simp only [Binary64.planeParam, Vec3.get, s16, s29, s35]
    · norm_num [F64.lt, F64.gt]
    · simp only [Binary64.addVec, Binary64.scaleVec, Binary64.subVec, s41, s4, s29, s37, s38, s51,
        s8, s40]
    · norm_num [outsideBox, F64.lt, F64.gt]
  have n1_i1 : insideBox (Vec3.mk (F64.fin 0) (F64.fin (5 / 128)) (F64.fin (5 / 128)))
      (Vec3.mk (F64.fin (61 / 256)) (F64.fin (9 / 256)) (F64.fin (9 / 256)))
      (Vec3.mk (F64.fin (63 / 256)) (F64.fin (11 / 256)) (F64.fin (11 / 256))) = false := by
    norm_num [insideBox, F64.le, F64.ge]
  have n1_i2 : insideBox (Vec3.mk (F64.fin 0) (F64.fin (5 / 128)) (F64.fin 1))
      (Vec3.mk (F64.fin (61 / 256)) (F64.fin (9 / 256)) (F64.fin (9 / 256)))
      (Vec3.mk (F64.fin (63 / 256)) (F64.fin (11 / 256)) (F64.fin (11 / 256))) = false := by
    norm_num [insideBox, F64.le, F64.ge]
  have hrev1 : Binary64.intersectLineCube
      (Vec3.mk (F64.fin 0) (F64.fin (5 / 128)) (F64.fin (5 / 128)))
      (Vec3.mk (F64.fin 0) (F64.fin (5 / 128)) (F64.fin 1))
      (Vec3.mk (F64.fin (61 / 256)) (F64.fin (9 / 256)) (F64.fin (9 / 256)))
      (Vec3.mk (F64.fin (63 / 256)) (F64.fin (11 / 256)) (F64.fin (11 / 256))) = Except.ok false :=
    binary64_intersectLineCube_of_faces _ _ _ _ _ _ _ _ _ _ _ _ _ _ n1_i1 n1_i2 n1_0 n1_1 n1_2 n1_3
      n1_4 n1_5
  have n2_0 : Binary64.intersectLineQuad (Vec3.mk (F64.fin 0) (F64.fin (5 / 128)) (F64.fin 1))
      (Vec3.mk (F64.fin (23 / 64)) (F64.fin (5 / 128)) (F64.fin (5 / 128)))
      (Vec3.mk (F64.fin (61 / 256)) (F64.fin (9 / 256)) (F64.fin (9 / 256)))
      (Vec3.mk (F64.fin (61 / 256)) (F64.fin (11 / 256)) (F64.fin (11 / 256))) = Except.ok false := by
    refine binary64_intersectLineQuad_of_point _ _ _ _ Plane.X
      (F64.fin (5972164723252179 / 9007199254740992))
      (Vec3.mk (F64.fin (8584986789675007 / 36028797018963968)) (F64.fin (5 / 128)) (F64.fin (3268322215990851 / 9007199254740992)))
      true ?_ ?_ ?_ ?_ ?_
    · norm_num [selectPlane, F64.eq]
    · simp only [Binary64.planeParam, Vec3.get, s1, s2, s3]
    · norm_num [F64.lt, F64.gt]
    · simp only [Binary64.addVec, Binary64.scaleVec, Binary64.subVec, s2, s4, s45, s5, s6, s53, s7,
        s8, s54]
    · norm_num [outsideBox, F64.lt, F64.gt]
  have n2_1 : Binary64.intersectLineQuad (Vec3.mk (F64.fin 0) (F64.fin (5 / 128)) (F64.fin 1))
      (Vec3.mk (F64.fin (23 / 64)) (F64.fin (5 / 128)) (F64.fin (5 / 128)))
      (Vec3.mk (F64.fin (63 / 256)) (F64.fin (9 / 256)) (F64.fin (9 / 256)))
      (Vec3.mk (F64.fin (63 / 256)) (F64.fin (11 / 256)) (F64.fin (11 / 256))) = Except.ok false := by
    refine binary64_intersectLineQuad_of_point _ _ _ _ Plane.X
      (F64.fin (6167973402703071 / 9007199254740992))
      (Vec3.mk (F64.fin (8866461766385665 / 36028797018963968)) (F64.fin (5 / 128)) (F64.fin (1540081156540505 / 4503599627370496)))
      true ?_ ?_ ?_ ?_ ?_
    · norm_num [selectPlane, F64.eq]
    · simp only [Binary64.planeParam, Vec3.get, s9, s2, s10]
    · norm_num [F64.lt, F64.gt]
    · simp only [Binary64.addVec, Binary64.scaleVec, Binary64.subVec, s2, s4, s45, s11, s12, s55,
        s13, s8, s56]
    · norm_num [outsideBox, F64.lt, F64.gt]
  have n2_2 : Binary64.intersectLineQuad (Vec3.mk (F64.fin 0) (F64.fin (5 / 128)) (F64.fin 1))
      (Vec3.mk (F64.fin (23 / 64)) (F64.fin (5 / 128)) (F64.fin (5 / 128)))
      (Vec3.mk (F64.fin (61 / 256)) (F64.fin (9 / 256)) (F64.fin (9 / 256)))
      (Vec3.mk (F64.fin (63 / 256)) (F64.fin (9 / 256)) (F64.fin (11 / 256))) = Except.ok false := by
    refine binary64_intersectLineQuad_of_param_outside _ _ _ _ Plane.Y F64.ninf ?_ ?_ ?_
    · norm_num [selectPlane, F64.eq]
    · simp only [Binary64.planeParam, Vec3.get, s14, s4, s15]
    · norm_num [F64.lt, F64.gt]
  have n2_3 : Binary64.intersectLineQuad (Vec3.mk (F64.fin 0) (F64.fin (5 / 128)) (F64.fin 1))
      (Vec3.mk (F64.fin (23 / 64)) (F64.fin (5 / 128)) (F64.fin (5 / 128)))
      (Vec3.mk (F64.fin (61 / 256)) (F64.fin (11 / 256)) (F64.fin (9 / 256)))
      (Vec3.mk (F64.fin (63 / 256)) (F64.fin (11 / 256)) (F64.fin (11 / 256))) = Except.ok false := by
    refine binary64_intersectLineQuad_of_param_outside _ _ _ _ Plane.Y F64.pinf ?_ ?_ ?_
    · norm_num [selectPlane, F64.eq]
    · simp only [Binary64.planeParam, Vec3.get, s16, s4, s17]
    · norm_num [F64.lt, F64.gt]
  have n2_4 : Binary64.intersectLineQuad (Vec3.mk (F64.fin 0) (F64.fin (5 / 128)) (F64.fin 1))
      (Vec3.mk (F64.fin (23 / 64)) (F64.fin (5 / 128)) (F64.fin (5 / 128)))
      (Vec3.mk (F64.fin (61 / 256)) (F64.fin (9 / 256)) (F64.fin (9 / 256)))
      (Vec3.mk (F64.fin (63 / 256)) (F64.fin (11 / 256)) (F64.fin (9 / 256))) = Except.ok false := by
    refine binary64_intersectLineQuad_of_param_outside _ _ _ _ Plane.Z
      (F64.fin (4521906942928913 / 4503599627370496)) ?_ ?_ ?_
    · norm_num [selectPlane, F64.eq]
    · simp only [Binary64.planeParam, Vec3.get, s44, s45, s46]
    · norm_num [F64.lt, F64.gt]
  have n2_5 : Binary64.intersectLineQuad (Vec3.mk (F64.fin 0) (F64.fin (5 / 128)) (F64.fin 1))
      (Vec3.mk (F64.fin (23 / 64)) (F64.fin (5 / 128)) (F64.fin (5 / 128)))
      (Vec3.mk (F64.fin (61 / 256)) (F64.fin (9 / 256)) (F64.fin (11 / 256)))
      (Vec3.mk (F64.fin (63 / 256)) (F64.fin (11 / 256)) (F64.fin (11 / 256))) = Except.ok false := by
    refine binary64_intersectLineQuad_of_point _ _ _ _ Plane.Z
      (F64.fin (8970584623624159 / 9007199254740992))
      (Vec3.mk (F64.fin (805950962278733 / 2251799813685248)) (F64.fin (5 / 128)) (F64.fin (11 / 256)))
      true ?_ ?_ ?_ ?_ ?_
    · norm_num [selectPlane, F64.eq]
    · simp only [Binary64.planeParam, Vec3.get, s47, s45, s48]
    · norm_num [F64.lt, F64.gt]
    · simp only [Binary64.addVec, Binary64.scaleVec, Binary64.subVec, s2, s4, s45, s57, s49, s50,
        s58, s8, s52]
    · norm_num [outsideBox, F64.lt, F64.gt]
  have n2_i1 : insideBox (Vec3.mk (F64.fin 0) (F64.fin (5 / 128)) (F64.fin 1))
      (Vec3.mk (F64.fin (61 / 256)) (F64.fin (9 / 256)) (F64.fin (9 / 256)))
      (Vec3.mk (F64.fin (63 / 256)) (F64.fin (11 / 256)) (F64.fin (11 / 256))) = false := by
    norm_num [insideBox, F64.le, F64.ge]
  have n2_i2 : insideBox (Vec3.mk (F64.fin (23 / 64)) (F64.fin (5 / 128)) (F64.fin (5 / 128)))
      (Vec3.mk (F64.fin (61 / 256)) (F64.fin (9 / 256)) (F64.fin (9 / 256)))
      (Vec3.mk (F64.fin (63 / 256)) (F64.fin (11 / 256)) (F64.fin (11 / 256))) = false := by
    norm_num [insideBox, F64.le, F64.ge]
  have hrev2 : Binary64.intersectLineCube (Vec3.mk (F64.fin 0) (F64.fin (5 / 128)) (F64.fin 1))
      (Vec3.mk (F64.fin (23 / 64)) (F64.fin (5 / 128)) (F64.fin (5 / 128)))
      (Vec3.mk (F64.fin (61 / 256)) (F64.fin (9 / 256)) (F64.fin (9 / 256)))
      (Vec3.mk (F64.fin (63 / 256)) (F64.fin (11 / 256)) (F64.fin (11 / 256))) = Except.ok false :=
    binary64_intersectLineCube_of_faces _ _ _ _ _ _ _ _ _ _ _ _ _ _ n2_i1 n2_i2 n2_0 n2_1 n2_2 n2_3
      n2_4 n2_5
  have hrev : Binary64.intersectTriangleCube
      (Vec3.mk (F64.fin (23 / 64)) (F64.fin (5 / 128)) (F64.fin (5 / 128)))
      (Vec3.mk (F64.fin 0) (F64.fin (5 / 128)) (F64.fin (5 / 128)))
      (Vec3.mk (F64.fin 0) (F64.fin (5 / 128)) (F64.fin 1))
      (Vec3.mk (F64.fin (61 / 256)) (F64.fin (9 / 256)) (F64.fin (9 / 256)))
      (Vec3.mk (F64.fin (63 / 256)) (F64.fin (11 / 256)) (F64.fin (11 / 256))) = Except.ok true :=
    binary64_intersectTriangleCube_of_edges _ _ _ _ _ _ _ _ hswp hrev1 hrev2
  have hmin : Binary64.voxelMin 31 5 5 = Vec3.ofRat (61 / 256) (9 / 256) (9 / 256) := by
    rw [(binary64_voxel_bounds 31 5 5 (by norm_num) (by norm_num) (by norm_num)).2.1,
      voxelMin_eq]
    norm_num [Vec3.ofRat]
  have hmax : Binary64.voxelMax 31 5 5 = Vec3.ofRat (63 / 256) (11 / 256) (11 / 256) := by
    rw [(binary64_voxel_bounds 31 5 5 (by norm_num) (by norm_num) (by norm_num)).2.2,
      voxelMax_eq]
    norm_num [Vec3.ofRat]
  refine ⟨hmin, hmax, ?_, ?_, ?_, ?_, ?_⟩
  · refine ⟨2 / 3, by norm_num, by norm_num, ?_⟩
    intro a
    cases a <;> norm_num [axes]
  · rw [hmin, hmax]
    exact hfwd
  · rw [hmin, hmax]
    exact hswp
  · rw [hmin, hmax]
    exact htri
  · rw [hmin, hmax]
    exact hrev

/-- Claim C20: the voxel bounds are centred on `(x/128, y/128, z/128)` and reach from
`(2x-1)/256` to `(2x+1)/256` on the x axis, likewise on y and z; a voxel and its next
neighbour on an axis share the bound between them; a point lies within the bounds of
some voxel of the lattice exactly when all its coordinates lie in `[-1/256, 255/256]`;
so a point with a coordinate greater than `255/256` lies inside no voxel's bounds. -/
theorem voxel_bounds_spec (x y z : Int) :
    voxelCenter x y z = Vec3.ofRat ((x : ℚ) / 128) ((y : ℚ) / 128) ((z : ℚ) / 128) ∧
    voxelMin x y z = Vec3.ofRat ((2 * x - 1 : ℚ) / 256) ((2 * y - 1 : ℚ) / 256)
      ((2 * z - 1 : ℚ) / 256) ∧
    voxelMax x y z = Vec3.ofRat ((2 * x + 1 : ℚ) / 256) ((2 * y + 1 : ℚ) / 256)
      ((2 * z + 1 : ℚ) / 256) ∧
    ((voxelMax x y z).x = (voxelMin (x + 1) y z).x ∧
      (voxelMax x y z).y = (voxelMin x (y + 1) z).y ∧
      (voxelMax x y z).z = (voxelMin x y (z + 1)).z) ∧
    (∀ p : Vec3,
      (∃ x' y' z', InGrid x' y' z' ∧ Vec3.within p (voxelMin x' y' z') (voxelMax x' y' z')) ↔
        Vec3.within p (Vec3.ofRat (-1 / 256) (-1 / 256) (-1 / 256))
          (Vec3.ofRat (255 / 256) (255 / 256) (255 / 256))) ∧
    (∀ p : Vec3,
      (F64.gt p.x (F64.fin (255 / 256)) = true ∨ F64.gt p.y (F64.fin (255 / 256)) = true ∨
        F64.gt p.z (F64.fin (255 / 256)) = true) →
      ∀ x' y' z', InGrid x' y' z' →
        insideBox p (voxelMin x' y' z') (voxelMax x' y' z') = false) := by
  refine ⟨voxelCenter_eq x y z, ?_, ?_, ⟨?_, ?_, ?_⟩, within_voxel_iff, ?_⟩
  · rw [voxelMin_eq]
    simp only [Vec3.ofRat, Vec3.mk.injEq, F64.fin.injEq]
    refine ⟨?_, ?_, ?_⟩ <;> ring
  · rw [voxelMax_eq]
    simp only [Vec3.ofRat, Vec3.mk.injEq, F64.fin.injEq]
    refine ⟨?_, ?_, ?_⟩ <;> ring
  · rw [voxelMin_eq, voxelMax_eq]
    simp only [Vec3.ofRat, F64.fin.injEq]
    push_cast
    ring
  · rw [voxelMin_eq, voxelMax_eq]
    simp only [Vec3.ofRat, F64.fin.injEq]
    push_cast
    ring
  · rw [voxelMin_eq, voxelMax_eq]
    simp only [Vec3.ofRat, F64.fin.injEq]
    push_cast
    ring
  · intro p hp x' y' z' hin
    rw [Bool.eq_false_iff]
    intro hins
    have hw := (within_voxel_iff p).1 ⟨x', y', z', hin, (insideBox_iff _ _ _).1 hins⟩
    rw [within_fin] at hw
    obtain ⟨px, py, pz, rfl, ⟨-, a2⟩, ⟨-, b2⟩, ⟨-, c2⟩⟩ := hw
    simp only [Vec3.ofRat, F64.gt, F64.lt, decide_eq_true_eq] at hp
    rcases hp with h | h | h <;> linarith

theorem voxel_bounds_spec_witness :
    insideBox (Vec3.ofRat 1 0 0) (voxelMin 127 0 0) (voxelMax 127 0 0) = false :=
  (voxel_bounds_spec 0 0 0).2.2.2.2.2 (Vec3.ofRat 1 0 0)
    (Or.inl (by simp [Vec3.ofRat, F64.gt, F64.lt]; norm_num)) 127 0 0
    (by simp only [InGrid, cGridX, cGridY, cGridZ]; omega)

end Voxium
